import Mathlib

set_option autoImplicit false

/-!
# UnrealThumbnailGenerator: settings merge, capture session, render-target cache, alpha
blending, scene simulation stepping and camera framing

A shallow embedding of the thumbnail generator's core
(`ThumbnailGeneratorSettings.{h,cpp}`, `ThumbnailGenerator.{h,cpp}`).

Conventions of the embedding:
* C++ `float` and `double` values are exact rationals (`ℚ`); `int32` is `Int`;
  `uint8`/`uint16`/`uint32` are naturals reduced modulo `2^8`, `2^16`, `2^32` where the source
  converts or overflows. Where the source stores a `double` in a `float` variable (the floor
  snap) the conversion is `FEngineMath.ToFloat`, and the delta time of a simulated tick, which
  is NaN for a framerate of 0, is an `FDeltaTime`.
* `UObject` pointers are handles; a nullable pointer is an `Option`.
* Engine state that the generator reads or changes through engine calls is collected in
  `FEngine`; calls into code outside the repository are listed in `ECall` and their effect on
  the engine state is a parameter (`FHost`).
-/

namespace ThumbGen

/-! ## Engine value types used by the settings record -/

/-- Engine `FVector`. -/
structure FVector where
  X : ℚ
  Y : ℚ
  Z : ℚ
deriving DecidableEq

/-- Engine `FRotator`, constructor argument order `(Pitch, Yaw, Roll)`. -/
structure FRotator where
  Pitch : ℚ
  Yaw : ℚ
  Roll : ℚ
deriving DecidableEq

/-- Engine `FQuat`. -/
structure FQuat where
  X : ℚ
  Y : ℚ
  Z : ℚ
  W : ℚ
deriving DecidableEq

/-- Engine `FLinearColor`. -/
structure FLinearColor where
  R : ℚ
  G : ℚ
  B : ℚ
  A : ℚ
deriving DecidableEq

/-- Engine `FBox`: two corners and the `IsValid` byte. -/
structure FBox where
  Min : FVector
  Max : FVector
  IsValid : Bool
deriving DecidableEq

/-- Engine `FTransform`. -/
structure FTransform where
  Rotation : FQuat
  Translation : FVector
  Scale3D : FVector
deriving DecidableEq

/-- `FVector::ZeroVector`. -/
def FVector.ZeroVector : FVector := ⟨0, 0, 0⟩

/-- `FRotator::ZeroRotator`. -/
def FRotator.ZeroRotator : FRotator := ⟨0, 0, 0⟩

/-- `FTransform::Identity`. -/
def FTransform.Identity : FTransform := ⟨⟨0, 0, 0, 1⟩, ⟨0, 0, 0⟩, ⟨1, 1, 1⟩⟩

/-- `FBox(EForceInit::ForceInit)`. -/
def FBox.ForceInit : FBox := ⟨⟨0, 0, 0⟩, ⟨0, 0, 0⟩, false⟩

/-- A `UClass*` handle, identified by the class name. -/
abbrev UClass := String

/-- `TSubclassOf<T>`: a class pointer that may be null. -/
abbrev TSubclassOf := Option UClass

/-- `FSoftObjectPath` / `FSoftClassPath`: the asset path text. -/
abbrev FSoftObjectPath := String

/-- Engine `FWeightedBlendable`: weight and the path of the blendable object. -/
structure FWeightedBlendable where
  Weight : ℚ
  Object : FSoftObjectPath
deriving DecidableEq

/-- Engine `FPostProcessSettings`, reduced to the members this repository reads or writes
(the two auto-exposure brightness values with their flags, and the weighted blendables);
every other member is carried in `OtherMembers` and only ever copied as a block. -/
structure FPostProcessSettings where
  bOverride_AutoExposureMinBrightness : Bool
  bOverride_AutoExposureMaxBrightness : Bool
  AutoExposureMinBrightness : ℚ
  AutoExposureMaxBrightness : ℚ
  WeightedBlendables : List FWeightedBlendable
  OtherMembers : List ℚ
deriving DecidableEq

/-! ## `ThumbnailGeneratorSettings.h` -/

/-- `EThumbnailSceneSimulationMode` (header lines 15-22). -/
inductive EThumbnailSceneSimulationMode where
  | ENone
  | EActor
  | EAllComponents
  | ESpecifiedComponents
deriving DecidableEq

/-- `EThumbnailAlphaBlendMode` (header lines 24-31). -/
inductive EThumbnailAlphaBlendMode where
  | EReplace
  | EAdd
  | EMultiply
  | ESubtract
deriving DecidableEq

/-- `EThumbnailBitDepth` (header lines 33-38). -/
inductive EThumbnailBitDepth where
  | E8
  | E16
deriving DecidableEq

/-- `EThumbnailCameraFitMode` (header lines 40-47). -/
inductive EThumbnailCameraFitMode where
  | EFill
  | EFit
  | EFitX
  | EFitY
deriving DecidableEq

/-- Engine `ECameraProjectionMode::Type`. -/
inductive ECameraProjectionMode where
  | Perspective
  | Orthographic
deriving DecidableEq

/-- The `uint8 bOverride_X : 1` members of `FThumbnailSettings`, in declaration order
(header lines 54-191). -/
inductive EOverride where
  | bOverride_ThumbnailTextureWidth
  | bOverride_ThumbnailTextureHeight
  | bOverride_ThumbnailBitDepth
  | bOverride_bCaptureAlpha
  | bOverride_AlphaBlendMode
  | bOverride_ThumbnailUI
  | bOverride_ProjectionType
  | bOverride_CameraFOV
  | bOverride_CameraOrbitRotation
  | bOverride_CameraFitMode
  | bOverride_CameraDistanceOffset
  | bOverride_CameraDistanceOverride
  | bOverride_OrthoWidthOffset
  | bOverride_OrthoWidthOverride
  | bOverride_CustomActorBounds
  | bOverride_CameraPositionOffset
  | bOverride_CameraRotationOffset
  | bOverride_CustomCameraLocation
  | bOverride_CustomCameraRotation
  | bOverride_CustomOrthoWidth
  | bOverride_SimulationMode
  | bOverride_SimulateSceneTime
  | bOverride_SimulateSceneFramerate
  | bOverride_ComponentsToSimulate
  | bOverride_CustomActorTransform
  | bOverride_bSnapToFloor
  | bOverride_ComponentBoundsBlacklist
  | bOverride_bIncludeHiddenComponentsInBounds
  | bOverride_DirectionalLightRotation
  | bOverride_DirectionalLightIntensity
  | bOverride_DirectionalLightColor
  | bOverride_DirectionalFillLightRotation
  | bOverride_DirectionalFillLightIntensity
  | bOverride_DirectionalFillLightColor
  | bOverride_SkyLightColor
  | bOverride_SkyLightIntensity
  | bOverride_bShowEnvironment
  | bOverride_bEnvironmentAffectLighting
  | bOverride_EnvironmentColor
  | bOverride_EnvironmentCubeMap
  | bOverride_EnvironmentRotation
  | bOverride_PostProcessingSettings
  | bOverride_ThumbnailSkySphere
  | bOverride_ThumbnailGeneratorScripts
  | bOverride_bDebugBounds
deriving DecidableEq

/-- The value members of `FThumbnailSettings`, in declaration order (header lines 194-377). -/
inductive EMember where
  | ThumbnailTextureWidth
  | ThumbnailTextureHeight
  | ThumbnailBitDepth
  | bCaptureAlpha
  | AlphaBlendMode
  | ThumbnailUI
  | ProjectionType
  | CameraFOV
  | CameraOrbitRotation
  | CameraFitMode
  | CameraDistanceOffset
  | CameraDistanceOverride
  | OrthoWidthOffset
  | OrthoWidthOverride
  | CustomActorBounds
  | CameraPositionOffset
  | CameraRotationOffset
  | CustomCameraLocation
  | CustomCameraRotation
  | CustomOrthoWidth
  | SimulationMode
  | SimulateSceneTime
  | SimulateSceneFramerate
  | ComponentsToSimulate
  | CustomActorTransform
  | bSnapToFloor
  | ComponentBoundsBlacklist
  | bIncludeHiddenComponentsInBounds
  | DirectionalLightRotation
  | DirectionalLightIntensity
  | DirectionalLightColor
  | DirectionalFillLightRotation
  | DirectionalFillLightIntensity
  | DirectionalFillLightColor
  | SkyLightIntensity
  | SkyLightColor
  | bShowEnvironment
  | bEnvironmentAffectLighting
  | EnvironmentColor
  | EnvironmentCubeMap
  | EnvironmentRotation
  | PostProcessingSettings
  | ThumbnailSkySphere
  | ThumbnailGeneratorScripts
  | bDebugBounds
deriving DecidableEq

/-- `FProperty::GetName` of a `bOverride_` member: the member's identifier in the header. -/
def EOverride.GetName : EOverride → String
  | .bOverride_ThumbnailTextureWidth => "bOverride_ThumbnailTextureWidth"
  | .bOverride_ThumbnailTextureHeight => "bOverride_ThumbnailTextureHeight"
  | .bOverride_ThumbnailBitDepth => "bOverride_ThumbnailBitDepth"
  | .bOverride_bCaptureAlpha => "bOverride_bCaptureAlpha"
  | .bOverride_AlphaBlendMode => "bOverride_AlphaBlendMode"
  | .bOverride_ThumbnailUI => "bOverride_ThumbnailUI"
  | .bOverride_ProjectionType => "bOverride_ProjectionType"
  | .bOverride_CameraFOV => "bOverride_CameraFOV"
  | .bOverride_CameraOrbitRotation => "bOverride_CameraOrbitRotation"
  | .bOverride_CameraFitMode => "bOverride_CameraFitMode"
  | .bOverride_CameraDistanceOffset => "bOverride_CameraDistanceOffset"
  | .bOverride_CameraDistanceOverride => "bOverride_CameraDistanceOverride"
  | .bOverride_OrthoWidthOffset => "bOverride_OrthoWidthOffset"
  | .bOverride_OrthoWidthOverride => "bOverride_OrthoWidthOverride"
  | .bOverride_CustomActorBounds => "bOverride_CustomActorBounds"
  | .bOverride_CameraPositionOffset => "bOverride_CameraPositionOffset"
  | .bOverride_CameraRotationOffset => "bOverride_CameraRotationOffset"
  | .bOverride_CustomCameraLocation => "bOverride_CustomCameraLocation"
  | .bOverride_CustomCameraRotation => "bOverride_CustomCameraRotation"
  | .bOverride_CustomOrthoWidth => "bOverride_CustomOrthoWidth"
  | .bOverride_SimulationMode => "bOverride_SimulationMode"
  | .bOverride_SimulateSceneTime => "bOverride_SimulateSceneTime"
  | .bOverride_SimulateSceneFramerate => "bOverride_SimulateSceneFramerate"
  | .bOverride_ComponentsToSimulate => "bOverride_ComponentsToSimulate"
  | .bOverride_CustomActorTransform => "bOverride_CustomActorTransform"
  | .bOverride_bSnapToFloor => "bOverride_bSnapToFloor"
  | .bOverride_ComponentBoundsBlacklist => "bOverride_ComponentBoundsBlacklist"
  | .bOverride_bIncludeHiddenComponentsInBounds => "bOverride_bIncludeHiddenComponentsInBounds"
  | .bOverride_DirectionalLightRotation => "bOverride_DirectionalLightRotation"
  | .bOverride_DirectionalLightIntensity => "bOverride_DirectionalLightIntensity"
  | .bOverride_DirectionalLightColor => "bOverride_DirectionalLightColor"
  | .bOverride_DirectionalFillLightRotation => "bOverride_DirectionalFillLightRotation"
  | .bOverride_DirectionalFillLightIntensity => "bOverride_DirectionalFillLightIntensity"
  | .bOverride_DirectionalFillLightColor => "bOverride_DirectionalFillLightColor"
  | .bOverride_SkyLightColor => "bOverride_SkyLightColor"
  | .bOverride_SkyLightIntensity => "bOverride_SkyLightIntensity"
  | .bOverride_bShowEnvironment => "bOverride_bShowEnvironment"
  | .bOverride_bEnvironmentAffectLighting => "bOverride_bEnvironmentAffectLighting"
  | .bOverride_EnvironmentColor => "bOverride_EnvironmentColor"
  | .bOverride_EnvironmentCubeMap => "bOverride_EnvironmentCubeMap"
  | .bOverride_EnvironmentRotation => "bOverride_EnvironmentRotation"
  | .bOverride_PostProcessingSettings => "bOverride_PostProcessingSettings"
  | .bOverride_ThumbnailSkySphere => "bOverride_ThumbnailSkySphere"
  | .bOverride_ThumbnailGeneratorScripts => "bOverride_ThumbnailGeneratorScripts"
  | .bOverride_bDebugBounds => "bOverride_bDebugBounds"

/-- `FProperty::GetName` of a value member: the member's identifier in the header. -/
def EMember.GetName : EMember → String
  | .ThumbnailTextureWidth => "ThumbnailTextureWidth"
  | .ThumbnailTextureHeight => "ThumbnailTextureHeight"
  | .ThumbnailBitDepth => "ThumbnailBitDepth"
  | .bCaptureAlpha => "bCaptureAlpha"
  | .AlphaBlendMode => "AlphaBlendMode"
  | .ThumbnailUI => "ThumbnailUI"
  | .ProjectionType => "ProjectionType"
  | .CameraFOV => "CameraFOV"
  | .CameraOrbitRotation => "CameraOrbitRotation"
  | .CameraFitMode => "CameraFitMode"
  | .CameraDistanceOffset => "CameraDistanceOffset"
  | .CameraDistanceOverride => "CameraDistanceOverride"
  | .OrthoWidthOffset => "OrthoWidthOffset"
  | .OrthoWidthOverride => "OrthoWidthOverride"
  | .CustomActorBounds => "CustomActorBounds"
  | .CameraPositionOffset => "CameraPositionOffset"
  | .CameraRotationOffset => "CameraRotationOffset"
  | .CustomCameraLocation => "CustomCameraLocation"
  | .CustomCameraRotation => "CustomCameraRotation"
  | .CustomOrthoWidth => "CustomOrthoWidth"
  | .SimulationMode => "SimulationMode"
  | .SimulateSceneTime => "SimulateSceneTime"
  | .SimulateSceneFramerate => "SimulateSceneFramerate"
  | .ComponentsToSimulate => "ComponentsToSimulate"
  | .CustomActorTransform => "CustomActorTransform"
  | .bSnapToFloor => "bSnapToFloor"
  | .ComponentBoundsBlacklist => "ComponentBoundsBlacklist"
  | .bIncludeHiddenComponentsInBounds => "bIncludeHiddenComponentsInBounds"
  | .DirectionalLightRotation => "DirectionalLightRotation"
  | .DirectionalLightIntensity => "DirectionalLightIntensity"
  | .DirectionalLightColor => "DirectionalLightColor"
  | .DirectionalFillLightRotation => "DirectionalFillLightRotation"
  | .DirectionalFillLightIntensity => "DirectionalFillLightIntensity"
  | .DirectionalFillLightColor => "DirectionalFillLightColor"
  | .SkyLightIntensity => "SkyLightIntensity"
  | .SkyLightColor => "SkyLightColor"
  | .bShowEnvironment => "bShowEnvironment"
  | .bEnvironmentAffectLighting => "bEnvironmentAffectLighting"
  | .EnvironmentColor => "EnvironmentColor"
  | .EnvironmentCubeMap => "EnvironmentCubeMap"
  | .EnvironmentRotation => "EnvironmentRotation"
  | .PostProcessingSettings => "PostProcessingSettings"
  | .ThumbnailSkySphere => "ThumbnailSkySphere"
  | .ThumbnailGeneratorScripts => "ThumbnailGeneratorScripts"
  | .bDebugBounds => "bDebugBounds"

/-- The C++ type of each value member, as embedded. -/
@[reducible] def EMember.ValueType : EMember → Type
  | .ThumbnailTextureWidth => Int
  | .ThumbnailTextureHeight => Int
  | .ThumbnailBitDepth => EThumbnailBitDepth
  | .bCaptureAlpha => Bool
  | .AlphaBlendMode => EThumbnailAlphaBlendMode
  | .ThumbnailUI => TSubclassOf
  | .ProjectionType => ECameraProjectionMode
  | .CameraFOV => ℚ
  | .CameraOrbitRotation => FRotator
  | .CameraFitMode => EThumbnailCameraFitMode
  | .CameraDistanceOffset => ℚ
  | .CameraDistanceOverride => ℚ
  | .OrthoWidthOffset => ℚ
  | .OrthoWidthOverride => ℚ
  | .CustomActorBounds => FBox
  | .CameraPositionOffset => FVector
  | .CameraRotationOffset => FRotator
  | .CustomCameraLocation => FVector
  | .CustomCameraRotation => FRotator
  | .CustomOrthoWidth => ℚ
  | .SimulationMode => EThumbnailSceneSimulationMode
  | .SimulateSceneTime => ℚ
  | .SimulateSceneFramerate => ℚ
  | .ComponentsToSimulate => List TSubclassOf
  | .CustomActorTransform => FTransform
  | .bSnapToFloor => Bool
  | .ComponentBoundsBlacklist => List UClass
  | .bIncludeHiddenComponentsInBounds => Bool
  | .DirectionalLightRotation => FRotator
  | .DirectionalLightIntensity => ℚ
  | .DirectionalLightColor => FLinearColor
  | .DirectionalFillLightRotation => FRotator
  | .DirectionalFillLightIntensity => ℚ
  | .DirectionalFillLightColor => FLinearColor
  | .SkyLightIntensity => ℚ
  | .SkyLightColor => FLinearColor
  | .bShowEnvironment => Bool
  | .bEnvironmentAffectLighting => Bool
  | .EnvironmentColor => FLinearColor
  | .EnvironmentCubeMap => FSoftObjectPath
  | .EnvironmentRotation => ℚ
  | .PostProcessingSettings => FPostProcessSettings
  | .ThumbnailSkySphere => FSoftObjectPath
  | .ThumbnailGeneratorScripts => List TSubclassOf
  | .bDebugBounds => Bool

/-- `FThumbnailSettings` as the reflection system sees it: one bit per `bOverride_` member and one
typed value per value member. `S.Override .bOverride_X` is the C++ `S.bOverride_X` and
`S.Member .X` is the C++ `S.X`. -/
structure FThumbnailSettings where
  Override : EOverride → Bool
  Member : (m : EMember) → m.ValueType

/-- Assignment `S.bOverride_X = v` (`FBoolProperty::SetPropertyValue` on the member). -/
def FThumbnailSettings.SetOverride (S : FThumbnailSettings) (b : EOverride) (v : Bool) :
    FThumbnailSettings :=
  { S with Override := Function.update S.Override b v }

/-- Assignment `S.X = v`. -/
def FThumbnailSettings.SetMember (S : FThumbnailSettings) (m : EMember) (v : m.ValueType) :
    FThumbnailSettings :=
  { S with Member := Function.update S.Member m v }

/-- The C++ member `S.PostProcessingSettings`. -/
def FThumbnailSettings.PostProcessingSettings (S : FThumbnailSettings) : FPostProcessSettings :=
  S.Member EMember.PostProcessingSettings

/-- `ThumbnailAssetPaths::CubeMap` (`ThumbnailGeneratorModule.cpp` line 18). -/
def ThumbnailAssetPaths.CubeMap : String :=
  "TextureCube'/ThumbnailGenerator/SkySphere/T_Thumbnail_CubeMap.T_Thumbnail_CubeMap'"

/-- `ThumbnailAssetPaths::SkySphere` (`ThumbnailGeneratorModule.cpp` line 19). -/
def ThumbnailAssetPaths.SkySphere : String :=
  "/ThumbnailGenerator/SkySphere/BP_ThumbnailGenerator_SkySphere.BP_ThumbnailGenerator_SkySphere_C"

/-- `FThumbnailSettings::FThumbnailSettings()` (`ThumbnailGeneratorSettings.cpp` lines 12-73):
`Memzero` clears every `bOverride_` bit, then each value member is assigned. The value of the
engine's `FPostProcessSettings()` is the parameter `PostProcessDefault`. -/
def FThumbnailSettings.ctor (PostProcessDefault : FPostProcessSettings) :
    FThumbnailSettings where
  Override := fun _ => false
  Member := fun m =>
    match m with
    | .ThumbnailTextureWidth => (512 : Int)
    | .ThumbnailTextureHeight => (512 : Int)
    | .ThumbnailBitDepth => EThumbnailBitDepth.E8
    | .bCaptureAlpha => false
    | .AlphaBlendMode => EThumbnailAlphaBlendMode.EReplace
    | .ThumbnailUI => (none : TSubclassOf)
    | .ProjectionType => ECameraProjectionMode.Perspective
    | .CameraFOV => (45 : ℚ)
    | .CameraOrbitRotation => FRotator.mk (-18) (-22) 0
    | .CameraFitMode => EThumbnailCameraFitMode.EFit
    | .CameraDistanceOffset => (-20 : ℚ)
    | .CameraDistanceOverride => (0 : ℚ)
    | .OrthoWidthOffset => (0 : ℚ)
    | .OrthoWidthOverride => (0 : ℚ)
    | .CustomActorBounds => FBox.ForceInit
    | .CameraPositionOffset => FVector.ZeroVector
    | .CameraRotationOffset => FRotator.ZeroRotator
    | .CustomCameraLocation => FVector.ZeroVector
    | .CustomCameraRotation => FRotator.ZeroRotator
    | .CustomOrthoWidth => (0 : ℚ)
    | .SimulationMode => EThumbnailSceneSimulationMode.ESpecifiedComponents
    | .SimulateSceneTime => (1 / 100 : ℚ)
    | .SimulateSceneFramerate => (15 : ℚ)
    | .ComponentsToSimulate =>
        ([some "SkinnedMeshComponent", some "ParticleSystemComponent"] : List TSubclassOf)
    | .CustomActorTransform => FTransform.Identity
    | .bSnapToFloor => false
    | .ComponentBoundsBlacklist => (["ParticleSystemComponent"] : List UClass)
    | .bIncludeHiddenComponentsInBounds => false
    | .DirectionalLightRotation => FRotator.mk (-45) 30 0
    | .DirectionalLightIntensity => (1 : ℚ)
    | .DirectionalLightColor => FLinearColor.mk 1 1 1 1
    | .DirectionalFillLightRotation => FRotator.mk (-45) (-160) 0
    | .DirectionalFillLightIntensity => (3 / 4 : ℚ)
    | .DirectionalFillLightColor => FLinearColor.mk 1 1 1 1
    | .SkyLightIntensity => (4 / 5 : ℚ)
    | .SkyLightColor => FLinearColor.mk 1 1 1 1
    | .bShowEnvironment => true
    | .bEnvironmentAffectLighting => true
    | .EnvironmentColor => FLinearColor.mk 1 1 1 1
    | .EnvironmentCubeMap => ThumbnailAssetPaths.CubeMap
    | .EnvironmentRotation => (0 : ℚ)
    | .PostProcessingSettings => PostProcessDefault
    | .ThumbnailSkySphere => ThumbnailAssetPaths.SkySphere
    | .ThumbnailGeneratorScripts => ([] : List TSubclassOf)
    | .bDebugBounds => false

/-- A reflected member of `FThumbnailSettings` (`FProperty*`): a `bOverride_` bit or a value
member. -/
inductive FProperty where
  | Override (b : EOverride)
  | Member (m : EMember)
deriving DecidableEq

/-- `FProperty::GetName`. -/
def FProperty.GetName : FProperty → String
  | .Override b => b.GetName
  | .Member m => m.GetName

/-- `FThumbnailSettings::StaticStruct()->PropertyLink`: the reflected members in declaration
order. -/
def PropertyLink : List FProperty :=
  [ FProperty.Override EOverride.bOverride_ThumbnailTextureWidth,
    FProperty.Override EOverride.bOverride_ThumbnailTextureHeight,
    FProperty.Override EOverride.bOverride_ThumbnailBitDepth,
    FProperty.Override EOverride.bOverride_bCaptureAlpha,
    FProperty.Override EOverride.bOverride_AlphaBlendMode,
    FProperty.Override EOverride.bOverride_ThumbnailUI,
    FProperty.Override EOverride.bOverride_ProjectionType,
    FProperty.Override EOverride.bOverride_CameraFOV,
    FProperty.Override EOverride.bOverride_CameraOrbitRotation,
    FProperty.Override EOverride.bOverride_CameraFitMode,
    FProperty.Override EOverride.bOverride_CameraDistanceOffset,
    FProperty.Override EOverride.bOverride_CameraDistanceOverride,
    FProperty.Override EOverride.bOverride_OrthoWidthOffset,
    FProperty.Override EOverride.bOverride_OrthoWidthOverride,
    FProperty.Override EOverride.bOverride_CustomActorBounds,
    FProperty.Override EOverride.bOverride_CameraPositionOffset,
    FProperty.Override EOverride.bOverride_CameraRotationOffset,
    FProperty.Override EOverride.bOverride_CustomCameraLocation,
    FProperty.Override EOverride.bOverride_CustomCameraRotation,
    FProperty.Override EOverride.bOverride_CustomOrthoWidth,
    FProperty.Override EOverride.bOverride_SimulationMode,
    FProperty.Override EOverride.bOverride_SimulateSceneTime,
    FProperty.Override EOverride.bOverride_SimulateSceneFramerate,
    FProperty.Override EOverride.bOverride_ComponentsToSimulate,
    FProperty.Override EOverride.bOverride_CustomActorTransform,
    FProperty.Override EOverride.bOverride_bSnapToFloor,
    FProperty.Override EOverride.bOverride_ComponentBoundsBlacklist,
    FProperty.Override EOverride.bOverride_bIncludeHiddenComponentsInBounds,
    FProperty.Override EOverride.bOverride_DirectionalLightRotation,
    FProperty.Override EOverride.bOverride_DirectionalLightIntensity,
    FProperty.Override EOverride.bOverride_DirectionalLightColor,
    FProperty.Override EOverride.bOverride_DirectionalFillLightRotation,
    FProperty.Override EOverride.bOverride_DirectionalFillLightIntensity,
    FProperty.Override EOverride.bOverride_DirectionalFillLightColor,
    FProperty.Override EOverride.bOverride_SkyLightColor,
    FProperty.Override EOverride.bOverride_SkyLightIntensity,
    FProperty.Override EOverride.bOverride_bShowEnvironment,
    FProperty.Override EOverride.bOverride_bEnvironmentAffectLighting,
    FProperty.Override EOverride.bOverride_EnvironmentColor,
    FProperty.Override EOverride.bOverride_EnvironmentCubeMap,
    FProperty.Override EOverride.bOverride_EnvironmentRotation,
    FProperty.Override EOverride.bOverride_PostProcessingSettings,
    FProperty.Override EOverride.bOverride_ThumbnailSkySphere,
    FProperty.Override EOverride.bOverride_ThumbnailGeneratorScripts,
    FProperty.Override EOverride.bOverride_bDebugBounds,
    FProperty.Member EMember.ThumbnailTextureWidth,
    FProperty.Member EMember.ThumbnailTextureHeight,
    FProperty.Member EMember.ThumbnailBitDepth,
    FProperty.Member EMember.bCaptureAlpha,
    FProperty.Member EMember.AlphaBlendMode,
    FProperty.Member EMember.ThumbnailUI,
    FProperty.Member EMember.ProjectionType,
    FProperty.Member EMember.CameraFOV,
    FProperty.Member EMember.CameraOrbitRotation,
    FProperty.Member EMember.CameraFitMode,
    FProperty.Member EMember.CameraDistanceOffset,
    FProperty.Member EMember.CameraDistanceOverride,
    FProperty.Member EMember.OrthoWidthOffset,
    FProperty.Member EMember.OrthoWidthOverride,
    FProperty.Member EMember.CustomActorBounds,
    FProperty.Member EMember.CameraPositionOffset,
    FProperty.Member EMember.CameraRotationOffset,
    FProperty.Member EMember.CustomCameraLocation,
    FProperty.Member EMember.CustomCameraRotation,
    FProperty.Member EMember.CustomOrthoWidth,
    FProperty.Member EMember.SimulationMode,
    FProperty.Member EMember.SimulateSceneTime,
    FProperty.Member EMember.SimulateSceneFramerate,
    FProperty.Member EMember.ComponentsToSimulate,
    FProperty.Member EMember.CustomActorTransform,
    FProperty.Member EMember.bSnapToFloor,
    FProperty.Member EMember.ComponentBoundsBlacklist,
    FProperty.Member EMember.bIncludeHiddenComponentsInBounds,
    FProperty.Member EMember.DirectionalLightRotation,
    FProperty.Member EMember.DirectionalLightIntensity,
    FProperty.Member EMember.DirectionalLightColor,
    FProperty.Member EMember.DirectionalFillLightRotation,
    FProperty.Member EMember.DirectionalFillLightIntensity,
    FProperty.Member EMember.DirectionalFillLightColor,
    FProperty.Member EMember.SkyLightIntensity,
    FProperty.Member EMember.SkyLightColor,
    FProperty.Member EMember.bShowEnvironment,
    FProperty.Member EMember.bEnvironmentAffectLighting,
    FProperty.Member EMember.EnvironmentColor,
    FProperty.Member EMember.EnvironmentCubeMap,
    FProperty.Member EMember.EnvironmentRotation,
    FProperty.Member EMember.PostProcessingSettings,
    FProperty.Member EMember.ThumbnailSkySphere,
    FProperty.Member EMember.ThumbnailGeneratorScripts,
    FProperty.Member EMember.bDebugBounds ]
/-! ## `FThumbnailSettings::MergeThumbnailSettings` (`ThumbnailGeneratorSettings.cpp` lines 75-143) -/

/-- `FPropertyMemberAddr` (lines 79-83): a `bOverride_` bit and the value member it guards. -/
structure FPropertyMemberAddr where
  OverrideBoolProperty : EOverride
  Property : EMember
deriving DecidableEq

/-- `PropertyName.StartsWith("bOverride_")` (line 101). All member names use the exact casing of
the prefix, so the engine's case-insensitive comparison and this exact one agree on them. -/
def StartsWithOverridePrefix (PropertyName : String) : Bool :=
  "bOverride_".data.isPrefixOf PropertyName.data

/-- The table-building loop over `PropertyLink` (lines 96-109). `OverrideProperties` is the
`TMap` from names to the `bOverride_` properties seen so far (newest first), `Table` the entries
added so far. `CastFieldChecked<FBoolProperty>` accepts the property found under a `bOverride_`
name, which is always one of the `bOverride_` bits; the paired property is always a value
member, because its name does not start with the prefix. -/
def BuildPropertyMemberAddr :
    List FProperty → List (String × FProperty) → List FPropertyMemberAddr →
      List FPropertyMemberAddr
  | [], _, Table => Table
  | Property :: Rest, OverrideProperties, Table =>
    let PropertyName := Property.GetName
    if StartsWithOverridePrefix PropertyName then
      BuildPropertyMemberAddr Rest ((PropertyName, Property) :: OverrideProperties) Table
    else
      match OverrideProperties.lookup ("bOverride_" ++ PropertyName), Property with
      | some (FProperty.Override b), FProperty.Member m =>
        BuildPropertyMemberAddr Rest OverrideProperties (Table ++ [⟨b, m⟩])
      | _, _ => BuildPropertyMemberAddr Rest OverrideProperties Table

/-- The static `OverrideAndPropertyMemberValueAddr` after its one-time initialisation
(lines 84-114). -/
def OverrideAndPropertyMemberValueAddr : List FPropertyMemberAddr :=
  BuildPropertyMemberAddr PropertyLink [] []

/-- The 45 pairs in declaration order of the value members. -/
def ExpectedPropertyMemberAddr : List FPropertyMemberAddr :=
  [ ⟨EOverride.bOverride_ThumbnailTextureWidth, EMember.ThumbnailTextureWidth⟩,
    ⟨EOverride.bOverride_ThumbnailTextureHeight, EMember.ThumbnailTextureHeight⟩,
    ⟨EOverride.bOverride_ThumbnailBitDepth, EMember.ThumbnailBitDepth⟩,
    ⟨EOverride.bOverride_bCaptureAlpha, EMember.bCaptureAlpha⟩,
    ⟨EOverride.bOverride_AlphaBlendMode, EMember.AlphaBlendMode⟩,
    ⟨EOverride.bOverride_ThumbnailUI, EMember.ThumbnailUI⟩,
    ⟨EOverride.bOverride_ProjectionType, EMember.ProjectionType⟩,
    ⟨EOverride.bOverride_CameraFOV, EMember.CameraFOV⟩,
    ⟨EOverride.bOverride_CameraOrbitRotation, EMember.CameraOrbitRotation⟩,
    ⟨EOverride.bOverride_CameraFitMode, EMember.CameraFitMode⟩,
    ⟨EOverride.bOverride_CameraDistanceOffset, EMember.CameraDistanceOffset⟩,
    ⟨EOverride.bOverride_CameraDistanceOverride, EMember.CameraDistanceOverride⟩,
    ⟨EOverride.bOverride_OrthoWidthOffset, EMember.OrthoWidthOffset⟩,
    ⟨EOverride.bOverride_OrthoWidthOverride, EMember.OrthoWidthOverride⟩,
    ⟨EOverride.bOverride_CustomActorBounds, EMember.CustomActorBounds⟩,
    ⟨EOverride.bOverride_CameraPositionOffset, EMember.CameraPositionOffset⟩,
    ⟨EOverride.bOverride_CameraRotationOffset, EMember.CameraRotationOffset⟩,
    ⟨EOverride.bOverride_CustomCameraLocation, EMember.CustomCameraLocation⟩,
    ⟨EOverride.bOverride_CustomCameraRotation, EMember.CustomCameraRotation⟩,
    ⟨EOverride.bOverride_CustomOrthoWidth, EMember.CustomOrthoWidth⟩,
    ⟨EOverride.bOverride_SimulationMode, EMember.SimulationMode⟩,
    ⟨EOverride.bOverride_SimulateSceneTime, EMember.SimulateSceneTime⟩,
    ⟨EOverride.bOverride_SimulateSceneFramerate, EMember.SimulateSceneFramerate⟩,
    ⟨EOverride.bOverride_ComponentsToSimulate, EMember.ComponentsToSimulate⟩,
    ⟨EOverride.bOverride_CustomActorTransform, EMember.CustomActorTransform⟩,
    ⟨EOverride.bOverride_bSnapToFloor, EMember.bSnapToFloor⟩,
    ⟨EOverride.bOverride_ComponentBoundsBlacklist, EMember.ComponentBoundsBlacklist⟩,
    ⟨EOverride.bOverride_bIncludeHiddenComponentsInBounds, EMember.bIncludeHiddenComponentsInBounds⟩,
    ⟨EOverride.bOverride_DirectionalLightRotation, EMember.DirectionalLightRotation⟩,
    ⟨EOverride.bOverride_DirectionalLightIntensity, EMember.DirectionalLightIntensity⟩,
    ⟨EOverride.bOverride_DirectionalLightColor, EMember.DirectionalLightColor⟩,
    ⟨EOverride.bOverride_DirectionalFillLightRotation, EMember.DirectionalFillLightRotation⟩,
    ⟨EOverride.bOverride_DirectionalFillLightIntensity, EMember.DirectionalFillLightIntensity⟩,
    ⟨EOverride.bOverride_DirectionalFillLightColor, EMember.DirectionalFillLightColor⟩,
    ⟨EOverride.bOverride_SkyLightIntensity, EMember.SkyLightIntensity⟩,
    ⟨EOverride.bOverride_SkyLightColor, EMember.SkyLightColor⟩,
    ⟨EOverride.bOverride_bShowEnvironment, EMember.bShowEnvironment⟩,
    ⟨EOverride.bOverride_bEnvironmentAffectLighting, EMember.bEnvironmentAffectLighting⟩,
    ⟨EOverride.bOverride_EnvironmentColor, EMember.EnvironmentColor⟩,
    ⟨EOverride.bOverride_EnvironmentCubeMap, EMember.EnvironmentCubeMap⟩,
    ⟨EOverride.bOverride_EnvironmentRotation, EMember.EnvironmentRotation⟩,
    ⟨EOverride.bOverride_PostProcessingSettings, EMember.PostProcessingSettings⟩,
    ⟨EOverride.bOverride_ThumbnailSkySphere, EMember.ThumbnailSkySphere⟩,
    ⟨EOverride.bOverride_ThumbnailGeneratorScripts, EMember.ThumbnailGeneratorScripts⟩,
    ⟨EOverride.bOverride_bDebugBounds, EMember.bDebugBounds⟩ ]

/-- `It.Property->CopyCompleteValue(&OutSettings.., &From..)` (lines 121-124, 129-132): the
member `Property` of `OutSettings` receives a copy of the same member of `From`. -/
def FThumbnailSettings.CopyCompleteValue (OutSettings : FThumbnailSettings) (Property : EMember)
    (From : FThumbnailSettings) : FThumbnailSettings :=
  OutSettings.SetMember Property (From.Member Property)

/-- Body of the merge loop for one table entry (lines 118-133). -/
def MergeProperty (DefaultSettings OverrideSettings OutSettings : FThumbnailSettings)
    (It : FPropertyMemberAddr) : FThumbnailSettings :=
  if OverrideSettings.Override It.OverrideBoolProperty then
    (OutSettings.SetOverride It.OverrideBoolProperty true).CopyCompleteValue It.Property
      OverrideSettings
  else if DefaultSettings.Override It.OverrideBoolProperty then
    (OutSettings.SetOverride It.OverrideBoolProperty true).CopyCompleteValue It.Property
      DefaultSettings
  else
    OutSettings

/-- The four assignments of lines 136-140 on a post-process settings value. -/
def DisableAutoExposure (P : FPostProcessSettings) : FPostProcessSettings :=
  { P with
    bOverride_AutoExposureMinBrightness := true
    AutoExposureMinBrightness := 1
    bOverride_AutoExposureMaxBrightness := true
    AutoExposureMaxBrightness := 1 }

/-- `FThumbnailSettings::MergeThumbnailSettings(DefaultSettings, OverrideSettings)`
(lines 75-143). `PostProcessDefault` is the engine's `FPostProcessSettings()` used by the
constructor of `OutSettings`. -/
def FThumbnailSettings.MergeThumbnailSettings (PostProcessDefault : FPostProcessSettings)
    (DefaultSettings OverrideSettings : FThumbnailSettings) : FThumbnailSettings :=
  let OutSettings := FThumbnailSettings.ctor PostProcessDefault
  let OutSettings :=
    OverrideAndPropertyMemberValueAddr.foldl (MergeProperty DefaultSettings OverrideSettings)
      OutSettings
  OutSettings.SetMember EMember.PostProcessingSettings
    (DisableAutoExposure (OutSettings.Member EMember.PostProcessingSettings))

/-- A concrete engine default for `FPostProcessSettings()`, used in the examples (auto exposure
not overridden, both brightness values 0, nothing else set). -/
def ExamplePostProcessDefault : FPostProcessSettings :=
  { bOverride_AutoExposureMinBrightness := false
    bOverride_AutoExposureMaxBrightness := false
    AutoExposureMinBrightness := 0
    AutoExposureMaxBrightness := 0
    WeightedBlendables := []
    OtherMembers := [] }

/-- Example request settings: default-constructed, then `bOverride_PostProcessingSettings = true`
(the post-processing value itself stays the constructor's). -/
def ExamplePostProcessOverride : FThumbnailSettings :=
  (FThumbnailSettings.ctor ExamplePostProcessDefault).SetOverride
    EOverride.bOverride_PostProcessingSettings true

/-- Example request settings: default-constructed, then `CameraFOV = 90` without setting
`bOverride_CameraFOV`. -/
def ExampleUnflaggedFOV : FThumbnailSettings :=
  (FThumbnailSettings.ctor ExamplePostProcessDefault).SetMember EMember.CameraFOV (90 : ℚ)

/-- Example request settings: default-constructed, then `bOverride_CameraFOV = true` and
`CameraFOV = 90`. -/
def ExampleFlaggedFOV : FThumbnailSettings :=
  ((FThumbnailSettings.ctor ExamplePostProcessDefault).SetOverride EOverride.bOverride_CameraFOV
    true).SetMember EMember.CameraFOV (90 : ℚ)

/-! ## `ThumbnailGenerator.cpp`: alpha blending (lines 63-78, 217-237) -/

/-- C++ `uint8`, as the natural number it holds (a value of the type is below 256). -/
structure uint8 where
  toNat : Nat
deriving DecidableEq

/-- A `uint8` literal. -/
instance (n : Nat) : OfNat uint8 n := ⟨⟨n % 256⟩⟩

/-- `a + b` on `uint8` operands assigned back to a `uint8`: the operands are promoted to `int`,
added, and the result is converted to `uint8`, i.e. reduced modulo 256. -/
instance : Add uint8 := ⟨fun a b => ⟨(a.toNat + b.toNat) % 256⟩⟩

/-- `a * b` on `uint8` operands assigned back to a `uint8` (reduced modulo 256). -/
instance : Mul uint8 := ⟨fun a b => ⟨(a.toNat * b.toNat) % 256⟩⟩

/-- `a - b` on `uint8` operands assigned back to a `uint8`: the `int` difference, which may be
negative, reduced modulo 256. -/
instance : Sub uint8 := ⟨fun a b => ⟨(((a.toNat : Int) - (b.toNat : Int)) % 256).toNat⟩⟩

/-- `ThumbnailGenerator::MixAlpha<T>` (lines 63-78). The trailing `return A2` is reached for no
value of the enumeration. -/
def MixAlpha {T : Type} [Add T] [Mul T] [Sub T] (A1 A2 : T)
    (BlendMode : EThumbnailAlphaBlendMode) : T :=
  match BlendMode with
  | EThumbnailAlphaBlendMode.EReplace => A2
  | EThumbnailAlphaBlendMode.EAdd => A1 + A2
  | EThumbnailAlphaBlendMode.EMultiply => A1 * A2
  | EThumbnailAlphaBlendMode.ESubtract => A1 - A2

/-- Engine `FColor`: four `uint8` channels in memory order B, G, R, A. -/
structure FColor where
  B : uint8
  G : uint8
  R : uint8
  A : uint8
deriving DecidableEq

/-- The loop of lines 226-227:
`SurfData[Pixel].A = MixAlpha(SurfData[Pixel].A, AlphaOverride[Pixel], AlphaBlendMode)` for
`Pixel` from 0 to `SurfData.Num() - 1`. An index outside `AlphaOverride` is excluded by the
`check` before the loop; the model leaves such a pixel as it is. -/
def MixAlphaLoop (AlphaOverride : List uint8) (AlphaBlendMode : EThumbnailAlphaBlendMode)
    (SurfData : List FColor) : List FColor :=
  (List.range SurfData.length).foldl
    (fun Surf Pixel =>
      match Surf[Pixel]?, AlphaOverride[Pixel]? with
      | some Color, some Alpha =>
        Surf.set Pixel { Color with A := MixAlpha Color.A Alpha AlphaBlendMode }
      | _, _ => Surf)
    SurfData

/-- The loop of lines 231-232: `SurfData[Pixel].A = 255` for every pixel. -/
def OpaqueAlphaLoop (SurfData : List FColor) : List FColor :=
  (List.range SurfData.length).foldl
    (fun Surf Pixel =>
      match Surf[Pixel]? with
      | some Color => Surf.set Pixel { Color with A := 255 }
      | none => Surf)
    SurfData

/-- `ThumbnailGenerator::FillTextureDataFromRenderTarget`, the `PF_B8G8R8A8` branch
(lines 217-237). `SurfData` is what `ReadPixels` returned, `TextureDataSize` the byte size of the
texture's first mip (`sizeof(FColor)` is 4). The result is the pixel array that `Memcpy` writes
into the texture; `none` when one of the two `check`s fails. -/
def FillTextureDataFromRenderTarget (TextureDataSize : Int) (SurfData : List FColor)
    (AlphaOverride : List uint8) (AlphaBlendMode : EThumbnailAlphaBlendMode) :
    Option (List FColor) :=
  if AlphaOverride.length > 0 then
    if SurfData.length = AlphaOverride.length then
      let SurfData := MixAlphaLoop AlphaOverride AlphaBlendMode SurfData
      if TextureDataSize = (SurfData.length : Int) * 4 then some SurfData else none
    else none
  else
    let SurfData := OpaqueAlphaLoop SurfData
    if TextureDataSize = (SurfData.length : Int) * 4 then some SurfData else none

/-! ## `FHashableRenderTargetInfo` (lines 321-333) -/

/-- `FHashableRenderTargetInfo`: `Width` and `Height` are `uint16` (below 65536). -/
structure FHashableRenderTargetInfo where
  Width : Nat
  Height : Nat
  BitDepth : EThumbnailBitDepth
deriving DecidableEq

/-- `GetTypeHash(const FHashableRenderTargetInfo&)` (lines 326-331), in `uint32` arithmetic. -/
def GetTypeHash (O : FHashableRenderTargetInfo) : Nat :=
  ((O.Width % 2 ^ 32) <<< 16) % 2 ^ 32
    ||| ((O.Height % 2 ^ 32) &&& 0xfffffffe)
    ||| (if O.BitDepth = EThumbnailBitDepth.E8 then 0 else 1)

/-- `operator==` of `FHashableRenderTargetInfo` (line 332): equality of the hashes. -/
def FHashableRenderTargetInfo.Equals (A B : FHashableRenderTargetInfo) : Bool :=
  GetTypeHash A == GetTypeHash B

/-! ## Engine objects and engine state

The generator works on engine objects through pointers. In the embedding an object is a handle,
and `FEngine` records which handles are valid (`IsValid(Object)` in the source), together with a
trace of the calls the generator made into code outside the repository. -/

/-- A `UWorld*` handle. -/
abbrev UWorld := Nat

/-- An `AActor*` handle; `World` is the actor's `GetWorld()`. -/
structure AActor where
  Id : Nat
  World : UWorld
deriving DecidableEq

/-- A `UThumbnailGeneratorScript*` handle; `Class` is the object's `GetClass()`. -/
structure UThumbnailGeneratorScript where
  Id : Nat
  Class : UClass
deriving DecidableEq

/-- Engine `EPixelFormat`, reduced to the two supported formats and the rest. -/
inductive EPixelFormat where
  | PF_B8G8R8A8
  | PF_FloatRGBA
  | PF_Unknown
deriving DecidableEq

/-- Engine `ETextureRenderTargetFormat`, the two values the generator passes. -/
inductive ETextureRenderTargetFormat where
  | RTF_RGBA8_SRGB
  | RTF_RGBA16f
deriving DecidableEq

/-- A `UTextureRenderTarget2D*` handle with the members the generator reads: `SizeX`, `SizeY`
(`int32`) and `GetFormat()`. `Id` is the counter value in the object's name. -/
structure UTextureRenderTarget2D where
  Id : Nat
  SizeX : Int
  SizeY : Int
  Format : EPixelFormat
deriving DecidableEq

/-- A `UTexture2D*` handle. -/
structure UTexture2D where
  Id : Nat
deriving DecidableEq

/-- `EBackgroundWorldLightMode` (`ThumbnailGeneratorSettings.h` lines 385-394). -/
inductive EBackgroundWorldLightMode where
  | ESpawnLights
  | ESourceFromWorld
  | ESourceSkyLight
  | ESourceDirectionalLights
  | ESourceAvailableSpawnRest
  | EIgnoreLights
deriving DecidableEq

/-- `FThumbnailBackgroundSceneSettings` (`ThumbnailGeneratorSettings.h` lines 396-413). -/
structure FThumbnailBackgroundSceneSettings where
  BackgroundWorld : FSoftObjectPath
  SpawnLightsMode : EBackgroundWorldLightMode
  bSpawnSkySphere : Bool

/-- `UThumbnailGeneratorSettings` (`ThumbnailGeneratorSettings.h` lines 415-460), the config
object returned by `UThumbnailGeneratorSettings::Get()`. -/
structure UThumbnailGeneratorSettings where
  DefaultThumbnailSettings : FThumbnailSettings
  BackgroundSceneSettings : FThumbnailBackgroundSceneSettings
  MaxRenderTargetCacheSize : Int

/-- A `float` delta time handed to a tick callback (`TFunction<void(float)>`, line 554): a number
in exact arithmetic, or the NaN that `inf - inf` yields when the step size `1.f / 0.f` is
infinite. -/
inductive FDeltaTime where
  | Value (Seconds : ℚ)
  | NaN
deriving DecidableEq

/-- The calls the generator makes into the engine or into user code (actor classes, thumbnail
scripts, scene implementations). What such a call does to the engine state is not fixed by this
repository; it is supplied by `FHost.Run`. -/
inductive ECall where
  | ResetThumbnailScene
  | CreateThumbnailScene
  | RegisterCaptureComponent (World : Option UWorld)
  | DestroyCaptureComponent
  | UpdateScene
  | SpawnActor (Class : TSubclassOf) (World : UWorld)
  | ImportText (Actor : AActor) (Key : String) (Value : String)
  | FinishSpawning (Actor : AActor)
  | GetThumbnailTransform (Actor : AActor)
  | SetActorTransform (Actor : AActor) (Transform : FTransform)
  | PreCaptureActorThumbnail (Actor : AActor)
  | ScriptPreCaptureActorThumbnail (Script : UThumbnailGeneratorScript) (Actor : AActor)
  | DispatchComponentsBeginPlay (Actor : AActor) (Mode : EThumbnailSceneSimulationMode)
  | DispatchBeginPlay (Actor : AActor)
  | Tick (Actor : AActor) (Mode : EThumbnailSceneSimulationMode) (DeltaTime : FDeltaTime)
  | OnItemRemovedFromCache (RenderTarget : UTextureRenderTarget2D)
  | SetCameraView (Actor : AActor)
  | CaptureScene (RenderTarget : UTextureRenderTarget2D) (bAlphaPass : Bool)
  | FlushLineBatchers
  | DrawWidget (RenderTarget : UTextureRenderTarget2D) (ThumbnailUI : UClass)
  | FillTextureData (Texture : UTexture2D) (RenderTarget : UTextureRenderTarget2D)

/-- The engine state the generator observes. `Actors`, `Worlds`, `Classes`, `Scripts` and
`Textures` list the handles for which `IsValid` holds; `TActorIterator<AActor>(World)` visits the
members of `Actors` whose world is `World`. `RenderTargetCount` is the function-local static
`count` of `CreateTextureTarget`; `Calls` is the trace of `ECall`s made so far. -/
structure FEngine where
  Actors : List AActor
  Worlds : List UWorld
  Classes : List UClass
  Scripts : List UThumbnailGeneratorScript
  Textures : List UTexture2D
  NextObjectId : Nat
  RenderTargetCount : Nat
  GeneratorSettings : UThumbnailGeneratorSettings
  Calls : List ECall

/-- The code outside the repository: the effect of each call on the engine state and the values
the calls return. Every theorem about the generator holds for every host. -/
structure FHost where
  /-- Effect of a call on the engine state. -/
  Run : ECall → FEngine → FEngine
  /-- The scene object built by `new FThumbnailBackgroundScene(..)` / `new FThumbnailPreviewScene`:
  its `GetThumbnailWorld()` and `GetPersistentActors()`. -/
  CreateScene : FThumbnailBackgroundSceneSettings → FEngine → Option UWorld × List AActor
  /-- The scene's `GetThumbnailWorld()` and `GetPersistentActors()` after `UpdateScene`. -/
  UpdateScene : FThumbnailSettings → Option UWorld × List AActor → FEngine →
    Option UWorld × List AActor
  /-- The pointer returned by `UWorld::SpawnActor`. -/
  SpawnActor : TSubclassOf → UWorld → FEngine → Option AActor
  /-- `Actor->Implements<UThumbnailActorInterface>()`. -/
  ImplementsThumbnailActorInterface : AActor → Bool
  /-- The value returned by `IThumbnailActorInterface::Execute_GetThumbnailTransform`. -/
  GetThumbnailTransform : AActor → FEngine → FTransform

/-- One call into the host: the host's effect on the engine state, recorded in the trace. -/
def FHost.Invoke (H : FHost) (Call : ECall) (E : FEngine) : FEngine :=
  { H.Run Call E with Calls := E.Calls ++ [Call] }

/-- `IsValid(Actor)` for an `AActor*`. -/
def FEngine.IsValidActor (E : FEngine) : Option AActor → Bool
  | some Actor => decide (Actor ∈ E.Actors)
  | none => false

/-- `IsValid(ClassPtr)` for a `UClass*`. -/
def FEngine.IsValidClass (E : FEngine) : TSubclassOf → Bool
  | some Class => decide (Class ∈ E.Classes)
  | none => false

/-- `IsValid(Texture)` for a `UTexture2D*`. -/
def FEngine.IsValidTexture (E : FEngine) : Option UTexture2D → Bool
  | some Texture => decide (Texture ∈ E.Textures)
  | none => false

/-- `TActorIterator<AActor>(World)`: the valid actors of `World`. -/
def FEngine.ActorsOfWorld (E : FEngine) (World : UWorld) : List AActor :=
  E.Actors.filter (fun Actor => decide (Actor.World = World))

/-- `Actor->Destroy()`: the actor stops being valid and leaves its world. -/
def AActor.Destroy (Actor : AActor) (E : FEngine) : FEngine :=
  { E with Actors := E.Actors.filter (fun Other => decide (Other ≠ Actor)) }

/-- Conversion of an `int32` to `uint16` (lines 651-652). -/
def ToUInt16 (Value : Int) : Nat := (Value % 65536).toNat

/-- Conversion of an integer to `int32` (two's complement wrap-around). -/
def ToInt32 (Value : Int) : Int := (Value + 2 ^ 31) % 2 ^ 32 - 2 ^ 31

/-- Conversion of an integer to `uint32`. -/
def ToUInt32 (Value : Int) : Int := Value % 2 ^ 32

/-! ## Render-target cache (lines 335-354) -/

/-- Modelled from the spec: `TCacheProvider<KeyType, ItemType>`, whose header `CacheProvider.h`
is not among the sources. Spec 4.1: a keyed cache bounded by total byte footprint. The entries
are kept oldest first. -/
structure TCacheProvider (Key Item : Type) where
  Items : List (Key × Item)

/-- Modelled from the spec: `TCacheProvider::GetCachedItem` (`get(key) -> Optional<Resource>`),
missing with `CacheProvider.h`. Keys are compared with the key type's `operator==`. -/
def TCacheProvider.GetCachedItem {Key Item : Type} (Equals : Key → Key → Bool)
    (Cache : TCacheProvider Key Item) (InKey : Key) : Option Item :=
  (Cache.Items.find? (fun Entry => Equals Entry.1 InKey)).map Prod.snd

/-- Modelled from the spec: the eviction step of `TCacheProvider::CacheItem`, missing with
`CacheProvider.h`. Spec 4.1: "if total footprint after insertion would exceed a configurable
budget, evict existing entries (oldest first) until it fits"; a single item above the budget is
still cached. Returns the entries kept and the items evicted, in eviction order. -/
def TCacheProvider.EvictUntilFits {Key Item : Type} (MaxCacheSize : Int)
    (GetItemDataFootprint : Item → Int) (NewFootprint : Int) :
    List (Key × Item) → List (Key × Item) × List Item
  | [] => ([], [])
  | Oldest :: Rest =>
    if ((Oldest :: Rest).map (fun Entry => GetItemDataFootprint Entry.2)).sum + NewFootprint
        > MaxCacheSize then
      let Result := TCacheProvider.EvictUntilFits MaxCacheSize GetItemDataFootprint NewFootprint
        Rest
      (Result.1, Oldest.2 :: Result.2)
    else
      (Oldest :: Rest, [])

/-- Modelled from the spec: `TCacheProvider::CacheItem` (`put(key, resource)`), missing with
`CacheProvider.h`. Returns the cache after the insertion and the evicted items, on each of which
`OnItemRemovedFromCache` is invoked. -/
def TCacheProvider.CacheItem {Key Item : Type} (MaxCacheSize : Int)
    (GetItemDataFootprint : Item → Int) (Cache : TCacheProvider Key Item) (InKey : Key)
    (InItem : Item) : TCacheProvider Key Item × List Item :=
  let Result := TCacheProvider.EvictUntilFits MaxCacheSize GetItemDataFootprint
    (GetItemDataFootprint InItem) Cache.Items
  (⟨Result.1 ++ [(InKey, InItem)]⟩, Result.2)

/-- Modelled from the spec: `TCacheProvider::ClearCache` (`clear()` "evicts everything
unconditionally"), missing with `CacheProvider.h`. -/
def TCacheProvider.ClearCache {Key Item : Type} (Cache : TCacheProvider Key Item) :
    TCacheProvider Key Item × List Item :=
  (⟨[]⟩, Cache.Items.map Prod.snd)

/-- `FRenderTargetCache` (line 335). -/
abbrev FRenderTargetCache := TCacheProvider FHashableRenderTargetInfo UTextureRenderTarget2D

/-- `FRenderTargetCache::MaxCacheSize` (line 337), an `int32` product. -/
def FRenderTargetCache.MaxCacheSize (Settings : UThumbnailGeneratorSettings) : Int :=
  ToInt32 (Settings.MaxRenderTargetCacheSize * 1000 * 1000)

/-- `FRenderTargetCache::GetItemDataFootprint` (lines 338-350): `sizeof(FColor)` is 4,
`sizeof(FLinearColor)` is 16. `SizeX * SizeY` is an `int32` product, multiplied by the `uint32`
`BytesPerPixel` in `uint32` arithmetic and returned as `int32`. -/
def FRenderTargetCache.GetItemDataFootprint (InRenderTarget : UTextureRenderTarget2D) : Int :=
  let BytesPerPixel : Int :=
    match InRenderTarget.Format with
    | EPixelFormat.PF_B8G8R8A8 => 4
    | EPixelFormat.PF_FloatRGBA => 16
    | EPixelFormat.PF_Unknown => 4
  ToInt32 (ToUInt32 (ToUInt32 (ToInt32 (InRenderTarget.SizeX * InRenderTarget.SizeY))
    * BytesPerPixel))

/-- `ThumbnailGenerator::CreateTextureTarget` (lines 274-289). `InitAutoFormat` gives the target
the pixel format of its render-target format. -/
def CreateTextureTarget (E : FEngine) (Width Height : Int)
    (Format : ETextureRenderTargetFormat) : Option UTextureRenderTarget2D × FEngine :=
  if Width > 0 ∧ Height > 0 then
    let count := E.RenderTargetCount + 1
    (some
      { Id := count
        SizeX := Width
        SizeY := Height
        Format :=
          match Format with
          | ETextureRenderTargetFormat.RTF_RGBA8_SRGB => EPixelFormat.PF_B8G8R8A8
          | ETextureRenderTargetFormat.RTF_RGBA16f => EPixelFormat.PF_FloatRGBA },
      { E with RenderTargetCount := count })
  else
    (none, E)

/-- `ThumbnailGenerator::IsValidPixelFormat` (lines 80-88). -/
def IsValidPixelFormat (PixelFormat : EPixelFormat) : Bool :=
  match PixelFormat with
  | EPixelFormat.PF_B8G8R8A8 => true
  | EPixelFormat.PF_FloatRGBA => true
  | EPixelFormat.PF_Unknown => false

/-- `ThumbnailGenerator::ConstructTransientTexture2D` (lines 137-160); `SizeX`, `SizeY` are
`uint32`. The new texture is a fresh valid handle. -/
def ConstructTransientTexture2D (E : FEngine) (SizeX SizeY : Int) (PixelFormat : EPixelFormat) :
    Option UTexture2D × FEngine :=
  if ¬ (SizeX ≠ 0 ∧ SizeY ≠ 0) then (none, E)
  else if ¬ IsValidPixelFormat PixelFormat then (none, E)
  else
    let Result : UTexture2D := ⟨E.NextObjectId⟩
    (some Result,
      { E with Textures := E.Textures ++ [Result], NextObjectId := E.NextObjectId + 1 })

/-! ## `FThumbnailGenerator` (`ThumbnailGenerator.h` lines 19-129) -/

/-- The object behind `TSharedPtr<FThumbnailSceneInterface>`, as far as the generator reads it:
`GetThumbnailWorld()` (null is `none`) and `GetPersistentActors()`. A null sky-sphere entry of
the persistent set is left out, since it equals no world actor. -/
structure FThumbnailSceneInterface where
  World : Option UWorld
  PersistentActors : List AActor

/-- The data members of `FThumbnailGenerator` (`ThumbnailGenerator.h` lines 23-34). A null
shared pointer is `none`; `ThumbnailSceneActors` is a `TSet`, used here only through membership
and emptiness. -/
structure FThumbnailGenerator where
  ThumbnailScene : Option FThumbnailSceneInterface
  RenderTargetCache : Option FRenderTargetCache
  WidgetRenderer : Bool
  CaptureComponent : Option Nat
  ThumbnailGeneratorScripts : List UThumbnailGeneratorScript
  ThumbnailSceneActors : List AActor
  bIsCapturingThumbnail : Bool

/-- `FThumbnailGenerator() = default` with the member initialisers of the header. -/
def FThumbnailGenerator.ctor : FThumbnailGenerator :=
  { ThumbnailScene := none
    RenderTargetCache := none
    WidgetRenderer := false
    CaptureComponent := none
    ThumbnailGeneratorScripts := []
    ThumbnailSceneActors := []
    bIsCapturingThumbnail := false }

/-- `FThumbnailGenerator::GetThumbnailWorld` (lines 743-746). -/
def FThumbnailGenerator.GetThumbnailWorld (G : FThumbnailGenerator) : Option UWorld :=
  match G.ThumbnailScene with
  | some Scene => Scene.World
  | none => none

/-- `FThumbnailGenerator::PrepareThumbnailCapture` (lines 1276-1290); `none` when
`check(World != nullptr)` fails. -/
def FThumbnailGenerator.PrepareThumbnailCapture (G : FThumbnailGenerator) (E : FEngine) :
    Option FThumbnailGenerator :=
  match G.ThumbnailScene with
  | none => none
  | some Scene =>
    match Scene.World with
    | none => none
    | some World =>
      some { G with
        ThumbnailSceneActors := E.ActorsOfWorld World ++ Scene.PersistentActors
        bIsCapturingThumbnail := true }

/-- The loop of lines 1310-1316: `Destroy` on each new actor that is still valid. -/
def DestroyActors (NewActors : List AActor) (E : FEngine) : FEngine :=
  NewActors.foldl (fun E Actor => if Actor ∈ E.Actors then Actor.Destroy E else E) E

/-- `FThumbnailGenerator::CleanupThumbnailCapture` (lines 1292-1320); `none` when
`check(World != nullptr)` fails. -/
def FThumbnailGenerator.CleanupThumbnailCapture (G : FThumbnailGenerator) (E : FEngine) :
    Option (FThumbnailGenerator × FEngine) :=
  if G.bIsCapturingThumbnail = false then some (G, E)
  else
    match G.GetThumbnailWorld with
    | none => none
    | some World =>
      let AllActors := E.ActorsOfWorld World
      let NewActors := AllActors.filter (fun Actor => decide (Actor ∉ G.ThumbnailSceneActors))
      some ({ G with ThumbnailSceneActors := [], bIsCapturingThumbnail := false },
        DestroyActors NewActors E)

/-- `FThumbnailGenerator::InitializeThumbnailWorld` (lines 685-726); `none` when the `checkf` on
the background world fails. -/
def FThumbnailGenerator.InitializeThumbnailWorld (H : FHost) (G : FThumbnailGenerator)
    (E : FEngine) (BackgroundSceneSettings : FThumbnailBackgroundSceneSettings) :
    Option (FThumbnailGenerator × FEngine) :=
  let E := if G.ThumbnailScene.isSome then H.Invoke ECall.ResetThumbnailScene E else E
  let Created := H.CreateScene BackgroundSceneSettings E
  let E := H.Invoke ECall.CreateThumbnailScene E
  if BackgroundSceneSettings.BackgroundWorld ≠ "" ∧ Created.1 = none then none
  else
    let CaptureComponent := E.NextObjectId
    let E := { E with NextObjectId := E.NextObjectId + 1 }
    let E := H.Invoke (ECall.RegisterCaptureComponent Created.1) E
    some ({ G with
        ThumbnailScene := some ⟨Created.1, Created.2⟩
        CaptureComponent := some CaptureComponent
        RenderTargetCache :=
          match G.RenderTargetCache with
          | some Cache => some Cache
          | none => some ⟨[]⟩
        WidgetRenderer := true },
      E)

/-- `FThumbnailGenerator::InvalidateThumbnailWorld` (lines 728-741). A non-null
`CaptureComponent` is taken to be valid. -/
def FThumbnailGenerator.InvalidateThumbnailWorld (H : FHost) (G : FThumbnailGenerator)
    (E : FEngine) : FThumbnailGenerator × FEngine :=
  let E := if G.CaptureComponent.isSome then H.Invoke ECall.DestroyCaptureComponent E else E
  let E := if G.ThumbnailScene.isSome then H.Invoke ECall.ResetThumbnailScene E else E
  ({ G with
      CaptureComponent := none
      ThumbnailScene := none
      bIsCapturingThumbnail := false
      ThumbnailSceneActors := [] },
    E)

/-- The lambda `AreScriptsDifferent` (lines 430-444). -/
def AreScriptsDifferent (E : FEngine) (ExistingScripts : List UThumbnailGeneratorScript)
    (NewScripts : List TSubclassOf) : Bool :=
  if ExistingScripts.length ≠ NewScripts.length then true
  else
    (List.range NewScripts.length).any (fun i =>
      match ExistingScripts[i]?, NewScripts[i]? with
      | some Existing, some New =>
        !(decide (Existing ∈ E.Scripts)) || decide (New ≠ some Existing.Class)
      | _, _ => false)

/-- `MarkAsGarbage` on each valid existing script (lines 448-454). -/
def MarkScriptsAsGarbage (Scripts : List UThumbnailGeneratorScript) (E : FEngine) : FEngine :=
  Scripts.foldl
    (fun E Script =>
      if Script ∈ E.Scripts then
        { E with Scripts := E.Scripts.filter (fun Other => decide (Other ≠ Script)) }
      else E)
    E

/-- `NewObject<UThumbnailGeneratorScript>` for each non-null requested class (lines 458-462),
appended to `Created`. -/
def CreateScripts : List TSubclassOf → List UThumbnailGeneratorScript → FEngine →
    List UThumbnailGeneratorScript × FEngine
  | [], Created, E => (Created, E)
  | none :: Rest, Created, E => CreateScripts Rest Created E
  | some Class :: Rest, Created, E =>
    let Script : UThumbnailGeneratorScript := ⟨E.NextObjectId, Class⟩
    CreateScripts Rest (Created ++ [Script])
      { E with Scripts := E.Scripts ++ [Script], NextObjectId := E.NextObjectId + 1 }

/-- The block "Update scripts" (lines 428-464). -/
def FThumbnailGenerator.UpdateScripts (G : FThumbnailGenerator) (E : FEngine)
    (NewScripts : List TSubclassOf) : FThumbnailGenerator × FEngine :=
  if AreScriptsDifferent E G.ThumbnailGeneratorScripts NewScripts then
    let E := MarkScriptsAsGarbage G.ThumbnailGeneratorScripts E
    let Result := CreateScripts NewScripts [] E
    ({ G with ThumbnailGeneratorScripts := Result.1 }, Result.2)
  else
    (G, E)

/-- The lambda `EjectWithError` of `BeginGenerateActorThumbnail` (lines 398-406): clean up and
return `nullptr`. -/
def FThumbnailGenerator.BeginEjectWithError (G : FThumbnailGenerator) (E : FEngine) :
    Option (Option AActor × FThumbnailGenerator × FEngine) :=
  (G.CleanupThumbnailCapture E).map (fun Result => (none, Result.1, Result.2))

/-- The loop of lines 481-485: for each serialized property one call into the engine, which
looks the property up (`FindFProperty`) and, when it exists, applies `ImportText_Direct`. -/
def ImportProperties (H : FHost) (SpawnedActor : AActor) (Properties : List (String × String))
    (E : FEngine) : FEngine :=
  Properties.foldl
    (fun E SerializedProperty =>
      H.Invoke (ECall.ImportText SpawnedActor SerializedProperty.1 SerializedProperty.2) E)
    E

/-- `FThumbnailGenerator::BeginGenerateActorThumbnail` (lines 396-493). The result is `none`
when the call does not return (a failed `check`), otherwise the returned actor pointer with the
generator and engine state after the call. -/
def FThumbnailGenerator.BeginGenerateActorThumbnail (H : FHost) (G : FThumbnailGenerator)
    (E : FEngine) (ActorClass : TSubclassOf) (ThumbnailSettings : FThumbnailSettings)
    (Properties : List (String × String)) (bFinishSpawningActor : Bool) :
    Option (Option AActor × FThumbnailGenerator × FEngine) :=
  if G.bIsCapturingThumbnail = true then G.BeginEjectWithError E
  else if E.IsValidClass ActorClass = false then G.BeginEjectWithError E
  else if ThumbnailSettings.Member EMember.ThumbnailTextureWidth ≤ 0
      ∨ ThumbnailSettings.Member EMember.ThumbnailTextureHeight ≤ 0 then
    G.BeginEjectWithError E
  else
    match (if G.ThumbnailScene.isSome = false then
        G.InitializeThumbnailWorld H E E.GeneratorSettings.BackgroundSceneSettings
      else some (G, E)) with
    | none => none
    | some (G, E) =>
      match G.ThumbnailScene with
      | none => none
      | some Scene =>
        match Scene.World with
        | none => G.BeginEjectWithError E
        | some ThumbnailWorld =>
          if ThumbnailWorld ∉ E.Worlds then G.BeginEjectWithError E
          else
            let Updated := G.UpdateScripts E
              (ThumbnailSettings.Member EMember.ThumbnailGeneratorScripts)
            let G := Updated.1
            let E := Updated.2
            let NewScene := H.UpdateScene ThumbnailSettings (Scene.World, Scene.PersistentActors) E
            let E := H.Invoke ECall.UpdateScene E
            let G := { G with ThumbnailScene := some ⟨NewScene.1, NewScene.2⟩ }
            match G.PrepareThumbnailCapture E with
            | none => none
            | some G =>
              let SpawnedActor := H.SpawnActor ActorClass ThumbnailWorld E
              let E := H.Invoke (ECall.SpawnActor ActorClass ThumbnailWorld) E
              match SpawnedActor with
              | none => G.BeginEjectWithError E
              | some Spawned =>
                if Spawned ∉ E.Actors then G.BeginEjectWithError E
                else
                  let E := ImportProperties H Spawned Properties E
                  let E :=
                    if bFinishSpawningActor then H.Invoke (ECall.FinishSpawning Spawned) E
                    else E
                  some (some Spawned, G, E)

/-- The lambda `EjectWithError` of `FinishGenerateActorThumbnail` (lines 497-507): destroy the
actor if it is valid, clean up and return `nullptr`. -/
def FThumbnailGenerator.FinishEjectWithError (G : FThumbnailGenerator) (E : FEngine)
    (Actor : Option AActor) : Option (Option UTexture2D × FThumbnailGenerator × FEngine) :=
  let E :=
    match Actor with
    | some Actor => if Actor ∈ E.Actors then Actor.Destroy E else E
    | none => E
  (G.CleanupThumbnailCapture E).map (fun Result => (none, Result.1, Result.2))

/-- Lines 522-533: the two `IThumbnailActorInterface` call-outs with the validity check after
each. `Except.error` carries the engine state at the point the actor was found destroyed. -/
def ThumbnailActorInterfaceCalls (H : FHost) (Actor : AActor) (E : FEngine) :
    Except FEngine FEngine :=
  if H.ImplementsThumbnailActorInterface Actor then
    let ThumbnailActorTransform := H.GetThumbnailTransform Actor E
    let E := H.Invoke (ECall.GetThumbnailTransform Actor) E
    if Actor ∉ E.Actors then Except.error E
    else
      let E := H.Invoke (ECall.SetActorTransform Actor ThumbnailActorTransform) E
      let E := H.Invoke (ECall.PreCaptureActorThumbnail Actor) E
      if Actor ∉ E.Actors then Except.error E
      else Except.ok E
  else Except.ok E

/-- Lines 538-543: the scripts' `PreCaptureActorThumbnail` in list order, stopping at the first
one after which the actor is no longer valid. -/
def ScriptPreCaptureCalls (H : FHost) (Actor : AActor) :
    List UThumbnailGeneratorScript → FEngine → Except FEngine FEngine
  | [], E => Except.ok E
  | ThumbnailGeneratorScript :: Rest, E =>
    let E := H.Invoke (ECall.ScriptPreCaptureActorThumbnail ThumbnailGeneratorScript Actor) E
    if Actor ∉ E.Actors then Except.error E
    else ScriptPreCaptureCalls H Actor Rest E

/-- The loop of the lambda `SimulatedTick` (lines 557-561) for a positive step size: the list of
the `dt` values passed to the tick callback, in order. -/
def SimulatedTickLoop (StepSize : ℚ) (hStep : 0 < StepSize) (time : ℚ) : List ℚ :=
  if _ : time > 0 then
    (StepSize + min 0 (time - StepSize)) :: SimulatedTickLoop StepSize hStep (time - StepSize)
  else []
termination_by Nat.ceil (time / StepSize)
decreasing_by
  have h1 : (time - StepSize) / StepSize = time / StepSize - 1 := by
    field_simp
  rw [h1]
  have h2 : 0 < time / StepSize := div_pos (by assumption) hStep
  have h3 : 0 < Nat.ceil (time / StepSize) := Nat.ceil_pos.mpr h2
  have h4 : Nat.ceil (time / StepSize - 1) ≤ Nat.ceil (time / StepSize) - 1 := by
    rw [Nat.ceil_le]
    have h5 : time / StepSize ≤ (Nat.ceil (time / StepSize) : ℚ) := Nat.le_ceil _
    have h6 : ((Nat.ceil (time / StepSize) - 1 : ℕ) : ℚ) = (Nat.ceil (time / StepSize) : ℚ) - 1 := by
      rw [Nat.cast_sub h3]
      simp
    rw [h6]
    linarith
  omega

/-- The lambda `SimulatedTick` (lines 554-562): the `dt` values passed to the tick callback, in
order. `StepSize = 1.f / SimulateSceneFramerate`.
* Framerate 0: the step size is `+inf`. With `SimulateSceneTime > 0` the loop body runs once
  with `dt = inf + Min(0, time - inf) = inf - inf`, a NaN, then `time -= inf` ends the loop;
  with `SimulateSceneTime <= 0` the body does not run.
* Positive framerate: the loop in exact arithmetic, `SimulatedTickLoop`.
* Negative framerate: the step size is negative, so `time` never decreases; the loop runs no
  iteration when `SimulateSceneTime <= 0` and otherwise does not terminate (`none`). -/
def SimulatedTick (ThumbnailSettings : FThumbnailSettings) : Option (List FDeltaTime) :=
  if ThumbnailSettings.Member EMember.SimulateSceneFramerate = 0 then
    if ThumbnailSettings.Member EMember.SimulateSceneTime > 0 then some [FDeltaTime.NaN]
    else some []
  else
    let StepSize : ℚ := 1 / ThumbnailSettings.Member EMember.SimulateSceneFramerate
    if hStep : 0 < StepSize then
      some ((SimulatedTickLoop StepSize hStep
        (ThumbnailSettings.Member EMember.SimulateSceneTime)).map FDeltaTime.Value)
    else if ThumbnailSettings.Member EMember.SimulateSceneTime > 0 then none
    else some []

/-- The block "Simulate scene" (lines 545-649). Component begin-play dispatch and each tick of
the components (and, in mode `EActor`, of the actor) are calls into the engine. `none` when the
tick loop does not terminate. -/
def SimulateScene (H : FHost) (ThumbnailSettings : FThumbnailSettings) (Actor : AActor)
    (E : FEngine) : Option FEngine :=
  let Mode := ThumbnailSettings.Member EMember.SimulationMode
  match Mode with
  | EThumbnailSceneSimulationMode.ENone => some E
  | EThumbnailSceneSimulationMode.EActor =>
    let E := H.Invoke (ECall.DispatchComponentsBeginPlay Actor Mode) E
    let E := H.Invoke (ECall.DispatchBeginPlay Actor) E
    (SimulatedTick ThumbnailSettings).map
      (fun Deltas => Deltas.foldl (fun E DeltaTime => H.Invoke (ECall.Tick Actor Mode DeltaTime) E) E)
  | _ =>
    let E := H.Invoke (ECall.DispatchComponentsBeginPlay Actor Mode) E
    (SimulatedTick ThumbnailSettings).map
      (fun Deltas => Deltas.foldl (fun E DeltaTime => H.Invoke (ECall.Tick Actor Mode DeltaTime) E) E)

/-- `FThumbnailGenerator::CaptureThumbnail` (lines 753-1274), as far as the capture session is
concerned: the camera set-up (lines 757-1213, including the floor snap's `SetActorLocation`),
the scene captures, the line-batcher flush and the widget pass are calls into the engine; the
result is `nullptr` exactly when no valid `ResourceObject` was passed and
`ConstructTransientTexture2D` fails. -/
def FThumbnailGenerator.CaptureThumbnail (H : FHost) (E : FEngine)
    (ThumbnailSettings : FThumbnailSettings) (RenderTarget : UTextureRenderTarget2D)
    (Actor : AActor) (ResourceObject : Option UTexture2D) : Option UTexture2D × FEngine :=
  let E := H.Invoke (ECall.SetCameraView Actor) E
  let E :=
    if ThumbnailSettings.Member EMember.bCaptureAlpha = true then
      H.Invoke (ECall.CaptureScene RenderTarget true) E
    else E
  let E := H.Invoke (ECall.CaptureScene RenderTarget false) E
  let E := H.Invoke ECall.FlushLineBatchers E
  let E :=
    match ThumbnailSettings.Member EMember.ThumbnailUI with
    | some ThumbnailUI => H.Invoke (ECall.DrawWidget RenderTarget ThumbnailUI) E
    | none => E
  let Constructed :=
    if E.IsValidTexture ResourceObject then (ResourceObject, E)
    else
      ConstructTransientTexture2D E (ToUInt32 RenderTarget.SizeX) (ToUInt32 RenderTarget.SizeY)
        RenderTarget.Format
  match Constructed.1 with
  | none => (none, Constructed.2)
  | some ThumbnailTexture =>
    (some ThumbnailTexture,
      H.Invoke (ECall.FillTextureData ThumbnailTexture RenderTarget) Constructed.2)

/-- Lines 674-682 of `FinishGenerateActorThumbnail`: capture, then eject on failure or clean up
and return the thumbnail. -/
def FThumbnailGenerator.CaptureAndCleanup (H : FHost) (G : FThumbnailGenerator) (E : FEngine)
    (ThumbnailSettings : FThumbnailSettings) (RenderTarget : UTextureRenderTarget2D)
    (Actor : AActor) (ResourceObject : Option UTexture2D) :
    Option (Option UTexture2D × FThumbnailGenerator × FEngine) :=
  let Captured :=
    FThumbnailGenerator.CaptureThumbnail H E ThumbnailSettings RenderTarget Actor ResourceObject
  match Captured.1 with
  | none => G.FinishEjectWithError Captured.2 (some Actor)
  | some Thumbnail =>
    (G.CleanupThumbnailCapture Captured.2).map
      (fun Result => (some Thumbnail, Result.1, Result.2))

/-- Lines 651-682 of `FinishGenerateActorThumbnail`: the render target is taken from the cache
or created and cached, then the thumbnail is captured. `none` when `RenderTargetCache` is
null. -/
def FThumbnailGenerator.AcquireRenderTargetAndCapture (H : FHost) (G : FThumbnailGenerator)
    (E : FEngine) (ThumbnailSettings : FThumbnailSettings) (Actor : AActor)
    (ResourceObject : Option UTexture2D) :
    Option (Option UTexture2D × FThumbnailGenerator × FEngine) :=
  let RenderTargetWidth := ToUInt16 (ThumbnailSettings.Member EMember.ThumbnailTextureWidth)
  let RenderTargetHeight := ToUInt16 (ThumbnailSettings.Member EMember.ThumbnailTextureHeight)
  let RenderBitDepth := ThumbnailSettings.Member EMember.ThumbnailBitDepth
  let RenderTargetInfo : FHashableRenderTargetInfo :=
    ⟨RenderTargetWidth, RenderTargetHeight, RenderBitDepth⟩
  match G.RenderTargetCache with
  | none => none
  | some Cache =>
    match Cache.GetCachedItem FHashableRenderTargetInfo.Equals RenderTargetInfo with
    | some RenderTarget =>
      G.CaptureAndCleanup H E ThumbnailSettings RenderTarget Actor ResourceObject
    | none =>
      let Created := CreateTextureTarget E (RenderTargetWidth : Int) (RenderTargetHeight : Int)
        (if RenderBitDepth = EThumbnailBitDepth.E8 then ETextureRenderTargetFormat.RTF_RGBA8_SRGB
          else ETextureRenderTargetFormat.RTF_RGBA16f)
      match Created.1 with
      | none => G.FinishEjectWithError Created.2 (some Actor)
      | some RenderTarget =>
        let Cached := Cache.CacheItem
          (FRenderTargetCache.MaxCacheSize Created.2.GeneratorSettings)
          FRenderTargetCache.GetItemDataFootprint RenderTargetInfo RenderTarget
        let E := Cached.2.foldl
          (fun E Removed => H.Invoke (ECall.OnItemRemovedFromCache Removed) E) Created.2
        FThumbnailGenerator.CaptureAndCleanup H { G with RenderTargetCache := some Cached.1 } E
          ThumbnailSettings RenderTarget Actor ResourceObject

/-- `FThumbnailGenerator::FinishGenerateActorThumbnail` (lines 495-683). The result is `none`
when the call does not return (a failed `check`, a null `RenderTargetCache`, or a tick loop that
does not terminate), otherwise the returned texture pointer with the generator and engine state
after the call. -/
def FThumbnailGenerator.FinishGenerateActorThumbnail (H : FHost) (G : FThumbnailGenerator)
    (E : FEngine) (Actor : Option AActor) (ThumbnailSettings : FThumbnailSettings)
    (ResourceObject : Option UTexture2D) (bFinishSpawningActor : Bool) :
    Option (Option UTexture2D × FThumbnailGenerator × FEngine) :=
  if G.bIsCapturingThumbnail = false then G.FinishEjectWithError E Actor
  else
    match Actor with
    | none => G.FinishEjectWithError E none
    | some ValidActor =>
      if ValidActor ∉ E.Actors then G.FinishEjectWithError E Actor
      else
        let E :=
          if bFinishSpawningActor then H.Invoke (ECall.FinishSpawning ValidActor) E else E
        match ThumbnailActorInterfaceCalls H ValidActor E with
        | Except.error E => G.FinishEjectWithError E Actor
        | Except.ok E =>
          let E :=
            if ThumbnailSettings.Override EOverride.bOverride_CustomActorTransform = true then
              H.Invoke (ECall.SetActorTransform ValidActor
                (ThumbnailSettings.Member EMember.CustomActorTransform)) E
            else E
          match ScriptPreCaptureCalls H ValidActor G.ThumbnailGeneratorScripts E with
          | Except.error E => G.FinishEjectWithError E Actor
          | Except.ok E =>
            match SimulateScene H ThumbnailSettings ValidActor E with
            | none => none
            | some E =>
              G.AcquireRenderTargetAndCapture H E ThumbnailSettings ValidActor ResourceObject

/-- `FThumbnailGenerator::GenerateActorThumbnail` (lines 391-394): `Begin` with the default
`bFinishSpawningActor = true`, then `Finish` with the default `false`. -/
def FThumbnailGenerator.GenerateActorThumbnail (H : FHost) (G : FThumbnailGenerator)
    (E : FEngine) (ActorClass : TSubclassOf) (ThumbnailSettings : FThumbnailSettings)
    (ResourceObject : Option UTexture2D) (Properties : List (String × String)) :
    Option (Option UTexture2D × FThumbnailGenerator × FEngine) :=
  match G.BeginGenerateActorThumbnail H E ActorClass ThumbnailSettings Properties true with
  | none => none
  | some (Actor, G, E) =>
    G.FinishGenerateActorThumbnail H E Actor ThumbnailSettings ResourceObject false

/-- An example host whose `SpawnActor` creates actor 100 in the requested world; every other
call leaves the engine state unchanged, the scene's world is the world 0 and no actor implements
the thumbnail-actor interface. -/
def ExampleSpawningHost : FHost :=
  { Run := fun Call E =>
      match Call with
      | ECall.SpawnActor _ World => { E with Actors := E.Actors ++ [⟨100, World⟩] }
      | _ => E
    CreateScene := fun _ _ => (some 0, [])
    UpdateScene := fun _ Scene _ => Scene
    SpawnActor := fun _ World _ => some ⟨100, World⟩
    ImplementsThumbnailActorInterface := fun _ => false
    GetThumbnailTransform := fun _ _ => FTransform.Identity }

/-- An example engine state: actors 1 and 2 live in world 0, actor 3 in world 7. -/
def ExampleEngine : FEngine :=
  { Actors := [⟨1, 0⟩, ⟨2, 0⟩, ⟨3, 7⟩]
    Worlds := [0, 7]
    Classes := ["Actor"]
    Scripts := []
    Textures := []
    NextObjectId := 10
    RenderTargetCount := 0
    GeneratorSettings :=
      { DefaultThumbnailSettings := FThumbnailSettings.ctor ExamplePostProcessDefault
        BackgroundSceneSettings :=
          ⟨"", EBackgroundWorldLightMode.ESourceAvailableSpawnRest, true⟩
        MaxRenderTargetCacheSize := 50 }
    Calls := [] }

/-- The generator and engine state after a first `Begin` on a freshly constructed generator,
with the example spawning host and the default-constructed settings. -/
def ExampleAfterBegin : FThumbnailGenerator × FEngine :=
  match FThumbnailGenerator.ctor.BeginGenerateActorThumbnail ExampleSpawningHost ExampleEngine
      (some "Actor") (FThumbnailSettings.ctor ExamplePostProcessDefault) [] true with
  | some Result => (Result.2.1, Result.2.2)
  | none => (FThumbnailGenerator.ctor, ExampleEngine)

/-- Default-constructed settings with `SimulationMode = ENone`. -/
def ExampleNoSimulationSettings : FThumbnailSettings :=
  (FThumbnailSettings.ctor ExamplePostProcessDefault).SetMember EMember.SimulationMode
    EThumbnailSceneSimulationMode.ENone

/-- Default-constructed settings with `SimulationMode = EActor` and
`SimulateSceneFramerate = 0` (`SimulateSceneTime` keeps its default 0.01). -/
def ExampleZeroFramerateSettings : FThumbnailSettings :=
  ((FThumbnailSettings.ctor ExamplePostProcessDefault).SetMember EMember.SimulationMode
    EThumbnailSceneSimulationMode.EActor).SetMember EMember.SimulateSceneFramerate (0 : ℚ)

/-! ## Camera framing (`CaptureThumbnail`, lines 757-1201) -/

/-- Engine `FVector2D`. -/
structure FVector2D where
  X : ℚ
  Y : ℚ
deriving DecidableEq

/-- Engine macro `BIG_NUMBER` (`3.4e+38f`). -/
def BIG_NUMBER : ℚ := 34 * 10 ^ 37

/-- Engine macro `SMALL_NUMBER` (`1.e-8f`). -/
def SMALL_NUMBER : ℚ := 1 / 10 ^ 8

/-- `FMath::IsNearlyZero(Value)` with the default tolerance `SMALL_NUMBER`:
`Abs(Value) <= SMALL_NUMBER`. -/
def IsNearlyZero (Value : ℚ) : Bool := decide (|Value| ≤ SMALL_NUMBER)

/-- `FVector2D::ZeroVector`. -/
def FVector2D.ZeroVector : FVector2D := ⟨0, 0⟩

/-- The constructor `FVector2D(float InF)`: both components are `InF`. -/
def FVector2D.Splat (InF : ℚ) : FVector2D := ⟨InF, InF⟩

/-- `FVector::ForwardVector`. -/
def FVector.ForwardVector : FVector := ⟨1, 0, 0⟩

/-- `FVector::RightVector`. -/
def FVector.RightVector : FVector := ⟨0, 1, 0⟩

/-- `FVector::UpVector`. -/
def FVector.UpVector : FVector := ⟨0, 0, 1⟩

instance : Neg FVector := ⟨fun V => ⟨-V.X, -V.Y, -V.Z⟩⟩

instance : Add FVector := ⟨fun A B => ⟨A.X + B.X, A.Y + B.Y, A.Z + B.Z⟩⟩

instance : Sub FVector := ⟨fun A B => ⟨A.X - B.X, A.Y - B.Y, A.Z - B.Z⟩⟩

/-- `FVector::operator*(const FVector&)`: component-wise product. -/
instance : Mul FVector := ⟨fun A B => ⟨A.X * B.X, A.Y * B.Y, A.Z * B.Z⟩⟩

/-- `FVector::operator*(float)`. -/
def FVector.Scale (V : FVector) (Scale : ℚ) : FVector := ⟨V.X * Scale, V.Y * Scale, V.Z * Scale⟩

/-- The engine's transcendental and rotation arithmetic, which has no exact rational value and
is a parameter of the camera set-up: `SinCos` gives the sine and the cosine of an angle in
degrees (`FMath::SinCos` after `FMath::DegreesToRadians`), the other members are
`FRotator::Quaternion`, `FQuat::operator*`, `FQuat::RotateVector`, `FQuat::UnrotateVector`,
`FQuat::Rotator` and `FTransform::TransformPosition`. `ToFloat` is the conversion of a `double`
(the component type of `FVector`) to `float`, which rounds to the nearest `float`. -/
structure FEngineMath where
  SinCos : ℚ → ℚ × ℚ
  Quaternion : FRotator → FQuat
  QuatMul : FQuat → FQuat → FQuat
  RotateVector : FQuat → FVector → FVector
  UnrotateVector : FQuat → FVector → FVector
  Rotator : FQuat → FRotator
  TransformPosition : FTransform → FVector → FVector
  ToFloat : ℚ → ℚ

/-- Engine `FVector::RotateAngleAxis(AngleDeg, Axis)` (rotation about a unit axis, Rodrigues
form as in the engine's `Vector.h`), over the sine and cosine supplied by `M.SinCos`. -/
def FVector.RotateAngleAxis (M : FEngineMath) (V : FVector) (AngleDeg : ℚ) (Axis : FVector) :
    FVector :=
  let S := (M.SinCos AngleDeg).1
  let C := (M.SinCos AngleDeg).2
  let XX := Axis.X * Axis.X
  let YY := Axis.Y * Axis.Y
  let ZZ := Axis.Z * Axis.Z
  let XY := Axis.X * Axis.Y
  let YZ := Axis.Y * Axis.Z
  let ZX := Axis.Z * Axis.X
  let XS := Axis.X * S
  let YS := Axis.Y * S
  let ZS := Axis.Z * S
  let OMC := 1 - C
  ⟨(OMC * XX + C) * V.X + (OMC * XY - ZS) * V.Y + (OMC * ZX + YS) * V.Z,
   (OMC * XY + ZS) * V.X + (OMC * YY + C) * V.Y + (OMC * YZ - XS) * V.Z,
   (OMC * ZX - YS) * V.X + (OMC * YZ + XS) * V.Y + (OMC * ZZ + C) * V.Z⟩

/-- `FBox::GetExtent`. -/
def FBox.GetExtent (Box : FBox) : FVector := (Box.Max - Box.Min).Scale (1 / 2)

/-- `FBox::GetCenter`. -/
def FBox.GetCenter (Box : FBox) : FVector := (Box.Min + Box.Max).Scale (1 / 2)

/-- The value `Determinant` of the lambda `FrameCamera2D` (line 991). -/
def FrameCamera2D.Determinant (LeftFrustrumEdgeDir RightFrustrumEdgeDir : FVector2D) : ℚ :=
  let A1 := -LeftFrustrumEdgeDir.Y
  let B1 := LeftFrustrumEdgeDir.X
  let A2 := -RightFrustrumEdgeDir.Y
  let B2 := RightFrustrumEdgeDir.X
  A1 * B2 - A2 * B1

/-- The value `IntersectLocation` of the lambda `FrameCamera2D` (lines 983-994): the
intersection of the line `A1 x + B1 y = C1` through `Point1` with the line
`A2 x + B2 y = C2` through `Point2`, or the zero vector when the determinant is nearly zero. -/
def FrameCamera2D.IntersectLocation (Point1 Point2 LeftFrustrumEdgeDir
    RightFrustrumEdgeDir : FVector2D) : FVector2D :=
  let A1 := -LeftFrustrumEdgeDir.Y
  let B1 := LeftFrustrumEdgeDir.X
  let C1 := A1 * Point1.X + B1 * Point1.Y
  let A2 := -RightFrustrumEdgeDir.Y
  let B2 := RightFrustrumEdgeDir.X
  let C2 := A2 * Point2.X + B2 * Point2.Y
  let Determinant := FrameCamera2D.Determinant LeftFrustrumEdgeDir RightFrustrumEdgeDir
  if IsNearlyZero Determinant then FVector2D.ZeroVector
  else ⟨(B2 * C1 - B1 * C2) / Determinant, (A1 * C2 - A2 * C1) / Determinant⟩

/-- The lambda `FrameCamera2D` (lines 975-1004). In the 2D points and directions, `X` is the
lateral and `Y` the forward coordinate. -/
def FrameCamera2D (Point1 Point2 LeftFrustrumEdgeDir RightFrustrumEdgeDir : FVector2D) :
    FVector2D :=
  let LeftPoint := if Point1.X < Point2.X then Point1 else Point2
  let RightPoint := if Point1.X > Point2.X then Point1 else Point2
  let IntersectLocation :=
    FrameCamera2D.IntersectLocation Point1 Point2 LeftFrustrumEdgeDir RightFrustrumEdgeDir
  if IntersectLocation.Y > min LeftPoint.Y RightPoint.Y then FVector2D.Splat BIG_NUMBER
  else IntersectLocation

/-- `FBoundsVertices` (line 876): the array of the eight corners. -/
abbrev FBoundsVertices := List FVector

/-- Element access `Vertices[Index]`. -/
def FBoundsVertices.At (Vertices : FBoundsVertices) (Index : Nat) : FVector :=
  Vertices.getD Index FVector.ZeroVector

/-- Line 970. -/
def LeftCameraFrustrumDir (M : FEngineMath) (InThumbnailSettings : FThumbnailSettings) :
    FVector :=
  FVector.ForwardVector.RotateAngleAxis M
    (InThumbnailSettings.Member EMember.CameraFOV * (1 / 2)) (-FVector.UpVector)

/-- Line 971. -/
def RightCameraFrustrumDir (M : FEngineMath) (InThumbnailSettings : FThumbnailSettings) :
    FVector :=
  LeftCameraFrustrumDir M InThumbnailSettings * ⟨1, -1, 1⟩

/-- Line 972. -/
def TopCameraFrustrumDir (M : FEngineMath) (InAspectRatio : ℚ)
    (InThumbnailSettings : FThumbnailSettings) : FVector :=
  FVector.ForwardVector.RotateAngleAxis M
    ((InThumbnailSettings.Member EMember.CameraFOV * (1 / 2)) / InAspectRatio)
    (-FVector.RightVector)

/-- Line 973. -/
def BottomCameraFrustrumDir (M : FEngineMath) (InAspectRatio : ℚ)
    (InThumbnailSettings : FThumbnailSettings) : FVector :=
  TopCameraFrustrumDir M InAspectRatio InThumbnailSettings * ⟨1, 1, -1⟩

/-- The value `HorizontalLocation` of one loop iteration (lines 1019-1023). -/
def HorizontalLocation (LeftDir RightDir Point1 Point2 : FVector) : FVector2D :=
  let LeftPoint := if Point1.Y > Point2.Y then Point2 else Point1
  let RightPoint := if Point1.Y > Point2.Y then Point1 else Point2
  FrameCamera2D ⟨LeftPoint.Y, LeftPoint.X⟩ ⟨RightPoint.Y, RightPoint.X⟩
    ⟨LeftDir.Y, LeftDir.X⟩ ⟨RightDir.Y, RightDir.X⟩

/-- The value `VerticalLocation` of one loop iteration (lines 1034-1038). -/
def VerticalLocation (TopDir BottomDir Point1 Point2 : FVector) : FVector2D :=
  let TopPoint := if Point1.Z > Point2.Z then Point2 else Point1
  let BottomPoint := if Point1.Z > Point2.Z then Point1 else Point2
  FrameCamera2D ⟨TopPoint.Z, TopPoint.X⟩ ⟨BottomPoint.Z, BottomPoint.X⟩
    ⟨BottomDir.Z, BottomDir.X⟩ ⟨TopDir.Z, TopDir.X⟩

/-- The index pairs `(i, j)` visited by the loops of lines 1010-1012, in order. -/
def BoundsVertexPairs : List (Nat × Nat) :=
  (List.range 8).foldr
    (fun i Pairs => ((List.range 8).filter (fun j => i + 1 ≤ j)).map (fun j => (i, j)) ++ Pairs)
    []

/-- One iteration of the inner loop (lines 1014-1045) on the pair
`(BestHorizontalIntersectLocation, BestVerticalIntersectLocation)`. -/
def BestIntersectLocationsStep (LeftDir RightDir TopDir BottomDir : FVector)
    (InCameraSpaceBoundsVertices : FBoundsVertices) (Best : FVector2D × FVector2D)
    (Pair : Nat × Nat) : FVector2D × FVector2D :=
  let Point1 := InCameraSpaceBoundsVertices.At Pair.1
  let Point2 := InCameraSpaceBoundsVertices.At Pair.2
  let Horizontal := HorizontalLocation LeftDir RightDir Point1 Point2
  let Vertical := VerticalLocation TopDir BottomDir Point1 Point2
  (if Horizontal.Y < Best.1.Y then Horizontal else Best.1,
   if Vertical.Y < Best.2.Y then Vertical else Best.2)

/-- Lines 1008-1047: `BestHorizontalIntersectLocation` and `BestVerticalIntersectLocation`
after the loops. -/
def BestIntersectLocations (LeftDir RightDir TopDir BottomDir : FVector)
    (InCameraSpaceBoundsVertices : FBoundsVertices) : FVector2D × FVector2D :=
  BoundsVertexPairs.foldl
    (BestIntersectLocationsStep LeftDir RightDir TopDir BottomDir InCameraSpaceBoundsVertices)
    (FVector2D.Splat BIG_NUMBER, FVector2D.Splat BIG_NUMBER)

/-- Lines 1049-1065: the camera location merged from the two best intersect locations. -/
def NewCameraLocation (CameraFitMode : EThumbnailCameraFitMode)
    (BestHorizontalIntersectLocation BestVerticalIntersectLocation : FVector2D) : FVector :=
  let HorizontalCameraLocation : FVector :=
    ⟨BestHorizontalIntersectLocation.Y, BestHorizontalIntersectLocation.X, 0⟩
  let VerticalCameraLocation : FVector :=
    ⟨BestVerticalIntersectLocation.Y, 0, BestVerticalIntersectLocation.X⟩
  match CameraFitMode with
  | EThumbnailCameraFitMode.EFill =>
    ⟨max HorizontalCameraLocation.X VerticalCameraLocation.X, HorizontalCameraLocation.Y,
      VerticalCameraLocation.Z⟩
  | EThumbnailCameraFitMode.EFit =>
    ⟨min HorizontalCameraLocation.X VerticalCameraLocation.X, HorizontalCameraLocation.Y,
      VerticalCameraLocation.Z⟩
  | EThumbnailCameraFitMode.EFitX =>
    ⟨HorizontalCameraLocation.X, HorizontalCameraLocation.Y, VerticalCameraLocation.Z⟩
  | EThumbnailCameraFitMode.EFitY =>
    ⟨VerticalCameraLocation.X, HorizontalCameraLocation.Y, VerticalCameraLocation.Z⟩

/-- The lambda `CalculatePerspectiveViewLocation` (lines 948-1117). -/
def CalculatePerspectiveViewLocation (M : FEngineMath) (InAspectRatio : ℚ)
    (InThumbnailSettings : FThumbnailSettings)
    (InCameraSpaceBoundsVertices : FBoundsVertices) : FVector :=
  let Best := BestIntersectLocations
    (LeftCameraFrustrumDir M InThumbnailSettings)
    (RightCameraFrustrumDir M InThumbnailSettings)
    (TopCameraFrustrumDir M InAspectRatio InThumbnailSettings)
    (BottomCameraFrustrumDir M InAspectRatio InThumbnailSettings)
    InCameraSpaceBoundsVertices
  NewCameraLocation (InThumbnailSettings.Member EMember.CameraFitMode) Best.1 Best.2

/-- `FBounds2D` (line 1136). -/
structure FBounds2D where
  Min : FVector2D
  Max : FVector2D
deriving DecidableEq

/-- `FOrthographicView` (lines 1129-1133). -/
structure FOrthographicView where
  OrthoWidth : ℚ
  CameraLocation : FVector
deriving DecidableEq

/-- The lambda `ProjectedBounds2D` (lines 1137-1155): `OutMin` and `OutMax` start as
`FVector2D(EForceInit::ForceInit)`, the zero vector. -/
def ProjectedBounds2D (InCameraSpaceBoundsVertices : FBoundsVertices) : FBounds2D :=
  InCameraSpaceBoundsVertices.foldl
    (fun Out Vertex =>
      { Min :=
          ⟨if Vertex.Y < Out.Min.X then Vertex.Y else Out.Min.X,
           if Vertex.Z < Out.Min.Y then Vertex.Z else Out.Min.Y⟩
        Max :=
          ⟨if Vertex.Y > Out.Max.X then Vertex.Y else Out.Max.X,
           if Vertex.Z > Out.Max.Y then Vertex.Z else Out.Max.Y⟩ })
    ⟨FVector2D.ZeroVector, FVector2D.ZeroVector⟩

/-- The lambda `CalculateOrthographicView` (lines 1134-1181). -/
def CalculateOrthographicView (InAspectRatio : ℚ) (InThumbnailSettings : FThumbnailSettings)
    (InCameraSpaceBoundsVertices : FBoundsVertices) : FOrthographicView :=
  let Bounds := ProjectedBounds2D InCameraSpaceBoundsVertices
  let Bounds2DDimentions : FVector2D :=
    ⟨|Bounds.Max.X - Bounds.Min.X|, |Bounds.Max.Y - Bounds.Min.Y|⟩
  let OrthoWidth : ℚ :=
    match InThumbnailSettings.Member EMember.CameraFitMode with
    | EThumbnailCameraFitMode.EFill =>
      min Bounds2DDimentions.X (Bounds2DDimentions.Y * InAspectRatio)
    | EThumbnailCameraFitMode.EFit =>
      max Bounds2DDimentions.X (Bounds2DDimentions.Y * InAspectRatio)
    | EThumbnailCameraFitMode.EFitX => Bounds2DDimentions.X
    | EThumbnailCameraFitMode.EFitY => Bounds2DDimentions.Y * InAspectRatio
  let CameraLocation : FVector :=
    ⟨-1000, (Bounds.Max.X + Bounds.Min.X) * (1 / 2), (Bounds.Max.Y + Bounds.Min.Y) * (1 / 2)⟩
  ⟨OrthoWidth, CameraLocation⟩

/-- Engine `FMinimalViewInfo`, reduced to the members `CaptureThumbnail` writes. -/
structure FMinimalViewInfo where
  Location : FVector
  Rotation : FRotator
  FOV : ℚ
  OrthoWidth : ℚ
  ProjectionMode : ECameraProjectionMode
  PostProcessBlendWeight : ℚ
  PostProcessSettings : FPostProcessSettings
deriving DecidableEq

/-- Line 758: `bAutoFrameCamera`. -/
def bAutoFrameCamera (ThumbnailSettings : FThumbnailSettings) : Bool :=
  let bIsPerspective : Bool :=
    decide (ThumbnailSettings.Member EMember.ProjectionType = ECameraProjectionMode.Perspective)
  !(ThumbnailSettings.Override EOverride.bOverride_CustomCameraLocation ||
    ThumbnailSettings.Override EOverride.bOverride_CustomCameraRotation ||
    (!bIsPerspective && ThumbnailSettings.Override EOverride.bOverride_CustomOrthoWidth))

/-- Lines 871-888: the eight corners of the local bounding box, transformed by the actor
transform. -/
def BoundsVertices (M : FEngineMath) (ActorTransform : FTransform) (LocalBoundingBox : FBox) :
    FBoundsVertices :=
  let LocalBoundsExtent := LocalBoundingBox.GetExtent
  let LocalBoundsOrigin := LocalBoundingBox.GetCenter
  let LocalBoundsMin := LocalBoundsOrigin - LocalBoundsExtent
  let LocalBoundsMax := LocalBoundsOrigin + LocalBoundsExtent
  [M.TransformPosition ActorTransform ⟨LocalBoundsMin.X, LocalBoundsMin.Y, LocalBoundsMin.Z⟩,
   M.TransformPosition ActorTransform ⟨LocalBoundsMin.X, LocalBoundsMax.Y, LocalBoundsMin.Z⟩,
   M.TransformPosition ActorTransform ⟨LocalBoundsMax.X, LocalBoundsMax.Y, LocalBoundsMin.Z⟩,
   M.TransformPosition ActorTransform ⟨LocalBoundsMax.X, LocalBoundsMin.Y, LocalBoundsMin.Z⟩,
   M.TransformPosition ActorTransform ⟨LocalBoundsMin.X, LocalBoundsMin.Y, LocalBoundsMax.Z⟩,
   M.TransformPosition ActorTransform ⟨LocalBoundsMin.X, LocalBoundsMax.Y, LocalBoundsMax.Z⟩,
   M.TransformPosition ActorTransform ⟨LocalBoundsMax.X, LocalBoundsMax.Y, LocalBoundsMax.Z⟩,
   M.TransformPosition ActorTransform ⟨LocalBoundsMax.X, LocalBoundsMin.Y, LocalBoundsMax.Z⟩]

/-- Lines 892-905: the floor snap. `MinZLocation` is a `float`: the comparison
`Vertex.Z < MinZLocation` is made on the exact values, the assignment `MinZLocation = Vertex.Z`
converts the corner's height to `float` (`M.ToFloat`). The result is the location passed to
`SetActorLocation` and the shifted corners. -/
def SnapToFloor (M : FEngineMath) (ActorLocaton : FVector) (Vertices : FBoundsVertices) :
    FVector × FBoundsVertices :=
  let MinZLocation : ℚ :=
    Vertices.foldl (fun MinZLocation Vertex =>
      if Vertex.Z < MinZLocation then M.ToFloat Vertex.Z else MinZLocation) BIG_NUMBER
  (⟨ActorLocaton.X, ActorLocaton.Y, ActorLocaton.Z - MinZLocation⟩,
   Vertices.map (fun Vertex => { Vertex with Z := Vertex.Z - MinZLocation }))

/-- The branch `if (bAutoFrameCamera)` of `CaptureThumbnail` (lines 767-1191), without the debug
drawing. `ActorLocalThumbnailBounds` is the value of `CalcActorLocalThumbnailBounds` (lines
773-866, component queries of the engine) and `ActorTransform` the actor's transform. The result
is the camera view and the actor location after the optional floor snap. -/
def AutoFrameCamera (M : FEngineMath) (ThumbnailSettings : FThumbnailSettings)
    (ActorTransform : FTransform) (ActorLocalThumbnailBounds : FBox)
    (CaptureComponentView : FMinimalViewInfo) : FMinimalViewInfo × FVector :=
  let bIsPerspective : Bool :=
    decide (ThumbnailSettings.Member EMember.ProjectionType = ECameraProjectionMode.Perspective)
  let CameraRotation :=
    M.QuatMul (M.Quaternion (ThumbnailSettings.Member EMember.CameraRotationOffset))
      (M.Quaternion (ThumbnailSettings.Member EMember.CameraOrbitRotation))
  let AspectRatio : ℚ :=
    if ThumbnailSettings.Member EMember.ThumbnailTextureWidth > 0 ∧
        ThumbnailSettings.Member EMember.ThumbnailTextureHeight > 0 then
      ((ThumbnailSettings.Member EMember.ThumbnailTextureWidth : Int) : ℚ) /
        ((ThumbnailSettings.Member EMember.ThumbnailTextureHeight : Int) : ℚ)
    else 1
  let LocalBoundingBox :=
    if ThumbnailSettings.Override EOverride.bOverride_CustomActorBounds = true then
      ThumbnailSettings.Member EMember.CustomActorBounds
    else ActorLocalThumbnailBounds
  let Vertices := BoundsVertices M ActorTransform LocalBoundingBox
  let Snapped : FVector × FBoundsVertices :=
    if ThumbnailSettings.Member EMember.bSnapToFloor = true then
      SnapToFloor M ActorTransform.Translation Vertices
    else (ActorTransform.Translation, Vertices)
  let BoundsVerticesInCameraSpace : FBoundsVertices :=
    Snapped.2.map (M.UnrotateVector CameraRotation)
  let CaptureComponentView : FMinimalViewInfo :=
    if bIsPerspective = true then
      let AutoLocation := CalculatePerspectiveViewLocation M AspectRatio ThumbnailSettings
        BoundsVerticesInCameraSpace
      let AutoLocation : FVector :=
        { AutoLocation with
          X :=
            if ThumbnailSettings.Override EOverride.bOverride_CameraDistanceOverride = true then
              ThumbnailSettings.Member EMember.CameraDistanceOverride
            else AutoLocation.X + ThumbnailSettings.Member EMember.CameraDistanceOffset }
      { CaptureComponentView with
        Location := M.RotateVector CameraRotation AutoLocation
        FOV := ThumbnailSettings.Member EMember.CameraFOV }
    else
      let OrthographicView := CalculateOrthographicView AspectRatio ThumbnailSettings
        BoundsVerticesInCameraSpace
      { CaptureComponentView with
        OrthoWidth :=
          if ThumbnailSettings.Override EOverride.bOverride_OrthoWidthOverride = true then
            ThumbnailSettings.Member EMember.OrthoWidthOverride
          else OrthographicView.OrthoWidth + ThumbnailSettings.Member EMember.OrthoWidthOffset
        Location := M.RotateVector CameraRotation OrthographicView.CameraLocation }
  ({ CaptureComponentView with
      Location :=
        CaptureComponentView.Location +
          M.RotateVector CameraRotation (ThumbnailSettings.Member EMember.CameraPositionOffset)
      Rotation := M.Rotator CameraRotation },
    Snapped.1)

/-- Lines 757-1201 of `CaptureThumbnail`: the view handed to `SetCameraView`, and the actor
location after the call. `DefaultView` is the engine's default-constructed
`FMinimalViewInfo`. -/
def CaptureComponentView (M : FEngineMath) (DefaultView : FMinimalViewInfo)
    (ThumbnailSettings : FThumbnailSettings) (ActorTransform : FTransform)
    (ActorLocalThumbnailBounds : FBox) : FMinimalViewInfo × FVector :=
  let View : FMinimalViewInfo :=
    { DefaultView with ProjectionMode := ThumbnailSettings.Member EMember.ProjectionType }
  let Framed : FMinimalViewInfo × FVector :=
    if bAutoFrameCamera ThumbnailSettings = true then
      AutoFrameCamera M ThumbnailSettings ActorTransform ActorLocalThumbnailBounds View
    else
      ({ View with
          Location := ThumbnailSettings.Member EMember.CustomCameraLocation
          Rotation := ThumbnailSettings.Member EMember.CustomCameraRotation
          OrthoWidth := ThumbnailSettings.Member EMember.CustomOrthoWidth },
        ActorTransform.Translation)
  ({ Framed.1 with
      PostProcessBlendWeight := 1
      PostProcessSettings := ThumbnailSettings.Member EMember.PostProcessingSettings },
    Framed.2)

/-- An example of the engine arithmetic for actors and cameras that are not rotated: every
rotation is the identity, `TransformPosition` translates, and `SinCos` is a four-digit table for
the two half angles used in the examples (22.5 and 45 degrees). `ToFloat` rounds the numbers
from 0.1 up to `13421773 / 2^27`, the `float` nearest to 0.1, to that `float`; the other numbers
converted in the examples are `float` values and are left unchanged. -/
def ExampleEngineMath : FEngineMath :=
  { SinCos := fun AngleDeg =>
      if AngleDeg = 45 then (7071 / 10000, 7071 / 10000)
      else if AngleDeg = 45 / 2 then (3827 / 10000, 9239 / 10000)
      else (0, 1)
    Quaternion := fun _ => ⟨0, 0, 0, 1⟩
    QuatMul := fun _ _ => ⟨0, 0, 0, 1⟩
    RotateVector := fun _ V => V
    UnrotateVector := fun _ V => V
    Rotator := fun _ => FRotator.ZeroRotator
    TransformPosition := fun Transform V => V + Transform.Translation
    ToFloat := fun Value =>
      if 1 / 10 ≤ Value ∧ Value ≤ 13421773 / 134217728 then 13421773 / 134217728 else Value }

/-- An example default-constructed `FMinimalViewInfo`: camera at the origin, 90 degrees field of
view and an ortho width of 512. -/
def ExampleDefaultView : FMinimalViewInfo :=
  { Location := FVector.ZeroVector
    Rotation := FRotator.ZeroRotator
    FOV := 90
    OrthoWidth := 512
    ProjectionMode := ECameraProjectionMode.Perspective
    PostProcessBlendWeight := 0
    PostProcessSettings := ExamplePostProcessDefault }

/-- The corners of the cube with half-extent `e` centred at the origin, in the corner order of
`BoundsVertices`. -/
def CubeCorners (e : ℚ) : FBoundsVertices :=
  [⟨-e, -e, -e⟩, ⟨-e, e, -e⟩, ⟨e, e, -e⟩, ⟨e, -e, -e⟩,
   ⟨-e, -e, e⟩, ⟨-e, e, e⟩, ⟨e, e, e⟩, ⟨e, -e, e⟩]

/-- Default-constructed settings with `CameraFOV = 90` and `CameraFitMode = EFit`. -/
def ExampleFitSettings : FThumbnailSettings :=
  ((FThumbnailSettings.ctor ExamplePostProcessDefault).SetMember EMember.CameraFOV 90).SetMember
    EMember.CameraFitMode EThumbnailCameraFitMode.EFit

/-- Default-constructed settings (perspective projection, field of view 45 degrees, fit mode
`EFit`, `CameraDistanceOffset = -20`) with a zero `CameraOrbitRotation`, with only
`bOverride_CustomOrthoWidth` set and `CustomOrthoWidth = 100`. -/
def ExampleCustomOrthoWidthSettings : FThumbnailSettings :=
  (((FThumbnailSettings.ctor ExamplePostProcessDefault).SetMember EMember.CameraOrbitRotation
    FRotator.ZeroRotator).SetOverride
    EOverride.bOverride_CustomOrthoWidth true).SetMember EMember.CustomOrthoWidth 100

/-- Eight corners of a box that lies to the right of the camera axis: right coordinates 5 and 7,
up coordinates -1 and 1. -/
def ExampleOffCentreCorners : FBoundsVertices :=
  [⟨-1, 5, -1⟩, ⟨-1, 7, -1⟩, ⟨1, 7, -1⟩, ⟨1, 5, -1⟩,
   ⟨-1, 5, 1⟩, ⟨-1, 7, 1⟩, ⟨1, 7, 1⟩, ⟨1, 5, 1⟩]

/-! ## Texture buffer allocation (line 205) -/

/-- Line 205 of `FillTextureDataFromRenderTarget`: `BlockSize`, the bytes per pixel of the
texture buffer allocated at line 209 (`sizeof(FColor)` is 4, `sizeof(FFloat16Color)` is 8). -/
def BlockSize (PixelFormat : EPixelFormat) : Int :=
  if PixelFormat = EPixelFormat.PF_B8G8R8A8 then 4 else 8

/-! ## Floor snap, render-target key, task queue and call sequences -/

/-- Lines 890-906 of `CaptureThumbnail`: the block `if (ThumbnailSettings.bSnapToFloor)`. The
result is the actor location after the block and the corners after the block. -/
def FloorSnap (M : FEngineMath) (ThumbnailSettings : FThumbnailSettings)
    (ActorLocaton : FVector) (Vertices : FBoundsVertices) : FVector × FBoundsVertices :=
  if ThumbnailSettings.Member EMember.bSnapToFloor = true then
    SnapToFloor M ActorLocaton Vertices
  else (ActorLocaton, Vertices)

/-- Lines 651-654 of `FinishGenerateActorThumbnail`: the cache key `RenderTargetInfo`. -/
def RenderTargetInfo (ThumbnailSettings : FThumbnailSettings) : FHashableRenderTargetInfo :=
  let RenderTargetWidth := ToUInt16 (ThumbnailSettings.Member EMember.ThumbnailTextureWidth)
  let RenderTargetHeight := ToUInt16 (ThumbnailSettings.Member EMember.ThumbnailTextureHeight)
  let RenderBitDepth := ThumbnailSettings.Member EMember.ThumbnailBitDepth
  ⟨RenderTargetWidth, RenderTargetHeight, RenderBitDepth⟩

/-- Lines 658-664 of `FinishGenerateActorThumbnail`: the render target created on a cache
miss. -/
def CreateRenderTargetOnMiss (E : FEngine) (ThumbnailSettings : FThumbnailSettings) :
    Option UTextureRenderTarget2D × FEngine :=
  CreateTextureTarget E ((RenderTargetInfo ThumbnailSettings).Width : Int)
    ((RenderTargetInfo ThumbnailSettings).Height : Int)
    (if (RenderTargetInfo ThumbnailSettings).BitDepth = EThumbnailBitDepth.E8 then
      ETextureRenderTargetFormat.RTF_RGBA8_SRGB
    else ETextureRenderTargetFormat.RTF_RGBA16f)

/-- `ThumbnailGenerator::FThumbnailGeneratorTaskQueue` (lines 291-318): the array `TaskQueue`,
in the order in which the tasks were added. -/
structure FThumbnailGeneratorTaskQueue (Task : Type) where
  TaskQueue : List Task

/-- `TaskQueue.Add(Task)` (engine `TArray::Add`): the task is appended at the end of the array;
this is all `UThumbnailGeneration::GenerateThumbnailAsync` (lines 1346-1360) does when it is
called. -/
def FThumbnailGeneratorTaskQueue.Add {Task : Type} (Queue : FThumbnailGeneratorTaskQueue Task)
    (NewTask : Task) : FThumbnailGeneratorTaskQueue Task :=
  ⟨Queue.TaskQueue ++ [NewTask]⟩

/-- Engine `TArray::Pop`: removes the last element of the array and returns it. -/
def TArrayPop {Task : Type} (Array : List Task) : Option (Task × List Task) :=
  match Array.getLast? with
  | some Element => some (Element, Array.dropLast)
  | none => none

/-- `FThumbnailGeneratorTaskQueue::Tick` (lines 295-302). `Invoke` is the call `Element()`: what
running a task does to the queue (a task may add tasks) and to the rest of the program state
`World`. -/
def FThumbnailGeneratorTaskQueue.Tick {Task World : Type}
    (Invoke : Task → FThumbnailGeneratorTaskQueue Task × World →
      FThumbnailGeneratorTaskQueue Task × World)
    (State : FThumbnailGeneratorTaskQueue Task × World) :
    FThumbnailGeneratorTaskQueue Task × World :=
  if State.1.TaskQueue.length > 0 then
    match TArrayPop State.1.TaskQueue with
    | some (Element, Rest) => Invoke Element (⟨Rest⟩, State.2)
    | none => State
  else State

/-- One step of a program that uses the generator: a call of `BeginGenerateActorThumbnail`,
`FinishGenerateActorThumbnail` or `InvalidateThumbnailWorld` with its arguments, or any change
of the engine state between two such calls. -/
inductive ESessionCall where
  | Begin (ActorClass : TSubclassOf) (ThumbnailSettings : FThumbnailSettings)
      (Properties : List (String × String)) (bFinishSpawningActor : Bool)
  | Finish (Actor : Option AActor) (ThumbnailSettings : FThumbnailSettings)
      (ResourceObject : Option UTexture2D) (bFinishSpawningActor : Bool)
  | Invalidate
  | Engine (Change : FEngine → FEngine)

/-- The generator and engine state after one step; `none` when the call does not return. -/
def RunSessionCall (H : FHost) (Call : ESessionCall)
    (State : FThumbnailGenerator × FEngine) : Option (FThumbnailGenerator × FEngine) :=
  match Call with
  | ESessionCall.Begin ActorClass ThumbnailSettings Properties bFinishSpawningActor =>
    (State.1.BeginGenerateActorThumbnail H State.2 ActorClass ThumbnailSettings Properties
      bFinishSpawningActor).map (fun Result => Result.2)
  | ESessionCall.Finish Actor ThumbnailSettings ResourceObject bFinishSpawningActor =>
    (State.1.FinishGenerateActorThumbnail H State.2 Actor ThumbnailSettings ResourceObject
      bFinishSpawningActor).map (fun Result => Result.2)
  | ESessionCall.Invalidate => some (State.1.InvalidateThumbnailWorld H State.2)
  | ESessionCall.Engine Change => some (State.1, Change State.2)

/-- The state after a sequence of steps; `none` when one of the calls does not return. -/
def RunSessionCalls (H : FHost) :
    List ESessionCall → FThumbnailGenerator × FEngine → Option (FThumbnailGenerator × FEngine)
  | [], State => some State
  | Call :: Rest, State =>
    match RunSessionCall H Call State with
    | some Next => RunSessionCalls H Rest Next
    | none => none

/-- Default-constructed settings with a field of view of 0 degrees, for which the frustum edges
are parallel (the half angle has sine 0 and cosine 1). -/
def ExampleZeroFOVSettings : FThumbnailSettings :=
  (FThumbnailSettings.ctor ExamplePostProcessDefault).SetMember EMember.CameraFOV 0

/-- Eight camera-space corners that all lie behind the origin: forward coordinates -6 and -4,
right and up coordinates -1 and 1. -/
def ExampleBehindCorners : FBoundsVertices :=
  [⟨-6, -1, -1⟩, ⟨-6, 1, -1⟩, ⟨-4, 1, -1⟩, ⟨-4, -1, -1⟩,
   ⟨-6, -1, 1⟩, ⟨-6, 1, 1⟩, ⟨-4, 1, 1⟩, ⟨-4, -1, 1⟩]

/-- Eight world-space corners of a box standing on the height 0.1: heights 0.1 and 1.1. -/
def ExampleTenthCorners : FBoundsVertices :=
  [⟨-1, -1, 1 / 10⟩, ⟨-1, 1, 1 / 10⟩, ⟨1, 1, 1 / 10⟩, ⟨1, -1, 1 / 10⟩,
   ⟨-1, -1, 11 / 10⟩, ⟨-1, 1, 11 / 10⟩, ⟨1, 1, 11 / 10⟩, ⟨1, -1, 11 / 10⟩]

/-- The settings of `ExampleNoSimulationSettings` with `ThumbnailTextureWidth = 65536`. -/
def ExampleWideSettings : FThumbnailSettings :=
  ExampleNoSimulationSettings.SetMember EMember.ThumbnailTextureWidth (65536 : Int)

/-- An example engine state with two valid scripts, of the classes `ScriptA` and `ScriptB`. -/
def ExampleScriptEngine : FEngine :=
  { ExampleEngine with
    Classes := ["Actor", "ScriptA", "ScriptB"]
    Scripts := [⟨4, "ScriptA"⟩, ⟨5, "ScriptB"⟩] }

/-- The example spawning host, except that every actor implements the thumbnail-actor interface
and the actor's `PreCaptureActorThumbnail` hook destroys the actor. -/
def ExampleDestroyingHost : FHost :=
  { ExampleSpawningHost with
    Run := fun Call E =>
      match Call with
      | ECall.PreCaptureActorThumbnail Actor => Actor.Destroy E
      | Other => ExampleSpawningHost.Run Other E
    ImplementsThumbnailActorInterface := fun _ => true }

/-- `UThumbnailGeneration::K2_FinalizeThumbnailSettings` (lines 1417-1420). `PostProcessDefault`
is the engine's `FPostProcessSettings()`. -/
def K2_FinalizeThumbnailSettings (PostProcessDefault : FPostProcessSettings) (E : FEngine)
    (ThumbnailSettings : FThumbnailSettings) : FThumbnailSettings :=
  FThumbnailSettings.MergeThumbnailSettings PostProcessDefault
    E.GeneratorSettings.DefaultThumbnailSettings ThumbnailSettings

/-- `UThumbnailGeneration::GenerateThumbnail` (lines 1339-1344) on the generator `G`. -/
def GenerateThumbnail (PostProcessDefault : FPostProcessSettings) (H : FHost)
    (G : FThumbnailGenerator) (E : FEngine) (ActorClass : TSubclassOf)
    (ThumbnailSettings : FThumbnailSettings) (ResourceObject : Option UTexture2D)
    (Properties : List (String × String)) :
    Option (Option UTexture2D × FThumbnailGenerator × FEngine) :=
  let MergedThumbnailSettings :=
    FThumbnailSettings.MergeThumbnailSettings PostProcessDefault
      E.GeneratorSettings.DefaultThumbnailSettings ThumbnailSettings
  G.GenerateActorThumbnail H E ActorClass MergedThumbnailSettings ResourceObject Properties

/-! ## Theorems: settings merge -/

set_option maxRecDepth 100000 in
theorem OverrideAndPropertyMemberValueAddr_eq :
    OverrideAndPropertyMemberValueAddr = ExpectedPropertyMemberAddr := by
  decide

theorem FThumbnailSettings.eq_iff (A B : FThumbnailSettings) :
    A = B ↔ (∀ b, A.Override b = B.Override b) ∧ (∀ m, A.Member m = B.Member m) := by
  constructor
  · rintro rfl; exact ⟨fun _ => rfl, fun _ => rfl⟩
  · rintro ⟨h1, h2⟩
    cases A; cases B
    simp only [FThumbnailSettings.mk.injEq]
    exact ⟨funext h1, funext h2⟩

theorem SetOverride_Override (S : FThumbnailSettings) (b c : EOverride) (v : Bool) :
    (S.SetOverride b v).Override c = if c = b then v else S.Override c := by
  unfold FThumbnailSettings.SetOverride
  by_cases h : c = b
  · subst h; simp
  · simp [Function.update_noteq h, h]

theorem SetOverride_Member (S : FThumbnailSettings) (b : EOverride) (v : Bool) (m : EMember) :
    (S.SetOverride b v).Member m = S.Member m := rfl

theorem SetMember_Override (S : FThumbnailSettings) (m : EMember) (v : m.ValueType)
    (b : EOverride) : (S.SetMember m v).Override b = S.Override b := rfl

theorem SetMember_Member_same (S : FThumbnailSettings) (m : EMember) (v : m.ValueType) :
    (S.SetMember m v).Member m = v := by
  simp [FThumbnailSettings.SetMember]

theorem SetMember_Member_other (S : FThumbnailSettings) (m n : EMember) (v : m.ValueType)
    (h : n ≠ m) : (S.SetMember m v).Member n = S.Member n := by
  simp [FThumbnailSettings.SetMember, Function.update_noteq h]

theorem MergeProperty_Override (D O Out : FThumbnailSettings) (It : FPropertyMemberAddr)
    (b : EOverride) :
    (MergeProperty D O Out It).Override b =
      if b = It.OverrideBoolProperty then
        (O.Override b || D.Override b || Out.Override b)
      else Out.Override b := by
  unfold MergeProperty FThumbnailSettings.CopyCompleteValue
  by_cases hb : b = It.OverrideBoolProperty
  · subst hb
    by_cases hO : O.Override It.OverrideBoolProperty = true
    · simp [hO, SetMember_Override, SetOverride_Override]
    · by_cases hD : D.Override It.OverrideBoolProperty = true
      · simp [hO, hD, SetMember_Override, SetOverride_Override]
      · simp [hO, hD]
  · by_cases hO : O.Override It.OverrideBoolProperty = true
    · simp [hO, hb, SetMember_Override, SetOverride_Override]
    · by_cases hD : D.Override It.OverrideBoolProperty = true
      · simp [hO, hD, hb, SetMember_Override, SetOverride_Override]
      · simp [hO, hD, hb]

theorem MergeProperty_Member_other (D O Out : FThumbnailSettings) (It : FPropertyMemberAddr)
    (m : EMember) (h : m ≠ It.Property) :
    (MergeProperty D O Out It).Member m = Out.Member m := by
  unfold MergeProperty FThumbnailSettings.CopyCompleteValue
  split_ifs <;> simp [SetMember_Member_other _ _ _ _ h, SetOverride_Member]

theorem MergeProperty_Member_same (D O Out : FThumbnailSettings) (It : FPropertyMemberAddr) :
    (MergeProperty D O Out It).Member It.Property =
      if O.Override It.OverrideBoolProperty then O.Member It.Property
      else if D.Override It.OverrideBoolProperty then D.Member It.Property
      else Out.Member It.Property := by
  unfold MergeProperty FThumbnailSettings.CopyCompleteValue
  split_ifs <;> simp [SetMember_Member_same]

theorem foldl_MergeProperty_Override_notMem (D O : FThumbnailSettings)
    (T : List FPropertyMemberAddr) (Out : FThumbnailSettings) (b : EOverride)
    (h : b ∉ T.map FPropertyMemberAddr.OverrideBoolProperty) :
    (T.foldl (MergeProperty D O) Out).Override b = Out.Override b := by
  induction T generalizing Out with
  | nil => rfl
  | cons hd tl ih =>
    simp only [List.map_cons, List.mem_cons, not_or] at h
    rw [List.foldl_cons, ih _ h.2, MergeProperty_Override, if_neg h.1]

theorem foldl_MergeProperty_Member_notMem (D O : FThumbnailSettings)
    (T : List FPropertyMemberAddr) (Out : FThumbnailSettings) (m : EMember)
    (h : m ∉ T.map FPropertyMemberAddr.Property) :
    (T.foldl (MergeProperty D O) Out).Member m = Out.Member m := by
  induction T generalizing Out with
  | nil => rfl
  | cons hd tl ih =>
    simp only [List.map_cons, List.mem_cons, not_or] at h
    rw [List.foldl_cons, ih _ h.2, MergeProperty_Member_other _ _ _ _ _ h.1]

theorem foldl_MergeProperty_Override_mem (D O : FThumbnailSettings)
    (T : List FPropertyMemberAddr) (Out : FThumbnailSettings) (It : FPropertyMemberAddr)
    (hnd : (T.map FPropertyMemberAddr.OverrideBoolProperty).Nodup) (hIt : It ∈ T) :
    (T.foldl (MergeProperty D O) Out).Override It.OverrideBoolProperty =
      (O.Override It.OverrideBoolProperty || D.Override It.OverrideBoolProperty
        || Out.Override It.OverrideBoolProperty) := by
  induction T generalizing Out with
  | nil => cases hIt
  | cons hd tl ih =>
    simp only [List.map_cons, List.nodup_cons] at hnd
    rw [List.foldl_cons]
    rcases List.mem_cons.mp hIt with rfl | hmem
    · rw [foldl_MergeProperty_Override_notMem _ _ _ _ _ hnd.1, MergeProperty_Override, if_pos rfl]
    · have hne : It.OverrideBoolProperty ≠ hd.OverrideBoolProperty := by
        intro heq
        exact hnd.1 (heq ▸ List.mem_map_of_mem _ hmem)
      rw [ih _ hnd.2 hmem, MergeProperty_Override, if_neg hne]

theorem foldl_MergeProperty_Member_mem (D O : FThumbnailSettings)
    (T : List FPropertyMemberAddr) (Out : FThumbnailSettings) (It : FPropertyMemberAddr)
    (hnd : (T.map FPropertyMemberAddr.Property).Nodup) (hIt : It ∈ T) :
    (T.foldl (MergeProperty D O) Out).Member It.Property =
      if O.Override It.OverrideBoolProperty then O.Member It.Property
      else if D.Override It.OverrideBoolProperty then D.Member It.Property
      else Out.Member It.Property := by
  induction T generalizing Out with
  | nil => cases hIt
  | cons hd tl ih =>
    simp only [List.map_cons, List.nodup_cons] at hnd
    rw [List.foldl_cons]
    rcases List.mem_cons.mp hIt with rfl | hmem
    · rw [foldl_MergeProperty_Member_notMem _ _ _ _ _ hnd.1, MergeProperty_Member_same]
    · have hne : It.Property ≠ hd.Property := by
        intro heq
        exact hnd.1 (heq ▸ List.mem_map_of_mem _ hmem)
      rw [ih _ hnd.2 hmem, MergeProperty_Member_other _ _ _ _ _ hne]

theorem OverrideAndPropertyMemberValueAddr_nodup_Override :
    (OverrideAndPropertyMemberValueAddr.map FPropertyMemberAddr.OverrideBoolProperty).Nodup := by
  rw [OverrideAndPropertyMemberValueAddr_eq]
  decide

theorem OverrideAndPropertyMemberValueAddr_nodup_Property :
    (OverrideAndPropertyMemberValueAddr.map FPropertyMemberAddr.Property).Nodup := by
  rw [OverrideAndPropertyMemberValueAddr_eq]
  decide

/-- Every `bOverride_` bit occurs in the table. -/
theorem OverrideAndPropertyMemberValueAddr_all_Override (b : EOverride) :
    b ∈ OverrideAndPropertyMemberValueAddr.map FPropertyMemberAddr.OverrideBoolProperty := by
  rw [OverrideAndPropertyMemberValueAddr_eq]
  cases b <;> decide

/-- Every value member occurs in the table. -/
theorem OverrideAndPropertyMemberValueAddr_all_Property (m : EMember) :
    m ∈ OverrideAndPropertyMemberValueAddr.map FPropertyMemberAddr.Property := by
  rw [OverrideAndPropertyMemberValueAddr_eq]
  cases m <;> decide

theorem ctor_Override (PP : FPostProcessSettings) (b : EOverride) :
    (FThumbnailSettings.ctor PP).Override b = false := rfl

theorem ctor_PostProcessingSettings (PP : FPostProcessSettings) :
    (FThumbnailSettings.ctor PP).Member EMember.PostProcessingSettings = PP := rfl

theorem ctor_CameraFOV (PP : FPostProcessSettings) :
    (FThumbnailSettings.ctor PP).Member EMember.CameraFOV = (45 : ℚ) := rfl

theorem MergeThumbnailSettings_Override (PP : FPostProcessSettings) (D O : FThumbnailSettings)
    (b : EOverride) :
    (FThumbnailSettings.MergeThumbnailSettings PP D O).Override b
      = (O.Override b || D.Override b) := by
  obtain ⟨It, hIt, rfl⟩ := List.mem_map.mp (OverrideAndPropertyMemberValueAddr_all_Override b)
  unfold FThumbnailSettings.MergeThumbnailSettings
  simp only [SetMember_Override]
  rw [foldl_MergeProperty_Override_mem _ _ _ _ _
    OverrideAndPropertyMemberValueAddr_nodup_Override hIt, ctor_Override, Bool.or_false]

theorem MergeThumbnailSettings_Member (PP : FPostProcessSettings) (D O : FThumbnailSettings)
    (It : FPropertyMemberAddr) (hIt : It ∈ OverrideAndPropertyMemberValueAddr)
    (hne : It.Property ≠ EMember.PostProcessingSettings) :
    (FThumbnailSettings.MergeThumbnailSettings PP D O).Member It.Property =
      if O.Override It.OverrideBoolProperty then O.Member It.Property
      else if D.Override It.OverrideBoolProperty then D.Member It.Property
      else (FThumbnailSettings.ctor PP).Member It.Property := by
  unfold FThumbnailSettings.MergeThumbnailSettings
  simp only []
  rw [SetMember_Member_other _ _ _ _ hne,
    foldl_MergeProperty_Member_mem _ _ _ _ _ OverrideAndPropertyMemberValueAddr_nodup_Property hIt]

theorem PostProcessingSettings_mem :
    (⟨EOverride.bOverride_PostProcessingSettings, EMember.PostProcessingSettings⟩ :
      FPropertyMemberAddr) ∈ OverrideAndPropertyMemberValueAddr := by
  rw [OverrideAndPropertyMemberValueAddr_eq]
  decide

theorem CameraFOV_mem :
    (⟨EOverride.bOverride_CameraFOV, EMember.CameraFOV⟩ : FPropertyMemberAddr)
      ∈ OverrideAndPropertyMemberValueAddr := by
  rw [OverrideAndPropertyMemberValueAddr_eq]
  decide

theorem MergeThumbnailSettings_PostProcessingSettings (PP : FPostProcessSettings)
    (D O : FThumbnailSettings) :
    (FThumbnailSettings.MergeThumbnailSettings PP D O).Member EMember.PostProcessingSettings =
      DisableAutoExposure
        (if O.Override EOverride.bOverride_PostProcessingSettings then
          O.Member EMember.PostProcessingSettings
        else if D.Override EOverride.bOverride_PostProcessingSettings then
          D.Member EMember.PostProcessingSettings
        else PP) := by
  unfold FThumbnailSettings.MergeThumbnailSettings
  simp only []
  rw [SetMember_Member_same]
  have h := foldl_MergeProperty_Member_mem D O OverrideAndPropertyMemberValueAddr
    (FThumbnailSettings.ctor PP) _ OverrideAndPropertyMemberValueAddr_nodup_Property
    PostProcessingSettings_mem
  simp only [] at h
  rw [h]
  rfl

/-- C1 (as stated) fails: with `bOverride_PostProcessingSettings` set in the override, the merged
`PostProcessingSettings` is not the override's value, because auto exposure is pinned after the
merge loop. -/
theorem C1_counterexample :
    (⟨EOverride.bOverride_PostProcessingSettings, EMember.PostProcessingSettings⟩ :
      FPropertyMemberAddr) ∈ OverrideAndPropertyMemberValueAddr
    ∧ ExamplePostProcessOverride.Override EOverride.bOverride_PostProcessingSettings = true
    ∧ (FThumbnailSettings.MergeThumbnailSettings ExamplePostProcessDefault
          (FThumbnailSettings.ctor ExamplePostProcessDefault)
          ExamplePostProcessOverride).Member EMember.PostProcessingSettings
        ≠ ExamplePostProcessOverride.Member EMember.PostProcessingSettings := by
  refine ⟨PostProcessingSettings_mem, ?_, ?_⟩
  · simp [ExamplePostProcessOverride, SetOverride_Override]
  · rw [MergeThumbnailSettings_PostProcessingSettings]
    simp only [ExamplePostProcessOverride, SetOverride_Override, SetOverride_Member,
      ctor_PostProcessingSettings, DisableAutoExposure, ExamplePostProcessDefault, if_true]
    decide

/-- C1 (amended): for every table entry, i.e. every value member paired with a `bOverride_` bit,
the merged bit is set exactly when the override's or the default's bit is set; for every paired
member other than `PostProcessingSettings` the merged value is the override's if its bit is set,
else the default's if its bit is set, else the constructor's; and the merged
`PostProcessingSettings` is the value chosen by the same rule with auto exposure pinned. -/
theorem C1_merge_precedence (PP : FPostProcessSettings) (D O : FThumbnailSettings)
    (It : FPropertyMemberAddr) (hIt : It ∈ OverrideAndPropertyMemberValueAddr) :
    (FThumbnailSettings.MergeThumbnailSettings PP D O).Override It.OverrideBoolProperty
        = (O.Override It.OverrideBoolProperty || D.Override It.OverrideBoolProperty)
    ∧ (It.Property ≠ EMember.PostProcessingSettings →
        (FThumbnailSettings.MergeThumbnailSettings PP D O).Member It.Property =
          if O.Override It.OverrideBoolProperty then O.Member It.Property
          else if D.Override It.OverrideBoolProperty then D.Member It.Property
          else (FThumbnailSettings.ctor PP).Member It.Property)
    ∧ (FThumbnailSettings.MergeThumbnailSettings PP D O).Member EMember.PostProcessingSettings =
        DisableAutoExposure
          (if O.Override EOverride.bOverride_PostProcessingSettings then
            O.Member EMember.PostProcessingSettings
          else if D.Override EOverride.bOverride_PostProcessingSettings then
            D.Member EMember.PostProcessingSettings
          else (FThumbnailSettings.ctor PP).Member EMember.PostProcessingSettings) :=
  ⟨MergeThumbnailSettings_Override PP D O _,
   MergeThumbnailSettings_Member PP D O It hIt,
   MergeThumbnailSettings_PostProcessingSettings PP D O⟩

/-- C1 (amended), instance: merging the default-constructed settings with a request that sets
`bOverride_CameraFOV` and `CameraFOV = 90` yields the bit set and the value 90. -/
theorem C1_merge_precedence_witness :
    (⟨EOverride.bOverride_CameraFOV, EMember.CameraFOV⟩ : FPropertyMemberAddr)
      ∈ OverrideAndPropertyMemberValueAddr
    ∧ (FThumbnailSettings.MergeThumbnailSettings ExamplePostProcessDefault
        (FThumbnailSettings.ctor ExamplePostProcessDefault) ExampleFlaggedFOV).Override
          EOverride.bOverride_CameraFOV = true
    ∧ (FThumbnailSettings.MergeThumbnailSettings ExamplePostProcessDefault
        (FThumbnailSettings.ctor ExamplePostProcessDefault) ExampleFlaggedFOV).Member
          EMember.CameraFOV = (90 : ℚ) := by
  have h := C1_merge_precedence ExamplePostProcessDefault
    (FThumbnailSettings.ctor ExamplePostProcessDefault) ExampleFlaggedFOV
    ⟨EOverride.bOverride_CameraFOV, EMember.CameraFOV⟩ CameraFOV_mem
  refine ⟨CameraFOV_mem, ?_, ?_⟩
  · rw [h.1]
    simp [ExampleFlaggedFOV, SetMember_Override, SetOverride_Override]
  · rw [h.2.1 (by decide)]
    simp [ExampleFlaggedFOV, SetMember_Override, SetOverride_Override, SetMember_Member_same]

/-- C2 (as stated) fails: (1) a member whose bit is clear but whose value differs from the
constructor default is reset by the merge (`CameraFOV = 90` unflagged comes back as 45);
(2) even the default-constructed settings are changed, because auto exposure is pinned. -/
theorem C2_counterexample :
    FThumbnailSettings.MergeThumbnailSettings ExamplePostProcessDefault ExampleUnflaggedFOV
        ExampleUnflaggedFOV ≠ ExampleUnflaggedFOV
    ∧ FThumbnailSettings.MergeThumbnailSettings ExamplePostProcessDefault
        (FThumbnailSettings.ctor ExamplePostProcessDefault)
        (FThumbnailSettings.ctor ExamplePostProcessDefault)
      ≠ FThumbnailSettings.ctor ExamplePostProcessDefault := by
  constructor
  · intro h
    have h2 := congrArg (fun S => S.Member EMember.CameraFOV) h
    simp only [] at h2
    rw [MergeThumbnailSettings_Member _ _ _ ⟨EOverride.bOverride_CameraFOV, EMember.CameraFOV⟩
      CameraFOV_mem (by decide)] at h2
    simp only [ExampleUnflaggedFOV, SetMember_Override, ctor_Override, SetMember_Member_same,
      ctor_CameraFOV] at h2
    norm_num at h2
  · intro h
    have h2 := congrArg (fun S => S.Member EMember.PostProcessingSettings) h
    simp only [] at h2
    rw [MergeThumbnailSettings_PostProcessingSettings] at h2
    simp only [ctor_Override, ctor_PostProcessingSettings, DisableAutoExposure,
      ExamplePostProcessDefault] at h2
    revert h2
    decide

/-- C2 (amended): `MergeThumbnailSettings(S, S) = S` holds exactly for the settings `S` in which
every paired member other than `PostProcessingSettings` whose bit is clear holds the constructor
default, and `PostProcessingSettings` equals the value chosen by the merge (its own if its bit is
set, else the constructor's) with auto exposure pinned. -/
theorem C2_merge_self_iff (PP : FPostProcessSettings) (S : FThumbnailSettings) :
    FThumbnailSettings.MergeThumbnailSettings PP S S = S ↔
      (∀ It ∈ OverrideAndPropertyMemberValueAddr,
          It.Property ≠ EMember.PostProcessingSettings →
          S.Override It.OverrideBoolProperty = false →
          S.Member It.Property = (FThumbnailSettings.ctor PP).Member It.Property)
      ∧ S.Member EMember.PostProcessingSettings =
          DisableAutoExposure
            (if S.Override EOverride.bOverride_PostProcessingSettings then
              S.Member EMember.PostProcessingSettings
            else PP) := by
  constructor
  · intro h
    constructor
    · intro It hIt hne hclear
      have h2 := congrArg (fun T => T.Member It.Property) h
      simp only [] at h2
      rw [MergeThumbnailSettings_Member _ _ _ It hIt hne] at h2
      simp only [hclear, Bool.false_eq_true, if_false] at h2
      exact h2.symm
    · have h2 := congrArg (fun T => T.Member EMember.PostProcessingSettings) h
      simp only [] at h2
      rw [MergeThumbnailSettings_PostProcessingSettings] at h2
      rw [← h2]
      split_ifs <;> rfl
  · rintro ⟨h1, h2⟩
    rw [FThumbnailSettings.eq_iff]
    constructor
    · intro b
      rw [MergeThumbnailSettings_Override, Bool.or_self]
    · intro m
      by_cases hm : m = EMember.PostProcessingSettings
      · subst hm
        rw [MergeThumbnailSettings_PostProcessingSettings]
        conv_rhs => rw [h2]
        split_ifs <;> rfl
      · obtain ⟨It, hIt, rfl⟩ :=
          List.mem_map.mp (OverrideAndPropertyMemberValueAddr_all_Property m)
        rw [MergeThumbnailSettings_Member _ _ _ It hIt hm]
        by_cases hb : S.Override It.OverrideBoolProperty = true
        · simp [hb]
        · have hb2 : S.Override It.OverrideBoolProperty = false := by simpa using hb
          simp only [hb2, Bool.false_eq_true, if_false]
          exact (h1 It hIt hm hb2).symm

/-- C3: for every default and override settings, the merged post-processing settings have
`AutoExposureMinBrightness = 1` and `AutoExposureMaxBrightness = 1` with both of their override
bits set. -/
theorem C3_auto_exposure_pinned (PP : FPostProcessSettings) (D O : FThumbnailSettings) :
    (FThumbnailSettings.MergeThumbnailSettings PP D O).PostProcessingSettings.AutoExposureMinBrightness
        = 1
    ∧ (FThumbnailSettings.MergeThumbnailSettings PP D O).PostProcessingSettings.AutoExposureMaxBrightness
        = 1
    ∧ (FThumbnailSettings.MergeThumbnailSettings PP D
        O).PostProcessingSettings.bOverride_AutoExposureMinBrightness = true
    ∧ (FThumbnailSettings.MergeThumbnailSettings PP D
        O).PostProcessingSettings.bOverride_AutoExposureMaxBrightness = true := by
  unfold FThumbnailSettings.PostProcessingSettings
  rw [MergeThumbnailSettings_PostProcessingSettings]
  exact ⟨rfl, rfl, rfl, rfl⟩


/-! ## Theorems: cache key and alpha blending -/

theorem land_fffffffe (H : Nat) (h : H < 2 ^ 32) : H &&& 0xfffffffe = 2 * (H / 2) := by
  have h1 : (0xfffffffe : Nat) = Nat.bit false (2 ^ 31 - 1) := by
    rw [Nat.bit_val]; norm_num
  have h2 : H &&& 0xfffffffe = Nat.bit (H.bodd && false) (H.div2 &&& (2 ^ 31 - 1)) := by
    conv_lhs => rw [← Nat.bit_decomp H, h1]
    exact Nat.land_bit _ _ _ _
  rw [h2, Nat.and_pow_two_sub_one_eq_mod, Nat.bit_val, Nat.div2_val]
  simp only [Bool.and_false, Bool.toNat_false, add_zero]
  have : H / 2 < 2 ^ 31 := by omega
  rw [Nat.mod_eq_of_lt this]

/-- The value of `GetTypeHash` on a key with `uint16` width and height: the width in the upper
16 bits, the height without its lowest bit, and the bit-depth bit. -/
theorem GetTypeHash_eq (O : FHashableRenderTargetInfo) (hW : O.Width < 65536)
    (hH : O.Height < 65536) :
    GetTypeHash O = 65536 * O.Width + 2 * (O.Height / 2)
      + (if O.BitDepth = EThumbnailBitDepth.E8 then 0 else 1) := by
  unfold GetTypeHash
  have e1 : O.Width % 2 ^ 32 = O.Width := Nat.mod_eq_of_lt (by omega)
  have e2 : O.Height % 2 ^ 32 = O.Height := Nat.mod_eq_of_lt (by omega)
  have e3 : (O.Width <<< 16) % 2 ^ 32 = 2 ^ 16 * O.Width := by
    rw [Nat.shiftLeft_eq, Nat.mod_eq_of_lt (by omega), Nat.mul_comm]
  rw [e1, e2, e3, land_fffffffe _ (by omega)]
  have hb : 2 * (O.Height / 2) < 2 ^ 16 := by omega
  rw [← Nat.mul_add_lt_is_or hb]
  have hd : (if O.BitDepth = EThumbnailBitDepth.E8 then 0 else 1) < 2 ^ 1 := by
    split_ifs <;> norm_num
  have e4 : 2 ^ 16 * O.Width + 2 * (O.Height / 2)
      = 2 ^ 1 * (2 ^ 15 * O.Width + O.Height / 2) := by ring
  rw [e4, ← Nat.mul_add_lt_is_or hd]
  ring

/-- What `operator==` decides on keys with `uint16` width and height: equal widths, equal bit
depths, and heights that agree up to their lowest bit. -/
theorem FHashableRenderTargetInfo.Equals_iff (A B : FHashableRenderTargetInfo)
    (hAW : A.Width < 65536) (hAH : A.Height < 65536) (hBW : B.Width < 65536)
    (hBH : B.Height < 65536) :
    A.Equals B = true ↔
      A.Width = B.Width ∧ A.Height / 2 = B.Height / 2 ∧ A.BitDepth = B.BitDepth := by
  unfold FHashableRenderTargetInfo.Equals
  rw [beq_iff_eq, GetTypeHash_eq A hAW hAH, GetTypeHash_eq B hBW hBH]
  rcases A with ⟨aw, ah, ad⟩
  rcases B with ⟨bw, bh, bd⟩
  dsimp only at hAW hAH hBW hBH ⊢
  cases ad <;> cases bd <;> simp <;> omega

/-- C8, evaluation of the code at the failing input: the keys 512x512 and 512x513 (both 8-bit)
have different heights but compare equal, because `GetTypeHash` masks the lowest bit of the
height instead of shifting the height past the bit-depth bit. -/
theorem C8_key_collision :
    FHashableRenderTargetInfo.Equals ⟨512, 512, EThumbnailBitDepth.E8⟩
        ⟨512, 513, EThumbnailBitDepth.E8⟩ = true
    ∧ GetTypeHash ⟨512, 512, EThumbnailBitDepth.E8⟩ = 33554944
    ∧ GetTypeHash ⟨512, 513, EThumbnailBitDepth.E8⟩ = 33554944 := by
  decide

/-- A `for` loop over the indices `0 .. n-1` whose body rewrites only the element at its own
index: afterwards the elements below `n` are rewritten and the rest, like the length, are
unchanged. -/
theorem foldl_range_pointwise {α : Type} (g : Nat → α → α) (step : List α → Nat → List α)
    (hlen : ∀ Surf i, (step Surf i).length = Surf.length)
    (hget : ∀ (Surf : List α) (i j : Nat), (step Surf i)[j]? = if j = i then (Surf[i]?).map (g i) else Surf[j]?)
    (S : List α) (n : Nat) :
    ((List.range n).foldl step S).length = S.length
    ∧ ∀ j : Nat, ((List.range n).foldl step S)[j]? = if j < n then (S[j]?).map (g j) else S[j]? := by
  induction n with
  | zero => simp
  | succ n ih =>
    rw [List.range_succ, List.foldl_append]
    simp only [List.foldl_cons, List.foldl_nil]
    refine ⟨by rw [hlen, ih.1], fun j => ?_⟩
    rw [hget]
    by_cases hj : j = n
    · subst hj
      rw [if_pos rfl, ih.2 j, if_neg (lt_irrefl j), if_pos (Nat.lt_succ_self j)]
    · rw [if_neg hj, ih.2 j]
      by_cases hlt : j < n
      · rw [if_pos hlt, if_pos (Nat.lt_succ_of_lt hlt)]
      · rw [if_neg hlt, if_neg (by omega)]

/-- Effect of `MixAlphaLoop` on each pixel. -/
theorem MixAlphaLoop_spec (AlphaOverride : List uint8) (Mode : EThumbnailAlphaBlendMode)
    (SurfData : List FColor) :
    (MixAlphaLoop AlphaOverride Mode SurfData).length = SurfData.length
    ∧ ∀ j : Nat, (MixAlphaLoop AlphaOverride Mode SurfData)[j]? =
        (SurfData[j]?).map (fun (Color : FColor) =>
          match AlphaOverride[j]? with
          | some Alpha => { Color with A := MixAlpha Color.A Alpha Mode }
          | none => Color) := by
  have h := foldl_range_pointwise
    (fun j (Color : FColor) =>
      match AlphaOverride[j]? with
      | some Alpha => { Color with A := MixAlpha Color.A Alpha Mode }
      | none => Color)
    (fun Surf Pixel =>
      match Surf[Pixel]?, AlphaOverride[Pixel]? with
      | some Color, some Alpha => Surf.set Pixel { Color with A := MixAlpha Color.A Alpha Mode }
      | _, _ => Surf)
    (by
      intro Surf i
      dsimp only
      split <;> simp)
    (by
      intro Surf i j
      dsimp only
      by_cases hj : j = i
      · subst hj
        rw [if_pos rfl]
        rcases hS : Surf[j]? with _ | c
        · simp [hS]
        · rcases hA : AlphaOverride[j]? with _ | a
          · simp [hS]
          · have hlt : j < Surf.length := (List.getElem?_eq_some.mp hS).1
            simp [List.getElem?_set, hlt]
      · rw [if_neg hj]
        split
        · rw [List.getElem?_set_ne (Ne.symm hj)]
        · rfl)
    SurfData SurfData.length
  refine ⟨h.1, fun j => ?_⟩
  have hj := h.2 j
  unfold MixAlphaLoop
  rw [hj]
  by_cases hlt : j < SurfData.length
  · rw [if_pos hlt]
  · rw [if_neg hlt, List.getElem?_eq_none (by omega)]
    rfl

/-- Effect of `OpaqueAlphaLoop` on each pixel. -/
theorem OpaqueAlphaLoop_spec (SurfData : List FColor) :
    (OpaqueAlphaLoop SurfData).length = SurfData.length
    ∧ ∀ j : Nat, (OpaqueAlphaLoop SurfData)[j]? =
        (SurfData[j]?).map (fun (Color : FColor) => ({ Color with A := 255 } : FColor)) := by
  have h := foldl_range_pointwise
    (fun _ (Color : FColor) => ({ Color with A := 255 } : FColor))
    (fun Surf Pixel =>
      match Surf[Pixel]? with
      | some Color => Surf.set Pixel { Color with A := 255 }
      | none => Surf)
    (by
      intro Surf i
      dsimp only
      split <;> simp)
    (by
      intro Surf i j
      dsimp only
      by_cases hj : j = i
      · subst hj
        rw [if_pos rfl]
        rcases hS : Surf[j]? with _ | c
        · simp [hS]
        · have hlt : j < Surf.length := (List.getElem?_eq_some.mp hS).1
          simp [List.getElem?_set, hlt]
      · rw [if_neg hj]
        split
        · rw [List.getElem?_set_ne (Ne.symm hj)]
        · rfl)
    SurfData SurfData.length
  refine ⟨h.1, fun j => ?_⟩
  have hj := h.2 j
  unfold OpaqueAlphaLoop
  rw [hj]
  by_cases hlt : j < SurfData.length
  · rw [if_pos hlt]
  · rw [if_neg hlt, List.getElem?_eq_none (by omega)]
    rfl

/-- C9: on `uint8` operands `MixAlpha` returns `A2` for Replace and `A1 + A2`, `A1 * A2`,
`A1 - A2` reduced modulo 256 for Add, Multiply, Subtract; and `FillTextureDataFromRenderTarget`
on an 8-bit target with a non-empty alpha override (of the pixel count, as its `check` demands)
returns the read pixels with each alpha replaced by `MixAlpha(pixel alpha, override alpha at the
same index, mode)`, the colour channels and the pixel count unchanged. -/
theorem C9_mix_alpha_uint8 (A1 A2 : uint8) (TextureDataSize : Int) (SurfData : List FColor)
    (AlphaOverride : List uint8) (Mode : EThumbnailAlphaBlendMode)
    (hne : AlphaOverride ≠ []) (hlen : SurfData.length = AlphaOverride.length)
    (hsize : TextureDataSize = (SurfData.length : Int) * 4) :
    MixAlpha A1 A2 EThumbnailAlphaBlendMode.EReplace = A2
    ∧ (MixAlpha A1 A2 EThumbnailAlphaBlendMode.EAdd).toNat = (A1.toNat + A2.toNat) % 256
    ∧ (MixAlpha A1 A2 EThumbnailAlphaBlendMode.EMultiply).toNat = (A1.toNat * A2.toNat) % 256
    ∧ ((MixAlpha A1 A2 EThumbnailAlphaBlendMode.ESubtract).toNat : Int)
        = ((A1.toNat : Int) - (A2.toNat : Int)) % 256
    ∧ ∃ Out, FillTextureDataFromRenderTarget TextureDataSize SurfData AlphaOverride Mode = some Out
        ∧ Out.length = SurfData.length
        ∧ ∀ (i : Nat) (hS : i < SurfData.length) (hA : i < AlphaOverride.length),
            Out[i]? = some { SurfData[i] with
              A := MixAlpha SurfData[i].A AlphaOverride[i] Mode } := by
  refine ⟨rfl, rfl, rfl, ?_, ?_⟩
  · show ((((A1.toNat : Int) - (A2.toNat : Int)) % 256).toNat : Int) = _
    exact Int.toNat_of_nonneg (Int.emod_nonneg _ (by norm_num))
  · have hpos : AlphaOverride.length > 0 := List.length_pos.mpr hne
    have hspec := MixAlphaLoop_spec AlphaOverride Mode SurfData
    refine ⟨MixAlphaLoop AlphaOverride Mode SurfData, ?_, hspec.1, ?_⟩
    · unfold FillTextureDataFromRenderTarget
      simp only [hpos, hlen, if_true]
      first
        | rw [if_pos hsize]
        | rw [hspec.1, if_pos hsize]
    · intro i hS hA
      rw [hspec.2 i, List.getElem?_eq_getElem hS, List.getElem?_eq_getElem hA]
      rfl

/-- C9, instance: one pixel with alpha 100, override alpha 50, mode Add. -/
theorem C9_mix_alpha_uint8_witness :
    ∃ Out, FillTextureDataFromRenderTarget 4 [⟨1, 2, 3, 100⟩] [50]
        EThumbnailAlphaBlendMode.EAdd = some Out
      ∧ Out.length = 1 :=
  have h := C9_mix_alpha_uint8 100 50 4 [⟨1, 2, 3, 100⟩] [50] EThumbnailAlphaBlendMode.EAdd
    (by decide) rfl rfl
  ⟨h.2.2.2.2.choose, h.2.2.2.2.choose_spec.1, h.2.2.2.2.choose_spec.2.1⟩

/-- C10, evaluation of the code at the claim's input: for the 8-bit alphas 100 and 50,
Replace gives 50, Add 150 and Subtract 50 as claimed, but Multiply gives the raw product
reduced modulo 256, namely 5000 mod 256 = 136, not the 255-normalised product 19 or 20. -/
theorem C10_multiply_raw_product :
    MixAlpha (100 : uint8) 50 EThumbnailAlphaBlendMode.EReplace = 50
    ∧ MixAlpha (100 : uint8) 50 EThumbnailAlphaBlendMode.EAdd = 150
    ∧ MixAlpha (100 : uint8) 50 EThumbnailAlphaBlendMode.ESubtract = 50
    ∧ MixAlpha (100 : uint8) 50 EThumbnailAlphaBlendMode.EMultiply = 136
    ∧ MixAlpha (100 : uint8) 50 EThumbnailAlphaBlendMode.EMultiply ≠ 19
    ∧ MixAlpha (100 : uint8) 50 EThumbnailAlphaBlendMode.EMultiply ≠ 20 := by
  decide


/-! ## Theorems: capture session -/

theorem DestroyActors_eq (L : List AActor) (E : FEngine) :
    DestroyActors L E = { E with Actors := E.Actors.filter (fun a => decide (a ∉ L)) } := by
  induction L generalizing E with
  | nil =>
    cases E
    simp [DestroyActors]
  | cons hd tl ih =>
    have hstep : DestroyActors (hd :: tl) E
        = DestroyActors tl (if hd ∈ E.Actors then hd.Destroy E else E) := by
      simp [DestroyActors]
    rw [hstep, ih]
    by_cases h : hd ∈ E.Actors
    · rw [if_pos h]
      cases E
      simp only [AActor.Destroy, List.filter_filter, FEngine.mk.injEq, and_true, true_and]
      apply List.filter_congr
      intro x _
      simp [Bool.and_comm]
    · rw [if_neg h]
      cases E
      simp only [FEngine.mk.injEq, and_true, true_and]
      apply List.filter_congr
      intro x hx
      have hne : x ≠ hd := fun heq => h (heq ▸ hx)
      simp [hne]

theorem CleanupThumbnailCapture_capturing (G : FThumbnailGenerator) (E : FEngine)
    (World : UWorld) (hflag : G.bIsCapturingThumbnail = true)
    (hW : G.GetThumbnailWorld = some World) :
    G.CleanupThumbnailCapture E =
      some ({ G with ThumbnailSceneActors := [], bIsCapturingThumbnail := false },
        { E with
          Actors :=
            E.Actors.filter (fun a => decide (a.World = World → a ∈ G.ThumbnailSceneActors)) })
        := by
  unfold FThumbnailGenerator.CleanupThumbnailCapture
  rw [if_neg (by simp [hflag]), hW]
  simp only [DestroyActors_eq, FEngine.ActorsOfWorld, Option.some.injEq, Prod.mk.injEq,
    true_and]
  cases E
  simp only [FEngine.mk.injEq, and_true, true_and]
  apply List.filter_congr
  intro x hx
  simp only [List.mem_filter, hx, true_and, decide_eq_true_eq, decide_not, Bool.not_not,
    Bool.decide_and]
  by_cases h1 : x.World = World <;> by_cases h2 : x ∈ G.ThumbnailSceneActors <;> simp [h1, h2]

theorem CleanupThumbnailCapture_idle (G : FThumbnailGenerator) (E : FEngine)
    (hflag : G.bIsCapturingThumbnail = false) :
    G.CleanupThumbnailCapture E = some (G, E) := by
  unfold FThumbnailGenerator.CleanupThumbnailCapture
  rw [if_pos hflag]


/-- C4: `BeginGenerateActorThumbnail` called while a session is open (capturing flag set, the
scene's world present as `check(World != nullptr)` demands) returns no actor and rolls back:
the flag is cleared, the snapshot emptied, the rest of the generator unchanged; no call into the
engine is made (nothing is spawned), and of the engine state only the actor list changes: every
actor of the thumbnail world that is not in the open session's snapshot is destroyed, all other
actors stay. -/
theorem C4_begin_while_capturing (H : FHost) (G : FThumbnailGenerator) (E : FEngine)
    (ActorClass : TSubclassOf) (ThumbnailSettings : FThumbnailSettings)
    (Properties : List (String × String)) (bFinishSpawningActor : Bool) (World : UWorld)
    (hflag : G.bIsCapturingThumbnail = true) (hW : G.GetThumbnailWorld = some World) :
    G.BeginGenerateActorThumbnail H E ActorClass ThumbnailSettings Properties
        bFinishSpawningActor =
      some (none,
        { G with ThumbnailSceneActors := [], bIsCapturingThumbnail := false },
        { E with
          Actors :=
            E.Actors.filter
              (fun a => decide (a.World = World → a ∈ G.ThumbnailSceneActors)) }) := by
  unfold FThumbnailGenerator.BeginGenerateActorThumbnail
  rw [if_pos hflag]
  unfold FThumbnailGenerator.BeginEjectWithError
  rw [CleanupThumbnailCapture_capturing G E World hflag hW]
  rfl

/-- C5: `FinishGenerateActorThumbnail` called on an idle generator returns no texture, leaves
the generator unchanged (idle), makes no call into the engine (no simulation, no capture), and
changes the engine state only by destroying the actor passed in, when that actor is valid. -/
theorem C5_finish_while_idle (H : FHost) (G : FThumbnailGenerator) (E : FEngine)
    (Actor : Option AActor) (ThumbnailSettings : FThumbnailSettings)
    (ResourceObject : Option UTexture2D) (bFinishSpawningActor : Bool)
    (hflag : G.bIsCapturingThumbnail = false) :
    G.FinishGenerateActorThumbnail H E Actor ThumbnailSettings ResourceObject
        bFinishSpawningActor =
      some (none, G,
        { E with Actors := E.Actors.filter (fun Other => decide (some Other ≠ Actor)) }) := by
  unfold FThumbnailGenerator.FinishGenerateActorThumbnail
  rw [if_pos hflag]
  unfold FThumbnailGenerator.FinishEjectWithError
  simp only [CleanupThumbnailCapture_idle _ _ hflag, Option.map_some']
  cases Actor with
  | none =>
    cases E
    simp
  | some A =>
    by_cases hA : A ∈ E.Actors
    · simp only [if_pos hA, AActor.Destroy]
      cases E
      simp
    · simp only [if_neg hA]
      cases E
      simp only [Option.some.injEq, Prod.mk.injEq, true_and, FEngine.mk.injEq, and_true]
      symm
      rw [List.filter_eq_self]
      intro x hx
      have : x ≠ A := fun h => hA (h ▸ hx)
      simpa using this

/-- C6: on an idle generator, `BeginGenerateActorThumbnail` with an invalid actor class or with
`ThumbnailTextureWidth <= 0` or `ThumbnailTextureHeight <= 0` returns no actor and leaves both
the generator (scene, scripts, snapshot, capturing flag) and the engine state (no world built,
no actor spawned, no call made) unchanged. -/
theorem C6_begin_validation (H : FHost) (G : FThumbnailGenerator) (E : FEngine)
    (ActorClass : TSubclassOf) (ThumbnailSettings : FThumbnailSettings)
    (Properties : List (String × String)) (bFinishSpawningActor : Bool)
    (hflag : G.bIsCapturingThumbnail = false)
    (hbad : E.IsValidClass ActorClass = false
      ∨ ThumbnailSettings.Member EMember.ThumbnailTextureWidth ≤ 0
      ∨ ThumbnailSettings.Member EMember.ThumbnailTextureHeight ≤ 0) :
    G.BeginGenerateActorThumbnail H E ActorClass ThumbnailSettings Properties
        bFinishSpawningActor = some (none, G, E) := by
  unfold FThumbnailGenerator.BeginGenerateActorThumbnail
  rw [if_neg (by simp [hflag])]
  have hE : G.BeginEjectWithError E = some (none, G, E) := by
    unfold FThumbnailGenerator.BeginEjectWithError
    rw [CleanupThumbnailCapture_idle _ _ hflag]
    rfl
  by_cases hc : E.IsValidClass ActorClass = false
  · rw [if_pos hc, hE]
  · rw [if_neg hc]
    rcases hbad with h | h
    · exact absurd h hc
    · rw [if_pos h, hE]


/-- C4, instance: a first `Begin` on a fresh generator spawns actor 100 into world 0 and opens
the session (snapshot: actors 1 and 2); a second `Begin` returns no actor, clears the flag and
the snapshot, and destroys actor 100, leaving actors 1, 2 (snapshot) and 3 (another world). -/
theorem C4_begin_while_capturing_witness :
    FThumbnailGenerator.ctor.BeginGenerateActorThumbnail ExampleSpawningHost ExampleEngine
        (some "Actor") (FThumbnailSettings.ctor ExamplePostProcessDefault) [] true
      = some (some ⟨100, 0⟩, ExampleAfterBegin.1, ExampleAfterBegin.2)
    ∧ ExampleAfterBegin.1.bIsCapturingThumbnail = true
    ∧ ExampleAfterBegin.1.GetThumbnailWorld = some 0
    ∧ ExampleAfterBegin.1.ThumbnailSceneActors = [⟨1, 0⟩, ⟨2, 0⟩]
    ∧ ExampleAfterBegin.2.Actors = [⟨1, 0⟩, ⟨2, 0⟩, ⟨3, 7⟩, ⟨100, 0⟩]
    ∧ ExampleAfterBegin.1.BeginGenerateActorThumbnail ExampleSpawningHost ExampleAfterBegin.2
        (some "Actor") (FThumbnailSettings.ctor ExamplePostProcessDefault) [] true
      = some (none,
          { ExampleAfterBegin.1 with ThumbnailSceneActors := [], bIsCapturingThumbnail := false },
          { ExampleAfterBegin.2 with Actors := [⟨1, 0⟩, ⟨2, 0⟩, ⟨3, 7⟩] }) :=
  ⟨rfl, rfl, rfl, rfl, rfl,
    (C4_begin_while_capturing ExampleSpawningHost ExampleAfterBegin.1 ExampleAfterBegin.2
      (some "Actor") (FThumbnailSettings.ctor ExamplePostProcessDefault) [] true 0 rfl rfl).trans
      rfl⟩

/-- C5, instance: `Finish` on a freshly constructed generator, for actor 3. -/
theorem C5_finish_while_idle_witness :
    FThumbnailGenerator.ctor.bIsCapturingThumbnail = false
    ∧ FThumbnailGenerator.ctor.FinishGenerateActorThumbnail ExampleSpawningHost ExampleEngine
        (some ⟨3, 7⟩) (FThumbnailSettings.ctor ExamplePostProcessDefault) none false =
      some (none, FThumbnailGenerator.ctor,
        { ExampleEngine with
          Actors :=
            ExampleEngine.Actors.filter
              (fun Other => decide (some Other ≠ some (⟨3, 7⟩ : AActor))) }) :=
  ⟨rfl,
    C5_finish_while_idle ExampleSpawningHost FThumbnailGenerator.ctor ExampleEngine (some ⟨3, 7⟩)
      (FThumbnailSettings.ctor ExamplePostProcessDefault) none false rfl⟩

/-- C6, instance: `Begin` on a freshly constructed generator with a null actor class. -/
theorem C6_begin_validation_witness :
    FThumbnailGenerator.ctor.bIsCapturingThumbnail = false
    ∧ ExampleEngine.IsValidClass none = false
    ∧ FThumbnailGenerator.ctor.BeginGenerateActorThumbnail ExampleSpawningHost ExampleEngine none
        (FThumbnailSettings.ctor ExamplePostProcessDefault) [] true =
      some (none, FThumbnailGenerator.ctor, ExampleEngine) :=
  ⟨rfl, rfl,
    C6_begin_validation ExampleSpawningHost FThumbnailGenerator.ctor ExampleEngine none
      (FThumbnailSettings.ctor ExamplePostProcessDefault) [] true rfl (Or.inl rfl)⟩


theorem Option.map_returns {α β : Type} (f : α → β) (o : Option α)
    (h : ∃ x, o = some x) : ∃ y, o.map f = some y := by
  obtain ⟨x, rfl⟩ := h
  exact ⟨f x, rfl⟩

theorem CleanupThumbnailCapture_post (G : FThumbnailGenerator) (E : FEngine)
    (hflag : G.bIsCapturingThumbnail = true) (G' : FThumbnailGenerator) (E' : FEngine)
    (h : G.CleanupThumbnailCapture E = some (G', E')) :
    G'.bIsCapturingThumbnail = false ∧ G'.ThumbnailSceneActors = []
    ∧ ∃ World, G.GetThumbnailWorld = some World
        ∧ ∀ a ∈ E'.Actors, a.World = World → a ∈ G.ThumbnailSceneActors := by
  rcases hW : G.GetThumbnailWorld with _ | World
  · unfold FThumbnailGenerator.CleanupThumbnailCapture at h
    rw [if_neg (by simp [hflag]), hW] at h
    cases h
  · rw [CleanupThumbnailCapture_capturing G E World hflag hW] at h
    simp only [Option.some.injEq, Prod.mk.injEq] at h
    obtain ⟨rfl, rfl⟩ := h
    refine ⟨rfl, rfl, World, rfl, ?_⟩
    intro a ha hw
    simp only [List.mem_filter, decide_eq_true_eq] at ha
    exact ha.2 hw

theorem CleanupThumbnailCapture_returns (G : FThumbnailGenerator) (E : FEngine)
    (hW : G.GetThumbnailWorld ≠ none) :
    ∃ Result, G.CleanupThumbnailCapture E = some Result := by
  unfold FThumbnailGenerator.CleanupThumbnailCapture
  split_ifs
  · exact ⟨_, rfl⟩
  · rcases hW2 : G.GetThumbnailWorld with _ | World
    · exact absurd hW2 hW
    · exact ⟨_, rfl⟩

theorem FinishEjectWithError_post (G : FThumbnailGenerator) (E : FEngine)
    (Actor : Option AActor) (hflag : G.bIsCapturingThumbnail = true)
    (r : Option UTexture2D) (G' : FThumbnailGenerator) (E' : FEngine)
    (h : G.FinishEjectWithError E Actor = some (r, G', E')) :
    G'.bIsCapturingThumbnail = false ∧ G'.ThumbnailSceneActors = []
    ∧ ∃ World, G.GetThumbnailWorld = some World
        ∧ ∀ a ∈ E'.Actors, a.World = World → a ∈ G.ThumbnailSceneActors := by
  unfold FThumbnailGenerator.FinishEjectWithError at h
  simp only [Option.map_eq_some', Prod.mk.injEq] at h
  obtain ⟨⟨G1, E1⟩, hc, _, rfl, rfl⟩ := h
  exact CleanupThumbnailCapture_post G _ hflag _ _ hc

theorem FinishEjectWithError_returns (G : FThumbnailGenerator) (E : FEngine)
    (Actor : Option AActor) (hW : G.GetThumbnailWorld ≠ none) :
    ∃ Result, G.FinishEjectWithError E Actor = some Result := by
  unfold FThumbnailGenerator.FinishEjectWithError
  exact Option.map_returns _ _ (CleanupThumbnailCapture_returns G _ hW)

theorem CaptureAndCleanup_post (H : FHost) (G : FThumbnailGenerator) (E : FEngine)
    (S : FThumbnailSettings) (RT : UTextureRenderTarget2D) (Actor : AActor)
    (ResourceObject : Option UTexture2D) (hflag : G.bIsCapturingThumbnail = true)
    (r : Option UTexture2D) (G' : FThumbnailGenerator) (E' : FEngine)
    (h : G.CaptureAndCleanup H E S RT Actor ResourceObject = some (r, G', E')) :
    G'.bIsCapturingThumbnail = false ∧ G'.ThumbnailSceneActors = []
    ∧ ∃ World, G.GetThumbnailWorld = some World
        ∧ ∀ a ∈ E'.Actors, a.World = World → a ∈ G.ThumbnailSceneActors := by
  unfold FThumbnailGenerator.CaptureAndCleanup at h
  simp only [] at h
  split at h
  · exact FinishEjectWithError_post G _ _ hflag _ _ _ h
  · simp only [Option.map_eq_some', Prod.mk.injEq] at h
    obtain ⟨⟨G1, E1⟩, hc, _, rfl, rfl⟩ := h
    exact CleanupThumbnailCapture_post G _ hflag _ _ hc

theorem CaptureAndCleanup_returns (H : FHost) (G : FThumbnailGenerator) (E : FEngine)
    (S : FThumbnailSettings) (RT : UTextureRenderTarget2D) (Actor : AActor)
    (ResourceObject : Option UTexture2D) (hW : G.GetThumbnailWorld ≠ none) :
    ∃ Result, G.CaptureAndCleanup H E S RT Actor ResourceObject = some Result := by
  unfold FThumbnailGenerator.CaptureAndCleanup
  simp only []
  split
  · exact FinishEjectWithError_returns G _ _ hW
  · exact Option.map_returns _ _ (CleanupThumbnailCapture_returns G _ hW)

theorem AcquireRenderTargetAndCapture_post (H : FHost) (G : FThumbnailGenerator) (E : FEngine)
    (S : FThumbnailSettings) (Actor : AActor)
    (ResourceObject : Option UTexture2D) (hflag : G.bIsCapturingThumbnail = true)
    (r : Option UTexture2D) (G' : FThumbnailGenerator) (E' : FEngine)
    (h : G.AcquireRenderTargetAndCapture H E S Actor ResourceObject = some (r, G', E')) :
    G'.bIsCapturingThumbnail = false ∧ G'.ThumbnailSceneActors = []
    ∧ ∃ World, G.GetThumbnailWorld = some World
        ∧ ∀ a ∈ E'.Actors, a.World = World → a ∈ G.ThumbnailSceneActors := by
  unfold FThumbnailGenerator.AcquireRenderTargetAndCapture at h
  simp only [] at h
  split at h
  · cases h
  · split at h
    · exact CaptureAndCleanup_post H _ _ _ _ _ _ hflag _ _ _ h
    · split at h
      · exact FinishEjectWithError_post _ _ _ hflag _ _ _ h
      · have h2 := CaptureAndCleanup_post H _ _ _ _ _ _ (by exact hflag) _ _ _ h
        exact h2

theorem AcquireRenderTargetAndCapture_returns (H : FHost) (G : FThumbnailGenerator)
    (E : FEngine) (S : FThumbnailSettings) (Actor : AActor)
    (ResourceObject : Option UTexture2D) (hW : G.GetThumbnailWorld ≠ none)
    (hC : G.RenderTargetCache ≠ none) :
    ∃ Result, G.AcquireRenderTargetAndCapture H E S Actor ResourceObject = some Result := by
  unfold FThumbnailGenerator.AcquireRenderTargetAndCapture
  simp only []
  split
  · rename_i hnone
    exact absurd hnone hC
  · split
    · exact CaptureAndCleanup_returns H _ _ _ _ _ _ hW
    · split
      · exact FinishEjectWithError_returns _ _ _ hW
      · exact CaptureAndCleanup_returns H _ _ _ _ _ _ (by exact hW)

/-- The lambda `SimulatedTick` returns unless the framerate is negative and the time
positive. -/
theorem SimulatedTick_returns (S : FThumbnailSettings)
    (h : 0 ≤ S.Member EMember.SimulateSceneFramerate
      ∨ S.Member EMember.SimulateSceneTime ≤ 0) :
    ∃ Deltas, SimulatedTick S = some Deltas := by
  unfold SimulatedTick
  simp only []
  split_ifs with h0 h1 h2 h3
  · exact ⟨_, rfl⟩
  · exact ⟨_, rfl⟩
  · exact ⟨_, rfl⟩
  · rcases h with h | h
    · exact absurd (one_div_pos.mpr (lt_of_le_of_ne h (Ne.symm h0))) h2
    · exact absurd h3 (not_lt.mpr h)
  · exact ⟨_, rfl⟩

/-- With a framerate of 0 and a positive time, the tick callback is invoked once, with a NaN. -/
theorem SimulatedTick_zero_framerate (S : FThumbnailSettings)
    (hF : S.Member EMember.SimulateSceneFramerate = 0)
    (hT : 0 < S.Member EMember.SimulateSceneTime) :
    SimulatedTick S = some [FDeltaTime.NaN] := by
  unfold SimulatedTick
  rw [if_pos hF, if_pos hT]

/-- With a negative framerate and a positive time, the tick loop does not terminate. -/
theorem SimulatedTick_negative_framerate (S : FThumbnailSettings)
    (hF : S.Member EMember.SimulateSceneFramerate < 0)
    (hT : 0 < S.Member EMember.SimulateSceneTime) :
    SimulatedTick S = none := by
  unfold SimulatedTick
  rw [if_neg (ne_of_lt hF)]
  simp only []
  rw [dif_neg (not_lt.mpr (le_of_lt (one_div_neg.mpr hF))), if_pos hT]

theorem SimulateScene_returns (H : FHost) (S : FThumbnailSettings) (Actor : AActor)
    (E : FEngine)
    (h : S.Member EMember.SimulationMode = EThumbnailSceneSimulationMode.ENone
      ∨ 0 ≤ S.Member EMember.SimulateSceneFramerate
      ∨ S.Member EMember.SimulateSceneTime ≤ 0) :
    ∃ E', SimulateScene H S Actor E = some E' := by
  unfold SimulateScene
  simp only []
  split
  · exact ⟨_, rfl⟩
  · rename_i hm
    rcases h with h | h
    · rw [h] at hm; cases hm
    · obtain ⟨D, hD⟩ := SimulatedTick_returns S h
      rw [hD]; exact ⟨_, rfl⟩
  · rename_i hm1 hm2
    rcases h with h | h
    · exact absurd h hm1
    · obtain ⟨D, hD⟩ := SimulatedTick_returns S h
      rw [hD]; exact ⟨_, rfl⟩

/-- `SimulateScene` fails to return exactly when a simulation mode other than `ENone` meets a
negative framerate and a positive time, the one case in which the tick loop does not
terminate. -/
theorem SimulateScene_eq_none_iff (H : FHost) (S : FThumbnailSettings) (Actor : AActor)
    (E : FEngine) :
    SimulateScene H S Actor E = none
      ↔ S.Member EMember.SimulationMode ≠ EThumbnailSceneSimulationMode.ENone
        ∧ S.Member EMember.SimulateSceneFramerate < 0
        ∧ 0 < S.Member EMember.SimulateSceneTime := by
  constructor
  · intro hnone
    by_contra hc
    have hsim : S.Member EMember.SimulationMode = EThumbnailSceneSimulationMode.ENone
        ∨ 0 ≤ S.Member EMember.SimulateSceneFramerate
        ∨ S.Member EMember.SimulateSceneTime ≤ 0 := by
      by_cases h1 : S.Member EMember.SimulationMode = EThumbnailSceneSimulationMode.ENone
      · exact Or.inl h1
      · by_cases h2 : S.Member EMember.SimulateSceneFramerate < 0
        · by_cases h3 : 0 < S.Member EMember.SimulateSceneTime
          · exact absurd ⟨h1, h2, h3⟩ hc
          · exact Or.inr (Or.inr (not_lt.mp h3))
        · exact Or.inr (Or.inl (not_lt.mp h2))
    obtain ⟨E', hE'⟩ := SimulateScene_returns H S Actor E hsim
    rw [hnone] at hE'
    cases hE'
  · rintro ⟨hmode, hF, hT⟩
    unfold SimulateScene
    simp only []
    split
    · rename_i hm
      exact absurd hm hmode
    · rw [SimulatedTick_negative_framerate S hF hT]
      rfl
    · rw [SimulatedTick_negative_framerate S hF hT]
      rfl

/-- With a framerate of 0 and a positive time, the simulation in mode `EActor` dispatches begin
play and ticks once, with a NaN as delta time, and returns. -/
theorem SimulateScene_zero_framerate (H : FHost) (S : FThumbnailSettings) (Actor : AActor)
    (E : FEngine)
    (hmode : S.Member EMember.SimulationMode = EThumbnailSceneSimulationMode.EActor)
    (hF : S.Member EMember.SimulateSceneFramerate = 0)
    (hT : 0 < S.Member EMember.SimulateSceneTime) :
    SimulateScene H S Actor E
      = some (H.Invoke (ECall.Tick Actor EThumbnailSceneSimulationMode.EActor FDeltaTime.NaN)
          (H.Invoke (ECall.DispatchBeginPlay Actor)
            (H.Invoke
              (ECall.DispatchComponentsBeginPlay Actor EThumbnailSceneSimulationMode.EActor)
              E))) := by
  unfold SimulateScene
  rw [SimulatedTick_zero_framerate S hF hT, hmode]
  rfl

/-- `Finish` with an open session returns whenever the scene's world and the render-target cache
are present and the tick loop terminates. -/
theorem FinishGenerateActorThumbnail_returns (H : FHost) (G : FThumbnailGenerator)
    (E : FEngine) (Actor : Option AActor) (ThumbnailSettings : FThumbnailSettings)
    (ResourceObject : Option UTexture2D) (bFinishSpawningActor : Bool)
    (hflag : G.bIsCapturingThumbnail = true)
    (hW : G.GetThumbnailWorld ≠ none) (hC : G.RenderTargetCache ≠ none)
    (hsim : ThumbnailSettings.Member EMember.SimulationMode
        = EThumbnailSceneSimulationMode.ENone
      ∨ 0 ≤ ThumbnailSettings.Member EMember.SimulateSceneFramerate
      ∨ ThumbnailSettings.Member EMember.SimulateSceneTime ≤ 0) :
    ∃ Result, G.FinishGenerateActorThumbnail H E Actor ThumbnailSettings ResourceObject
      bFinishSpawningActor = some Result := by
  unfold FThumbnailGenerator.FinishGenerateActorThumbnail
  rw [if_neg (by simp [hflag])]
  cases Actor with
  | none => exact FinishEjectWithError_returns G _ _ hW
  | some A =>
    simp only []
    split
    · exact FinishEjectWithError_returns G _ _ hW
    · split
      · exact FinishEjectWithError_returns G _ _ hW
      · split
        · exact FinishEjectWithError_returns G _ _ hW
        · rename_i E2 _ E3 _
          obtain ⟨E4, hE4⟩ := SimulateScene_returns H ThumbnailSettings A E3 hsim
          rw [hE4]
          exact AcquireRenderTargetAndCapture_returns H G _ _ _ _ hW hC

/-- C7: for every `FinishGenerateActorThumbnail` call made while a session is open, whenever
the call returns (with or without a texture) the capturing flag is clear, the snapshot is empty
and every remaining valid actor of the thumbnail world was in the snapshot taken by `Begin`;
and the call does return whenever the scene's world and the render-target cache are present and
the tick loop terminates: simulation off, or a framerate that is not negative (with the
framerate 0 the loop makes one tick, with a NaN as delta time), or a non-positive time. In the
remaining case, a negative framerate with a positive time in a simulation mode other than
`ENone`, the tick loop does not terminate. -/
theorem C7_finish_cleans_up (H : FHost) (G : FThumbnailGenerator) (E : FEngine)
    (Actor : Option AActor) (ThumbnailSettings : FThumbnailSettings)
    (ResourceObject : Option UTexture2D) (bFinishSpawningActor : Bool)
    (hflag : G.bIsCapturingThumbnail = true) :
    (∀ (r : Option UTexture2D) (G' : FThumbnailGenerator) (E' : FEngine),
        G.FinishGenerateActorThumbnail H E Actor ThumbnailSettings ResourceObject
          bFinishSpawningActor = some (r, G', E') →
        G'.bIsCapturingThumbnail = false ∧ G'.ThumbnailSceneActors = []
        ∧ ∃ World, G.GetThumbnailWorld = some World
            ∧ ∀ a ∈ E'.Actors, a.World = World → a ∈ G.ThumbnailSceneActors)
    ∧ (G.GetThumbnailWorld ≠ none → G.RenderTargetCache ≠ none →
        (ThumbnailSettings.Member EMember.SimulationMode = EThumbnailSceneSimulationMode.ENone
          ∨ 0 ≤ ThumbnailSettings.Member EMember.SimulateSceneFramerate
          ∨ ThumbnailSettings.Member EMember.SimulateSceneTime ≤ 0) →
        ∃ Result, G.FinishGenerateActorThumbnail H E Actor ThumbnailSettings ResourceObject
          bFinishSpawningActor = some Result)
    ∧ (∀ (ValidActor : AActor) (E3 : FEngine),
        SimulateScene H ThumbnailSettings ValidActor E3 = none
          ↔ ThumbnailSettings.Member EMember.SimulationMode
              ≠ EThumbnailSceneSimulationMode.ENone
            ∧ ThumbnailSettings.Member EMember.SimulateSceneFramerate < 0
            ∧ 0 < ThumbnailSettings.Member EMember.SimulateSceneTime) := by
  refine ⟨?_, ?_, ?_⟩
  · intro r G' E' h
    unfold FThumbnailGenerator.FinishGenerateActorThumbnail at h
    rw [if_neg (by simp [hflag])] at h
    cases Actor with
    | none => exact FinishEjectWithError_post G _ _ hflag _ _ _ h
    | some A =>
      simp only [] at h
      split at h
      · exact FinishEjectWithError_post G _ _ hflag _ _ _ h
      · split at h
        · exact FinishEjectWithError_post G _ _ hflag _ _ _ h
        · split at h
          · exact FinishEjectWithError_post G _ _ hflag _ _ _ h
          · split at h
            · cases h
            · exact AcquireRenderTargetAndCapture_post H G _ _ _ _ hflag _ _ _ h
  · intro hW hC hsim
    exact FinishGenerateActorThumbnail_returns H G E Actor ThumbnailSettings ResourceObject
      bFinishSpawningActor hflag hW hC hsim
  · intro ValidActor E3
    exact SimulateScene_eq_none_iff H ThumbnailSettings ValidActor E3

/-- C7, instance: after the first `Begin` of the example, `Finish` for the spawned actor 100
(simulation off) returns a texture, destroys actor 100, and leaves the flag clear and the
snapshot empty; with the simulation mode `EActor` and a framerate of 0, `Finish` returns as
well, with the flag clear and the snapshot empty. -/
theorem C7_finish_cleans_up_witness :
    ExampleAfterBegin.1.bIsCapturingThumbnail = true
    ∧ (ExampleAfterBegin.1.FinishGenerateActorThumbnail ExampleSpawningHost ExampleAfterBegin.2
          (some ⟨100, 0⟩) ExampleNoSimulationSettings none false).map
        (fun Result => (Result.1, Result.2.2.Actors))
      = some (some ⟨11⟩, [⟨1, 0⟩, ⟨2, 0⟩, ⟨3, 7⟩])
    ∧ (∃ Result, ExampleAfterBegin.1.FinishGenerateActorThumbnail ExampleSpawningHost
          ExampleAfterBegin.2 (some ⟨100, 0⟩) ExampleNoSimulationSettings none false
        = some Result
      ∧ Result.2.1.bIsCapturingThumbnail = false ∧ Result.2.1.ThumbnailSceneActors = [])
    ∧ ExampleZeroFramerateSettings.Member EMember.SimulateSceneFramerate = 0
    ∧ ExampleZeroFramerateSettings.Member EMember.SimulationMode
        = EThumbnailSceneSimulationMode.EActor
    ∧ ∃ Result, ExampleAfterBegin.1.FinishGenerateActorThumbnail ExampleSpawningHost
          ExampleAfterBegin.2 (some ⟨100, 0⟩) ExampleZeroFramerateSettings none false
        = some Result
      ∧ Result.2.1.bIsCapturingThumbnail = false ∧ Result.2.1.ThumbnailSceneActors = [] := by
  have h := C7_finish_cleans_up ExampleSpawningHost ExampleAfterBegin.1 ExampleAfterBegin.2
    (some ⟨100, 0⟩) ExampleNoSimulationSettings none false rfl
  obtain ⟨Result, hR⟩ := h.2.1 (by decide)
    (fun hc => absurd (congrArg Option.isSome hc) (by decide)) (Or.inl rfl)
  have hF0 : ExampleZeroFramerateSettings.Member EMember.SimulateSceneFramerate = 0 := by
    unfold ExampleZeroFramerateSettings
    rw [SetMember_Member_same]
  have h0 := C7_finish_cleans_up ExampleSpawningHost ExampleAfterBegin.1 ExampleAfterBegin.2
    (some ⟨100, 0⟩) ExampleZeroFramerateSettings none false rfl
  obtain ⟨Result0, hR0⟩ := h0.2.1 (by decide)
    (fun hc => absurd (congrArg Option.isSome hc) (by decide)) (Or.inr (Or.inl (le_of_eq hF0.symm)))
  refine ⟨rfl, rfl, ⟨Result, hR, ?_⟩, hF0, rfl, Result0, hR0, ?_⟩
  · obtain ⟨r, G', E'⟩ := Result
    have hp := h.1 r G' E' hR
    exact ⟨hp.1, hp.2.1⟩
  · obtain ⟨r, G', E'⟩ := Result0
    have hp := h0.1 r G' E' hR0
    exact ⟨hp.1, hp.2.1⟩

theorem BeginEjectWithError_none (G : FThumbnailGenerator) (E : FEngine)
    (r : Option AActor) (G' : FThumbnailGenerator) (E' : FEngine)
    (h : G.BeginEjectWithError E = some (r, G', E')) : r = none := by
  unfold FThumbnailGenerator.BeginEjectWithError at h
  simp only [Option.map_eq_some', Prod.mk.injEq] at h
  obtain ⟨_, _, hr, _⟩ := h
  exact hr.symm

theorem PrepareThumbnailCapture_post (G G' : FThumbnailGenerator) (E : FEngine)
    (h : G.PrepareThumbnailCapture E = some G') :
    G'.bIsCapturingThumbnail = true ∧ ∃ World, G'.GetThumbnailWorld = some World := by
  unfold FThumbnailGenerator.PrepareThumbnailCapture at h
  split at h
  · cases h
  · split at h
    · cases h
    · rename_i _ Scene hS _ World hWd
      simp only [Option.some.injEq] at h
      subst h
      refine ⟨rfl, World, ?_⟩
      simp [FThumbnailGenerator.GetThumbnailWorld, hS, hWd]

/-- A `Begin` that returns an actor leaves the session open on a present world. -/
theorem BeginGenerateActorThumbnail_success (H : FHost) (G : FThumbnailGenerator) (E : FEngine)
    (ActorClass : TSubclassOf) (ThumbnailSettings : FThumbnailSettings)
    (Properties : List (String × String)) (bFinishSpawningActor : Bool)
    (Actor : AActor) (G' : FThumbnailGenerator) (E' : FEngine)
    (h : G.BeginGenerateActorThumbnail H E ActorClass ThumbnailSettings Properties
        bFinishSpawningActor = some (some Actor, G', E')) :
    G'.bIsCapturingThumbnail = true ∧ ∃ World, G'.GetThumbnailWorld = some World := by
  unfold FThumbnailGenerator.BeginGenerateActorThumbnail at h
  split at h
  · exact absurd (BeginEjectWithError_none _ _ _ _ _ h) (by simp)
  · split at h
    · exact absurd (BeginEjectWithError_none _ _ _ _ _ h) (by simp)
    · split at h
      · exact absurd (BeginEjectWithError_none _ _ _ _ _ h) (by simp)
      · split at h
        · cases h
        · split at h
          · cases h
          · split at h
            · exact absurd (BeginEjectWithError_none _ _ _ _ _ h) (by simp)
            · split at h
              · exact absurd (BeginEjectWithError_none _ _ _ _ _ h) (by simp)
              · simp only [] at h
                split at h
                · cases h
                · split at h
                  · exact absurd (BeginEjectWithError_none _ _ _ _ _ h) (by simp)
                  · split at h
                    · exact absurd (BeginEjectWithError_none _ _ _ _ _ h) (by simp)
                    · rename_i G2 hP _ _ _ _
                      simp only [Option.some.injEq, Prod.mk.injEq] at h
                      obtain ⟨_, rfl, _⟩ := h
                      exact PrepareThumbnailCapture_post _ _ _ hP

/-! ## Theorems: opaque alpha fill -/

/-- C11: with an empty alpha override, `FillTextureDataFromRenderTarget` on an 8-bit target
(whose texture buffer has the size of the read pixels, as its `check` demands) returns exactly
as many pixels as were read, every pixel has alpha 255, and the blue, green and red channels of
every pixel are those read from the render target. -/
theorem C11_opaque_alpha_fill (TextureDataSize : Int) (SurfData : List FColor)
    (Mode : EThumbnailAlphaBlendMode)
    (hsize : TextureDataSize = (SurfData.length : Int) * 4) :
    ∃ Out, FillTextureDataFromRenderTarget TextureDataSize SurfData [] Mode = some Out
      ∧ Out.length = SurfData.length
      ∧ ∀ (i : Nat) (hS : i < SurfData.length) (hO : i < Out.length),
          Out[i].A = 255 ∧ Out[i].B = SurfData[i].B ∧ Out[i].G = SurfData[i].G
            ∧ Out[i].R = SurfData[i].R := by
  have hspec := OpaqueAlphaLoop_spec SurfData
  refine ⟨OpaqueAlphaLoop SurfData, ?_, hspec.1, ?_⟩
  · unfold FillTextureDataFromRenderTarget
    simp only [List.length_nil, gt_iff_lt, lt_self_iff_false, if_false]
    first
      | rw [if_pos hsize]
      | rw [hspec.1, if_pos hsize]
  · intro i hS hO
    have h := hspec.2 i
    rw [List.getElem?_eq_getElem hS, List.getElem?_eq_getElem hO] at h
    simp only [Option.map_some', Option.some.injEq] at h
    rw [h]
    exact ⟨rfl, rfl, rfl, rfl⟩

/-- C11, instance: two pixels read, no alpha override. -/
theorem C11_opaque_alpha_fill_witness :
    ∃ Out, FillTextureDataFromRenderTarget 8 [⟨1, 2, 3, 100⟩, ⟨4, 5, 6, 0⟩] []
        EThumbnailAlphaBlendMode.EReplace = some Out
      ∧ Out.length = 2 :=
  have h := C11_opaque_alpha_fill 8 [⟨1, 2, 3, 100⟩, ⟨4, 5, 6, 0⟩]
    EThumbnailAlphaBlendMode.EReplace rfl
  ⟨h.choose, h.choose_spec.1, h.choose_spec.2.1⟩

/-! ## Theorems: scene simulation stepping -/

theorem SimulatedTickLoop_pos (StepSize : ℚ) (hStep : 0 < StepSize) (time : ℚ)
    (h : 0 < time) :
    SimulatedTickLoop StepSize hStep time
      = (StepSize + min 0 (time - StepSize))
          :: SimulatedTickLoop StepSize hStep (time - StepSize) := by
  rw [SimulatedTickLoop]
  simp only [gt_iff_lt, h, dite_true]

theorem SimulatedTickLoop_nonpos (StepSize : ℚ) (hStep : 0 < StepSize) (time : ℚ)
    (h : time ≤ 0) :
    SimulatedTickLoop StepSize hStep time = [] := by
  rw [SimulatedTickLoop]
  simp only [gt_iff_lt, not_lt.mpr h, dite_false]

/-- The `dt` values of the tick loop: each is positive and at most the step size, each but the
last is the step size, and they sum to the simulated time (to 0 when it is not positive). -/
theorem SimulatedTickLoop_spec (StepSize : ℚ) (hStep : 0 < StepSize) :
    ∀ (n : Nat) (time : ℚ), Nat.ceil (time / StepSize) ≤ n →
      (∀ d ∈ SimulatedTickLoop StepSize hStep time, 0 < d ∧ d ≤ StepSize)
      ∧ (∀ d ∈ (SimulatedTickLoop StepSize hStep time).dropLast, d = StepSize)
      ∧ (SimulatedTickLoop StepSize hStep time).sum = max time 0
      ∧ (0 < time → SimulatedTickLoop StepSize hStep time ≠ []) := by
  intro n
  induction n with
  | zero =>
    intro time hn
    have h0 : time ≤ 0 := by
      have h1 : Nat.ceil (time / StepSize) = 0 := Nat.le_zero.mp hn
      have h2 : time / StepSize ≤ 0 := by
        have := Nat.ceil_eq_zero.mp h1
        exact this
      by_contra hpos
      exact absurd (div_pos (not_le.mp hpos) hStep) (not_lt.mpr h2)
    rw [SimulatedTickLoop_nonpos StepSize hStep time h0]
    refine ⟨by simp, by simp, ?_, fun h => absurd h (not_lt.mpr h0)⟩
    simp [max_eq_right h0]
  | succ n ih =>
    intro time hn
    by_cases hpos : 0 < time
    · have hceil : Nat.ceil ((time - StepSize) / StepSize) ≤ n := by
        have h1 : (time - StepSize) / StepSize = time / StepSize - 1 := by
          field_simp
        rw [h1, Nat.ceil_le]
        have h2 : time / StepSize ≤ ((n + 1 : Nat) : ℚ) := Nat.ceil_le.mp hn
        push_cast at h2
        linarith
      obtain ⟨ih1, ih2, ih3, ih4⟩ := ih (time - StepSize) hceil
      rw [SimulatedTickLoop_pos StepSize hStep time hpos]
      refine ⟨?_, ?_, ?_, fun _ => List.cons_ne_nil _ _⟩
      · intro d hd
        rcases List.mem_cons.mp hd with rfl | hd
        · constructor
          · rcases le_total 0 (time - StepSize) with h | h
            · rw [min_eq_left h]; linarith
            · rw [min_eq_right h]; linarith
          · have := min_le_left 0 (time - StepSize)
            linarith
        · exact ih1 d hd
      · intro d hd
        by_cases hrest : 0 < time - StepSize
        · have hne := ih4 hrest
          rw [List.dropLast_cons_of_ne_nil hne] at hd
          rcases List.mem_cons.mp hd with rfl | hd
          · rw [min_eq_left hrest.le]; ring
          · exact ih2 d hd
        · rw [SimulatedTickLoop_nonpos StepSize hStep _ (not_lt.mp hrest)] at hd
          simp at hd
      · rw [List.sum_cons, ih3, max_eq_left hpos.le]
        rcases le_total 0 (time - StepSize) with h | h
        · rw [min_eq_left h, max_eq_left h]; ring
        · rw [min_eq_right h, max_eq_right h]; ring
    · have h0 : time ≤ 0 := not_lt.mp hpos
      rw [SimulatedTickLoop_nonpos StepSize hStep time h0]
      refine ⟨by simp, by simp, ?_, fun h => absurd h hpos⟩
      simp [max_eq_right h0]

theorem foldl_Invoke_Calls {α : Type} (H : FHost) (Call : α → ECall) (Deltas : List α)
    (E : FEngine) :
    (Deltas.foldl (fun E DeltaTime => H.Invoke (Call DeltaTime) E) E).Calls
      = E.Calls ++ Deltas.map Call := by
  induction Deltas generalizing E with
  | nil => simp
  | cons d tl ih =>
    rw [List.foldl_cons, ih]
    simp [FHost.Invoke]

theorem foldl_Invoke_Calls_map {α β : Type} (H : FHost) (Call : β → ECall) (g : α → β)
    (Deltas : List α) (E : FEngine) :
    ((Deltas.map g).foldl (fun E DeltaTime => H.Invoke (Call DeltaTime) E) E).Calls
      = E.Calls ++ Deltas.map (fun d => Call (g d)) := by
  rw [foldl_Invoke_Calls, List.map_map]
  rfl

/-- C16: for `SimulateSceneTime = T > 0` and `SimulateSceneFramerate = F > 0` in exact
arithmetic, `SimulatedTick` terminates and passes to the tick callback a non-empty list of
deltas, each positive and at most `1 / F`, each but the last equal to `1 / F`, summing to
exactly `T`; in the simulation modes other than `ENone`, `SimulateScene` then ends with exactly
one engine tick call per delta, in that order. -/
theorem C16_simulation_step_deltas (H : FHost) (S : FThumbnailSettings) (Actor : AActor)
    (E : FEngine)
    (hT : 0 < S.Member EMember.SimulateSceneTime)
    (hF : 0 < S.Member EMember.SimulateSceneFramerate) :
    ∃ Deltas : List ℚ, SimulatedTick S = some (Deltas.map FDeltaTime.Value)
      ∧ Deltas ≠ []
      ∧ (∀ d ∈ Deltas, 0 < d ∧ d ≤ 1 / S.Member EMember.SimulateSceneFramerate)
      ∧ (∀ d ∈ Deltas.dropLast, d = 1 / S.Member EMember.SimulateSceneFramerate)
      ∧ Deltas.sum = S.Member EMember.SimulateSceneTime
      ∧ (S.Member EMember.SimulationMode ≠ EThumbnailSceneSimulationMode.ENone →
          ∃ E' Before, SimulateScene H S Actor E = some E'
            ∧ E'.Calls = Before
                ++ Deltas.map (fun d =>
                  ECall.Tick Actor (S.Member EMember.SimulationMode) (FDeltaTime.Value d))) := by
  have hStep : 0 < 1 / S.Member EMember.SimulateSceneFramerate := one_div_pos.mpr hF
  have hspec := SimulatedTickLoop_spec _ hStep _ (S.Member EMember.SimulateSceneTime) le_rfl
  have htick : SimulatedTick S
      = some ((SimulatedTickLoop _ hStep (S.Member EMember.SimulateSceneTime)).map
          FDeltaTime.Value) := by
    unfold SimulatedTick
    rw [if_neg (ne_of_gt hF)]
    simp only [hStep, dite_true]
  refine ⟨_, htick, hspec.2.2.2 hT, hspec.1, hspec.2.1, ?_, ?_⟩
  · rw [hspec.2.2.1, max_eq_left hT.le]
  · intro hmode
    unfold SimulateScene
    simp only []
    split
    · rename_i hm
      exact absurd hm hmode
    · rename_i hm
      rw [htick]
      exact ⟨_, _, rfl, foldl_Invoke_Calls_map H
        (ECall.Tick Actor (S.Member EMember.SimulationMode)) FDeltaTime.Value _ _⟩
    · rw [htick]
      exact ⟨_, _, rfl, foldl_Invoke_Calls_map H
        (ECall.Tick Actor (S.Member EMember.SimulationMode)) FDeltaTime.Value _ _⟩

/-- C16, instance: the default settings (`SimulateSceneTime = 0.01`,
`SimulateSceneFramerate = 15`): one tick, of 0.01 seconds. -/
theorem C16_simulation_step_deltas_witness :
    ∃ Deltas : List ℚ,
      SimulatedTick (FThumbnailSettings.ctor ExamplePostProcessDefault)
        = some (Deltas.map FDeltaTime.Value)
      ∧ Deltas ≠ []
      ∧ (∀ d ∈ Deltas, 0 < d ∧ d ≤ 1 / 15)
      ∧ Deltas.sum = 1 / 100 :=
  have h := C16_simulation_step_deltas ExampleSpawningHost
    (FThumbnailSettings.ctor ExamplePostProcessDefault) ⟨1, 0⟩ ExampleEngine
    (by show (0 : ℚ) < 1 / 100; norm_num) (by show (0 : ℚ) < 15; norm_num)
  ⟨h.choose, h.choose_spec.1, h.choose_spec.2.1, h.choose_spec.2.2.1,
    h.choose_spec.2.2.2.2.1⟩

/-! ## Theorems: render-target cache -/

/-- The eviction loop removes a prefix of the entries (oldest first), stops as soon as the rest
fits together with the new footprint, and removes no entry while the rest still fits. -/
theorem EvictUntilFits_spec {Key Item : Type} (MaxCacheSize : Int)
    (GetItemDataFootprint : Item → Int) (NewFootprint : Int) (Items : List (Key × Item)) :
    ∃ Evicted : List (Key × Item),
      Items = Evicted
        ++ (TCacheProvider.EvictUntilFits MaxCacheSize GetItemDataFootprint NewFootprint Items).1
      ∧ (TCacheProvider.EvictUntilFits MaxCacheSize GetItemDataFootprint NewFootprint Items).2
          = Evicted.map Prod.snd
      ∧ ((TCacheProvider.EvictUntilFits MaxCacheSize GetItemDataFootprint NewFootprint Items).1
            = []
          ∨ (((TCacheProvider.EvictUntilFits MaxCacheSize GetItemDataFootprint NewFootprint
                Items).1.map (fun Entry => GetItemDataFootprint Entry.2)).sum
              + NewFootprint ≤ MaxCacheSize))
      ∧ (∀ (Earlier Later : List (Key × Item)), Evicted = Earlier ++ Later → Later ≠ [] →
          MaxCacheSize <
            ((Later ++ (TCacheProvider.EvictUntilFits MaxCacheSize GetItemDataFootprint
                NewFootprint Items).1).map (fun Entry => GetItemDataFootprint Entry.2)).sum
              + NewFootprint) := by
  induction Items with
  | nil =>
    refine ⟨[], rfl, rfl, Or.inl rfl, ?_⟩
    intro Earlier Later h hne
    have : Later = [] := (List.append_eq_nil.mp h.symm).2
    exact absurd this hne
  | cons Oldest Rest ih =>
    obtain ⟨Evicted, h1, h2, h3, h4⟩ := ih
    by_cases hfit : ((Oldest :: Rest).map (fun Entry => GetItemDataFootprint Entry.2)).sum
        + NewFootprint > MaxCacheSize
    · have hstep : TCacheProvider.EvictUntilFits MaxCacheSize GetItemDataFootprint NewFootprint
          (Oldest :: Rest)
          = ((TCacheProvider.EvictUntilFits MaxCacheSize GetItemDataFootprint NewFootprint
                Rest).1,
             Oldest.2 :: (TCacheProvider.EvictUntilFits MaxCacheSize GetItemDataFootprint
                NewFootprint Rest).2) := by
        rw [TCacheProvider.EvictUntilFits]
        simp only [hfit, if_true]
      rw [hstep]
      refine ⟨Oldest :: Evicted, ?_, ?_, h3, ?_⟩
      · rw [List.cons_append, ← h1]
      · rw [List.map_cons, ← h2]
      · intro Earlier Later h hne
        cases Earlier with
        | nil =>
          rw [List.nil_append] at h
          rw [← h, List.cons_append, ← h1]
          exact hfit
        | cons Head Tail =>
          rw [List.cons_append, List.cons.injEq] at h
          exact h4 Tail Later h.2 hne
    · have hstep : TCacheProvider.EvictUntilFits MaxCacheSize GetItemDataFootprint NewFootprint
          (Oldest :: Rest) = (Oldest :: Rest, []) := by
        rw [TCacheProvider.EvictUntilFits]
        simp only [hfit, if_false]
      rw [hstep]
      refine ⟨[], rfl, rfl, Or.inr (not_lt.mp hfit), ?_⟩
      intro Earlier Later h hne
      have : Later = [] := (List.append_eq_nil.mp h.symm).2
      exact absurd this hne

/-- C17: a put into the render-target cache (`CacheItem` with the budget `MaxCacheSize()` of
`MaxRenderTargetCacheSize` and the footprint `GetItemDataFootprint`) evicts a prefix of the
entries in age order, oldest first, keeps the remaining entries in order and appends the new
entry as the newest; the eviction callback is called on exactly the evicted render targets, in
that order. After the put the footprints of all cached entries sum to at most the budget,
unless the new render target alone exceeds the budget, in which case it is the only entry. No
entry is evicted unnecessarily: the entries from any evicted one onwards, together with the new
render target, exceed the budget. -/
theorem C17_cache_eviction (Settings : UThumbnailGeneratorSettings)
    (Cache : FRenderTargetCache) (InKey : FHashableRenderTargetInfo)
    (InItem : UTextureRenderTarget2D) (H : FHost) (E : FEngine) :
    ∃ Evicted Kept : List (FHashableRenderTargetInfo × UTextureRenderTarget2D),
      Cache.Items = Evicted ++ Kept
      ∧ (Cache.CacheItem (FRenderTargetCache.MaxCacheSize Settings)
            FRenderTargetCache.GetItemDataFootprint InKey InItem).1.Items
          = Kept ++ [(InKey, InItem)]
      ∧ (Cache.CacheItem (FRenderTargetCache.MaxCacheSize Settings)
            FRenderTargetCache.GetItemDataFootprint InKey InItem).2
          = Evicted.map Prod.snd
      ∧ ((((Cache.CacheItem (FRenderTargetCache.MaxCacheSize Settings)
            FRenderTargetCache.GetItemDataFootprint InKey InItem).1.Items.map
              (fun Entry => FRenderTargetCache.GetItemDataFootprint Entry.2)).sum
            ≤ FRenderTargetCache.MaxCacheSize Settings)
          ∨ (Kept = [] ∧ FRenderTargetCache.MaxCacheSize Settings
              < FRenderTargetCache.GetItemDataFootprint InItem))
      ∧ (∀ (Earlier Later : List (FHashableRenderTargetInfo × UTextureRenderTarget2D)),
          Evicted = Earlier ++ Later → Later ≠ [] →
          FRenderTargetCache.MaxCacheSize Settings <
            ((Later ++ Kept).map
                (fun Entry => FRenderTargetCache.GetItemDataFootprint Entry.2)).sum
              + FRenderTargetCache.GetItemDataFootprint InItem)
      ∧ ((Cache.CacheItem (FRenderTargetCache.MaxCacheSize Settings)
            FRenderTargetCache.GetItemDataFootprint InKey InItem).2.foldl
            (fun E Removed => H.Invoke (ECall.OnItemRemovedFromCache Removed) E) E).Calls
          = E.Calls ++ Evicted.map (fun Entry => ECall.OnItemRemovedFromCache Entry.2) := by
  obtain ⟨Evicted, h1, h2, h3, h4⟩ :=
    EvictUntilFits_spec (FRenderTargetCache.MaxCacheSize Settings)
      FRenderTargetCache.GetItemDataFootprint (FRenderTargetCache.GetItemDataFootprint InItem)
      Cache.Items
  have hcalls : ∀ (Removed : List UTextureRenderTarget2D) (E : FEngine),
      (Removed.foldl (fun E Removed => H.Invoke (ECall.OnItemRemovedFromCache Removed) E)
          E).Calls
        = E.Calls ++ Removed.map ECall.OnItemRemovedFromCache := by
    intro Removed
    induction Removed with
    | nil => intro E; simp
    | cons Target Rest ih =>
      intro E
      rw [List.foldl_cons, ih]
      simp [FHost.Invoke]
  refine ⟨Evicted, _, h1, rfl, h2, ?_, h4, ?_⟩
  · show (((TCacheProvider.EvictUntilFits (FRenderTargetCache.MaxCacheSize Settings)
        FRenderTargetCache.GetItemDataFootprint (FRenderTargetCache.GetItemDataFootprint InItem)
        Cache.Items).1 ++ [(InKey, InItem)]).map
        (fun Entry => FRenderTargetCache.GetItemDataFootprint Entry.2)).sum
          ≤ FRenderTargetCache.MaxCacheSize Settings ∨ _
    rcases h3 with h3 | h3
    · rw [h3]
      by_cases hbig : FRenderTargetCache.MaxCacheSize Settings
          < FRenderTargetCache.GetItemDataFootprint InItem
      · exact Or.inr ⟨rfl, hbig⟩
      · left
        simpa using not_lt.mp hbig
    · left
      simpa using h3
  · show ((TCacheProvider.EvictUntilFits (FRenderTargetCache.MaxCacheSize Settings)
        FRenderTargetCache.GetItemDataFootprint (FRenderTargetCache.GetItemDataFootprint InItem)
        Cache.Items).2.foldl _ E).Calls = _
    rw [hcalls, h2, List.map_map]
    rfl

/-- In the range where the `int32` and `uint32` products do not wrap, the footprint is
`SizeX * SizeY` times 4 for `PF_B8G8R8A8` and times 16 (`sizeof(FLinearColor)`) for
`PF_FloatRGBA`. -/
theorem GetItemDataFootprint_in_range (Target : UTextureRenderTarget2D)
    (hX : 0 ≤ Target.SizeX) (hY : 0 ≤ Target.SizeY)
    (hRange : Target.SizeX * Target.SizeY * 16 < 2 ^ 31) :
    FRenderTargetCache.GetItemDataFootprint Target
      = Target.SizeX * Target.SizeY *
          (match Target.Format with
            | EPixelFormat.PF_B8G8R8A8 => 4
            | EPixelFormat.PF_FloatRGBA => 16
            | EPixelFormat.PF_Unknown => 4) := by
  have hXY : 0 ≤ Target.SizeX * Target.SizeY := mul_nonneg hX hY
  unfold FRenderTargetCache.GetItemDataFootprint ToInt32 ToUInt32
  cases Target.Format <;> dsimp only <;> omega

/-- While `MaxRenderTargetCacheSize * 1000000` fits an `int32`, it is the budget. -/
theorem MaxCacheSize_in_range (Settings : UThumbnailGeneratorSettings)
    (h0 : 0 ≤ Settings.MaxRenderTargetCacheSize) (h1 : Settings.MaxRenderTargetCacheSize ≤ 2147) :
    FRenderTargetCache.MaxCacheSize Settings = Settings.MaxRenderTargetCacheSize * 1000000 := by
  unfold FRenderTargetCache.MaxCacheSize ToInt32
  omega

/-- C18, evaluation of the code at a 512 x 512 render target: for `PF_B8G8R8A8` the cache
charges 4 bytes per pixel, the `BlockSize` of the texture buffer, and the budget for
`MaxRenderTargetCacheSize = 50` is 50,000,000 bytes, as claimed; for `PF_FloatRGBA` the cache
charges 16 bytes per pixel (4,194,304 bytes), twice the 8 bytes per pixel of the claim and of
`BlockSize` (2,097,152 bytes). -/
theorem C18_float_footprint_sixteen_bytes :
    FRenderTargetCache.GetItemDataFootprint ⟨1, 512, 512, EPixelFormat.PF_B8G8R8A8⟩
        = 512 * 512 * BlockSize EPixelFormat.PF_B8G8R8A8
    ∧ BlockSize EPixelFormat.PF_B8G8R8A8 = 4
    ∧ FRenderTargetCache.MaxCacheSize ExampleEngine.GeneratorSettings = 50 * 1000000
    ∧ BlockSize EPixelFormat.PF_FloatRGBA = 8
    ∧ FRenderTargetCache.GetItemDataFootprint ⟨1, 512, 512, EPixelFormat.PF_FloatRGBA⟩
        = 512 * 512 * 16
    ∧ FRenderTargetCache.GetItemDataFootprint ⟨1, 512, 512, EPixelFormat.PF_FloatRGBA⟩
        ≠ 512 * 512 * BlockSize EPixelFormat.PF_FloatRGBA := by
  decide

/-! ## Theorems: `FrameCamera2D` -/

theorem IsNearlyZero_false_iff (Value : ℚ) :
    IsNearlyZero Value = false ↔ SMALL_NUMBER < |Value| := by
  unfold IsNearlyZero
  rw [decide_eq_false_iff_not, not_le]

theorem SMALL_NUMBER_pos : 0 < SMALL_NUMBER := by
  unfold SMALL_NUMBER
  norm_num

theorem ne_zero_of_not_nearly_zero (Value : ℚ) (h : IsNearlyZero Value = false) :
    Value ≠ 0 := by
  intro h0
  rw [IsNearlyZero_false_iff, h0, abs_zero] at h
  exact absurd SMALL_NUMBER_pos (not_lt.mpr h.le)

/-- With a determinant that is not nearly zero, `IntersectLocation` is the Cramer quotient. -/
theorem IntersectLocation_of_not_nearly_zero (Point1 Point2 L R : FVector2D)
    (h : IsNearlyZero (FrameCamera2D.Determinant L R) = false) :
    FrameCamera2D.IntersectLocation Point1 Point2 L R
      = ⟨(R.X * (-L.Y * Point1.X + L.X * Point1.Y) - L.X * (-R.Y * Point2.X + R.X * Point2.Y))
            / FrameCamera2D.Determinant L R,
         (-L.Y * (-R.Y * Point2.X + R.X * Point2.Y) - -R.Y * (-L.Y * Point1.X + L.X * Point1.Y))
            / FrameCamera2D.Determinant L R⟩ := by
  unfold FrameCamera2D.IntersectLocation
  simp only [h, Bool.false_eq_true, if_false]

/-- With a determinant that is nearly zero, `IntersectLocation` is the zero vector. -/
theorem IntersectLocation_of_nearly_zero (Point1 Point2 L R : FVector2D)
    (h : IsNearlyZero (FrameCamera2D.Determinant L R) = true) :
    FrameCamera2D.IntersectLocation Point1 Point2 L R = FVector2D.ZeroVector := by
  unfold FrameCamera2D.IntersectLocation
  simp only [h, if_true]

theorem div_eq_add_div_mul (N P T L D : ℚ) (hD : D ≠ 0) (h : N = P * D + T * L) :
    N / D = P + T / D * L := by
  rw [h]
  field_simp

theorem div_scaled_eq (N N2 D k : ℚ) (hk : k ≠ 0) (h : N2 = k * N) :
    N2 / (k * D) = N / D := by
  rw [h, mul_div_mul_left _ _ hk]

/-- C19, counterexample: the edge directions `(-1, 1)` and `(1, 1)` have determinant -2, which
is not near zero, and the intersection for the points `(0, 0)` and `(2, 0)` is `(1, -1)`; with
the left direction scaled by the non-zero factor `10^-9` the determinant is near zero and the
computed intersection is the zero vector instead. -/
theorem C19_counterexample :
    FrameCamera2D.Determinant ⟨-1, 1⟩ ⟨1, 1⟩ = -2
    ∧ IsNearlyZero (FrameCamera2D.Determinant ⟨-1, 1⟩ ⟨1, 1⟩) = false
    ∧ (1 / 10 ^ 9 : ℚ) ≠ 0
    ∧ FrameCamera2D.IntersectLocation ⟨0, 0⟩ ⟨2, 0⟩ ⟨-1, 1⟩ ⟨1, 1⟩ = ⟨1, -1⟩
    ∧ FrameCamera2D.IntersectLocation ⟨0, 0⟩ ⟨2, 0⟩
        ⟨1 / 10 ^ 9 * -1, 1 / 10 ^ 9 * 1⟩ ⟨1, 1⟩ = ⟨0, 0⟩ := by
  have hd : FrameCamera2D.Determinant ⟨-1, 1⟩ ⟨1, 1⟩ = -2 := by
    norm_num [FrameCamera2D.Determinant]
  have hn : IsNearlyZero (FrameCamera2D.Determinant ⟨-1, 1⟩ ⟨1, 1⟩) = false := by
    rw [hd, IsNearlyZero_false_iff]
    norm_num [SMALL_NUMBER]
  have hs : IsNearlyZero
      (FrameCamera2D.Determinant ⟨1 / 10 ^ 9 * -1, 1 / 10 ^ 9 * 1⟩ ⟨1, 1⟩) = true := by
    unfold IsNearlyZero
    rw [decide_eq_true_iff]
    norm_num [FrameCamera2D.Determinant, SMALL_NUMBER, abs_le]
  refine ⟨hd, hn, by norm_num, ?_, ?_⟩
  · rw [IntersectLocation_of_not_nearly_zero _ _ _ _ hn, hd]
    norm_num
  · rw [IntersectLocation_of_nearly_zero _ _ _ _ hs]
    rfl

/-- C19 (amended): for edge directions `L`, `R` whose determinant `-L.y R.x + R.y L.x` is not
near zero, the intersection location computed before the rejection test lies on the line
through `Point1` with direction `L` and on the line through `Point2` with direction `R`, and it
is unchanged when `L` or `R` is scaled by a factor `k` for which the scaled determinant
(`k` times the determinant) is still not near zero. -/
theorem C19_intersection_on_both_lines (Point1 Point2 L R : FVector2D)
    (hdet : IsNearlyZero (FrameCamera2D.Determinant L R) = false) :
    FrameCamera2D.Determinant L R = -L.Y * R.X + R.Y * L.X
    ∧ (∃ t : ℚ, FrameCamera2D.IntersectLocation Point1 Point2 L R
          = ⟨Point1.X + t * L.X, Point1.Y + t * L.Y⟩)
    ∧ (∃ u : ℚ, FrameCamera2D.IntersectLocation Point1 Point2 L R
          = ⟨Point2.X + u * R.X, Point2.Y + u * R.Y⟩)
    ∧ ∀ k : ℚ, IsNearlyZero (k * FrameCamera2D.Determinant L R) = false →
        FrameCamera2D.Determinant ⟨k * L.X, k * L.Y⟩ R = k * FrameCamera2D.Determinant L R
        ∧ FrameCamera2D.Determinant L ⟨k * R.X, k * R.Y⟩ = k * FrameCamera2D.Determinant L R
        ∧ FrameCamera2D.IntersectLocation Point1 Point2 ⟨k * L.X, k * L.Y⟩ R
            = FrameCamera2D.IntersectLocation Point1 Point2 L R
        ∧ FrameCamera2D.IntersectLocation Point1 Point2 L ⟨k * R.X, k * R.Y⟩
            = FrameCamera2D.IntersectLocation Point1 Point2 L R := by
  have hD : FrameCamera2D.Determinant L R = -L.Y * R.X + R.Y * L.X := by
    unfold FrameCamera2D.Determinant
    ring
  have hne : FrameCamera2D.Determinant L R ≠ 0 := ne_zero_of_not_nearly_zero _ hdet
  have hne2 : -L.Y * R.X + R.Y * L.X ≠ 0 := hD ▸ hne
  refine ⟨hD, ?_, ?_, ?_⟩
  · refine ⟨((Point2.X - Point1.X) * R.Y - (Point2.Y - Point1.Y) * R.X)
        / FrameCamera2D.Determinant L R, ?_⟩
    rw [IntersectLocation_of_not_nearly_zero _ _ _ _ hdet, hD]
    congr 1
    · exact div_eq_add_div_mul _ _ _ _ _ hne2 (by ring)
    · exact div_eq_add_div_mul _ _ _ _ _ hne2 (by ring)
  · refine ⟨((Point2.X - Point1.X) * L.Y - (Point2.Y - Point1.Y) * L.X)
        / FrameCamera2D.Determinant L R, ?_⟩
    rw [IntersectLocation_of_not_nearly_zero _ _ _ _ hdet, hD]
    congr 1
    · exact div_eq_add_div_mul _ _ _ _ _ hne2 (by ring)
    · exact div_eq_add_div_mul _ _ _ _ _ hne2 (by ring)
  · intro k hk
    have hkne : k ≠ 0 := left_ne_zero_of_mul (ne_zero_of_not_nearly_zero _ hk)
    have hL : FrameCamera2D.Determinant ⟨k * L.X, k * L.Y⟩ R
        = k * FrameCamera2D.Determinant L R := by
      unfold FrameCamera2D.Determinant
      ring
    have hR : FrameCamera2D.Determinant L ⟨k * R.X, k * R.Y⟩
        = k * FrameCamera2D.Determinant L R := by
      unfold FrameCamera2D.Determinant
      ring
    refine ⟨hL, hR, ?_, ?_⟩
    · rw [IntersectLocation_of_not_nearly_zero _ _ _ _ (hL ▸ hk),
        IntersectLocation_of_not_nearly_zero _ _ _ _ hdet, hL]
      congr 1
      · exact div_scaled_eq _ _ _ _ hkne (by ring)
      · exact div_scaled_eq _ _ _ _ hkne (by ring)
    · rw [IntersectLocation_of_not_nearly_zero _ _ _ _ (hR ▸ hk),
        IntersectLocation_of_not_nearly_zero _ _ _ _ hdet, hR]
      congr 1
      · exact div_scaled_eq _ _ _ _ hkne (by ring)
      · exact div_scaled_eq _ _ _ _ hkne (by ring)

/-- C19, instance: the directions `(-1, 1)` and `(1, 1)` through `(0, 0)` and `(2, 0)`, and
the scale factor 3. -/
theorem C19_intersection_on_both_lines_witness :
    IsNearlyZero (FrameCamera2D.Determinant ⟨-1, 1⟩ ⟨1, 1⟩) = false
    ∧ FrameCamera2D.IntersectLocation ⟨0, 0⟩ ⟨2, 0⟩ ⟨3 * -1, 3 * 1⟩ ⟨1, 1⟩
        = FrameCamera2D.IntersectLocation ⟨0, 0⟩ ⟨2, 0⟩ ⟨-1, 1⟩ ⟨1, 1⟩ :=
  have hd : FrameCamera2D.Determinant ⟨-1, 1⟩ ⟨1, 1⟩ = -2 := by
    norm_num [FrameCamera2D.Determinant]
  have hn : IsNearlyZero (FrameCamera2D.Determinant ⟨-1, 1⟩ ⟨1, 1⟩) = false := by
    rw [hd, IsNearlyZero_false_iff]
    norm_num [SMALL_NUMBER]
  have hk : IsNearlyZero (3 * FrameCamera2D.Determinant ⟨-1, 1⟩ ⟨1, 1⟩) = false := by
    rw [hd, IsNearlyZero_false_iff]
    norm_num [SMALL_NUMBER]
  ⟨hn, ((C19_intersection_on_both_lines ⟨0, 0⟩ ⟨2, 0⟩ ⟨-1, 1⟩ ⟨1, 1⟩ hn).2.2.2 3 hk).2.2.1⟩

/-- C20, counterexample: two parallel edge directions (both straight ahead, determinant 0) and
two points in front of the origin, at forward coordinates 5 and 7: `FrameCamera2D` returns the
zero vector, not the sentinel, and its forward coordinate 0 is below `BIG_NUMBER`. -/
theorem C20_counterexample :
    IsNearlyZero (FrameCamera2D.Determinant ⟨0, 1⟩ ⟨0, 1⟩) = true
    ∧ FrameCamera2D ⟨0, 5⟩ ⟨1, 7⟩ ⟨0, 1⟩ ⟨0, 1⟩ = FVector2D.ZeroVector
    ∧ FrameCamera2D ⟨0, 5⟩ ⟨1, 7⟩ ⟨0, 1⟩ ⟨0, 1⟩ ≠ FVector2D.Splat BIG_NUMBER
    ∧ (FrameCamera2D ⟨0, 5⟩ ⟨1, 7⟩ ⟨0, 1⟩ ⟨0, 1⟩).Y < BIG_NUMBER := by
  have hd : IsNearlyZero (FrameCamera2D.Determinant ⟨0, 1⟩ ⟨0, 1⟩) = true := by
    unfold IsNearlyZero
    rw [decide_eq_true_iff]
    norm_num [FrameCamera2D.Determinant, SMALL_NUMBER]
  have hf : FrameCamera2D ⟨0, 5⟩ ⟨1, 7⟩ ⟨0, 1⟩ ⟨0, 1⟩ = FVector2D.ZeroVector := by
    unfold FrameCamera2D
    rw [IntersectLocation_of_nearly_zero _ _ _ _ hd]
    norm_num [FVector2D.ZeroVector]
  refine ⟨hd, hf, ?_, ?_⟩
  · rw [hf]
    norm_num [FVector2D.ZeroVector, FVector2D.Splat, BIG_NUMBER]
  · rw [hf]
    norm_num [FVector2D.ZeroVector, BIG_NUMBER]

/-- C20 (amended): for edge directions whose determinant is near zero, `FrameCamera2D` takes
the zero vector as the intersection and applies its rejection test to it: with `LeftPoint` and
`RightPoint` chosen as in the code, it returns the sentinel `FVector2D(BIG_NUMBER)` when one of
their forward coordinates is negative, and the zero vector (forward coordinate 0, below
`BIG_NUMBER`) when both are at least 0. -/
theorem C20_parallel_edges (Point1 Point2 L R : FVector2D)
    (hdet : IsNearlyZero (FrameCamera2D.Determinant L R) = true) :
    ((if Point1.X < Point2.X then Point1 else Point2).Y < 0
        ∨ (if Point1.X > Point2.X then Point1 else Point2).Y < 0 →
      FrameCamera2D Point1 Point2 L R = FVector2D.Splat BIG_NUMBER)
    ∧ (0 ≤ (if Point1.X < Point2.X then Point1 else Point2).Y
        ∧ 0 ≤ (if Point1.X > Point2.X then Point1 else Point2).Y →
      FrameCamera2D Point1 Point2 L R = FVector2D.ZeroVector
        ∧ (FrameCamera2D Point1 Point2 L R).Y < BIG_NUMBER) := by
  have hI := IntersectLocation_of_nearly_zero Point1 Point2 L R hdet
  constructor
  · intro h
    unfold FrameCamera2D
    simp only [hI]
    rw [if_pos]
    show min _ _ < (0 : ℚ)
    exact min_lt_iff.mpr h
  · intro h
    have hf : FrameCamera2D Point1 Point2 L R = FVector2D.ZeroVector := by
      unfold FrameCamera2D
      simp only [hI]
      rw [if_neg]
      show ¬ min _ _ < (0 : ℚ)
      exact not_lt.mpr (le_min h.1 h.2)
    refine ⟨hf, ?_⟩
    rw [hf]
    norm_num [FVector2D.ZeroVector, BIG_NUMBER]

/-- C20, instance: parallel edges straight ahead and the points `(0, 5)` and `(1, 7)`. -/
theorem C20_parallel_edges_witness :
    IsNearlyZero (FrameCamera2D.Determinant ⟨0, 1⟩ ⟨0, 1⟩) = true
    ∧ FrameCamera2D ⟨0, 5⟩ ⟨1, 7⟩ ⟨0, 1⟩ ⟨0, 1⟩ = FVector2D.ZeroVector :=
  have hd : IsNearlyZero (FrameCamera2D.Determinant ⟨0, 1⟩ ⟨0, 1⟩) = true := by
    unfold IsNearlyZero
    rw [decide_eq_true_iff]
    norm_num [FrameCamera2D.Determinant, SMALL_NUMBER]
  ⟨hd, ((C20_parallel_edges ⟨0, 5⟩ ⟨1, 7⟩ ⟨0, 1⟩ ⟨0, 1⟩ hd).2 (by norm_num)).1⟩

/-! ## Theorems: orthographic framing -/

/-- C15, evaluation of the code at eight corners with right coordinates 5 and 7 and up
coordinates -1 and 1, aspect ratio 1, fit mode `EFitX`: the bounding rectangle of the corners
has width 7 - 5 = 2 and its midpoint is at right coordinate 6, but the code returns the ortho
width 7 and the camera's right coordinate 7/2, those of the rectangle from 0 to 7, because
`OutMin` and `OutMax` start at the zero vector. For the cube of half-extent 2 centred at the
origin the code returns the projected extent 4 and the midpoint 0. -/
theorem C15_rectangle_includes_origin :
    ProjectedBounds2D ExampleOffCentreCorners = ⟨⟨0, -1⟩, ⟨7, 1⟩⟩
    ∧ CalculateOrthographicView 1
        ((FThumbnailSettings.ctor ExamplePostProcessDefault).SetMember EMember.CameraFitMode
          EThumbnailCameraFitMode.EFitX) ExampleOffCentreCorners
        = ⟨7, ⟨-1000, 7 / 2, 0⟩⟩
    ∧ (7 : ℚ) ≠ 7 - 5
    ∧ (7 / 2 : ℚ) ≠ (7 + 5) / 2
    ∧ CalculateOrthographicView 1
        ((FThumbnailSettings.ctor ExamplePostProcessDefault).SetMember EMember.CameraFitMode
          EThumbnailCameraFitMode.EFitX) (CubeCorners 2)
        = ⟨4, ⟨-1000, 0, 0⟩⟩ := by
  have hB : ProjectedBounds2D ExampleOffCentreCorners = ⟨⟨0, -1⟩, ⟨7, 1⟩⟩ := by
    norm_num [ProjectedBounds2D, ExampleOffCentreCorners, FVector2D.ZeroVector]
  have hC : ProjectedBounds2D (CubeCorners 2) = ⟨⟨-2, -2⟩, ⟨2, 2⟩⟩ := by
    norm_num [ProjectedBounds2D, CubeCorners, FVector2D.ZeroVector]
  refine ⟨hB, ?_, by norm_num, by norm_num, ?_⟩
  · unfold CalculateOrthographicView
    rw [hB, SetMember_Member_same]
    norm_num
  · unfold CalculateOrthographicView
    rw [hC, SetMember_Member_same]
    norm_num

theorem foldl_invariant {α β : Type} (P : β → Prop) (f : β → α → β)
    (hf : ∀ b a, P b → P (f b a)) (l : List α) (b : β) (hb : P b) : P (l.foldl f b) := by
  induction l generalizing b with
  | nil => exact hb
  | cons a tl ih => exact ih (f b a) (hf b a hb)

/-- The rectangle computed by `ProjectedBounds2D` always contains the origin of the projection
plane, whatever the corners are. -/
theorem ProjectedBounds2D_contains_origin (Vertices : FBoundsVertices) :
    (ProjectedBounds2D Vertices).Min.X ≤ 0 ∧ 0 ≤ (ProjectedBounds2D Vertices).Max.X
    ∧ (ProjectedBounds2D Vertices).Min.Y ≤ 0 ∧ 0 ≤ (ProjectedBounds2D Vertices).Max.Y := by
  unfold ProjectedBounds2D
  refine foldl_invariant
    (fun Out : FBounds2D => Out.Min.X ≤ 0 ∧ 0 ≤ Out.Max.X ∧ Out.Min.Y ≤ 0 ∧ 0 ≤ Out.Max.Y)
    _ ?_ Vertices _ ⟨le_rfl, le_rfl, le_rfl, le_rfl⟩
  intro Out Vertex h
  dsimp only
  refine ⟨?_, ?_, ?_, ?_⟩
  · split_ifs with hlt
    · exact le_trans hlt.le h.1
    · exact h.1
  · split_ifs with hlt
    · exact le_trans h.2.1 hlt.le
    · exact h.2.1
  · split_ifs with hlt
    · exact le_trans hlt.le h.2.2.1
    · exact h.2.2.1
  · split_ifs with hlt
    · exact le_trans h.2.2.2 hlt.le
    · exact h.2.2.2

/-! ## Theorems: perspective framing -/

/-- The selection loop keeps an element with the smallest forward coordinate: the result is
the initial value or one of the candidates, and its forward coordinate is at most that of the
initial value and of every candidate. -/
theorem foldl_best_spec (Candidates : List FVector2D) (Best0 : FVector2D) :
    (Candidates.foldl (fun Best C => if C.Y < Best.Y then C else Best) Best0 = Best0
      ∨ Candidates.foldl (fun Best C => if C.Y < Best.Y then C else Best) Best0 ∈ Candidates)
    ∧ (Candidates.foldl (fun Best C => if C.Y < Best.Y then C else Best) Best0).Y ≤ Best0.Y
    ∧ ∀ C ∈ Candidates,
        (Candidates.foldl (fun Best C => if C.Y < Best.Y then C else Best) Best0).Y ≤ C.Y := by
  induction Candidates generalizing Best0 with
  | nil => simp
  | cons C Rest ih =>
    rw [List.foldl_cons]
    obtain ⟨h1, h2, h3⟩ := ih (if C.Y < Best0.Y then C else Best0)
    have hstep : (if C.Y < Best0.Y then C else Best0).Y ≤ Best0.Y
        ∧ (if C.Y < Best0.Y then C else Best0).Y ≤ C.Y := by
      split_ifs with hlt
      · exact ⟨hlt.le, le_rfl⟩
      · exact ⟨le_rfl, not_lt.mp hlt⟩
    refine ⟨?_, le_trans h2 hstep.1, ?_⟩
    · rcases h1 with h1 | h1
      · rw [h1]
        split_ifs with hlt
        · exact Or.inr (List.mem_cons_self _ _)
        · exact Or.inl rfl
      · exact Or.inr (List.mem_cons_of_mem _ h1)
    · intro D hD
      rcases List.mem_cons.mp hD with rfl | hD
      · exact le_trans h2 hstep.2
      · exact h3 D hD

theorem foldl_BestIntersectLocationsStep (LeftDir RightDir TopDir BottomDir : FVector)
    (V : FBoundsVertices) (Pairs : List (Nat × Nat)) (Best : FVector2D × FVector2D) :
    Pairs.foldl (BestIntersectLocationsStep LeftDir RightDir TopDir BottomDir V) Best
      = ((Pairs.map (fun Pair =>
            HorizontalLocation LeftDir RightDir (V.At Pair.1) (V.At Pair.2))).foldl
            (fun Best C => if C.Y < Best.Y then C else Best) Best.1,
         (Pairs.map (fun Pair =>
            VerticalLocation TopDir BottomDir (V.At Pair.1) (V.At Pair.2))).foldl
            (fun Best C => if C.Y < Best.Y then C else Best) Best.2) := by
  induction Pairs generalizing Best with
  | nil => rfl
  | cons Pair Rest ih =>
    rw [List.foldl_cons, ih]
    rfl

theorem BoundsVertexPairs_mem (i j : Nat) :
    (i, j) ∈ BoundsVertexPairs ↔ i < j ∧ j < 8 := by
  constructor
  · intro h
    have hall : ∀ Pair ∈ BoundsVertexPairs, Pair.1 < Pair.2 ∧ Pair.2 < 8 := by decide
    exact hall (i, j) h
  · rintro ⟨hij, hj⟩
    have hall : ∀ j < 8, ∀ i < j, (i, j) ∈ BoundsVertexPairs := by decide
    exact hall j hj i hij

/-- The best intersect locations after the loops: minimal forward coordinate over all pairs,
and each is the initial sentinel or the location of some pair. -/
theorem BestIntersectLocations_spec (LeftDir RightDir TopDir BottomDir : FVector)
    (V : FBoundsVertices) :
    (∀ i j : Nat, i < j → j < 8 →
        (BestIntersectLocations LeftDir RightDir TopDir BottomDir V).1.Y
          ≤ (HorizontalLocation LeftDir RightDir (V.At i) (V.At j)).Y)
    ∧ ((BestIntersectLocations LeftDir RightDir TopDir BottomDir V).1
          = FVector2D.Splat BIG_NUMBER
        ∨ ∃ i j : Nat, i < j ∧ j < 8 ∧
            (BestIntersectLocations LeftDir RightDir TopDir BottomDir V).1
              = HorizontalLocation LeftDir RightDir (V.At i) (V.At j))
    ∧ (∀ i j : Nat, i < j → j < 8 →
        (BestIntersectLocations LeftDir RightDir TopDir BottomDir V).2.Y
          ≤ (VerticalLocation TopDir BottomDir (V.At i) (V.At j)).Y)
    ∧ ((BestIntersectLocations LeftDir RightDir TopDir BottomDir V).2
          = FVector2D.Splat BIG_NUMBER
        ∨ ∃ i j : Nat, i < j ∧ j < 8 ∧
            (BestIntersectLocations LeftDir RightDir TopDir BottomDir V).2
              = VerticalLocation TopDir BottomDir (V.At i) (V.At j))
    ∧ (BestIntersectLocations LeftDir RightDir TopDir BottomDir V).1.Y ≤ BIG_NUMBER
    ∧ (BestIntersectLocations LeftDir RightDir TopDir BottomDir V).2.Y ≤ BIG_NUMBER := by
  unfold BestIntersectLocations
  rw [foldl_BestIntersectLocationsStep]
  dsimp only
  obtain ⟨h1, h2, h3⟩ := foldl_best_spec
    (BoundsVertexPairs.map (fun Pair =>
      HorizontalLocation LeftDir RightDir (V.At Pair.1) (V.At Pair.2)))
    (FVector2D.Splat BIG_NUMBER)
  obtain ⟨v1, v2, v3⟩ := foldl_best_spec
    (BoundsVertexPairs.map (fun Pair =>
      VerticalLocation TopDir BottomDir (V.At Pair.1) (V.At Pair.2)))
    (FVector2D.Splat BIG_NUMBER)
  refine ⟨?_, ?_, ?_, ?_, h2, v2⟩
  · intro i j hij hj
    exact h3 _ (List.mem_map.mpr ⟨(i, j), (BoundsVertexPairs_mem i j).mpr ⟨hij, hj⟩, rfl⟩)
  · rcases h1 with h1 | h1
    · exact Or.inl h1
    · obtain ⟨⟨i, j⟩, hmem, heq⟩ := List.mem_map.mp h1
      have := (BoundsVertexPairs_mem i j).mp hmem
      exact Or.inr ⟨i, j, this.1, this.2, heq.symm⟩
  · intro i j hij hj
    exact v3 _ (List.mem_map.mpr ⟨(i, j), (BoundsVertexPairs_mem i j).mpr ⟨hij, hj⟩, rfl⟩)
  · rcases v1 with v1 | v1
    · exact Or.inl v1
    · obtain ⟨⟨i, j⟩, hmem, heq⟩ := List.mem_map.mp v1
      have := (BoundsVertexPairs_mem i j).mp hmem
      exact Or.inr ⟨i, j, this.1, this.2, heq.symm⟩

theorem LeftCameraFrustrumDir_SetMember_CameraFitMode (M : FEngineMath)
    (S : FThumbnailSettings) (Mode : EThumbnailCameraFitMode) :
    LeftCameraFrustrumDir M (S.SetMember EMember.CameraFitMode Mode)
      = LeftCameraFrustrumDir M S := by
  unfold LeftCameraFrustrumDir
  rw [SetMember_Member_other _ _ _ _ (by decide)]

theorem TopCameraFrustrumDir_SetMember_CameraFitMode (M : FEngineMath) (InAspectRatio : ℚ)
    (S : FThumbnailSettings) (Mode : EThumbnailCameraFitMode) :
    TopCameraFrustrumDir M InAspectRatio (S.SetMember EMember.CameraFitMode Mode)
      = TopCameraFrustrumDir M InAspectRatio S := by
  unfold TopCameraFrustrumDir
  rw [SetMember_Member_other _ _ _ _ (by decide)]

/-- C13: let `(fH, yH)` be the best horizontal intersect location (forward `fH`, lateral `yH`)
and `(fV, zV)` the best vertical one. Each has the smallest forward coordinate among the
`FrameCamera2D` results of all 28 corner pairs `i < j < 8` on its axis and is the result of one
of the pairs (or the no-solution sentinel `FVector2D(BIG_NUMBER)` that the search starts from,
when no pair gives a forward coordinate below `BIG_NUMBER`). For every fit mode
`CalculatePerspectiveViewLocation` returns `(max(fH,fV), yH, zV)` for Fill,
`(min(fH,fV), yH, zV)` for Fit, `(fH, yH, zV)` for FitX and `(fV, yH, zV)` for FitY, where
`(fH, yH)` and `(fV, zV)` do not depend on the fit mode. -/
theorem C13_perspective_fit_modes (M : FEngineMath) (InAspectRatio : ℚ)
    (S : FThumbnailSettings) (V : FBoundsVertices) (Mode : EThumbnailCameraFitMode) :
    CalculatePerspectiveViewLocation M InAspectRatio (S.SetMember EMember.CameraFitMode Mode) V
        = (match Mode with
          | EThumbnailCameraFitMode.EFill =>
            ⟨max (BestIntersectLocations (LeftCameraFrustrumDir M S)
                  (RightCameraFrustrumDir M S) (TopCameraFrustrumDir M InAspectRatio S)
                  (BottomCameraFrustrumDir M InAspectRatio S) V).1.Y
                (BestIntersectLocations (LeftCameraFrustrumDir M S)
                  (RightCameraFrustrumDir M S) (TopCameraFrustrumDir M InAspectRatio S)
                  (BottomCameraFrustrumDir M InAspectRatio S) V).2.Y,
              (BestIntersectLocations (LeftCameraFrustrumDir M S)
                  (RightCameraFrustrumDir M S) (TopCameraFrustrumDir M InAspectRatio S)
                  (BottomCameraFrustrumDir M InAspectRatio S) V).1.X,
              (BestIntersectLocations (LeftCameraFrustrumDir M S)
                  (RightCameraFrustrumDir M S) (TopCameraFrustrumDir M InAspectRatio S)
                  (BottomCameraFrustrumDir M InAspectRatio S) V).2.X⟩
          | EThumbnailCameraFitMode.EFit =>
            ⟨min (BestIntersectLocations (LeftCameraFrustrumDir M S)
                  (RightCameraFrustrumDir M S) (TopCameraFrustrumDir M InAspectRatio S)
                  (BottomCameraFrustrumDir M InAspectRatio S) V).1.Y
                (BestIntersectLocations (LeftCameraFrustrumDir M S)
                  (RightCameraFrustrumDir M S) (TopCameraFrustrumDir M InAspectRatio S)
                  (BottomCameraFrustrumDir M InAspectRatio S) V).2.Y,
              (BestIntersectLocations (LeftCameraFrustrumDir M S)
                  (RightCameraFrustrumDir M S) (TopCameraFrustrumDir M InAspectRatio S)
                  (BottomCameraFrustrumDir M InAspectRatio S) V).1.X,
              (BestIntersectLocations (LeftCameraFrustrumDir M S)
                  (RightCameraFrustrumDir M S) (TopCameraFrustrumDir M InAspectRatio S)
                  (BottomCameraFrustrumDir M InAspectRatio S) V).2.X⟩
          | EThumbnailCameraFitMode.EFitX =>
            ⟨(BestIntersectLocations (LeftCameraFrustrumDir M S)
                  (RightCameraFrustrumDir M S) (TopCameraFrustrumDir M InAspectRatio S)
                  (BottomCameraFrustrumDir M InAspectRatio S) V).1.Y,
              (BestIntersectLocations (LeftCameraFrustrumDir M S)
                  (RightCameraFrustrumDir M S) (TopCameraFrustrumDir M InAspectRatio S)
                  (BottomCameraFrustrumDir M InAspectRatio S) V).1.X,
              (BestIntersectLocations (LeftCameraFrustrumDir M S)
                  (RightCameraFrustrumDir M S) (TopCameraFrustrumDir M InAspectRatio S)
                  (BottomCameraFrustrumDir M InAspectRatio S) V).2.X⟩
          | EThumbnailCameraFitMode.EFitY =>
            ⟨(BestIntersectLocations (LeftCameraFrustrumDir M S)
                  (RightCameraFrustrumDir M S) (TopCameraFrustrumDir M InAspectRatio S)
                  (BottomCameraFrustrumDir M InAspectRatio S) V).2.Y,
              (BestIntersectLocations (LeftCameraFrustrumDir M S)
                  (RightCameraFrustrumDir M S) (TopCameraFrustrumDir M InAspectRatio S)
                  (BottomCameraFrustrumDir M InAspectRatio S) V).1.X,
              (BestIntersectLocations (LeftCameraFrustrumDir M S)
                  (RightCameraFrustrumDir M S) (TopCameraFrustrumDir M InAspectRatio S)
                  (BottomCameraFrustrumDir M InAspectRatio S) V).2.X⟩)
    ∧ (∀ i j : Nat, i < j → j < 8 →
        (BestIntersectLocations (LeftCameraFrustrumDir M S) (RightCameraFrustrumDir M S)
            (TopCameraFrustrumDir M InAspectRatio S) (BottomCameraFrustrumDir M InAspectRatio S)
            V).1.Y
          ≤ (HorizontalLocation (LeftCameraFrustrumDir M S) (RightCameraFrustrumDir M S)
              (V.At i) (V.At j)).Y)
    ∧ ((BestIntersectLocations (LeftCameraFrustrumDir M S) (RightCameraFrustrumDir M S)
            (TopCameraFrustrumDir M InAspectRatio S) (BottomCameraFrustrumDir M InAspectRatio S)
            V).1 = FVector2D.Splat BIG_NUMBER
        ∨ ∃ i j : Nat, i < j ∧ j < 8 ∧
            (BestIntersectLocations (LeftCameraFrustrumDir M S) (RightCameraFrustrumDir M S)
              (TopCameraFrustrumDir M InAspectRatio S)
              (BottomCameraFrustrumDir M InAspectRatio S) V).1
              = HorizontalLocation (LeftCameraFrustrumDir M S) (RightCameraFrustrumDir M S)
                  (V.At i) (V.At j))
    ∧ (∀ i j : Nat, i < j → j < 8 →
        (BestIntersectLocations (LeftCameraFrustrumDir M S) (RightCameraFrustrumDir M S)
            (TopCameraFrustrumDir M InAspectRatio S) (BottomCameraFrustrumDir M InAspectRatio S)
            V).2.Y
          ≤ (VerticalLocation (TopCameraFrustrumDir M InAspectRatio S)
              (BottomCameraFrustrumDir M InAspectRatio S) (V.At i) (V.At j)).Y)
    ∧ ((BestIntersectLocations (LeftCameraFrustrumDir M S) (RightCameraFrustrumDir M S)
            (TopCameraFrustrumDir M InAspectRatio S) (BottomCameraFrustrumDir M InAspectRatio S)
            V).2 = FVector2D.Splat BIG_NUMBER
        ∨ ∃ i j : Nat, i < j ∧ j < 8 ∧
            (BestIntersectLocations (LeftCameraFrustrumDir M S) (RightCameraFrustrumDir M S)
              (TopCameraFrustrumDir M InAspectRatio S)
              (BottomCameraFrustrumDir M InAspectRatio S) V).2
              = VerticalLocation (TopCameraFrustrumDir M InAspectRatio S)
                  (BottomCameraFrustrumDir M InAspectRatio S) (V.At i) (V.At j)) := by
  have hspec := BestIntersectLocations_spec (LeftCameraFrustrumDir M S)
    (RightCameraFrustrumDir M S) (TopCameraFrustrumDir M InAspectRatio S)
    (BottomCameraFrustrumDir M InAspectRatio S) V
  refine ⟨?_, hspec.1, hspec.2.1, hspec.2.2.1, hspec.2.2.2.1⟩
  unfold CalculatePerspectiveViewLocation RightCameraFrustrumDir BottomCameraFrustrumDir
  rw [LeftCameraFrustrumDir_SetMember_CameraFitMode,
    TopCameraFrustrumDir_SetMember_CameraFitMode, SetMember_Member_same]
  cases Mode <;> rfl

theorem FVector.neg_def (V : FVector) : -V = ⟨-V.X, -V.Y, -V.Z⟩ := rfl

theorem FVector.mul_def (A B : FVector) : A * B = ⟨A.X * B.X, A.Y * B.Y, A.Z * B.Z⟩ := rfl

theorem FVector.add_def (A B : FVector) : A + B = ⟨A.X + B.X, A.Y + B.Y, A.Z + B.Z⟩ := rfl

theorem FVector.sub_def (A B : FVector) : A - B = ⟨A.X - B.X, A.Y - B.Y, A.Z - B.Z⟩ := rfl

theorem LeftCameraFrustrumDir_eq (M : FEngineMath) (S : FThumbnailSettings) :
    LeftCameraFrustrumDir M S
      = ⟨(M.SinCos (S.Member EMember.CameraFOV * (1 / 2))).2,
         -(M.SinCos (S.Member EMember.CameraFOV * (1 / 2))).1, 0⟩ := by
  unfold LeftCameraFrustrumDir FVector.RotateAngleAxis
  show FVector.mk _ _ _ = _
  simp only [FVector.ForwardVector, FVector.UpVector, FVector.neg_def]
  congr 1 <;> ring

theorem RightCameraFrustrumDir_eq (M : FEngineMath) (S : FThumbnailSettings) :
    RightCameraFrustrumDir M S
      = ⟨(M.SinCos (S.Member EMember.CameraFOV * (1 / 2))).2,
         (M.SinCos (S.Member EMember.CameraFOV * (1 / 2))).1, 0⟩ := by
  unfold RightCameraFrustrumDir
  rw [LeftCameraFrustrumDir_eq, FVector.mul_def]
  congr 1 <;> ring

theorem TopCameraFrustrumDir_eq (M : FEngineMath) (InAspectRatio : ℚ)
    (S : FThumbnailSettings) :
    TopCameraFrustrumDir M InAspectRatio S
      = ⟨(M.SinCos (S.Member EMember.CameraFOV * (1 / 2) / InAspectRatio)).2, 0,
         (M.SinCos (S.Member EMember.CameraFOV * (1 / 2) / InAspectRatio)).1⟩ := by
  unfold TopCameraFrustrumDir FVector.RotateAngleAxis
  show FVector.mk _ _ _ = _
  simp only [FVector.ForwardVector, FVector.RightVector, FVector.neg_def]
  congr 1 <;> ring

theorem BottomCameraFrustrumDir_eq (M : FEngineMath) (InAspectRatio : ℚ)
    (S : FThumbnailSettings) :
    BottomCameraFrustrumDir M InAspectRatio S
      = ⟨(M.SinCos (S.Member EMember.CameraFOV * (1 / 2) / InAspectRatio)).2, 0,
         -(M.SinCos (S.Member EMember.CameraFOV * (1 / 2) / InAspectRatio)).1⟩ := by
  unfold BottomCameraFrustrumDir
  rw [TopCameraFrustrumDir_eq, FVector.mul_def]
  congr 1 <;> ring

/-- `FrameCamera2D` returns the sentinel or the intersection location. -/
theorem FrameCamera2D_cases (Point1 Point2 L R : FVector2D) :
    FrameCamera2D Point1 Point2 L R = FVector2D.Splat BIG_NUMBER
    ∨ FrameCamera2D Point1 Point2 L R = FrameCamera2D.IntersectLocation Point1 Point2 L R := by
  unfold FrameCamera2D
  dsimp only
  split_ifs <;> first | exact Or.inl rfl | exact Or.inr rfl

theorem Determinant_symmetric (s c : ℚ) :
    FrameCamera2D.Determinant ⟨-s, c⟩ ⟨s, c⟩ = -(2 * c * s) := by
  unfold FrameCamera2D.Determinant
  ring

/-- For the symmetric edge directions `(-s, c)` and `(s, c)` of a frustum with half angle sine
`s > 0` and cosine `c > 0`, the intersection is the midpoint corrected by the slopes. -/
theorem IntersectLocation_symmetric (s c : ℚ) (hs : 0 < s) (hc : 0 < c)
    (hdet : SMALL_NUMBER < 2 * c * s) (Point1 Point2 : FVector2D) :
    FrameCamera2D.IntersectLocation Point1 Point2 ⟨-s, c⟩ ⟨s, c⟩
      = ⟨(Point1.X + Point2.X) / 2 + s / c * ((Point1.Y - Point2.Y) / 2),
         (Point1.Y + Point2.Y) / 2 - c / s * ((Point2.X - Point1.X) / 2)⟩ := by
  have hn : IsNearlyZero (FrameCamera2D.Determinant ⟨-s, c⟩ ⟨s, c⟩) = false := by
    rw [Determinant_symmetric, IsNearlyZero_false_iff, abs_neg,
      abs_of_pos (by positivity)]
    exact hdet
  rw [IntersectLocation_of_not_nearly_zero _ _ _ _ hn, Determinant_symmetric]
  have hs0 : s ≠ 0 := hs.ne.symm
  have hc0 : c ≠ 0 := hc.ne.symm
  congr 1
  · field_simp
    ring
  · field_simp
    ring

/-- The forward coordinate that frames two points at the lateral distance `2 e` on the near
face of the cube: `e + e * (c / s)` behind the origin. -/
theorem FrameCamera2D_near_face (s c e : ℚ) (hs : 0 < s) (hc : 0 < c)
    (hdet : SMALL_NUMBER < 2 * c * s) (he : 0 < e) :
    FrameCamera2D ⟨-e, -e⟩ ⟨e, -e⟩ ⟨-s, c⟩ ⟨s, c⟩ = ⟨0, -(e + e * (c / s))⟩ := by
  unfold FrameCamera2D
  rw [IntersectLocation_symmetric s c hs hc hdet]
  have hlt : -e < e := by linarith
  have hr : 0 < c / s := div_pos hc hs
  simp only [hlt, if_true, not_lt.mpr hlt.le, gt_iff_lt, if_false, min_self]
  rw [if_neg]
  · congr 1
    · ring
    · ring
  · rw [not_lt]
    have h1 : (e - -e) / 2 = e := by ring
    have h2 : 0 < c / s * e := mul_pos hr he
    rw [h1]
    linarith

/-- Every result of `FrameCamera2D` for two points of the square `[-e, e] x [-e, e]`, the first
not to the right of the second, has a forward coordinate of at least `-(e + e * (c / s))`, and
lateral coordinate 0 when it attains this bound. -/
theorem FrameCamera2D_in_square (s c e : ℚ) (hs : 0 < s) (hc : 0 < c)
    (hdet : SMALL_NUMBER < 2 * c * s) (he : 0 < e) (Point1 Point2 : FVector2D)
    (h1X : -e ≤ Point1.X) (h2X : Point2.X ≤ e) (hX : Point1.X ≤ Point2.X)
    (h1Y : -e ≤ Point1.Y) (h2Y : -e ≤ Point2.Y) :
    -(e + e * (c / s)) ≤ (FrameCamera2D Point1 Point2 ⟨-s, c⟩ ⟨s, c⟩).Y
    ∧ ((FrameCamera2D Point1 Point2 ⟨-s, c⟩ ⟨s, c⟩).Y ≤ -(e + e * (c / s)) →
        (FrameCamera2D Point1 Point2 ⟨-s, c⟩ ⟨s, c⟩).X = 0) := by
  have hr : 0 < c / s := div_pos hc hs
  have hq : 0 < s / c := div_pos hs hc
  have hbig : (0 : ℚ) < BIG_NUMBER := by
    unfold BIG_NUMBER
    norm_num
  have hneg : -(e + e * (c / s)) < 0 := by
    have : 0 < e * (c / s) := mul_pos he hr
    linarith
  rcases FrameCamera2D_cases Point1 Point2 ⟨-s, c⟩ ⟨s, c⟩ with hrej | hacc
  · rw [hrej]
    constructor
    · show -(e + e * (c / s)) ≤ BIG_NUMBER
      linarith
    · intro h
      have h2 : BIG_NUMBER ≤ -(e + e * (c / s)) := h
      linarith
  · rw [hacc, IntersectLocation_symmetric s c hs hc hdet]
    dsimp only
    have hw : c / s * ((Point2.X - Point1.X) / 2) ≤ c / s * e := by
      apply mul_le_mul_of_nonneg_left _ hr.le
      linarith
    have hw0 : 0 ≤ c / s * ((Point2.X - Point1.X) / 2) := by
      apply mul_nonneg hr.le
      linarith
    have hcomm : e * (c / s) = c / s * e := mul_comm _ _
    constructor
    · linarith
    · intro h
      have hY1 : Point1.Y = -e := by linarith
      have hY2 : Point2.Y = -e := by linarith
      have hweq : c / s * ((Point2.X - Point1.X) / 2) = c / s * e := by linarith
      have hdiff : (Point2.X - Point1.X) / 2 = e := mul_left_cancel₀ hr.ne.symm hweq
      have hX1 : Point1.X = -e := by linarith
      have hX2 : Point2.X = e := by linarith
      rw [hX1, hX2, hY1, hY2]
      ring

theorem CubeCorners_At_bounds (e : ℚ) (he : 0 < e) (i : Nat) :
    (-e ≤ ((CubeCorners e).At i).X ∧ ((CubeCorners e).At i).X ≤ e)
    ∧ (-e ≤ ((CubeCorners e).At i).Y ∧ ((CubeCorners e).At i).Y ≤ e)
    ∧ (-e ≤ ((CubeCorners e).At i).Z ∧ ((CubeCorners e).At i).Z ≤ e) := by
  have hle : -e ≤ e := by linarith
  have h0 : -e ≤ 0 := by linarith
  rcases i with _ | _ | _ | _ | _ | _ | _ | _ | i
  all_goals
    simp only [FBoundsVertices.At, CubeCorners, List.getD_cons_zero, List.getD_cons_succ,
      List.getD_nil, FVector.ZeroVector]
    refine ⟨⟨?_, ?_⟩, ⟨?_, ?_⟩, ⟨?_, ?_⟩⟩ <;> linarith

theorem HorizontalLocation_in_cube (s c e : ℚ) (hs : 0 < s) (hc : 0 < c)
    (hdet : SMALL_NUMBER < 2 * c * s) (he : 0 < e) (Point1 Point2 : FVector)
    (h1X : -e ≤ Point1.X) (h2X : -e ≤ Point2.X)
    (h1Y : -e ≤ Point1.Y ∧ Point1.Y ≤ e) (h2Y : -e ≤ Point2.Y ∧ Point2.Y ≤ e) :
    -(e + e * (c / s)) ≤ (HorizontalLocation ⟨c, -s, 0⟩ ⟨c, s, 0⟩ Point1 Point2).Y
    ∧ ((HorizontalLocation ⟨c, -s, 0⟩ ⟨c, s, 0⟩ Point1 Point2).Y ≤ -(e + e * (c / s)) →
        (HorizontalLocation ⟨c, -s, 0⟩ ⟨c, s, 0⟩ Point1 Point2).X = 0) := by
  unfold HorizontalLocation
  dsimp only
  by_cases h : Point1.Y > Point2.Y
  · simp only [h, if_true]
    exact FrameCamera2D_in_square s c e hs hc hdet he _ _ h2Y.1 h1Y.2 h.le h2X h1X
  · simp only [h, if_false]
    exact FrameCamera2D_in_square s c e hs hc hdet he _ _ h1Y.1 h2Y.2 (not_lt.mp h) h1X h2X

theorem VerticalLocation_in_cube (s c e : ℚ) (hs : 0 < s) (hc : 0 < c)
    (hdet : SMALL_NUMBER < 2 * c * s) (he : 0 < e) (Point1 Point2 : FVector)
    (h1X : -e ≤ Point1.X) (h2X : -e ≤ Point2.X)
    (h1Z : -e ≤ Point1.Z ∧ Point1.Z ≤ e) (h2Z : -e ≤ Point2.Z ∧ Point2.Z ≤ e) :
    -(e + e * (c / s)) ≤ (VerticalLocation ⟨c, 0, s⟩ ⟨c, 0, -s⟩ Point1 Point2).Y
    ∧ ((VerticalLocation ⟨c, 0, s⟩ ⟨c, 0, -s⟩ Point1 Point2).Y ≤ -(e + e * (c / s)) →
        (VerticalLocation ⟨c, 0, s⟩ ⟨c, 0, -s⟩ Point1 Point2).X = 0) := by
  unfold VerticalLocation
  dsimp only
  by_cases h : Point1.Z > Point2.Z
  · simp only [h, if_true]
    exact FrameCamera2D_in_square s c e hs hc hdet he _ _ h2Z.1 h1Z.2 h.le h2X h1X
  · simp only [h, if_false]
    exact FrameCamera2D_in_square s c e hs hc hdet he _ _ h1Z.1 h2Z.2 (not_lt.mp h) h1X h2X

theorem HorizontalLocation_cube_near_face (s c e : ℚ) (hs : 0 < s) (hc : 0 < c)
    (hdet : SMALL_NUMBER < 2 * c * s) (he : 0 < e) :
    HorizontalLocation ⟨c, -s, 0⟩ ⟨c, s, 0⟩ ((CubeCorners e).At 0) ((CubeCorners e).At 1)
      = ⟨0, -(e + e * (c / s))⟩ := by
  have hlt : ¬ (-e > e) := by
    rw [gt_iff_lt, not_lt]
    linarith
  unfold HorizontalLocation
  simp only [FBoundsVertices.At, CubeCorners, List.getD_cons_zero, List.getD_cons_succ, hlt,
    if_false]
  exact FrameCamera2D_near_face s c e hs hc hdet he

theorem VerticalLocation_cube_near_face (s c e : ℚ) (hs : 0 < s) (hc : 0 < c)
    (hdet : SMALL_NUMBER < 2 * c * s) (he : 0 < e) :
    VerticalLocation ⟨c, 0, s⟩ ⟨c, 0, -s⟩ ((CubeCorners e).At 0) ((CubeCorners e).At 4)
      = ⟨0, -(e + e * (c / s))⟩ := by
  have hlt : ¬ (-e > e) := by
    rw [gt_iff_lt, not_lt]
    linarith
  unfold VerticalLocation
  simp only [FBoundsVertices.At, CubeCorners, List.getD_cons_zero, List.getD_cons_succ, hlt,
    if_false]
  exact FrameCamera2D_near_face s c e hs hc hdet he

/-- The best intersect locations for the cube of half-extent `e` centred at the origin, for a
frustum with horizontal half angle sine `s` and cosine `c` and vertical half angle sine `s2`
and cosine `c2`: lateral coordinate 0, forward coordinate `-(e + e * (c / s))` and
`-(e + e * (c2 / s2))`. -/
theorem BestIntersectLocations_cube (s c s2 c2 e : ℚ) (hs : 0 < s) (hc : 0 < c)
    (hdet : SMALL_NUMBER < 2 * c * s) (hs2 : 0 < s2) (hc2 : 0 < c2)
    (hdet2 : SMALL_NUMBER < 2 * c2 * s2) (he : 0 < e) :
    BestIntersectLocations ⟨c, -s, 0⟩ ⟨c, s, 0⟩ ⟨c2, 0, s2⟩ ⟨c2, 0, -s2⟩ (CubeCorners e)
      = (⟨0, -(e + e * (c / s))⟩, ⟨0, -(e + e * (c2 / s2))⟩) := by
  obtain ⟨h1, h2, h3, h4, -, -⟩ :=
    BestIntersectLocations_spec ⟨c, -s, 0⟩ ⟨c, s, 0⟩ ⟨c2, 0, s2⟩ ⟨c2, 0, -s2⟩ (CubeCorners e)
  have hbig : (0 : ℚ) < BIG_NUMBER := by
    unfold BIG_NUMBER
    norm_num
  have hneg : -(e + e * (c / s)) < 0 := by
    have : 0 < e * (c / s) := mul_pos he (div_pos hc hs)
    linarith
  have hneg2 : -(e + e * (c2 / s2)) < 0 := by
    have : 0 < e * (c2 / s2) := mul_pos he (div_pos hc2 hs2)
    linarith
  have hH : (BestIntersectLocations ⟨c, -s, 0⟩ ⟨c, s, 0⟩ ⟨c2, 0, s2⟩ ⟨c2, 0, -s2⟩
      (CubeCorners e)).1 = ⟨0, -(e + e * (c / s))⟩ := by
    have hle := h1 0 1 (by norm_num) (by norm_num)
    rw [HorizontalLocation_cube_near_face s c e hs hc hdet he] at hle
    rcases h2 with h2 | ⟨i, j, -, -, h2⟩
    · rw [h2] at hle
      have : BIG_NUMBER ≤ -(e + e * (c / s)) := hle
      linarith
    · have hb := HorizontalLocation_in_cube s c e hs hc hdet he
        ((CubeCorners e).At i) ((CubeCorners e).At j)
        (CubeCorners_At_bounds e he i).1.1 (CubeCorners_At_bounds e he j).1.1
        (CubeCorners_At_bounds e he i).2.1 (CubeCorners_At_bounds e he j).2.1
      rw [← h2] at hb
      have hY := le_antisymm hle hb.1
      have hX := hb.2 hle
      cases hBest : (BestIntersectLocations ⟨c, -s, 0⟩ ⟨c, s, 0⟩ ⟨c2, 0, s2⟩ ⟨c2, 0, -s2⟩
        (CubeCorners e)).1 with
      | mk X Y =>
        rw [hBest] at hY hX
        dsimp only at hY hX
        rw [hX, hY]
  have hV : (BestIntersectLocations ⟨c, -s, 0⟩ ⟨c, s, 0⟩ ⟨c2, 0, s2⟩ ⟨c2, 0, -s2⟩
      (CubeCorners e)).2 = ⟨0, -(e + e * (c2 / s2))⟩ := by
    have hle := h3 0 4 (by norm_num) (by norm_num)
    rw [VerticalLocation_cube_near_face s2 c2 e hs2 hc2 hdet2 he] at hle
    rcases h4 with h4 | ⟨i, j, -, -, h4⟩
    · rw [h4] at hle
      have : BIG_NUMBER ≤ -(e + e * (c2 / s2)) := hle
      linarith
    · have hb := VerticalLocation_in_cube s2 c2 e hs2 hc2 hdet2 he
        ((CubeCorners e).At i) ((CubeCorners e).At j)
        (CubeCorners_At_bounds e he i).1.1 (CubeCorners_At_bounds e he j).1.1
        (CubeCorners_At_bounds e he i).2.2 (CubeCorners_At_bounds e he j).2.2
      rw [← h4] at hb
      have hY := le_antisymm hle hb.1
      have hX := hb.2 hle
      cases hBest : (BestIntersectLocations ⟨c, -s, 0⟩ ⟨c, s, 0⟩ ⟨c2, 0, s2⟩ ⟨c2, 0, -s2⟩
        (CubeCorners e)).2 with
      | mk X Y =>
        rw [hBest] at hY hX
        dsimp only at hY hX
        rw [hX, hY]
  exact Prod.ext hH hV

/-- Closed form of `CalculatePerspectiveViewLocation` for the cube of half-extent `e` centred at
the origin: with `(s, c)` the sine and cosine of the horizontal half angle and `(s2, c2)` those
of the vertical half angle, the two best intersect locations have lateral coordinate 0 and lie
`e + e * (c / s)` and `e + e * (c2 / s2)` behind the origin. -/
theorem CalculatePerspectiveViewLocation_cube (M : FEngineMath) (InAspectRatio : ℚ)
    (S : FThumbnailSettings) (e : ℚ) (he : 0 < e)
    (hs : 0 < (M.SinCos (S.Member EMember.CameraFOV * (1 / 2))).1)
    (hc : 0 < (M.SinCos (S.Member EMember.CameraFOV * (1 / 2))).2)
    (hdet : SMALL_NUMBER < 2 * (M.SinCos (S.Member EMember.CameraFOV * (1 / 2))).2
      * (M.SinCos (S.Member EMember.CameraFOV * (1 / 2))).1)
    (hs2 : 0 < (M.SinCos (S.Member EMember.CameraFOV * (1 / 2) / InAspectRatio)).1)
    (hc2 : 0 < (M.SinCos (S.Member EMember.CameraFOV * (1 / 2) / InAspectRatio)).2)
    (hdet2 : SMALL_NUMBER
      < 2 * (M.SinCos (S.Member EMember.CameraFOV * (1 / 2) / InAspectRatio)).2
        * (M.SinCos (S.Member EMember.CameraFOV * (1 / 2) / InAspectRatio)).1) :
    CalculatePerspectiveViewLocation M InAspectRatio S (CubeCorners e)
      = NewCameraLocation (S.Member EMember.CameraFitMode)
          ⟨0, -(e + e * ((M.SinCos (S.Member EMember.CameraFOV * (1 / 2))).2
            / (M.SinCos (S.Member EMember.CameraFOV * (1 / 2))).1))⟩
          ⟨0, -(e + e * ((M.SinCos (S.Member EMember.CameraFOV * (1 / 2) / InAspectRatio)).2
            / (M.SinCos (S.Member EMember.CameraFOV * (1 / 2) / InAspectRatio)).1))⟩ := by
  unfold CalculatePerspectiveViewLocation
  rw [LeftCameraFrustrumDir_eq, RightCameraFrustrumDir_eq, TopCameraFrustrumDir_eq,
    BottomCameraFrustrumDir_eq,
    BestIntersectLocations_cube _ _ _ _ e hs hc hdet hs2 hc2 hdet2 he]

theorem ExampleFitSettings_CameraFOV :
    ExampleFitSettings.Member EMember.CameraFOV = (90 : ℚ) := by
  unfold ExampleFitSettings
  rw [SetMember_Member_other _ _ _ _ (by decide), SetMember_Member_same]

theorem ExampleFitSettings_CameraFitMode :
    ExampleFitSettings.Member EMember.CameraFitMode = EThumbnailCameraFitMode.EFit := by
  unfold ExampleFitSettings
  rw [SetMember_Member_same]

theorem ExampleEngineMath_SinCos_45 :
    ExampleEngineMath.SinCos 45 = (7071 / 10000, 7071 / 10000) := by
  simp [ExampleEngineMath]

/-- The cube closed form at a field of view of 90 degrees, aspect ratio 1 and fit mode `EFit`,
for a sine and cosine of 45 degrees that are equal and positive. -/
theorem CalculatePerspectiveViewLocation_cube_90 (M : FEngineMath) (S : FThumbnailSettings)
    (e : ℚ) (he : 0 < e)
    (hFOV : S.Member EMember.CameraFOV = (90 : ℚ))
    (hFit : S.Member EMember.CameraFitMode = EThumbnailCameraFitMode.EFit)
    (hTan : (M.SinCos 45).1 = (M.SinCos 45).2)
    (hCos : 0 < (M.SinCos 45).2)
    (hDet : SMALL_NUMBER < 2 * (M.SinCos 45).2 * (M.SinCos 45).1) :
    CalculatePerspectiveViewLocation M 1 S (CubeCorners e) = ⟨-(2 * e), 0, 0⟩ := by
  have h45 : S.Member EMember.CameraFOV * (1 / 2) = (45 : ℚ) := by
    rw [hFOV]
    norm_num
  have h45b : S.Member EMember.CameraFOV * (1 / 2) / 1 = (45 : ℚ) := by
    rw [div_one, h45]
  have hSin : 0 < (M.SinCos 45).1 := hTan ▸ hCos
  rw [CalculatePerspectiveViewLocation_cube M 1 S e he (h45 ▸ hSin) (h45 ▸ hCos)
    (h45 ▸ hDet) (h45b ▸ hSin) (h45b ▸ hCos) (h45b ▸ hDet), hFit, h45b, h45, hTan,
    div_self hCos.ne.symm]
  unfold NewCameraLocation
  dsimp only
  rw [min_self]
  congr 1
  ring

/-- C14, counterexample: for the cube of half-extent 1, a field of view of 90 degrees (sine and
cosine of 45 degrees equal, so the tangent is 1), aspect ratio 1 and fit mode `EFit`, the
returned location is `(-2, 0, 0)`: its distance from the origin along the forward axis is 2,
not `e / tan(45°) = 1`. -/
theorem C14_counterexample :
    CalculatePerspectiveViewLocation ExampleEngineMath 1 ExampleFitSettings (CubeCorners 1)
      = ⟨-2, 0, 0⟩
    ∧ (ExampleEngineMath.SinCos 45).1 / (ExampleEngineMath.SinCos 45).2 = 1
    ∧ |(CalculatePerspectiveViewLocation ExampleEngineMath 1 ExampleFitSettings
          (CubeCorners 1)).X|
        ≠ 1 / ((ExampleEngineMath.SinCos 45).1 / (ExampleEngineMath.SinCos 45).2) := by
  have h := CalculatePerspectiveViewLocation_cube_90 ExampleEngineMath ExampleFitSettings 1
    (by norm_num) ExampleFitSettings_CameraFOV ExampleFitSettings_CameraFitMode
    (by rw [ExampleEngineMath_SinCos_45])
    (by rw [ExampleEngineMath_SinCos_45]; norm_num)
    (by rw [ExampleEngineMath_SinCos_45]; norm_num [SMALL_NUMBER])
  have h2 : CalculatePerspectiveViewLocation ExampleEngineMath 1 ExampleFitSettings
      (CubeCorners 1) = ⟨-2, 0, 0⟩ := by
    rw [h]
    norm_num
  refine ⟨h2, ?_, ?_⟩
  · rw [ExampleEngineMath_SinCos_45]
    norm_num
  · rw [h2, ExampleEngineMath_SinCos_45]
    norm_num

/-- C14 (amended): for the 8 camera-space corners `(±e, ±e, ±e)` of a cube with half-extent
`e > 0` centred at the origin, a field of view of 90 degrees (sine and cosine of 45 degrees
equal and positive, so the tangent is 1), aspect ratio 1 and fit mode `EFit`,
`CalculatePerspectiveViewLocation` returns a location with zero lateral and vertical components
that lies `e + e / tan(45°) = 2 e` behind the origin on the forward axis, that is
`e / tan(45°)` behind the near face of the cube. -/
theorem C14_cube_closed_form (M : FEngineMath) (S : FThumbnailSettings) (e : ℚ) (he : 0 < e)
    (hFOV : S.Member EMember.CameraFOV = (90 : ℚ))
    (hFit : S.Member EMember.CameraFitMode = EThumbnailCameraFitMode.EFit)
    (hTan : (M.SinCos 45).1 = (M.SinCos 45).2)
    (hCos : 0 < (M.SinCos 45).2)
    (hDet : SMALL_NUMBER < 2 * (M.SinCos 45).2 * (M.SinCos 45).1) :
    (CalculatePerspectiveViewLocation M 1 S (CubeCorners e)).Y = 0
    ∧ (CalculatePerspectiveViewLocation M 1 S (CubeCorners e)).Z = 0
    ∧ (CalculatePerspectiveViewLocation M 1 S (CubeCorners e)).X
        = -(e + e / ((M.SinCos 45).1 / (M.SinCos 45).2))
    ∧ (CalculatePerspectiveViewLocation M 1 S (CubeCorners e)).X = -(2 * e)
    ∧ (CalculatePerspectiveViewLocation M 1 S (CubeCorners e)).X - -e
        = -(e / ((M.SinCos 45).1 / (M.SinCos 45).2)) := by
  rw [CalculatePerspectiveViewLocation_cube_90 M S e he hFOV hFit hTan hCos hDet, hTan,
    div_self hCos.ne.symm]
  refine ⟨rfl, rfl, ?_, rfl, ?_⟩
  · show -(2 * e) = _
    ring
  · show -(2 * e) - -e = _
    ring

/-- C14, instance: the cube of half-extent 3. -/
theorem C14_cube_closed_form_witness :
    (CalculatePerspectiveViewLocation ExampleEngineMath 1 ExampleFitSettings
      (CubeCorners 3)).X = -(2 * 3) :=
  (C14_cube_closed_form ExampleEngineMath ExampleFitSettings 3 (by norm_num)
    ExampleFitSettings_CameraFOV ExampleFitSettings_CameraFitMode
    (by rw [ExampleEngineMath_SinCos_45])
    (by rw [ExampleEngineMath_SinCos_45]; norm_num)
    (by rw [ExampleEngineMath_SinCos_45]; norm_num [SMALL_NUMBER])).2.2.2.1

theorem ExampleBoundsVertices :
    BoundsVertices ExampleEngineMath FTransform.Identity ⟨⟨-1, -1, -1⟩, ⟨1, 1, 1⟩, true⟩
      = CubeCorners 1 := by
  norm_num [BoundsVertices, CubeCorners, ExampleEngineMath, FTransform.Identity,
    FBox.GetExtent, FBox.GetCenter, FVector.Scale, FVector.add_def, FVector.sub_def]

theorem ExampleEngineMath_SinCos_half_45 :
    ExampleEngineMath.SinCos (45 * (1 / 2)) = (3827 / 10000, 9239 / 10000) := by
  norm_num [ExampleEngineMath]

/-- The auto-framed camera location for the example settings and the box from `(-1, -1, -1)` to
`(1, 1, 1)`: on the forward axis, `1 + cos/sin` of 22.5 degrees behind the origin, moved by the
`CameraDistanceOffset` of -20. -/
theorem ExampleCustomOrthoWidthSettings_AutoFrameCamera_Location :
    (AutoFrameCamera ExampleEngineMath ExampleCustomOrthoWidthSettings FTransform.Identity
        ⟨⟨-1, -1, -1⟩, ⟨1, 1, 1⟩, true⟩
        { ExampleDefaultView with
          ProjectionMode := ECameraProjectionMode.Perspective }).1.Location
      = ⟨-(1 + 9239 / 3827) + -20, 0, 0⟩ := by
  have hP : ExampleCustomOrthoWidthSettings.Member EMember.ProjectionType
      = ECameraProjectionMode.Perspective := rfl
  have hW : ExampleCustomOrthoWidthSettings.Member EMember.ThumbnailTextureWidth
      = (512 : Int) := rfl
  have hH : ExampleCustomOrthoWidthSettings.Member EMember.ThumbnailTextureHeight
      = (512 : Int) := rfl
  have hB : ExampleCustomOrthoWidthSettings.Override EOverride.bOverride_CustomActorBounds
      = false := by decide
  have hS : ¬ (ExampleCustomOrthoWidthSettings.Member EMember.bSnapToFloor = true) := by
    decide
  have hD : ExampleCustomOrthoWidthSettings.Override
      EOverride.bOverride_CameraDistanceOverride = false := by decide
  have hO : ExampleCustomOrthoWidthSettings.Member EMember.CameraDistanceOffset
      = (-20 : ℚ) := rfl
  have hC : ExampleCustomOrthoWidthSettings.Member EMember.CameraPositionOffset
      = FVector.ZeroVector := rfl
  have hF : ExampleCustomOrthoWidthSettings.Member EMember.CameraFOV = (45 : ℚ) := rfl
  have hM : ExampleCustomOrthoWidthSettings.Member EMember.CameraFitMode
      = EThumbnailCameraFitMode.EFit := rfl
  have hA : (if (512 : Int) > 0 ∧ (512 : Int) > 0 then (((512 : Int) : ℚ)) / (((512 : Int) : ℚ))
      else 1) = (1 : ℚ) := by
    norm_num
  have hcube := CalculatePerspectiveViewLocation_cube ExampleEngineMath 1
    ExampleCustomOrthoWidthSettings 1 (by norm_num)
    (by rw [hF, ExampleEngineMath_SinCos_half_45]; norm_num)
    (by rw [hF, ExampleEngineMath_SinCos_half_45]; norm_num)
    (by rw [hF, ExampleEngineMath_SinCos_half_45]; norm_num [SMALL_NUMBER])
    (by rw [hF, div_one, ExampleEngineMath_SinCos_half_45]; norm_num)
    (by rw [hF, div_one, ExampleEngineMath_SinCos_half_45]; norm_num)
    (by rw [hF, div_one, ExampleEngineMath_SinCos_half_45]; norm_num [SMALL_NUMBER])
  rw [hM, hF, div_one, ExampleEngineMath_SinCos_half_45] at hcube
  unfold AutoFrameCamera
  simp only [hP, hW, hH, hB, hS, hD, hO, hC, hA, decide_True, if_true, Bool.false_eq_true,
    if_false, ExampleBoundsVertices]
  have hmap : List.map (ExampleEngineMath.UnrotateVector
      (ExampleEngineMath.QuatMul
        (ExampleEngineMath.Quaternion
          (ExampleCustomOrthoWidthSettings.Member EMember.CameraRotationOffset))
        (ExampleEngineMath.Quaternion
          (ExampleCustomOrthoWidthSettings.Member EMember.CameraOrbitRotation))))
      (CubeCorners 1) = CubeCorners 1 := List.map_id _
  split_ifs
  all_goals first | contradiction | skip
  dsimp only
  rw [hmap, hcube]
  norm_num [NewCameraLocation, ExampleEngineMath, FVector.add_def, FVector.ZeroVector]


/-! ## Theorems: custom camera -/

theorem bAutoFrameCamera_eq_false_iff (S : FThumbnailSettings) :
    bAutoFrameCamera S = false ↔
      (S.Override EOverride.bOverride_CustomCameraLocation = true
        ∨ S.Override EOverride.bOverride_CustomCameraRotation = true
        ∨ (S.Member EMember.ProjectionType ≠ ECameraProjectionMode.Perspective
            ∧ S.Override EOverride.bOverride_CustomOrthoWidth = true)) := by
  unfold bAutoFrameCamera
  simp only [Bool.not_eq_false', Bool.or_eq_true, Bool.and_eq_true, Bool.not_eq_true',
    decide_eq_false_iff_not, or_assoc, ne_eq]

/-- In perspective projection the auto-framing branch does not write the ortho width. -/
theorem AutoFrameCamera_perspective_OrthoWidth (M : FEngineMath) (S : FThumbnailSettings)
    (ActorTransform : FTransform) (ActorLocalThumbnailBounds : FBox) (View : FMinimalViewInfo)
    (h : S.Member EMember.ProjectionType = ECameraProjectionMode.Perspective) :
    (AutoFrameCamera M S ActorTransform ActorLocalThumbnailBounds View).1.OrthoWidth
      = View.OrthoWidth := by
  unfold AutoFrameCamera
  simp only [h, decide_True, if_true]

theorem ExampleCustomOrthoWidthSettings_bAutoFrameCamera :
    bAutoFrameCamera ExampleCustomOrthoWidthSettings = true := by
  decide

/-- C12, counterexample: perspective projection with only `bOverride_CustomOrthoWidth` set and
`CustomOrthoWidth = 100`. Auto-framing is not skipped: the view is the one computed by the
auto-framing branch: for a box from `(-1, -1, -1)` to `(1, 1, 1)` the location is the
auto-framed one, not the literal `CustomCameraLocation` (the origin), and the ortho width is the
default 512, not the literal 100. -/
theorem C12_counterexample :
    ExampleCustomOrthoWidthSettings.Member EMember.ProjectionType
      = ECameraProjectionMode.Perspective
    ∧ ExampleCustomOrthoWidthSettings.Override EOverride.bOverride_CustomOrthoWidth = true
    ∧ ExampleCustomOrthoWidthSettings.Member EMember.CustomOrthoWidth = (100 : ℚ)
    ∧ bAutoFrameCamera ExampleCustomOrthoWidthSettings = true
    ∧ (CaptureComponentView ExampleEngineMath ExampleDefaultView
          ExampleCustomOrthoWidthSettings FTransform.Identity
          ⟨⟨-1, -1, -1⟩, ⟨1, 1, 1⟩, true⟩).1.Location
        = (AutoFrameCamera ExampleEngineMath ExampleCustomOrthoWidthSettings FTransform.Identity
            ⟨⟨-1, -1, -1⟩, ⟨1, 1, 1⟩, true⟩
            { ExampleDefaultView with
              ProjectionMode := ECameraProjectionMode.Perspective }).1.Location
    ∧ (CaptureComponentView ExampleEngineMath ExampleDefaultView
          ExampleCustomOrthoWidthSettings FTransform.Identity
          ⟨⟨-1, -1, -1⟩, ⟨1, 1, 1⟩, true⟩).1.Location = ⟨-(1 + 9239 / 3827) + -20, 0, 0⟩
    ∧ (CaptureComponentView ExampleEngineMath ExampleDefaultView
          ExampleCustomOrthoWidthSettings FTransform.Identity
          ⟨⟨-1, -1, -1⟩, ⟨1, 1, 1⟩, true⟩).1.Location
        ≠ ExampleCustomOrthoWidthSettings.Member EMember.CustomCameraLocation
    ∧ (CaptureComponentView ExampleEngineMath ExampleDefaultView
          ExampleCustomOrthoWidthSettings FTransform.Identity
          ⟨⟨-1, -1, -1⟩, ⟨1, 1, 1⟩, true⟩).1.OrthoWidth = 512
    ∧ (CaptureComponentView ExampleEngineMath ExampleDefaultView
          ExampleCustomOrthoWidthSettings FTransform.Identity
          ⟨⟨-1, -1, -1⟩, ⟨1, 1, 1⟩, true⟩).1.OrthoWidth
        ≠ ExampleCustomOrthoWidthSettings.Member EMember.CustomOrthoWidth := by
  have hP : ExampleCustomOrthoWidthSettings.Member EMember.ProjectionType
      = ECameraProjectionMode.Perspective := rfl
  have hW : ExampleCustomOrthoWidthSettings.Member EMember.CustomOrthoWidth = (100 : ℚ) := by
    unfold ExampleCustomOrthoWidthSettings
    rw [SetMember_Member_same]
  have hO : (CaptureComponentView ExampleEngineMath ExampleDefaultView
      ExampleCustomOrthoWidthSettings FTransform.Identity
      ⟨⟨-1, -1, -1⟩, ⟨1, 1, 1⟩, true⟩).1.OrthoWidth = 512 := by
    unfold CaptureComponentView
    simp only [ExampleCustomOrthoWidthSettings_bAutoFrameCamera, if_true]
    exact AutoFrameCamera_perspective_OrthoWidth _ _ _ _ _ hP
  have hA : (CaptureComponentView ExampleEngineMath ExampleDefaultView
      ExampleCustomOrthoWidthSettings FTransform.Identity
      ⟨⟨-1, -1, -1⟩, ⟨1, 1, 1⟩, true⟩).1.Location
      = (AutoFrameCamera ExampleEngineMath ExampleCustomOrthoWidthSettings FTransform.Identity
          ⟨⟨-1, -1, -1⟩, ⟨1, 1, 1⟩, true⟩
          { ExampleDefaultView with
            ProjectionMode := ECameraProjectionMode.Perspective }).1.Location := by
    unfold CaptureComponentView
    simp only [ExampleCustomOrthoWidthSettings_bAutoFrameCamera, if_true]
    rfl
  have hL := hA.trans ExampleCustomOrthoWidthSettings_AutoFrameCamera_Location
  have hCustom : ExampleCustomOrthoWidthSettings.Member EMember.CustomCameraLocation
      = FVector.ZeroVector := rfl
  refine ⟨hP, by decide, hW, ExampleCustomOrthoWidthSettings_bAutoFrameCamera, hA, hL, ?_, hO,
    ?_⟩
  · rw [hL, hCustom]
    intro h
    have hX := congrArg FVector.X h
    norm_num [FVector.ZeroVector] at hX
  · rw [hO, hW]
    norm_num

/-- C12 (amended): if `bOverride_CustomCameraLocation` or `bOverride_CustomCameraRotation` is
set, or `bOverride_CustomOrthoWidth` is set and the projection is not perspective, auto-framing
is skipped: the capture view's location, rotation and ortho width are the literal
`CustomCameraLocation`, `CustomCameraRotation` and `CustomOrthoWidth`, and the actor is not
moved. Otherwise (none of the three flags set, or only `bOverride_CustomOrthoWidth` set in
perspective projection) auto-framing is used: the view and the actor location are those of the
auto-framing branch. -/
theorem C12_custom_camera (M : FEngineMath) (DefaultView : FMinimalViewInfo)
    (S : FThumbnailSettings) (ActorTransform : FTransform) (ActorLocalThumbnailBounds : FBox) :
    ((S.Override EOverride.bOverride_CustomCameraLocation = true
        ∨ S.Override EOverride.bOverride_CustomCameraRotation = true
        ∨ (S.Member EMember.ProjectionType ≠ ECameraProjectionMode.Perspective
            ∧ S.Override EOverride.bOverride_CustomOrthoWidth = true)) →
      bAutoFrameCamera S = false
      ∧ (CaptureComponentView M DefaultView S ActorTransform ActorLocalThumbnailBounds).1.Location
          = S.Member EMember.CustomCameraLocation
      ∧ (CaptureComponentView M DefaultView S ActorTransform ActorLocalThumbnailBounds).1.Rotation
          = S.Member EMember.CustomCameraRotation
      ∧ (CaptureComponentView M DefaultView S ActorTransform
            ActorLocalThumbnailBounds).1.OrthoWidth
          = S.Member EMember.CustomOrthoWidth
      ∧ (CaptureComponentView M DefaultView S ActorTransform ActorLocalThumbnailBounds).2
          = ActorTransform.Translation)
    ∧ (¬ (S.Override EOverride.bOverride_CustomCameraLocation = true
        ∨ S.Override EOverride.bOverride_CustomCameraRotation = true
        ∨ (S.Member EMember.ProjectionType ≠ ECameraProjectionMode.Perspective
            ∧ S.Override EOverride.bOverride_CustomOrthoWidth = true)) →
      bAutoFrameCamera S = true
      ∧ CaptureComponentView M DefaultView S ActorTransform ActorLocalThumbnailBounds
          = ({ (AutoFrameCamera M S ActorTransform ActorLocalThumbnailBounds
                  { DefaultView with
                    ProjectionMode := S.Member EMember.ProjectionType }).1 with
                PostProcessBlendWeight := 1
                PostProcessSettings := S.Member EMember.PostProcessingSettings },
              (AutoFrameCamera M S ActorTransform ActorLocalThumbnailBounds
                  { DefaultView with
                    ProjectionMode := S.Member EMember.ProjectionType }).2)) := by
  constructor
  · intro h
    have hf : bAutoFrameCamera S = false := (bAutoFrameCamera_eq_false_iff S).mpr h
    refine ⟨hf, ?_, ?_, ?_, ?_⟩ <;>
    · unfold CaptureComponentView
      simp only [hf, Bool.false_eq_true, if_false]
  · intro h
    have ht : bAutoFrameCamera S = true := by
      rw [← Bool.not_eq_false]
      exact fun hf => h ((bAutoFrameCamera_eq_false_iff S).mp hf)
    refine ⟨ht, ?_⟩
    unfold CaptureComponentView
    simp only [ht, if_true]

/-- C12, instance: orthographic projection with only `bOverride_CustomOrthoWidth` set. -/
theorem C12_custom_camera_witness :
    (CaptureComponentView ExampleEngineMath ExampleDefaultView
        (ExampleCustomOrthoWidthSettings.SetMember EMember.ProjectionType
          ECameraProjectionMode.Orthographic) FTransform.Identity
        ⟨⟨-1, -1, -1⟩, ⟨1, 1, 1⟩, true⟩).1.OrthoWidth
      = (ExampleCustomOrthoWidthSettings.SetMember EMember.ProjectionType
          ECameraProjectionMode.Orthographic).Member EMember.CustomOrthoWidth :=
  ((C12_custom_camera ExampleEngineMath ExampleDefaultView
      (ExampleCustomOrthoWidthSettings.SetMember EMember.ProjectionType
        ECameraProjectionMode.Orthographic) FTransform.Identity
      ⟨⟨-1, -1, -1⟩, ⟨1, 1, 1⟩, true⟩).1
    (Or.inr (Or.inr ⟨by decide, by decide⟩))).2.2.2.1

/-! ## Theorems: `FrameCamera2D` acceptance -/

/-- For two points with different lateral coordinates, an accepted location (any result other
than the sentinel) is not in front of either point; for equal lateral coordinates the rejection
test compares with `Point2` only. -/
theorem FrameCamera2D_accepted (Point1 Point2 L R : FVector2D)
    (h : FrameCamera2D Point1 Point2 L R ≠ FVector2D.Splat BIG_NUMBER) :
    (FrameCamera2D Point1 Point2 L R).Y ≤ Point2.Y
    ∧ (Point1.X ≠ Point2.X → (FrameCamera2D Point1 Point2 L R).Y ≤ Point1.Y) := by
  unfold FrameCamera2D at h ⊢
  dsimp only at h ⊢
  by_cases hrej : (FrameCamera2D.IntersectLocation Point1 Point2 L R).Y
      > min (if Point1.X < Point2.X then Point1 else Point2).Y
          (if Point1.X > Point2.X then Point1 else Point2).Y
  · rw [if_pos hrej] at h
    exact absurd rfl h
  · rw [if_neg hrej]
    have hle := not_lt.mp hrej
    rcases lt_trichotomy Point1.X Point2.X with hlt | heq | hgt
    · rw [if_pos hlt, if_neg (not_lt.mpr hlt.le)] at hle
      exact ⟨le_trans hle (min_le_right _ _), fun _ => le_trans hle (min_le_left _ _)⟩
    · rw [if_neg (by rw [heq]; exact lt_irrefl _), if_neg (by rw [heq]; exact lt_irrefl _)]
        at hle
      exact ⟨le_trans hle (min_le_left _ _), fun hne => absurd heq hne⟩
    · rw [if_neg (not_lt.mpr hgt.le), if_pos hgt] at hle
      exact ⟨le_trans hle (min_le_left _ _), fun _ => le_trans hle (min_le_right _ _)⟩

/-- C21, evaluation of the code at two points with the same lateral coordinate 0 and forward
coordinates 0 and 2, with the edge directions `(-1, 1)` and `(1, 1)`: `FrameCamera2D` returns
`(-1, 1)`, which is not the sentinel, and its forward coordinate 1 is greater than the forward
coordinate 0 of the first point, so the accepted location lies in front of the nearer point.
`LeftPoint` and `RightPoint` are both `Point2` here, and the rejection test compares with
`Point2` only. -/
theorem C21_accepted_in_front_of_nearer_point :
    FrameCamera2D ⟨0, 0⟩ ⟨0, 2⟩ ⟨-1, 1⟩ ⟨1, 1⟩ = ⟨-1, 1⟩
    ∧ FrameCamera2D ⟨0, 0⟩ ⟨0, 2⟩ ⟨-1, 1⟩ ⟨1, 1⟩ ≠ FVector2D.Splat BIG_NUMBER
    ∧ (FrameCamera2D ⟨0, 0⟩ ⟨0, 2⟩ ⟨-1, 1⟩ ⟨1, 1⟩).Y > (⟨0, 0⟩ : FVector2D).Y
    ∧ ((if (⟨0, 0⟩ : FVector2D).X < (⟨0, 2⟩ : FVector2D).X then (⟨0, 0⟩ : FVector2D)
          else ⟨0, 2⟩) = ⟨0, 2⟩)
    ∧ ((if (⟨0, 0⟩ : FVector2D).X > (⟨0, 2⟩ : FVector2D).X then (⟨0, 0⟩ : FVector2D)
          else ⟨0, 2⟩) = ⟨0, 2⟩) := by
  have hd : FrameCamera2D.Determinant ⟨-1, 1⟩ ⟨1, 1⟩ = -2 := by
    norm_num [FrameCamera2D.Determinant]
  have hn : IsNearlyZero (FrameCamera2D.Determinant ⟨-1, 1⟩ ⟨1, 1⟩) = false := by
    rw [hd, IsNearlyZero_false_iff]
    norm_num [SMALL_NUMBER]
  have hI : FrameCamera2D.IntersectLocation ⟨0, 0⟩ ⟨0, 2⟩ ⟨-1, 1⟩ ⟨1, 1⟩ = ⟨-1, 1⟩ := by
    rw [IntersectLocation_of_not_nearly_zero _ _ _ _ hn, hd]
    norm_num
  have hF : FrameCamera2D ⟨0, 0⟩ ⟨0, 2⟩ ⟨-1, 1⟩ ⟨1, 1⟩ = ⟨-1, 1⟩ := by
    unfold FrameCamera2D
    rw [hI]
    norm_num
  refine ⟨hF, ?_, ?_, ?_, ?_⟩
  · rw [hF]
    norm_num [FVector2D.Splat, BIG_NUMBER]
  · rw [hF]
    norm_num
  · norm_num
  · norm_num

/-! ## Theorems: no valid pair -/

theorem NewCameraLocation_sentinel (Mode : EThumbnailCameraFitMode) :
    NewCameraLocation Mode (FVector2D.Splat BIG_NUMBER) (FVector2D.Splat BIG_NUMBER)
      = ⟨BIG_NUMBER, BIG_NUMBER, BIG_NUMBER⟩ := by
  cases Mode <;> simp [NewCameraLocation, FVector2D.Splat]

/-- If every pair yields the sentinel on both axes, the camera location is the sentinel in all
three coordinates. -/
theorem CalculatePerspectiveViewLocation_no_valid_pair (M : FEngineMath) (InAspectRatio : ℚ)
    (S : FThumbnailSettings) (V : FBoundsVertices)
    (hH : ∀ i j : Nat, i < j → j < 8 →
      HorizontalLocation (LeftCameraFrustrumDir M S) (RightCameraFrustrumDir M S)
        (V.At i) (V.At j) = FVector2D.Splat BIG_NUMBER)
    (hV : ∀ i j : Nat, i < j → j < 8 →
      VerticalLocation (TopCameraFrustrumDir M InAspectRatio S)
        (BottomCameraFrustrumDir M InAspectRatio S) (V.At i) (V.At j)
        = FVector2D.Splat BIG_NUMBER) :
    CalculatePerspectiveViewLocation M InAspectRatio S V
      = ⟨BIG_NUMBER, BIG_NUMBER, BIG_NUMBER⟩ := by
  obtain ⟨-, h2, -, h4, -, -⟩ := BestIntersectLocations_spec (LeftCameraFrustrumDir M S)
    (RightCameraFrustrumDir M S) (TopCameraFrustrumDir M InAspectRatio S)
    (BottomCameraFrustrumDir M InAspectRatio S) V
  have hBH : (BestIntersectLocations (LeftCameraFrustrumDir M S)
      (RightCameraFrustrumDir M S) (TopCameraFrustrumDir M InAspectRatio S)
      (BottomCameraFrustrumDir M InAspectRatio S) V).1 = FVector2D.Splat BIG_NUMBER := by
    rcases h2 with h2 | ⟨i, j, hij, hj, h2⟩
    · exact h2
    · rw [h2, hH i j hij hj]
  have hBV : (BestIntersectLocations (LeftCameraFrustrumDir M S)
      (RightCameraFrustrumDir M S) (TopCameraFrustrumDir M InAspectRatio S)
      (BottomCameraFrustrumDir M InAspectRatio S) V).2 = FVector2D.Splat BIG_NUMBER := by
    rcases h4 with h4 | ⟨i, j, hij, hj, h4⟩
    · exact h4
    · rw [h4, hV i j hij hj]
  unfold CalculatePerspectiveViewLocation
  dsimp only
  rw [hBH, hBV, NewCameraLocation_sentinel]

/-- With parallel frustum edges, `FrameCamera2D` returns the sentinel for two points behind the
origin. -/
theorem FrameCamera2D_parallel_behind (Point1 Point2 L R : FVector2D)
    (hdet : IsNearlyZero (FrameCamera2D.Determinant L R) = true)
    (h1 : Point1.Y < 0) (h2 : Point2.Y < 0) :
    FrameCamera2D Point1 Point2 L R = FVector2D.Splat BIG_NUMBER := by
  unfold FrameCamera2D
  dsimp only
  rw [IntersectLocation_of_nearly_zero _ _ _ _ hdet, if_pos]
  show min _ _ < (0 : ℚ)
  apply min_lt_iff.mpr
  left
  split_ifs <;> assumption

theorem HorizontalLocation_parallel_behind (s c : ℚ) (Point1 Point2 : FVector)
    (hdet : IsNearlyZero (FrameCamera2D.Determinant ⟨-s, c⟩ ⟨s, c⟩) = true)
    (h1 : Point1.X < 0) (h2 : Point2.X < 0) :
    HorizontalLocation ⟨c, -s, 0⟩ ⟨c, s, 0⟩ Point1 Point2 = FVector2D.Splat BIG_NUMBER := by
  unfold HorizontalLocation
  dsimp only
  by_cases h : Point1.Y > Point2.Y
  · simp only [h, if_true]
    exact FrameCamera2D_parallel_behind _ _ _ _ hdet h2 h1
  · simp only [h, if_false]
    exact FrameCamera2D_parallel_behind _ _ _ _ hdet h1 h2

theorem VerticalLocation_parallel_behind (s c : ℚ) (Point1 Point2 : FVector)
    (hdet : IsNearlyZero (FrameCamera2D.Determinant ⟨-s, c⟩ ⟨s, c⟩) = true)
    (h1 : Point1.X < 0) (h2 : Point2.X < 0) :
    VerticalLocation ⟨c, 0, s⟩ ⟨c, 0, -s⟩ Point1 Point2 = FVector2D.Splat BIG_NUMBER := by
  unfold VerticalLocation
  dsimp only
  by_cases h : Point1.Z > Point2.Z
  · simp only [h, if_true]
    exact FrameCamera2D_parallel_behind _ _ _ _ hdet h2 h1
  · simp only [h, if_false]
    exact FrameCamera2D_parallel_behind _ _ _ _ hdet h1 h2

theorem ExampleBehindCorners_At (i : Nat) (hi : i < 8) :
    ((ExampleBehindCorners).At i).X < 0 := by
  rcases i with _ | _ | _ | _ | _ | _ | _ | _ | i
  all_goals first
    | omega
    | (simp only [FBoundsVertices.At, ExampleBehindCorners, List.getD_cons_zero,
        List.getD_cons_succ]
       norm_num)

theorem ExampleZeroFOV_SinCos :
    ExampleEngineMath.SinCos (ExampleZeroFOVSettings.Member EMember.CameraFOV * (1 / 2))
      = (0, 1)
    ∧ ExampleEngineMath.SinCos
        (ExampleZeroFOVSettings.Member EMember.CameraFOV * (1 / 2) / 1) = (0, 1) := by
  have h : ExampleZeroFOVSettings.Member EMember.CameraFOV = (0 : ℚ) := by
    unfold ExampleZeroFOVSettings
    rw [SetMember_Member_same]
  rw [h]
  constructor <;> norm_num [ExampleEngineMath]

theorem ExampleZeroFOV_all_rejected :
    (∀ i j : Nat, i < j → j < 8 →
      HorizontalLocation (LeftCameraFrustrumDir ExampleEngineMath ExampleZeroFOVSettings)
        (RightCameraFrustrumDir ExampleEngineMath ExampleZeroFOVSettings)
        (ExampleBehindCorners.At i) (ExampleBehindCorners.At j) = FVector2D.Splat BIG_NUMBER)
    ∧ (∀ i j : Nat, i < j → j < 8 →
      VerticalLocation (TopCameraFrustrumDir ExampleEngineMath 1 ExampleZeroFOVSettings)
        (BottomCameraFrustrumDir ExampleEngineMath 1 ExampleZeroFOVSettings)
        (ExampleBehindCorners.At i) (ExampleBehindCorners.At j)
        = FVector2D.Splat BIG_NUMBER) := by
  have hdet : IsNearlyZero (FrameCamera2D.Determinant ⟨-0, 1⟩ ⟨0, 1⟩) = true := by
    unfold IsNearlyZero
    rw [decide_eq_true_iff]
    norm_num [FrameCamera2D.Determinant, SMALL_NUMBER]
  constructor
  · intro i j hij hj
    rw [LeftCameraFrustrumDir_eq, RightCameraFrustrumDir_eq, ExampleZeroFOV_SinCos.1]
    exact HorizontalLocation_parallel_behind 0 1 _ _ hdet
      (ExampleBehindCorners_At i (by omega)) (ExampleBehindCorners_At j hj)
  · intro i j hij hj
    rw [TopCameraFrustrumDir_eq, BottomCameraFrustrumDir_eq, ExampleZeroFOV_SinCos.2]
    exact VerticalLocation_parallel_behind 0 1 _ _ hdet
      (ExampleBehindCorners_At i (by omega)) (ExampleBehindCorners_At j hj)

/-- C22, counterexample: with parallel frustum edges (field of view 0) and eight corners behind
the origin, `FrameCamera2D` returns the sentinel for all 28 pairs on both axes, and
`CalculatePerspectiveViewLocation` (fit mode `EFit` of the default settings) returns
`(BIG_NUMBER, BIG_NUMBER, BIG_NUMBER)`, which is not the zero vector. -/
theorem C22_counterexample :
    (∀ i j : Nat, i < j → j < 8 →
      HorizontalLocation (LeftCameraFrustrumDir ExampleEngineMath ExampleZeroFOVSettings)
        (RightCameraFrustrumDir ExampleEngineMath ExampleZeroFOVSettings)
        (ExampleBehindCorners.At i) (ExampleBehindCorners.At j) = FVector2D.Splat BIG_NUMBER)
    ∧ (∀ i j : Nat, i < j → j < 8 →
      VerticalLocation (TopCameraFrustrumDir ExampleEngineMath 1 ExampleZeroFOVSettings)
        (BottomCameraFrustrumDir ExampleEngineMath 1 ExampleZeroFOVSettings)
        (ExampleBehindCorners.At i) (ExampleBehindCorners.At j) = FVector2D.Splat BIG_NUMBER)
    ∧ CalculatePerspectiveViewLocation ExampleEngineMath 1 ExampleZeroFOVSettings
        ExampleBehindCorners = ⟨BIG_NUMBER, BIG_NUMBER, BIG_NUMBER⟩
    ∧ CalculatePerspectiveViewLocation ExampleEngineMath 1 ExampleZeroFOVSettings
        ExampleBehindCorners ≠ FVector.ZeroVector := by
  have h := CalculatePerspectiveViewLocation_no_valid_pair ExampleEngineMath 1
    ExampleZeroFOVSettings ExampleBehindCorners ExampleZeroFOV_all_rejected.1
    ExampleZeroFOV_all_rejected.2
  refine ⟨ExampleZeroFOV_all_rejected.1, ExampleZeroFOV_all_rejected.2, h, ?_⟩
  rw [h]
  intro hz
  have hX := congrArg FVector.X hz
  norm_num [FVector.ZeroVector, BIG_NUMBER] at hX

/-- C22 (amended): if `FrameCamera2D` returns the sentinel for all 28 corner pairs on both axes
(no valid pair), `CalculatePerspectiveViewLocation` returns the vector
`(BIG_NUMBER, BIG_NUMBER, BIG_NUMBER)` for every fit mode: both best intersect locations keep
their initial value `FVector2D(BIG_NUMBER)`. -/
theorem C22_no_valid_pair (M : FEngineMath) (InAspectRatio : ℚ) (S : FThumbnailSettings)
    (V : FBoundsVertices) (Mode : EThumbnailCameraFitMode)
    (hH : ∀ i j : Nat, i < j → j < 8 →
      HorizontalLocation (LeftCameraFrustrumDir M S) (RightCameraFrustrumDir M S)
        (V.At i) (V.At j) = FVector2D.Splat BIG_NUMBER)
    (hV : ∀ i j : Nat, i < j → j < 8 →
      VerticalLocation (TopCameraFrustrumDir M InAspectRatio S)
        (BottomCameraFrustrumDir M InAspectRatio S) (V.At i) (V.At j)
        = FVector2D.Splat BIG_NUMBER) :
    CalculatePerspectiveViewLocation M InAspectRatio
        (S.SetMember EMember.CameraFitMode Mode) V
      = ⟨BIG_NUMBER, BIG_NUMBER, BIG_NUMBER⟩
    ∧ CalculatePerspectiveViewLocation M InAspectRatio
        (S.SetMember EMember.CameraFitMode Mode) V ≠ FVector.ZeroVector := by
  have h := CalculatePerspectiveViewLocation_no_valid_pair M InAspectRatio
    (S.SetMember EMember.CameraFitMode Mode) V
    (by
      unfold RightCameraFrustrumDir
      rw [LeftCameraFrustrumDir_SetMember_CameraFitMode]
      exact hH)
    (by
      unfold BottomCameraFrustrumDir
      rw [TopCameraFrustrumDir_SetMember_CameraFitMode]
      exact hV)
  refine ⟨h, ?_⟩
  rw [h]
  intro hz
  have hX := congrArg FVector.X hz
  norm_num [FVector.ZeroVector, BIG_NUMBER] at hX

/-- C22, instance: field of view 0, the eight corners behind the origin, fit mode `EFill`. -/
theorem C22_no_valid_pair_witness :
    CalculatePerspectiveViewLocation ExampleEngineMath 1
        (ExampleZeroFOVSettings.SetMember EMember.CameraFitMode EThumbnailCameraFitMode.EFill)
        ExampleBehindCorners
      = ⟨BIG_NUMBER, BIG_NUMBER, BIG_NUMBER⟩ :=
  (C22_no_valid_pair ExampleEngineMath 1 ExampleZeroFOVSettings ExampleBehindCorners
    EThumbnailCameraFitMode.EFill ExampleZeroFOV_all_rejected.1
    ExampleZeroFOV_all_rejected.2).1

/-! ## Theorems: script list comparison -/

theorem AreScriptsDifferent_eq_false_iff (E : FEngine)
    (ExistingScripts : List UThumbnailGeneratorScript) (NewScripts : List TSubclassOf) :
    AreScriptsDifferent E ExistingScripts NewScripts = false
      ↔ ExistingScripts.length = NewScripts.length
        ∧ ∀ (i : Nat) (Existing : UThumbnailGeneratorScript),
            ExistingScripts[i]? = some Existing →
            Existing ∈ E.Scripts ∧ NewScripts[i]? = some (some Existing.Class) := by
  unfold AreScriptsDifferent
  by_cases hlen : ExistingScripts.length = NewScripts.length
  · rw [if_neg (by simp [hlen])]
    simp only [hlen, true_and, List.any_eq_false, List.mem_range]
    constructor
    · intro h i Existing hi
      have hiE : i < ExistingScripts.length := by
        by_contra hc
        rw [List.getElem?_eq_none (not_lt.mp hc)] at hi
        cases hi
      have hiN : i < NewScripts.length := hlen ▸ hiE
      have hx := h i hiN
      rw [hi, List.getElem?_eq_getElem hiN] at hx
      simp only [Bool.or_eq_true, Bool.not_eq_true', decide_eq_false_iff_not,
        decide_eq_true_eq, not_or, not_not, ne_eq] at hx
      exact ⟨hx.1, by rw [List.getElem?_eq_getElem hiN, hx.2]⟩
    · intro h i hiN
      have hiE : i < ExistingScripts.length := hlen ▸ hiN
      obtain ⟨h1, h2⟩ := h i ExistingScripts[i] (List.getElem?_eq_getElem hiE)
      rw [List.getElem?_eq_getElem hiE, h2]
      simp [h1]
  · rw [if_pos hlen]
    simp [hlen]

theorem MarkScriptsAsGarbage_eq (L : List UThumbnailGeneratorScript) (E : FEngine) :
    MarkScriptsAsGarbage L E
      = { E with Scripts := E.Scripts.filter (fun s => decide (s ∉ L)) } := by
  induction L generalizing E with
  | nil =>
    cases E
    simp [MarkScriptsAsGarbage]
  | cons hd tl ih =>
    have hstep : MarkScriptsAsGarbage (hd :: tl) E
        = MarkScriptsAsGarbage tl
            (if hd ∈ E.Scripts then
              { E with Scripts := E.Scripts.filter (fun Other => decide (Other ≠ hd)) }
            else E) := by
      simp [MarkScriptsAsGarbage]
    rw [hstep, ih]
    by_cases h : hd ∈ E.Scripts
    · rw [if_pos h]
      cases E
      simp only [List.filter_filter, FEngine.mk.injEq, and_true, true_and]
      apply List.filter_congr
      intro x _
      simp [Bool.and_comm]
    · rw [if_neg h]
      cases E
      simp only [FEngine.mk.injEq, and_true, true_and]
      apply List.filter_congr
      intro x hx
      have hne : x ≠ hd := fun heq => h (heq ▸ hx)
      simp [hne]

theorem CreateScripts_spec (NewScripts : List TSubclassOf) :
    ∀ (Created : List UThumbnailGeneratorScript) (E : FEngine),
      ∃ Fresh : List UThumbnailGeneratorScript,
        (CreateScripts NewScripts Created E).1 = Created ++ Fresh
        ∧ (CreateScripts NewScripts Created E).2.Scripts = E.Scripts ++ Fresh
        ∧ Fresh.map (fun Script => Script.Class) = NewScripts.filterMap id
        ∧ ∀ s ∈ Fresh, E.NextObjectId ≤ s.Id := by
  induction NewScripts with
  | nil =>
    intro Created E
    exact ⟨[], by simp [CreateScripts]⟩
  | cons New Rest ih =>
    intro Created E
    cases New with
    | none =>
      obtain ⟨Fresh, h1, h2, h3, h4⟩ := ih Created E
      refine ⟨Fresh, ?_, ?_, ?_, h4⟩
      · rw [CreateScripts]; exact h1
      · rw [CreateScripts]; exact h2
      · rw [h3]; simp
    | some Class =>
      obtain ⟨Fresh, h1, h2, h3, h4⟩ := ih (Created ++ [⟨E.NextObjectId, Class⟩])
        { E with
          Scripts := E.Scripts ++ [⟨E.NextObjectId, Class⟩]
          NextObjectId := E.NextObjectId + 1 }
      refine ⟨⟨E.NextObjectId, Class⟩ :: Fresh, ?_, ?_, ?_, ?_⟩
      · rw [CreateScripts]
        rw [h1]
        simp
      · rw [CreateScripts]
        rw [h2]
        simp
      · rw [List.map_cons, h3]
        simp
      · intro s hs
        rcases List.mem_cons.mp hs with rfl | hs
        · exact le_refl _
        · have := h4 s hs
          dsimp only at this
          omega

/-- C23: the script list comparison of `Begin` ("Update scripts"). The instantiated scripts are
kept, and the whole block changes nothing, exactly when the instantiated list and the requested
class list have the same length and at every index the instantiated script is valid and its
class is the requested class at that index. Otherwise every valid instantiated script is marked
as garbage and one new valid script per requested (non-null) class is created in the requested
order; new scripts carry fresh object ids, so when the engine's next object id is above the ids
of all valid scripts, no previously valid script is valid or instantiated afterwards. This is
the case for every requested list of classes that differs as a sequence from the classes of
the instantiated scripts, in particular for every reordering that changes the sequence. -/
theorem C23_script_list_comparison (G : FThumbnailGenerator) (E : FEngine)
    (NewScripts : List TSubclassOf) :
    (AreScriptsDifferent E G.ThumbnailGeneratorScripts NewScripts = false
      ↔ G.ThumbnailGeneratorScripts.length = NewScripts.length
        ∧ ∀ (i : Nat) (Existing : UThumbnailGeneratorScript),
            G.ThumbnailGeneratorScripts[i]? = some Existing →
            Existing ∈ E.Scripts ∧ NewScripts[i]? = some (some Existing.Class))
    ∧ (AreScriptsDifferent E G.ThumbnailGeneratorScripts NewScripts = false →
        G.UpdateScripts E NewScripts = (G, E))
    ∧ (AreScriptsDifferent E G.ThumbnailGeneratorScripts NewScripts = true →
        (∀ s ∈ G.ThumbnailGeneratorScripts,
          s ∉ (MarkScriptsAsGarbage G.ThumbnailGeneratorScripts E).Scripts)
        ∧ G.UpdateScripts E NewScripts
          = ({ G with
              ThumbnailGeneratorScripts :=
                (CreateScripts NewScripts []
                  (MarkScriptsAsGarbage G.ThumbnailGeneratorScripts E)).1 },
            (CreateScripts NewScripts []
              (MarkScriptsAsGarbage G.ThumbnailGeneratorScripts E)).2)
        ∧ (G.UpdateScripts E NewScripts).1.ThumbnailGeneratorScripts.map
            (fun Script => Script.Class) = NewScripts.filterMap id
        ∧ (∀ s ∈ (G.UpdateScripts E NewScripts).1.ThumbnailGeneratorScripts,
            s ∈ (G.UpdateScripts E NewScripts).2.Scripts)
        ∧ ((∀ s ∈ E.Scripts, s.Id < E.NextObjectId) →
            ∀ s ∈ G.ThumbnailGeneratorScripts, s ∈ E.Scripts →
              s ∉ (G.UpdateScripts E NewScripts).2.Scripts
              ∧ s ∉ (G.UpdateScripts E NewScripts).1.ThumbnailGeneratorScripts))
    ∧ (∀ Requested : List UClass,
        Requested ≠ G.ThumbnailGeneratorScripts.map (fun Script => Script.Class) →
        AreScriptsDifferent E G.ThumbnailGeneratorScripts (Requested.map some) = true
        ∧ (G.UpdateScripts E (Requested.map some)).1.ThumbnailGeneratorScripts.map
            (fun Script => Script.Class) = Requested) := by
  have hdiff : ∀ New : List TSubclassOf,
      AreScriptsDifferent E G.ThumbnailGeneratorScripts New = true →
      (∀ s ∈ G.ThumbnailGeneratorScripts,
          s ∉ (MarkScriptsAsGarbage G.ThumbnailGeneratorScripts E).Scripts)
      ∧ G.UpdateScripts E New
          = ({ G with
              ThumbnailGeneratorScripts :=
                (CreateScripts New []
                  (MarkScriptsAsGarbage G.ThumbnailGeneratorScripts E)).1 },
            (CreateScripts New []
              (MarkScriptsAsGarbage G.ThumbnailGeneratorScripts E)).2)
      ∧ (G.UpdateScripts E New).1.ThumbnailGeneratorScripts.map
          (fun Script => Script.Class) = New.filterMap id
      ∧ (∀ s ∈ (G.UpdateScripts E New).1.ThumbnailGeneratorScripts,
          s ∈ (G.UpdateScripts E New).2.Scripts)
      ∧ ((∀ s ∈ E.Scripts, s.Id < E.NextObjectId) →
          ∀ s ∈ G.ThumbnailGeneratorScripts, s ∈ E.Scripts →
            s ∉ (G.UpdateScripts E New).2.Scripts
            ∧ s ∉ (G.UpdateScripts E New).1.ThumbnailGeneratorScripts) := by
    intro New hd
    have hU : G.UpdateScripts E New
        = ({ G with
            ThumbnailGeneratorScripts :=
              (CreateScripts New []
                (MarkScriptsAsGarbage G.ThumbnailGeneratorScripts E)).1 },
          (CreateScripts New []
            (MarkScriptsAsGarbage G.ThumbnailGeneratorScripts E)).2) := by
      unfold FThumbnailGenerator.UpdateScripts
      rw [if_pos hd]
    have hmark : ∀ s ∈ G.ThumbnailGeneratorScripts,
        s ∉ (MarkScriptsAsGarbage G.ThumbnailGeneratorScripts E).Scripts := by
      intro s hs
      rw [MarkScriptsAsGarbage_eq]
      simp [hs]
    obtain ⟨Fresh, h1, h2, h3, h4⟩ :=
      CreateScripts_spec New [] (MarkScriptsAsGarbage G.ThumbnailGeneratorScripts E)
    rw [List.nil_append] at h1
    refine ⟨hmark, hU, ?_, ?_, ?_⟩
    · rw [hU]
      dsimp only
      rw [h1, h3]
    · rw [hU]
      dsimp only
      rw [h1, h2]
      intro s hs
      exact List.mem_append_right _ hs
    · intro hfresh s hs hsE
      rw [hU]
      dsimp only
      rw [h1, h2]
      have hnF : s ∉ Fresh := by
        intro hF
        have := h4 s hF
        rw [MarkScriptsAsGarbage_eq] at this
        have := hfresh s hsE
        dsimp only at *
        omega
      refine ⟨?_, hnF⟩
      intro hmem
      rcases List.mem_append.mp hmem with hm | hm
      · exact hmark s hs hm
      · exact hnF hm
  refine ⟨AreScriptsDifferent_eq_false_iff E _ _, ?_, hdiff NewScripts, ?_⟩
  · intro hsame
    unfold FThumbnailGenerator.UpdateScripts
    rw [hsame]
    simp
  · intro Requested hne
    have hd : AreScriptsDifferent E G.ThumbnailGeneratorScripts (Requested.map some) = true := by
      by_contra hc
      have hf : AreScriptsDifferent E G.ThumbnailGeneratorScripts (Requested.map some) = false := by
        simpa using hc
      obtain ⟨hlen, hall⟩ := (AreScriptsDifferent_eq_false_iff E _ _).mp hf
      apply hne
      apply List.ext_getElem?
      intro i
      rw [List.getElem?_map]
      cases hEx : G.ThumbnailGeneratorScripts[i]? with
      | none =>
        have hge : G.ThumbnailGeneratorScripts.length ≤ i := by
          by_contra hlt
          rw [List.getElem?_eq_getElem (not_le.mp hlt)] at hEx
          cases hEx
        rw [hlen, List.length_map] at hge
        rw [List.getElem?_eq_none hge]
        rfl
      | some Existing =>
        have h2 := (hall i Existing hEx).2
        rw [List.getElem?_map] at h2
        cases hR : Requested[i]? with
        | none => rw [hR] at h2; cases h2
        | some Class =>
          rw [hR] at h2
          simp only [Option.map_some', Option.some.injEq] at h2
          simp [h2]
    refine ⟨hd, ?_⟩
    rw [(hdiff _ hd).2.2.1]
    simp [List.filterMap_map]

/-- C23, instance: two valid scripts of the classes `ScriptA` and `ScriptB` are instantiated.
Requesting the classes in the same order keeps them; requesting `ScriptB`, `ScriptA` marks both
as garbage and creates two new scripts (objects 10 and 11) in the requested order. -/
theorem C23_script_list_comparison_witness :
    AreScriptsDifferent ExampleScriptEngine [⟨4, "ScriptA"⟩, ⟨5, "ScriptB"⟩]
        [some "ScriptA", some "ScriptB"] = false
    ∧ AreScriptsDifferent ExampleScriptEngine [⟨4, "ScriptA"⟩, ⟨5, "ScriptB"⟩]
        (["ScriptB", "ScriptA"].map some) = true
    ∧ (FThumbnailGenerator.UpdateScripts
          { FThumbnailGenerator.ctor with
            ThumbnailGeneratorScripts := [⟨4, "ScriptA"⟩, ⟨5, "ScriptB"⟩] }
          ExampleScriptEngine (["ScriptB", "ScriptA"].map some)).1.ThumbnailGeneratorScripts.map
        (fun Script => Script.Class) = ["ScriptB", "ScriptA"]
    ∧ (FThumbnailGenerator.UpdateScripts
          { FThumbnailGenerator.ctor with
            ThumbnailGeneratorScripts := [⟨4, "ScriptA"⟩, ⟨5, "ScriptB"⟩] }
          ExampleScriptEngine (["ScriptB", "ScriptA"].map some)).1.ThumbnailGeneratorScripts
        = [⟨10, "ScriptB"⟩, ⟨11, "ScriptA"⟩]
    ∧ (FThumbnailGenerator.UpdateScripts
          { FThumbnailGenerator.ctor with
            ThumbnailGeneratorScripts := [⟨4, "ScriptA"⟩, ⟨5, "ScriptB"⟩] }
          ExampleScriptEngine (["ScriptB", "ScriptA"].map some)).2.Scripts
        = [⟨10, "ScriptB"⟩, ⟨11, "ScriptA"⟩] :=
  ⟨by decide,
    ((C23_script_list_comparison
      { FThumbnailGenerator.ctor with
        ThumbnailGeneratorScripts := [⟨4, "ScriptA"⟩, ⟨5, "ScriptB"⟩] }
      ExampleScriptEngine []).2.2.2 ["ScriptB", "ScriptA"] (by decide)).1,
    ((C23_script_list_comparison
      { FThumbnailGenerator.ctor with
        ThumbnailGeneratorScripts := [⟨4, "ScriptA"⟩, ⟨5, "ScriptB"⟩] }
      ExampleScriptEngine []).2.2.2 ["ScriptB", "ScriptA"] (by decide)).2,
    by decide, by decide⟩

/-! ## Theorems: actor destroyed by a call-out -/

theorem FinishEjectWithError_destroyed (G : FThumbnailGenerator) (E : FEngine) (Actor : AActor)
    (World : UWorld) (hflag : G.bIsCapturingThumbnail = true)
    (hW : G.GetThumbnailWorld = some World) (hA : Actor ∉ E.Actors) :
    ∃ (G' : FThumbnailGenerator) (E' : FEngine),
      G.FinishEjectWithError E (some Actor) = some (none, G', E')
      ∧ G'.bIsCapturingThumbnail = false ∧ G'.ThumbnailSceneActors = []
      ∧ E'.Calls = E.Calls := by
  unfold FThumbnailGenerator.FinishEjectWithError
  dsimp only
  rw [if_neg hA, CleanupThumbnailCapture_capturing G E World hflag hW]
  exact ⟨_, _, rfl, rfl, rfl, rfl⟩

theorem ScriptPreCaptureCalls_ok (H : FHost) (Actor : AActor)
    (Scripts : List UThumbnailGeneratorScript) :
    ∀ (E E' : FEngine), ScriptPreCaptureCalls H Actor Scripts E = Except.ok E' →
      E'.Calls = E.Calls
        ++ Scripts.map (fun Script => ECall.ScriptPreCaptureActorThumbnail Script Actor)
      ∧ (Scripts ≠ [] → Actor ∈ E'.Actors) := by
  induction Scripts with
  | nil =>
    intro E E' h
    rw [ScriptPreCaptureCalls] at h
    cases h
    simp
  | cons Script Rest ih =>
    intro E E' h
    rw [ScriptPreCaptureCalls] at h
    split_ifs at h with hA
    obtain ⟨h1, h2⟩ := ih _ _ h
    refine ⟨?_, fun _ => ?_⟩
    · rw [h1]
      simp [FHost.Invoke]
    · cases Rest with
      | nil =>
        rw [ScriptPreCaptureCalls] at h
        cases h
        exact hA
      | cons _ _ => exact h2 (by simp)

theorem ScriptPreCaptureCalls_error (H : FHost) (Actor : AActor)
    (Before : List UThumbnailGeneratorScript) (Script : UThumbnailGeneratorScript)
    (After : List UThumbnailGeneratorScript) :
    ∀ (E E' : FEngine), ScriptPreCaptureCalls H Actor Before E = Except.ok E' →
      Actor ∉ (H.Invoke (ECall.ScriptPreCaptureActorThumbnail Script Actor) E').Actors →
      ScriptPreCaptureCalls H Actor (Before ++ Script :: After) E
        = Except.error (H.Invoke (ECall.ScriptPreCaptureActorThumbnail Script Actor) E') := by
  induction Before with
  | nil =>
    intro E E' h hA
    rw [ScriptPreCaptureCalls] at h
    cases h
    rw [List.nil_append, ScriptPreCaptureCalls]
    rw [if_pos hA]
  | cons First Rest ih =>
    intro E E' h hA
    rw [ScriptPreCaptureCalls] at h
    split_ifs at h with hF
    rw [List.cons_append, ScriptPreCaptureCalls]
    rw [if_neg (not_not.mpr hF)]
    exact ih _ _ h hA

/-- C24: `Finish` with an open session (flag set, thumbnail world present) for a valid actor,
where `E0` is the engine state after the optional `FinishSpawning`. The actor is re-validated
after each call-out:
(a) if the actor implements the thumbnail-actor interface and is invalid after the
thumbnail-transform query, or
(b) it is valid after the query and invalid after its own pre-capture hook, or
(c) both interface call-outs left it valid (or it does not implement the interface), the
pre-capture hooks of the scripts `Before` ran in list order leaving it valid, and it is invalid
after the hook of the next script `Script`,
then `Finish` returns no texture, clears the capturing flag and the snapshot, and the trace of
calls made ends with the call-out that destroyed the actor: no later hook, no simulation tick
and no scene capture is invoked.
(d) When no script hook destroys the actor, the hooks of all scripts are invoked in list
order. -/
theorem C24_finish_actor_destroyed (H : FHost) (G : FThumbnailGenerator) (E : FEngine)
    (Actor : AActor) (ThumbnailSettings : FThumbnailSettings)
    (ResourceObject : Option UTexture2D) (bFinishSpawningActor : Bool) (World : UWorld)
    (E0 : FEngine)
    (hflag : G.bIsCapturingThumbnail = true) (hW : G.GetThumbnailWorld = some World)
    (hA : Actor ∈ E.Actors)
    (hE0 : E0 = if bFinishSpawningActor then H.Invoke (ECall.FinishSpawning Actor) E else E) :
    (H.ImplementsThumbnailActorInterface Actor = true →
      Actor ∉ (H.Invoke (ECall.GetThumbnailTransform Actor) E0).Actors →
      ∃ (G' : FThumbnailGenerator) (E' : FEngine),
        G.FinishGenerateActorThumbnail H E (some Actor) ThumbnailSettings ResourceObject
          bFinishSpawningActor = some (none, G', E')
        ∧ G'.bIsCapturingThumbnail = false ∧ G'.ThumbnailSceneActors = []
        ∧ E'.Calls = E0.Calls ++ [ECall.GetThumbnailTransform Actor])
    ∧ (H.ImplementsThumbnailActorInterface Actor = true →
      Actor ∈ (H.Invoke (ECall.GetThumbnailTransform Actor) E0).Actors →
      Actor ∉ (H.Invoke (ECall.PreCaptureActorThumbnail Actor)
        (H.Invoke (ECall.SetActorTransform Actor (H.GetThumbnailTransform Actor E0))
          (H.Invoke (ECall.GetThumbnailTransform Actor) E0))).Actors →
      ∃ (G' : FThumbnailGenerator) (E' : FEngine),
        G.FinishGenerateActorThumbnail H E (some Actor) ThumbnailSettings ResourceObject
          bFinishSpawningActor = some (none, G', E')
        ∧ G'.bIsCapturingThumbnail = false ∧ G'.ThumbnailSceneActors = []
        ∧ E'.Calls = E0.Calls ++ [ECall.GetThumbnailTransform Actor,
            ECall.SetActorTransform Actor (H.GetThumbnailTransform Actor E0),
            ECall.PreCaptureActorThumbnail Actor])
    ∧ (∀ (E3 E4 E5 : FEngine) (Before : List UThumbnailGeneratorScript)
        (Script : UThumbnailGeneratorScript) (After : List UThumbnailGeneratorScript),
      ThumbnailActorInterfaceCalls H Actor E0 = Except.ok E3 →
      E4 = (if ThumbnailSettings.Override EOverride.bOverride_CustomActorTransform = true then
          H.Invoke (ECall.SetActorTransform Actor
            (ThumbnailSettings.Member EMember.CustomActorTransform)) E3
        else E3) →
      G.ThumbnailGeneratorScripts = Before ++ Script :: After →
      ScriptPreCaptureCalls H Actor Before E4 = Except.ok E5 →
      Actor ∉ (H.Invoke (ECall.ScriptPreCaptureActorThumbnail Script Actor) E5).Actors →
      ∃ (G' : FThumbnailGenerator) (E' : FEngine),
        G.FinishGenerateActorThumbnail H E (some Actor) ThumbnailSettings ResourceObject
          bFinishSpawningActor = some (none, G', E')
        ∧ G'.bIsCapturingThumbnail = false ∧ G'.ThumbnailSceneActors = []
        ∧ E'.Calls = E4.Calls
            ++ (Before ++ [Script]).map
              (fun Script => ECall.ScriptPreCaptureActorThumbnail Script Actor))
    ∧ (∀ (E4 E6 : FEngine),
      ScriptPreCaptureCalls H Actor G.ThumbnailGeneratorScripts E4 = Except.ok E6 →
      E6.Calls = E4.Calls
        ++ G.ThumbnailGeneratorScripts.map
          (fun Script => ECall.ScriptPreCaptureActorThumbnail Script Actor)) := by
  have hopen : G.FinishGenerateActorThumbnail H E (some Actor) ThumbnailSettings ResourceObject
      bFinishSpawningActor
      = (match ThumbnailActorInterfaceCalls H Actor E0 with
        | Except.error E => G.FinishEjectWithError E (some Actor)
        | Except.ok E =>
          match ScriptPreCaptureCalls H Actor G.ThumbnailGeneratorScripts
            (if ThumbnailSettings.Override EOverride.bOverride_CustomActorTransform = true then
              H.Invoke (ECall.SetActorTransform Actor
                (ThumbnailSettings.Member EMember.CustomActorTransform)) E
            else E) with
          | Except.error E => G.FinishEjectWithError E (some Actor)
          | Except.ok E =>
            match SimulateScene H ThumbnailSettings Actor E with
            | none => none
            | some E =>
              G.AcquireRenderTargetAndCapture H E ThumbnailSettings Actor ResourceObject) := by
    unfold FThumbnailGenerator.FinishGenerateActorThumbnail
    rw [if_neg (by simp [hflag])]
    dsimp only
    rw [if_neg (not_not.mpr hA), hE0]
    try rfl
  refine ⟨?_, ?_, ?_, ?_⟩
  · intro hI hD
    have hT : ThumbnailActorInterfaceCalls H Actor E0
        = Except.error (H.Invoke (ECall.GetThumbnailTransform Actor) E0) := by
      unfold ThumbnailActorInterfaceCalls
      rw [if_pos hI]
      dsimp only
      rw [if_pos hD]
    rw [hopen, hT]
    obtain ⟨G', E', h1, h2, h3, h4⟩ := FinishEjectWithError_destroyed G _ Actor World hflag hW hD
    exact ⟨G', E', h1, h2, h3, h4⟩
  · intro hI hV hD
    have hT : ThumbnailActorInterfaceCalls H Actor E0
        = Except.error (H.Invoke (ECall.PreCaptureActorThumbnail Actor)
          (H.Invoke (ECall.SetActorTransform Actor (H.GetThumbnailTransform Actor E0))
            (H.Invoke (ECall.GetThumbnailTransform Actor) E0))) := by
      unfold ThumbnailActorInterfaceCalls
      rw [if_pos hI]
      dsimp only
      rw [if_neg (not_not.mpr hV), if_pos hD]
    rw [hopen, hT]
    obtain ⟨G', E', h1, h2, h3, h4⟩ := FinishEjectWithError_destroyed G _ Actor World hflag hW hD
    refine ⟨G', E', h1, h2, h3, ?_⟩
    rw [h4]
    simp [FHost.Invoke]
  · intro E3 E4 E5 Before Script After hT hE4 hS hB hD
    have hErr := ScriptPreCaptureCalls_error H Actor Before Script After E4 E5 hB hD
    rw [hopen, hT]
    dsimp only
    rw [← hE4, hS, hErr]
    obtain ⟨G', E', h1, h2, h3, h4⟩ := FinishEjectWithError_destroyed G _ Actor World hflag hW hD
    refine ⟨G', E', h1, h2, h3, ?_⟩
    rw [h4]
    have hc := (ScriptPreCaptureCalls_ok H Actor Before E4 E5 hB).1
    simp [FHost.Invoke, hc]
  · intro E4 E6 h
    exact (ScriptPreCaptureCalls_ok H Actor _ E4 E6 h).1

/-- C24, instance: with the example destroying host, `Begin` spawns actor 100; the actor's
pre-capture hook destroys it, and `Finish` returns no texture with the flag cleared. The calls
made by `Finish` are the transform query, `SetActorTransform` and the actor's pre-capture
hook. -/
theorem C24_finish_actor_destroyed_witness :
    FThumbnailGenerator.ctor.BeginGenerateActorThumbnail ExampleDestroyingHost ExampleEngine
        (some "Actor") (FThumbnailSettings.ctor ExamplePostProcessDefault) [] true
      = some (some ⟨100, 0⟩, ExampleAfterBegin.1, ExampleAfterBegin.2)
    ∧ ∃ (G' : FThumbnailGenerator) (E' : FEngine),
      ExampleAfterBegin.1.FinishGenerateActorThumbnail ExampleDestroyingHost ExampleAfterBegin.2
          (some ⟨100, 0⟩) (FThumbnailSettings.ctor ExamplePostProcessDefault) none false
        = some (none, G', E')
      ∧ G'.bIsCapturingThumbnail = false ∧ G'.ThumbnailSceneActors = []
      ∧ E'.Calls = ExampleAfterBegin.2.Calls ++ [ECall.GetThumbnailTransform ⟨100, 0⟩,
          ECall.SetActorTransform ⟨100, 0⟩ FTransform.Identity,
          ECall.PreCaptureActorThumbnail ⟨100, 0⟩] :=
  ⟨rfl,
    (C24_finish_actor_destroyed ExampleDestroyingHost ExampleAfterBegin.1 ExampleAfterBegin.2
      ⟨100, 0⟩ (FThumbnailSettings.ctor ExamplePostProcessDefault) none false 0
      ExampleAfterBegin.2 rfl rfl (by decide) rfl).2.1 rfl (by decide) (by decide)⟩

/-! ## Theorems: render-target dimensions -/

theorem ToUInt16_of_in_range (Value : Int) (h0 : 0 ≤ Value) (h1 : Value < 65536) :
    ((ToUInt16 Value : Nat) : Int) = Value := by
  unfold ToUInt16
  rw [Int.emod_eq_of_lt h0 h1]
  exact Int.toNat_of_nonneg h0

/-- Within the range of `uint16` the key and the render target created on a miss have the
requested dimensions. -/
theorem RenderTargetInfo_in_range (E : FEngine) (ThumbnailSettings : FThumbnailSettings)
    (hW0 : 0 < ThumbnailSettings.Member EMember.ThumbnailTextureWidth)
    (hW1 : ThumbnailSettings.Member EMember.ThumbnailTextureWidth < (65536 : Int))
    (hH0 : 0 < ThumbnailSettings.Member EMember.ThumbnailTextureHeight)
    (hH1 : ThumbnailSettings.Member EMember.ThumbnailTextureHeight < (65536 : Int)) :
    (((RenderTargetInfo ThumbnailSettings).Width : Nat) : Int)
        = ThumbnailSettings.Member EMember.ThumbnailTextureWidth
    ∧ (((RenderTargetInfo ThumbnailSettings).Height : Nat) : Int)
        = ThumbnailSettings.Member EMember.ThumbnailTextureHeight
    ∧ ∃ RenderTarget, (CreateRenderTargetOnMiss E ThumbnailSettings).1 = some RenderTarget
        ∧ RenderTarget.SizeX = ThumbnailSettings.Member EMember.ThumbnailTextureWidth
        ∧ RenderTarget.SizeY = ThumbnailSettings.Member EMember.ThumbnailTextureHeight := by
  have hW := ToUInt16_of_in_range _ (le_of_lt hW0) hW1
  have hH := ToUInt16_of_in_range _ (le_of_lt hH0) hH1
  refine ⟨hW, hH, ?_⟩
  unfold CreateRenderTargetOnMiss CreateTextureTarget
  have hW' : (((RenderTargetInfo ThumbnailSettings).Width : Nat) : Int)
      = ThumbnailSettings.Member EMember.ThumbnailTextureWidth := hW
  have hH' : (((RenderTargetInfo ThumbnailSettings).Height : Nat) : Int)
      = ThumbnailSettings.Member EMember.ThumbnailTextureHeight := hH
  rw [hW', hH', if_pos ⟨hW0, hH0⟩]
  exact ⟨_, rfl, rfl, rfl⟩

/-- C25, evaluation of the code at `ThumbnailTextureWidth = 65536`,
`ThumbnailTextureHeight = 512` (simulation off). Both values are positive, and `Begin` on a
fresh generator accepts the request and returns the spawned actor 100. In `Finish` the key is
built with `uint16(65536) = 0` as its width, the render target requested on the cache miss has
width 0, `CreateTextureTarget` returns null for it, and `Finish` returns no texture. For the
width 70000 the key has the width 4464. -/
theorem C25_width_truncated_to_uint16 :
    ExampleWideSettings.Member EMember.ThumbnailTextureWidth = (65536 : Int)
    ∧ ExampleWideSettings.Member EMember.ThumbnailTextureHeight = (512 : Int)
    ∧ FThumbnailGenerator.ctor.BeginGenerateActorThumbnail ExampleSpawningHost ExampleEngine
        (some "Actor") ExampleWideSettings [] true
      = some (some ⟨100, 0⟩, ExampleAfterBegin.1, ExampleAfterBegin.2)
    ∧ RenderTargetInfo ExampleWideSettings = ⟨0, 512, EThumbnailBitDepth.E8⟩
    ∧ ExampleAfterBegin.1.RenderTargetCache = some ⟨[]⟩
    ∧ (CreateRenderTargetOnMiss ExampleAfterBegin.2 ExampleWideSettings).1 = none
    ∧ (ExampleAfterBegin.1.FinishGenerateActorThumbnail ExampleSpawningHost ExampleAfterBegin.2
          (some ⟨100, 0⟩) ExampleWideSettings none false).map
        (fun Result => (Result.1, Result.2.1.bIsCapturingThumbnail))
      = some (none, false)
    ∧ RenderTargetInfo
        (ExampleNoSimulationSettings.SetMember EMember.ThumbnailTextureWidth (70000 : Int))
      = ⟨4464, 512, EThumbnailBitDepth.E8⟩ := by
  refine ⟨rfl, rfl, rfl, ?_, rfl, ?_, ?_, ?_⟩
  · decide
  · decide
  · decide
  · decide

/-! ## Theorems: task queue -/

theorem TArrayPop_append {Task : Type} (Array : List Task) (Element : Task) :
    TArrayPop (Array ++ [Element]) = some (Element, Array) := by
  unfold TArrayPop
  rw [List.getLast?_append, List.dropLast_concat]
  rfl

theorem Tick_append {Task World : Type}
    (Invoke : Task → FThumbnailGeneratorTaskQueue Task × World →
      FThumbnailGeneratorTaskQueue Task × World)
    (Tasks : List Task) (Element : Task) (W : World) :
    FThumbnailGeneratorTaskQueue.Tick Invoke (⟨Tasks ++ [Element]⟩, W)
      = Invoke Element (⟨Tasks⟩, W) := by
  unfold FThumbnailGeneratorTaskQueue.Tick
  dsimp only
  rw [if_pos (by simp), TArrayPop_append]

theorem foldl_Add {Task : Type} (Tasks : List Task) (Queue : FThumbnailGeneratorTaskQueue Task) :
    Tasks.foldl FThumbnailGeneratorTaskQueue.Add Queue = ⟨Queue.TaskQueue ++ Tasks⟩ := by
  induction Tasks generalizing Queue with
  | nil => simp
  | cons t Rest ih =>
    rw [List.foldl_cons, ih]
    simp [FThumbnailGeneratorTaskQueue.Add]

theorem iterate_Tick {Task World : Type}
    (Invoke : Task → FThumbnailGeneratorTaskQueue Task × World →
      FThumbnailGeneratorTaskQueue Task × World)
    (Run : Task → World → World)
    (hRun : ∀ (t : Task) (Q : FThumbnailGeneratorTaskQueue Task) (W : World),
      Invoke t (Q, W) = (Q, Run t W))
    (Older : List Task) (Newer : List Task) :
    ∀ W : World,
      Nat.iterate (FThumbnailGeneratorTaskQueue.Tick Invoke) Newer.length
          (⟨Older ++ Newer⟩, W)
        = (⟨Older⟩, Newer.reverse.foldl (fun W t => Run t W) W) := by
  induction Newer using List.reverseRecOn with
  | nil => intro W; simp
  | append_singleton Rest t ih =>
    intro W
    rw [List.length_append, List.length_singleton, Function.iterate_succ_apply,
      ← List.append_assoc, Tick_append, hRun, ih, List.reverse_append, List.reverse_singleton,
      List.singleton_append, List.foldl_cons]

/-- C26: one `Tick` of the task queue. With a non-empty queue (tasks `Tasks` followed by the
most recently added task `Element`) the tick removes `Element` and runs it once, on the queue of
the remaining tasks `Tasks` in their order; with an empty queue it runs nothing and changes
nothing. Tasks added one after the other form the queue in the order of submission, so when
running a task does not itself change the queue, `N` ticks after `N` submissions leave the queue
empty and have run the tasks in reverse order of submission, the first `k` ticks running the
last `k` submissions. -/
theorem C26_task_queue_tick {Task World : Type}
    (Invoke : Task → FThumbnailGeneratorTaskQueue Task × World →
      FThumbnailGeneratorTaskQueue Task × World) :
    (∀ (Tasks : List Task) (Element : Task) (W : World),
      FThumbnailGeneratorTaskQueue.Tick Invoke (⟨Tasks ++ [Element]⟩, W)
        = Invoke Element (⟨Tasks⟩, W))
    ∧ (∀ W : World,
      FThumbnailGeneratorTaskQueue.Tick Invoke (⟨[]⟩, W) = (⟨[]⟩, W))
    ∧ (∀ (Tasks : List Task) (Queue : FThumbnailGeneratorTaskQueue Task),
      Tasks.foldl FThumbnailGeneratorTaskQueue.Add Queue = ⟨Queue.TaskQueue ++ Tasks⟩)
    ∧ (∀ Run : Task → World → World,
      (∀ (t : Task) (Q : FThumbnailGeneratorTaskQueue Task) (W : World),
        Invoke t (Q, W) = (Q, Run t W)) →
      (∀ (Tasks : List Task) (W : World),
        Nat.iterate (FThumbnailGeneratorTaskQueue.Tick Invoke) Tasks.length
            (Tasks.foldl FThumbnailGeneratorTaskQueue.Add ⟨[]⟩, W)
          = (⟨[]⟩, Tasks.reverse.foldl (fun W t => Run t W) W))
      ∧ (∀ (Older Newer : List Task) (W : World),
        Nat.iterate (FThumbnailGeneratorTaskQueue.Tick Invoke) Newer.length
            ((Older ++ Newer).foldl FThumbnailGeneratorTaskQueue.Add ⟨[]⟩, W)
          = (⟨Older⟩, Newer.reverse.foldl (fun W t => Run t W) W))) := by
  refine ⟨Tick_append Invoke, fun W => rfl, foldl_Add, fun Run hRun => ⟨?_, ?_⟩⟩
  · intro Tasks W
    rw [foldl_Add]
    have h := iterate_Tick Invoke Run hRun [] Tasks W
    simpa using h
  · intro Older Newer W
    rw [foldl_Add]
    have h := iterate_Tick Invoke Run hRun Older Newer W
    simpa using h

/-- C26, instance: the tasks 1, 2, 3 are submitted in this order, running a task appends its
number to a log. Three ticks run 3, then 2, then 1; the first tick runs 3 and leaves 1, 2. -/
theorem C26_task_queue_tick_witness :
    Nat.iterate
        (FThumbnailGeneratorTaskQueue.Tick
          (fun (t : Nat) (State : FThumbnailGeneratorTaskQueue Nat × List Nat) =>
            (State.1, State.2 ++ [t])))
        3 ([1, 2, 3].foldl FThumbnailGeneratorTaskQueue.Add ⟨[]⟩, [])
      = (⟨[]⟩, [3, 2, 1])
    ∧ FThumbnailGeneratorTaskQueue.Tick
        (fun (t : Nat) (State : FThumbnailGeneratorTaskQueue Nat × List Nat) =>
          (State.1, State.2 ++ [t]))
        (⟨[1, 2] ++ [3]⟩, [])
      = (⟨[1, 2]⟩, [3]) :=
  ⟨((C26_task_queue_tick
      (fun (t : Nat) (State : FThumbnailGeneratorTaskQueue Nat × List Nat) =>
        (State.1, State.2 ++ [t]))).2.2.2
      (fun t W => W ++ [t]) (fun _ _ _ => rfl)).1 [1, 2, 3] [],
    (C26_task_queue_tick
      (fun (t : Nat) (State : FThumbnailGeneratorTaskQueue Nat × List Nat) =>
        (State.1, State.2 ++ [t]))).1 [1, 2] 3 []⟩

/-! ## Theorems: floor snap -/

/-- The minimum search of the floor snap, for a conversion to `float` that is monotone and
leaves a `float` unchanged. After the corners `Done` the current value is either the start value
`BIG_NUMBER`, all corners seen being at least that high, or the `float` of the lowest corner
seen; the same holds after the further corners `Vertices`. -/
theorem foldl_MinZLocation (ToFloat : ℚ → ℚ)
    (hmono : ∀ x y : ℚ, x ≤ y → ToFloat x ≤ ToFloat y)
    (hidem : ∀ x : ℚ, ToFloat (ToFloat x) = ToFloat x)
    (Vertices : FBoundsVertices) :
    ∀ (Done : FBoundsVertices) (Current : ℚ),
      ((Current = BIG_NUMBER ∧ ∀ v ∈ Done, BIG_NUMBER ≤ v.Z)
        ∨ ∃ v ∈ Done, v.Z < BIG_NUMBER ∧ (∀ w ∈ Done, v.Z ≤ w.Z) ∧ Current = ToFloat v.Z) →
      ((Vertices.foldl (fun MinZLocation (Vertex : FVector) =>
            if Vertex.Z < MinZLocation then ToFloat Vertex.Z else MinZLocation) Current
          = BIG_NUMBER
          ∧ ∀ v ∈ Done ++ Vertices, BIG_NUMBER ≤ v.Z)
        ∨ ∃ v ∈ Done ++ Vertices, v.Z < BIG_NUMBER ∧ (∀ w ∈ Done ++ Vertices, v.Z ≤ w.Z)
          ∧ Vertices.foldl (fun MinZLocation (Vertex : FVector) =>
              if Vertex.Z < MinZLocation then ToFloat Vertex.Z else MinZLocation) Current
            = ToFloat v.Z) := by
  induction Vertices with
  | nil =>
    intro Done Current h
    simpa using h
  | cons z Rest ih =>
    intro Done Current h
    rw [List.foldl_cons]
    have hstep : ((if z.Z < Current then ToFloat z.Z else Current) = BIG_NUMBER
          ∧ ∀ v ∈ Done ++ [z], BIG_NUMBER ≤ v.Z)
        ∨ ∃ v ∈ Done ++ [z], v.Z < BIG_NUMBER ∧ (∀ w ∈ Done ++ [z], v.Z ≤ w.Z)
          ∧ (if z.Z < Current then ToFloat z.Z else Current) = ToFloat v.Z := by
      rcases h with ⟨hC, hall⟩ | ⟨v, hv, hvB, hvmin, hC⟩
      · by_cases hz : z.Z < Current
        · right
          rw [if_pos hz]
          rw [hC] at hz
          refine ⟨z, by simp, hz, ?_, rfl⟩
          intro w hw
          rcases List.mem_append.mp hw with hw | hw
          · exact le_trans hz.le (hall w hw)
          · rw [List.mem_singleton.mp hw]
        · left
          rw [if_neg hz]
          rw [hC] at hz
          refine ⟨hC, ?_⟩
          intro w hw
          rcases List.mem_append.mp hw with hw | hw
          · exact hall w hw
          · rw [List.mem_singleton.mp hw]
            exact not_lt.mp hz
      · right
        rw [hC]
        by_cases hz : z.Z < ToFloat v.Z
        · rw [if_pos hz]
          by_cases hle : z.Z ≤ v.Z
          · refine ⟨z, by simp, lt_of_le_of_lt hle hvB, ?_, rfl⟩
            intro w hw
            rcases List.mem_append.mp hw with hw | hw
            · exact le_trans hle (hvmin w hw)
            · rw [List.mem_singleton.mp hw]
          · have hlt : v.Z < z.Z := not_le.mp hle
            refine ⟨v, List.mem_append_left _ hv, hvB, ?_, ?_⟩
            · intro w hw
              rcases List.mem_append.mp hw with hw | hw
              · exact hvmin w hw
              · rw [List.mem_singleton.mp hw]
                exact hlt.le
            · apply le_antisymm
              · have := hmono _ _ hz.le
                rwa [hidem] at this
              · exact hmono _ _ hlt.le
        · rw [if_neg hz]
          have hge : ToFloat v.Z ≤ z.Z := not_lt.mp hz
          by_cases hle : v.Z ≤ z.Z
          · refine ⟨v, List.mem_append_left _ hv, hvB, ?_, rfl⟩
            intro w hw
            rcases List.mem_append.mp hw with hw | hw
            · exact hvmin w hw
            · rw [List.mem_singleton.mp hw]
              exact hle
          · have hlt : z.Z < v.Z := not_le.mp hle
            refine ⟨z, by simp, lt_trans hlt hvB, ?_, ?_⟩
            · intro w hw
              rcases List.mem_append.mp hw with hw | hw
              · exact le_trans hlt.le (hvmin w hw)
              · rw [List.mem_singleton.mp hw]
            · apply le_antisymm
              · have := hmono _ _ hge
                rwa [hidem] at this
              · exact hmono _ _ hlt.le
    have h2 := ih (Done ++ [z]) _ hstep
    simpa [List.append_assoc] using h2

/-- The floor snap shifts the actor and the corners by the `float` nearest to the lowest corner
height `m` (by `BIG_NUMBER`, the start value of the search, when no corner is below it). -/
theorem SnapToFloor_eq (M : FEngineMath) (ActorLocaton : FVector) (Vertices : FBoundsVertices)
    (m : ℚ)
    (hmono : ∀ x y : ℚ, x ≤ y → M.ToFloat x ≤ M.ToFloat y)
    (hidem : ∀ x : ℚ, M.ToFloat (M.ToFloat x) = M.ToFloat x)
    (hmin : ∀ v ∈ Vertices, m ≤ v.Z) (hatt : ∃ v ∈ Vertices, v.Z = m) :
    SnapToFloor M ActorLocaton Vertices
      = (⟨ActorLocaton.X, ActorLocaton.Y,
            ActorLocaton.Z - (if m < BIG_NUMBER then M.ToFloat m else BIG_NUMBER)⟩,
          Vertices.map (fun Vertex =>
            ⟨Vertex.X, Vertex.Y,
              Vertex.Z - (if m < BIG_NUMBER then M.ToFloat m else BIG_NUMBER)⟩)) := by
  have hfold : Vertices.foldl (fun MinZLocation (Vertex : FVector) =>
        if Vertex.Z < MinZLocation then M.ToFloat Vertex.Z else MinZLocation) BIG_NUMBER
      = (if m < BIG_NUMBER then M.ToFloat m else BIG_NUMBER) := by
    obtain ⟨v0, hv0, hz0⟩ := hatt
    have h := foldl_MinZLocation M.ToFloat hmono hidem Vertices [] BIG_NUMBER
      (Or.inl ⟨rfl, by simp⟩)
    simp only [List.nil_append] at h
    rcases h with ⟨hB, hall⟩ | ⟨v, hv, hvB, hvmin, hC⟩
    · have hge : BIG_NUMBER ≤ m := hz0 ▸ hall v0 hv0
      rw [if_neg (not_lt.mpr hge), hB]
    · have hvm : v.Z = m := le_antisymm (hz0 ▸ hvmin v0 hv0) (hmin v hv)
      rw [hvm] at hvB hC
      rw [if_pos hvB, hC]
  unfold SnapToFloor
  dsimp only
  rw [hfold]

theorem ExampleEngineMath_ToFloat_mono (x y : ℚ) (h : x ≤ y) :
    ExampleEngineMath.ToFloat x ≤ ExampleEngineMath.ToFloat y := by
  show (if 1 / 10 ≤ x ∧ x ≤ 13421773 / 134217728 then (13421773 / 134217728 : ℚ) else x)
    ≤ (if 1 / 10 ≤ y ∧ y ≤ 13421773 / 134217728 then (13421773 / 134217728 : ℚ) else y)
  by_cases hx : 1 / 10 ≤ x ∧ x ≤ 13421773 / 134217728
  · rw [if_pos hx]
    by_cases hy : 1 / 10 ≤ y ∧ y ≤ 13421773 / 134217728
    · rw [if_pos hy]
    · rw [if_neg hy]
      by_contra hc
      exact hy ⟨le_trans hx.1 h, (not_le.mp hc).le⟩
  · rw [if_neg hx]
    by_cases hy : 1 / 10 ≤ y ∧ y ≤ 13421773 / 134217728
    · rw [if_pos hy]
      exact le_trans h hy.2
    · rw [if_neg hy]
      exact h

theorem ExampleEngineMath_ToFloat_idem (x : ℚ) :
    ExampleEngineMath.ToFloat (ExampleEngineMath.ToFloat x) = ExampleEngineMath.ToFloat x := by
  show (if 1 / 10 ≤ (if 1 / 10 ≤ x ∧ x ≤ 13421773 / 134217728
          then (13421773 / 134217728 : ℚ) else x)
        ∧ (if 1 / 10 ≤ x ∧ x ≤ 13421773 / 134217728 then (13421773 / 134217728 : ℚ) else x)
          ≤ 13421773 / 134217728
      then (13421773 / 134217728 : ℚ)
      else (if 1 / 10 ≤ x ∧ x ≤ 13421773 / 134217728 then (13421773 / 134217728 : ℚ) else x))
    = (if 1 / 10 ≤ x ∧ x ≤ 13421773 / 134217728 then (13421773 / 134217728 : ℚ) else x)
  by_cases hx : 1 / 10 ≤ x ∧ x ≤ 13421773 / 134217728
  · rw [if_pos hx, if_pos (by norm_num)]
  · rw [if_neg hx, if_neg hx]

theorem ExampleTenthCorners_min :
    (∀ v ∈ ExampleTenthCorners, (1 / 10 : ℚ) ≤ v.Z)
    ∧ ∃ v ∈ ExampleTenthCorners, v.Z = 1 / 10 := by
  constructor
  · intro v hv
    simp only [ExampleTenthCorners, List.mem_cons, List.mem_singleton, List.not_mem_nil,
      or_false] at hv
    rcases hv with rfl | rfl | rfl | rfl | rfl | rfl | rfl | rfl <;> norm_num
  · exact ⟨⟨-1, -1, 1 / 10⟩, by simp [ExampleTenthCorners], rfl⟩

/-- C27, counterexample: an actor at height 5 whose eight corners have the heights 0.1 and 1.1,
so that the minimum corner height is `m = 0.1`, with `bSnapToFloor` set. The minimum is kept in a
`float`, and the `float` nearest to 0.1 is `13421773 / 2^27 = 0.100000001490116...`. The actor is
moved to the height `5 - 13421773 / 2^27`, not to `5 - 0.1`, and the lowest corners end at the
height `0.1 - 13421773 / 2^27 = -1 / 671088640` (about `-1.49e-9`), not at 0. -/
theorem C27_counterexample :
    (∀ v ∈ ExampleTenthCorners, (1 / 10 : ℚ) ≤ v.Z)
    ∧ (∃ v ∈ ExampleTenthCorners, v.Z = 1 / 10)
    ∧ ExampleEngineMath.ToFloat (1 / 10) = 13421773 / 134217728
    ∧ (FloorSnap ExampleEngineMath
        ((FThumbnailSettings.ctor ExamplePostProcessDefault).SetMember EMember.bSnapToFloor true)
        ⟨0, 0, 5⟩ ExampleTenthCorners).1 = ⟨0, 0, 5 - 13421773 / 134217728⟩
    ∧ (FloorSnap ExampleEngineMath
        ((FThumbnailSettings.ctor ExamplePostProcessDefault).SetMember EMember.bSnapToFloor true)
        ⟨0, 0, 5⟩ ExampleTenthCorners).1 ≠ ⟨0, 0, 5 - 1 / 10⟩
    ∧ (FloorSnap ExampleEngineMath
        ((FThumbnailSettings.ctor ExamplePostProcessDefault).SetMember EMember.bSnapToFloor true)
        ⟨0, 0, 5⟩ ExampleTenthCorners).2
      = [⟨-1, -1, -1 / 671088640⟩, ⟨-1, 1, -1 / 671088640⟩, ⟨1, 1, -1 / 671088640⟩,
         ⟨1, -1, -1 / 671088640⟩, ⟨-1, -1, 1 - 1 / 671088640⟩, ⟨-1, 1, 1 - 1 / 671088640⟩,
         ⟨1, 1, 1 - 1 / 671088640⟩, ⟨1, -1, 1 - 1 / 671088640⟩] := by
  have hT : ExampleEngineMath.ToFloat (1 / 10) = 13421773 / 134217728 := by
    show (if (1 / 10 : ℚ) ≤ 1 / 10 ∧ (1 / 10 : ℚ) ≤ 13421773 / 134217728
      then (13421773 / 134217728 : ℚ) else 1 / 10) = 13421773 / 134217728
    rw [if_pos (by norm_num)]
  have hS : FloorSnap ExampleEngineMath
      ((FThumbnailSettings.ctor ExamplePostProcessDefault).SetMember EMember.bSnapToFloor true)
      ⟨0, 0, 5⟩ ExampleTenthCorners
      = (⟨0, 0, 5 - 13421773 / 134217728⟩,
          ExampleTenthCorners.map (fun Vertex =>
            ⟨Vertex.X, Vertex.Y, Vertex.Z - 13421773 / 134217728⟩)) := by
    unfold FloorSnap
    rw [if_pos (SetMember_Member_same _ _ _),
      SnapToFloor_eq ExampleEngineMath _ _ (1 / 10) ExampleEngineMath_ToFloat_mono
        ExampleEngineMath_ToFloat_idem ExampleTenthCorners_min.1 ExampleTenthCorners_min.2,
      if_pos (by norm_num [BIG_NUMBER]), hT]
  refine ⟨ExampleTenthCorners_min.1, ExampleTenthCorners_min.2, hT, ?_, ?_, ?_⟩
  · rw [hS]
  · rw [hS]
    intro hc
    have hZ := congrArg FVector.Z hc
    norm_num at hZ
  · rw [hS]
    norm_num [ExampleTenthCorners]

/-- C27 (amended): the floor snap. Let `m` be the minimum height (Z) of the corners `Vertices`.
The minimum is kept in a `float`; the conversion `M.ToFloat` to `float` is monotone and leaves a
`float` unchanged. With `bSnapToFloor` set, the actor location and every corner keep their X and
Y and have their Z reduced by `MinZLocation`, which is the `float` nearest to `m` when `m` is
below `BIG_NUMBER` (the value the search starts from) and `BIG_NUMBER` otherwise; afterwards the
minimum corner height is `m - MinZLocation` (no corner is below it and one is at it), which is
0 when `m` is below `BIG_NUMBER` and is itself a `float`. With `bSnapToFloor` clear the actor
location and the corners are unchanged. The location and the corners are those of the
auto-framing branch of `CaptureThumbnail`, for the eight corners `BoundsVertices` of the
bounding box. -/
theorem C27_floor_snap (M : FEngineMath) (ThumbnailSettings : FThumbnailSettings)
    (ActorLocaton : FVector) (Vertices : FBoundsVertices) (m MinZLocation : ℚ)
    (hmono : ∀ x y : ℚ, x ≤ y → M.ToFloat x ≤ M.ToFloat y)
    (hidem : ∀ x : ℚ, M.ToFloat (M.ToFloat x) = M.ToFloat x)
    (hmin : ∀ v ∈ Vertices, m ≤ v.Z) (hatt : ∃ v ∈ Vertices, v.Z = m)
    (hMinZ : MinZLocation = if m < BIG_NUMBER then M.ToFloat m else BIG_NUMBER) :
    (ThumbnailSettings.Member EMember.bSnapToFloor = true →
      FloorSnap M ThumbnailSettings ActorLocaton Vertices
          = (⟨ActorLocaton.X, ActorLocaton.Y, ActorLocaton.Z - MinZLocation⟩,
              Vertices.map (fun Vertex => ⟨Vertex.X, Vertex.Y, Vertex.Z - MinZLocation⟩))
        ∧ (∀ v ∈ (FloorSnap M ThumbnailSettings ActorLocaton Vertices).2,
            m - MinZLocation ≤ v.Z)
        ∧ (∃ v ∈ (FloorSnap M ThumbnailSettings ActorLocaton Vertices).2,
            v.Z = m - MinZLocation)
        ∧ (m < BIG_NUMBER → M.ToFloat m = m →
            (∀ v ∈ (FloorSnap M ThumbnailSettings ActorLocaton Vertices).2, 0 ≤ v.Z)
            ∧ ∃ v ∈ (FloorSnap M ThumbnailSettings ActorLocaton Vertices).2, v.Z = 0))
    ∧ (ThumbnailSettings.Member EMember.bSnapToFloor = false →
      FloorSnap M ThumbnailSettings ActorLocaton Vertices = (ActorLocaton, Vertices))
    ∧ (∀ (ActorTransform : FTransform) (ActorLocalThumbnailBounds : FBox)
        (View : FMinimalViewInfo),
      (AutoFrameCamera M ThumbnailSettings ActorTransform ActorLocalThumbnailBounds View).2
        = (FloorSnap M ThumbnailSettings ActorTransform.Translation
            (BoundsVertices M ActorTransform
              (if ThumbnailSettings.Override EOverride.bOverride_CustomActorBounds = true then
                ThumbnailSettings.Member EMember.CustomActorBounds
              else ActorLocalThumbnailBounds))).1) := by
  have hsnap : SnapToFloor M ActorLocaton Vertices
      = (⟨ActorLocaton.X, ActorLocaton.Y, ActorLocaton.Z - MinZLocation⟩,
          Vertices.map (fun Vertex => ⟨Vertex.X, Vertex.Y, Vertex.Z - MinZLocation⟩)) := by
    rw [hMinZ]
    exact SnapToFloor_eq M ActorLocaton Vertices m hmono hidem hmin hatt
  refine ⟨?_, ?_, ?_⟩
  · intro hset
    have hF : FloorSnap M ThumbnailSettings ActorLocaton Vertices
        = (⟨ActorLocaton.X, ActorLocaton.Y, ActorLocaton.Z - MinZLocation⟩,
            Vertices.map (fun Vertex => ⟨Vertex.X, Vertex.Y, Vertex.Z - MinZLocation⟩)) := by
      unfold FloorSnap
      rw [if_pos hset, hsnap]
    rw [hF]
    have hlow : ∀ v ∈ Vertices.map (fun Vertex : FVector =>
        (⟨Vertex.X, Vertex.Y, Vertex.Z - MinZLocation⟩ : FVector)),
        m - MinZLocation ≤ v.Z := by
      intro v hv
      obtain ⟨w, hw, rfl⟩ := List.mem_map.mp hv
      exact sub_le_sub_right (hmin w hw) _
    have hat : ∃ v ∈ Vertices.map (fun Vertex : FVector =>
        (⟨Vertex.X, Vertex.Y, Vertex.Z - MinZLocation⟩ : FVector)),
        v.Z = m - MinZLocation := by
      obtain ⟨v0, hv0, hz0⟩ := hatt
      exact ⟨_, List.mem_map.mpr ⟨v0, hv0, rfl⟩, by simp [hz0]⟩
    refine ⟨rfl, hlow, hat, ?_⟩
    intro hB hfl
    have h0 : m - MinZLocation = 0 := by
      rw [hMinZ, if_pos hB, hfl, sub_self]
    rw [h0] at hlow hat
    exact ⟨hlow, hat⟩
  · intro hclear
    unfold FloorSnap
    rw [if_neg (by rw [hclear]; simp)]
  · intro ActorTransform ActorLocalThumbnailBounds View
    rfl

/-- C27, instance: an actor at height 5 whose corners are at the heights 3 and 7 (both `float`
values) is moved to height 2, and the corners to the heights 0 and 4. -/
theorem C27_floor_snap_witness :
    FloorSnap ExampleEngineMath
        ((FThumbnailSettings.ctor ExamplePostProcessDefault).SetMember
          EMember.bSnapToFloor true) ⟨10, 20, 5⟩
        [⟨9, 19, 3⟩, ⟨9, 21, 3⟩, ⟨11, 21, 3⟩, ⟨11, 19, 3⟩,
         ⟨9, 19, 7⟩, ⟨9, 21, 7⟩, ⟨11, 21, 7⟩, ⟨11, 19, 7⟩]
      = (⟨10, 20, 5 - 3⟩,
          ([⟨9, 19, 3⟩, ⟨9, 21, 3⟩, ⟨11, 21, 3⟩, ⟨11, 19, 3⟩,
            ⟨9, 19, 7⟩, ⟨9, 21, 7⟩, ⟨11, 21, 7⟩, ⟨11, 19, 7⟩] : FBoundsVertices).map
            (fun Vertex => ⟨Vertex.X, Vertex.Y, Vertex.Z - 3⟩)) :=
  ((C27_floor_snap ExampleEngineMath
    ((FThumbnailSettings.ctor ExamplePostProcessDefault).SetMember EMember.bSnapToFloor true)
    ⟨10, 20, 5⟩
    [⟨9, 19, 3⟩, ⟨9, 21, 3⟩, ⟨11, 21, 3⟩, ⟨11, 19, 3⟩,
      ⟨9, 19, 7⟩, ⟨9, 21, 7⟩, ⟨11, 21, 7⟩, ⟨11, 19, 7⟩] 3 3
    ExampleEngineMath_ToFloat_mono ExampleEngineMath_ToFloat_idem
    (by
      intro v hv
      simp only [List.mem_cons, List.mem_singleton, List.not_mem_nil, or_false] at hv
      rcases hv with rfl | rfl | rfl | rfl | rfl | rfl | rfl | rfl <;> norm_num)
    ⟨⟨9, 19, 3⟩, List.mem_cons_self _ _, rfl⟩
    (by
      rw [if_pos (by norm_num [BIG_NUMBER])]
      show (3 : ℚ) = if (1 / 10 : ℚ) ≤ 3 ∧ (3 : ℚ) ≤ 13421773 / 134217728
        then (13421773 / 134217728 : ℚ) else 3
      rw [if_neg (by norm_num)])).1 (SetMember_Member_same _ _ _)).1

/-! ## Theorems: session flag -/

theorem BeginEjectWithError_post (G : FThumbnailGenerator) (E : FEngine)
    (hInv : G.bIsCapturingThumbnail = false → G.ThumbnailSceneActors = [])
    (r : Option AActor) (G' : FThumbnailGenerator) (E' : FEngine)
    (h : G.BeginEjectWithError E = some (r, G', E')) :
    r = none ∧ G'.bIsCapturingThumbnail = false ∧ G'.ThumbnailSceneActors = [] := by
  refine ⟨BeginEjectWithError_none G E r G' E' h, ?_⟩
  unfold FThumbnailGenerator.BeginEjectWithError at h
  simp only [Option.map_eq_some', Prod.mk.injEq] at h
  obtain ⟨⟨G1, E1⟩, hc, _, rfl, rfl⟩ := h
  cases hflag : G.bIsCapturingThumbnail with
  | false =>
    rw [CleanupThumbnailCapture_idle G E hflag] at hc
    simp only [Option.some.injEq, Prod.mk.injEq] at hc
    obtain ⟨rfl, rfl⟩ := hc
    exact ⟨hflag, hInv hflag⟩
  | true =>
    have hp := CleanupThumbnailCapture_post G E hflag _ _ hc
    exact ⟨hp.1, hp.2.1⟩

theorem InitializeThumbnailWorld_flags (H : FHost) (G : FThumbnailGenerator) (E : FEngine)
    (Settings : FThumbnailBackgroundSceneSettings) (G' : FThumbnailGenerator) (E' : FEngine)
    (h : G.InitializeThumbnailWorld H E Settings = some (G', E')) :
    G'.bIsCapturingThumbnail = G.bIsCapturingThumbnail
    ∧ G'.ThumbnailSceneActors = G.ThumbnailSceneActors := by
  unfold FThumbnailGenerator.InitializeThumbnailWorld at h
  dsimp only at h
  split_ifs at h
  all_goals
    simp only [Option.some.injEq, Prod.mk.injEq] at h
    obtain ⟨rfl, _⟩ := h
    exact ⟨rfl, rfl⟩

theorem UpdateScripts_flags (G : FThumbnailGenerator) (E : FEngine)
    (NewScripts : List TSubclassOf) :
    (G.UpdateScripts E NewScripts).1.bIsCapturingThumbnail = G.bIsCapturingThumbnail
    ∧ (G.UpdateScripts E NewScripts).1.ThumbnailSceneActors = G.ThumbnailSceneActors := by
  unfold FThumbnailGenerator.UpdateScripts
  split_ifs <;> exact ⟨rfl, rfl⟩

theorem BeginGenerateActorThumbnail_post (H : FHost) (G : FThumbnailGenerator) (E : FEngine)
    (ActorClass : TSubclassOf) (ThumbnailSettings : FThumbnailSettings)
    (Properties : List (String × String)) (bFinishSpawningActor : Bool)
    (hInv : G.bIsCapturingThumbnail = false → G.ThumbnailSceneActors = [])
    (r : Option AActor) (G' : FThumbnailGenerator) (E' : FEngine)
    (h : G.BeginGenerateActorThumbnail H E ActorClass ThumbnailSettings Properties
        bFinishSpawningActor = some (r, G', E')) :
    (G'.bIsCapturingThumbnail = true ↔ r ≠ none)
    ∧ (G'.bIsCapturingThumbnail = false → G'.ThumbnailSceneActors = []) := by
  have heject : ∀ (G1 : FThumbnailGenerator) (E1 : FEngine),
      (G1.bIsCapturingThumbnail = false → G1.ThumbnailSceneActors = []) →
      G1.BeginEjectWithError E1 = some (r, G', E') →
      (G'.bIsCapturingThumbnail = true ↔ r ≠ none)
      ∧ (G'.bIsCapturingThumbnail = false → G'.ThumbnailSceneActors = []) := by
    intro G1 E1 hI he
    obtain ⟨h1, h2, h3⟩ := BeginEjectWithError_post G1 E1 hI r G' E' he
    rw [h1, h2]
    exact ⟨by simp, fun _ => h3⟩
  unfold FThumbnailGenerator.BeginGenerateActorThumbnail at h
  split at h
  · exact heject _ _ hInv h
  · split at h
    · exact heject _ _ hInv h
    · split at h
      · exact heject _ _ hInv h
      · split at h
        · cases h
        · rename_i _ G2 E2 heq
          have hInv2 : G2.bIsCapturingThumbnail = false → G2.ThumbnailSceneActors = [] := by
            split_ifs at heq
            · obtain ⟨h1, h2⟩ := InitializeThumbnailWorld_flags H G E _ G2 E2 heq
              rw [h1, h2]
              exact hInv
            · simp only [Option.some.injEq, Prod.mk.injEq] at heq
              obtain ⟨rfl, _⟩ := heq
              exact hInv
          split at h
          · cases h
          · split at h
            · exact heject _ _ hInv2 h
            · split at h
              · exact heject _ _ hInv2 h
              · simp only [] at h
                split at h
                · cases h
                · rename_i G3 hP
                  have hflag3 := (PrepareThumbnailCapture_post _ _ _ hP).1
                  have hInv3 : G3.bIsCapturingThumbnail = false → G3.ThumbnailSceneActors = [] := by
                    intro hc
                    rw [hflag3] at hc
                    cases hc
                  split at h
                  · exact heject _ _ hInv3 h
                  · split at h
                    · exact heject _ _ hInv3 h
                    · simp only [Option.some.injEq, Prod.mk.injEq] at h
                      obtain ⟨rfl, rfl, _⟩ := h
                      rw [hflag3]
                      exact ⟨by simp, fun hc => by cases hc⟩

theorem FinishGenerateActorThumbnail_post (H : FHost) (G : FThumbnailGenerator) (E : FEngine)
    (Actor : Option AActor) (ThumbnailSettings : FThumbnailSettings)
    (ResourceObject : Option UTexture2D) (bFinishSpawningActor : Bool)
    (hInv : G.bIsCapturingThumbnail = false → G.ThumbnailSceneActors = [])
    (r : Option UTexture2D) (G' : FThumbnailGenerator) (E' : FEngine)
    (h : G.FinishGenerateActorThumbnail H E Actor ThumbnailSettings ResourceObject
        bFinishSpawningActor = some (r, G', E')) :
    G'.bIsCapturingThumbnail = false ∧ G'.ThumbnailSceneActors = [] := by
  cases hflag : G.bIsCapturingThumbnail with
  | false =>
    unfold FThumbnailGenerator.FinishGenerateActorThumbnail at h
    rw [if_pos hflag] at h
    unfold FThumbnailGenerator.FinishEjectWithError at h
    dsimp only at h
    rw [CleanupThumbnailCapture_idle G _ hflag] at h
    simp only [Option.map_some', Option.some.injEq, Prod.mk.injEq] at h
    obtain ⟨_, rfl, _⟩ := h
    exact ⟨hflag, hInv hflag⟩
  | true =>
    have hpost : ∀ (E1 : FEngine) (A : Option AActor),
        G.FinishEjectWithError E1 A = some (r, G', E') →
        G'.bIsCapturingThumbnail = false ∧ G'.ThumbnailSceneActors = [] := by
      intro E1 A he
      have hp := FinishEjectWithError_post G E1 A hflag r G' E' he
      exact ⟨hp.1, hp.2.1⟩
    unfold FThumbnailGenerator.FinishGenerateActorThumbnail at h
    rw [if_neg (by simp [hflag])] at h
    cases Actor with
    | none => exact hpost _ _ h
    | some A =>
      simp only [] at h
      split at h
      · exact hpost _ _ h
      · split at h
        · exact hpost _ _ h
        · split at h
          · exact hpost _ _ h
          · split at h
            · cases h
            · have hp := AcquireRenderTargetAndCapture_post H G _ _ _ _ hflag _ _ _ h
              exact ⟨hp.1, hp.2.1⟩

theorem CleanupThumbnailCapture_keeps (G : FThumbnailGenerator) (E : FEngine)
    (G' : FThumbnailGenerator) (E' : FEngine)
    (h : G.CleanupThumbnailCapture E = some (G', E')) :
    G'.ThumbnailScene = G.ThumbnailScene ∧ G'.RenderTargetCache = G.RenderTargetCache := by
  unfold FThumbnailGenerator.CleanupThumbnailCapture at h
  split_ifs at h
  · simp only [Option.some.injEq, Prod.mk.injEq] at h
    obtain ⟨rfl, _⟩ := h
    exact ⟨rfl, rfl⟩
  · split at h
    · cases h
    · simp only [Option.some.injEq, Prod.mk.injEq] at h
      obtain ⟨rfl, _⟩ := h
      exact ⟨rfl, rfl⟩

theorem BeginEjectWithError_keeps (G : FThumbnailGenerator) (E : FEngine)
    (r : Option AActor) (G' : FThumbnailGenerator) (E' : FEngine)
    (h : G.BeginEjectWithError E = some (r, G', E')) :
    G'.ThumbnailScene = G.ThumbnailScene ∧ G'.RenderTargetCache = G.RenderTargetCache := by
  unfold FThumbnailGenerator.BeginEjectWithError at h
  simp only [Option.map_eq_some', Prod.mk.injEq] at h
  obtain ⟨⟨G1, E1⟩, hc, _, rfl, rfl⟩ := h
  exact CleanupThumbnailCapture_keeps G E _ _ hc

theorem FinishEjectWithError_keeps (G : FThumbnailGenerator) (E : FEngine)
    (Actor : Option AActor) (r : Option UTexture2D) (G' : FThumbnailGenerator) (E' : FEngine)
    (h : G.FinishEjectWithError E Actor = some (r, G', E')) :
    G'.ThumbnailScene = G.ThumbnailScene ∧ G'.RenderTargetCache = G.RenderTargetCache := by
  unfold FThumbnailGenerator.FinishEjectWithError at h
  simp only [Option.map_eq_some', Prod.mk.injEq] at h
  obtain ⟨⟨G1, E1⟩, hc, _, rfl, rfl⟩ := h
  exact CleanupThumbnailCapture_keeps G _ _ _ hc

theorem CaptureAndCleanup_keeps (H : FHost) (G : FThumbnailGenerator) (E : FEngine)
    (S : FThumbnailSettings) (RT : UTextureRenderTarget2D) (Actor : AActor)
    (ResourceObject : Option UTexture2D)
    (r : Option UTexture2D) (G' : FThumbnailGenerator) (E' : FEngine)
    (h : G.CaptureAndCleanup H E S RT Actor ResourceObject = some (r, G', E')) :
    G'.ThumbnailScene = G.ThumbnailScene ∧ G'.RenderTargetCache = G.RenderTargetCache := by
  unfold FThumbnailGenerator.CaptureAndCleanup at h
  simp only [] at h
  split at h
  · exact FinishEjectWithError_keeps G _ _ _ _ _ h
  · simp only [Option.map_eq_some', Prod.mk.injEq] at h
    obtain ⟨⟨G1, E1⟩, hc, _, rfl, rfl⟩ := h
    exact CleanupThumbnailCapture_keeps G _ _ _ hc

theorem AcquireRenderTargetAndCapture_keeps (H : FHost) (G : FThumbnailGenerator)
    (E : FEngine) (S : FThumbnailSettings) (Actor : AActor)
    (ResourceObject : Option UTexture2D)
    (r : Option UTexture2D) (G' : FThumbnailGenerator) (E' : FEngine)
    (h : G.AcquireRenderTargetAndCapture H E S Actor ResourceObject = some (r, G', E')) :
    G'.ThumbnailScene = G.ThumbnailScene
    ∧ (G.RenderTargetCache ≠ none → G'.RenderTargetCache ≠ none) := by
  unfold FThumbnailGenerator.AcquireRenderTargetAndCapture at h
  simp only [] at h
  split at h
  · cases h
  · split at h
    · obtain ⟨h1, h2⟩ := CaptureAndCleanup_keeps H _ _ _ _ _ _ _ _ _ h
      exact ⟨h1, fun hc => h2 ▸ hc⟩
    · split at h
      · obtain ⟨h1, h2⟩ := FinishEjectWithError_keeps _ _ _ _ _ _ h
        exact ⟨h1, fun hc => h2 ▸ hc⟩
      · obtain ⟨h1, h2⟩ := CaptureAndCleanup_keeps H _ _ _ _ _ _ _ _ _ h
        refine ⟨h1, fun _ => ?_⟩
        rw [h2]
        simp

theorem FinishGenerateActorThumbnail_keeps (H : FHost) (G : FThumbnailGenerator) (E : FEngine)
    (Actor : Option AActor) (ThumbnailSettings : FThumbnailSettings)
    (ResourceObject : Option UTexture2D) (bFinishSpawningActor : Bool)
    (r : Option UTexture2D) (G' : FThumbnailGenerator) (E' : FEngine)
    (h : G.FinishGenerateActorThumbnail H E Actor ThumbnailSettings ResourceObject
        bFinishSpawningActor = some (r, G', E')) :
    G'.ThumbnailScene = G.ThumbnailScene
    ∧ (G.RenderTargetCache ≠ none → G'.RenderTargetCache ≠ none) := by
  have heject : ∀ (E1 : FEngine) (A : Option AActor),
      G.FinishEjectWithError E1 A = some (r, G', E') →
      G'.ThumbnailScene = G.ThumbnailScene
      ∧ (G.RenderTargetCache ≠ none → G'.RenderTargetCache ≠ none) := by
    intro E1 A he
    obtain ⟨h1, h2⟩ := FinishEjectWithError_keeps G E1 A r G' E' he
    exact ⟨h1, fun hc => h2 ▸ hc⟩
  unfold FThumbnailGenerator.FinishGenerateActorThumbnail at h
  cases hflag : G.bIsCapturingThumbnail with
  | false =>
    rw [if_pos hflag] at h
    exact heject _ _ h
  | true =>
    rw [if_neg (by simp [hflag])] at h
    cases Actor with
    | none => exact heject _ _ h
    | some A =>
      simp only [] at h
      split at h
      · exact heject _ _ h
      · split at h
        · exact heject _ _ h
        · split at h
          · exact heject _ _ h
          · split at h
            · cases h
            · exact AcquireRenderTargetAndCapture_keeps H G _ _ _ _ _ _ _ h

theorem InitializeThumbnailWorld_cache (H : FHost) (G : FThumbnailGenerator) (E : FEngine)
    (Settings : FThumbnailBackgroundSceneSettings) (G' : FThumbnailGenerator) (E' : FEngine)
    (h : G.InitializeThumbnailWorld H E Settings = some (G', E')) :
    G'.RenderTargetCache ≠ none := by
  unfold FThumbnailGenerator.InitializeThumbnailWorld at h
  dsimp only at h
  split_ifs at h
  all_goals
    simp only [Option.some.injEq, Prod.mk.injEq] at h
    obtain ⟨rfl, _⟩ := h
    dsimp only
    cases G.RenderTargetCache <;> simp

theorem UpdateScripts_keeps (G : FThumbnailGenerator) (E : FEngine)
    (NewScripts : List TSubclassOf) :
    (G.UpdateScripts E NewScripts).1.RenderTargetCache = G.RenderTargetCache := by
  unfold FThumbnailGenerator.UpdateScripts
  split_ifs <;> rfl

theorem PrepareThumbnailCapture_keeps (G G' : FThumbnailGenerator) (E : FEngine)
    (h : G.PrepareThumbnailCapture E = some G') :
    G'.RenderTargetCache = G.RenderTargetCache := by
  unfold FThumbnailGenerator.PrepareThumbnailCapture at h
  split at h
  · cases h
  · split at h
    · cases h
    · simp only [Option.some.injEq] at h
      subst h
      rfl

/-- `Begin` keeps the render-target cache present whenever the scene is present. -/
theorem BeginGenerateActorThumbnail_cache (H : FHost) (G : FThumbnailGenerator) (E : FEngine)
    (ActorClass : TSubclassOf) (ThumbnailSettings : FThumbnailSettings)
    (Properties : List (String × String)) (bFinishSpawningActor : Bool)
    (hInv : G.ThumbnailScene ≠ none → G.RenderTargetCache ≠ none)
    (r : Option AActor) (G' : FThumbnailGenerator) (E' : FEngine)
    (h : G.BeginGenerateActorThumbnail H E ActorClass ThumbnailSettings Properties
        bFinishSpawningActor = some (r, G', E')) :
    G'.ThumbnailScene ≠ none → G'.RenderTargetCache ≠ none := by
  have heject : ∀ (G1 : FThumbnailGenerator) (E1 : FEngine),
      (G1.ThumbnailScene ≠ none → G1.RenderTargetCache ≠ none) →
      G1.BeginEjectWithError E1 = some (r, G', E') →
      (G'.ThumbnailScene ≠ none → G'.RenderTargetCache ≠ none) := by
    intro G1 E1 hI he
    obtain ⟨h1, h2⟩ := BeginEjectWithError_keeps G1 E1 r G' E' he
    rw [h1, h2]
    exact hI
  unfold FThumbnailGenerator.BeginGenerateActorThumbnail at h
  split at h
  · exact heject _ _ hInv h
  · split at h
    · exact heject _ _ hInv h
    · split at h
      · exact heject _ _ hInv h
      · split at h
        · cases h
        · rename_i _ G2 E2 heq
          have hInv2 : G2.ThumbnailScene ≠ none → G2.RenderTargetCache ≠ none := by
            split_ifs at heq
            · exact fun _ => InitializeThumbnailWorld_cache H G E _ G2 E2 heq
            · simp only [Option.some.injEq, Prod.mk.injEq] at heq
              obtain ⟨rfl, _⟩ := heq
              exact hInv
          split at h
          · cases h
          · rename_i Scene hScene
            have hC2 : G2.RenderTargetCache ≠ none := hInv2 (by rw [hScene]; simp)
            split at h
            · exact heject _ _ hInv2 h
            · split at h
              · exact heject _ _ hInv2 h
              · simp only [] at h
                split at h
                · cases h
                · rename_i G3 hP
                  have hC3 : G3.RenderTargetCache ≠ none := by
                    rw [PrepareThumbnailCapture_keeps _ _ _ hP]
                    dsimp only
                    rw [UpdateScripts_keeps]
                    exact hC2
                  split at h
                  · exact heject _ _ (fun _ => hC3) h
                  · split at h
                    · exact heject _ _ (fun _ => hC3) h
                    · simp only [Option.some.injEq, Prod.mk.injEq] at h
                      obtain ⟨_, rfl, _⟩ := h
                      exact fun _ => hC3

/-- Each call that returns preserves: a clear flag comes with an empty snapshot; a set flag
comes with a present thumbnail world; a present scene comes with a present render-target
cache. -/
theorem RunSessionCall_invariant (H : FHost) (Call : ESessionCall)
    (State Next : FThumbnailGenerator × FEngine)
    (hInv : (State.1.bIsCapturingThumbnail = false → State.1.ThumbnailSceneActors = [])
      ∧ (State.1.bIsCapturingThumbnail = true → State.1.GetThumbnailWorld ≠ none)
      ∧ (State.1.ThumbnailScene ≠ none → State.1.RenderTargetCache ≠ none))
    (h : RunSessionCall H Call State = some Next) :
    (Next.1.bIsCapturingThumbnail = false → Next.1.ThumbnailSceneActors = [])
    ∧ (Next.1.bIsCapturingThumbnail = true → Next.1.GetThumbnailWorld ≠ none)
    ∧ (Next.1.ThumbnailScene ≠ none → Next.1.RenderTargetCache ≠ none) := by
  cases Call with
  | Begin ActorClass ThumbnailSettings Properties bFinishSpawningActor =>
    unfold RunSessionCall at h
    simp only [Option.map_eq_some'] at h
    obtain ⟨⟨r, G', E'⟩, hB, rfl⟩ := h
    have hpost := BeginGenerateActorThumbnail_post H _ _ _ _ _ _ hInv.1 r G' E' hB
    refine ⟨hpost.2, ?_, BeginGenerateActorThumbnail_cache H _ _ _ _ _ _ hInv.2.2 r G' E' hB⟩
    intro hflag
    have hr : r ≠ none := hpost.1.mp hflag
    cases r with
    | none => exact absurd rfl hr
    | some Actor =>
      obtain ⟨_, World, hW⟩ := BeginGenerateActorThumbnail_success H _ _ _ _ _ _ Actor G' E' hB
      show G'.GetThumbnailWorld ≠ none
      rw [hW]
      simp
  | Finish Actor ThumbnailSettings ResourceObject bFinishSpawningActor =>
    unfold RunSessionCall at h
    simp only [Option.map_eq_some'] at h
    obtain ⟨⟨r, G', E'⟩, hF, rfl⟩ := h
    have hpost := FinishGenerateActorThumbnail_post H _ _ _ _ _ _ hInv.1 r G' E' hF
    have hkeep := FinishGenerateActorThumbnail_keeps H _ _ _ _ _ _ r G' E' hF
    refine ⟨fun _ => hpost.2, ?_, ?_⟩
    · intro hflag
      have hf : G'.bIsCapturingThumbnail = false := hpost.1
      rw [hf] at hflag
      cases hflag
    · intro hS
      exact hkeep.2 (hInv.2.2 (hkeep.1 ▸ hS))
  | Invalidate =>
    unfold RunSessionCall at h
    simp only [Option.some.injEq] at h
    subst h
    refine ⟨fun _ => rfl, ?_, ?_⟩
    · intro hflag
      cases hflag
    · intro hS
      exact absurd rfl hS
  | Engine Change =>
    unfold RunSessionCall at h
    simp only [Option.some.injEq] at h
    subst h
    exact hInv

theorem RunSessionCalls_invariant (H : FHost) (Calls : List ESessionCall) :
    ∀ (State Final : FThumbnailGenerator × FEngine),
      ((State.1.bIsCapturingThumbnail = false → State.1.ThumbnailSceneActors = [])
        ∧ (State.1.bIsCapturingThumbnail = true → State.1.GetThumbnailWorld ≠ none)
        ∧ (State.1.ThumbnailScene ≠ none → State.1.RenderTargetCache ≠ none)) →
      RunSessionCalls H Calls State = some Final →
      ((Final.1.bIsCapturingThumbnail = false → Final.1.ThumbnailSceneActors = [])
        ∧ (Final.1.bIsCapturingThumbnail = true → Final.1.GetThumbnailWorld ≠ none)
        ∧ (Final.1.ThumbnailScene ≠ none → Final.1.RenderTargetCache ≠ none)) := by
  induction Calls with
  | nil =>
    intro State Final hInv h
    rw [RunSessionCalls] at h
    simp only [Option.some.injEq] at h
    subst h
    exact hInv
  | cons Call Rest ih =>
    intro State Final hInv h
    rw [RunSessionCalls] at h
    split at h
    · rename_i Next hN
      exact ih Next Final (RunSessionCall_invariant H Call State Next hInv hN) h
    · cases h

/-- In a state where a set flag comes with a present world and a present scene with a present
cache, `Finish` returns whenever the tick loop terminates. -/
theorem FinishGenerateActorThumbnail_returns_of_invariant (H : FHost)
    (G : FThumbnailGenerator) (E : FEngine) (Actor : Option AActor)
    (ThumbnailSettings : FThumbnailSettings) (ResourceObject : Option UTexture2D)
    (bFinishSpawningActor : Bool)
    (hW : G.bIsCapturingThumbnail = true → G.GetThumbnailWorld ≠ none)
    (hC : G.ThumbnailScene ≠ none → G.RenderTargetCache ≠ none)
    (hsim : ThumbnailSettings.Member EMember.SimulationMode
        = EThumbnailSceneSimulationMode.ENone
      ∨ 0 ≤ ThumbnailSettings.Member EMember.SimulateSceneFramerate
      ∨ ThumbnailSettings.Member EMember.SimulateSceneTime ≤ 0) :
    ∃ Result, G.FinishGenerateActorThumbnail H E Actor ThumbnailSettings ResourceObject
      bFinishSpawningActor = some Result := by
  cases hflag : G.bIsCapturingThumbnail with
  | false =>
    unfold FThumbnailGenerator.FinishGenerateActorThumbnail
    rw [if_pos hflag]
    unfold FThumbnailGenerator.FinishEjectWithError
    dsimp only
    rw [CleanupThumbnailCapture_idle G _ hflag]
    exact ⟨_, rfl⟩
  | true =>
    have hWorld := hW hflag
    have hScene : G.ThumbnailScene ≠ none := by
      intro hc
      apply hWorld
      unfold FThumbnailGenerator.GetThumbnailWorld
      rw [hc]
    exact FinishGenerateActorThumbnail_returns H G E Actor ThumbnailSettings ResourceObject
      bFinishSpawningActor hflag hWorld (hC hScene) hsim

/-- C28: the session-flag invariant. Let `(G, E)` be the generator and engine state reached from
a freshly constructed generator by any sequence of `Begin`, `Finish` and
`InvalidateThumbnailWorld` calls (with any arguments, and with any changes of the engine state
between the calls). Then in `G` a clear capturing flag comes with an empty actor snapshot, and
for the next call made in this state: after a `Begin` that returns, the flag is set if and only
if `Begin` returned an actor; `Finish` returns whenever its tick loop terminates (simulation
off, or a framerate that is not negative, or a non-positive time), and after a `Finish` that
returns and after `InvalidateThumbnailWorld` the flag is clear and the snapshot empty. As every
prefix of a call sequence is a call sequence, this holds after each call of the sequence. -/
theorem C28_session_flag_invariant (H : FHost) (Calls : List ESessionCall) (E0 : FEngine)
    (G : FThumbnailGenerator) (E : FEngine)
    (hrun : RunSessionCalls H Calls (FThumbnailGenerator.ctor, E0) = some (G, E)) :
    (G.bIsCapturingThumbnail = false → G.ThumbnailSceneActors = [])
    ∧ (∀ (ActorClass : TSubclassOf) (ThumbnailSettings : FThumbnailSettings)
        (Properties : List (String × String)) (bFinishSpawningActor : Bool)
        (r : Option AActor) (G' : FThumbnailGenerator) (E' : FEngine),
      G.BeginGenerateActorThumbnail H E ActorClass ThumbnailSettings Properties
          bFinishSpawningActor = some (r, G', E') →
        (G'.bIsCapturingThumbnail = true ↔ r ≠ none)
        ∧ (G'.bIsCapturingThumbnail = false → G'.ThumbnailSceneActors = []))
    ∧ (∀ (Actor : Option AActor) (ThumbnailSettings : FThumbnailSettings)
        (ResourceObject : Option UTexture2D) (bFinishSpawningActor : Bool)
        (r : Option UTexture2D) (G' : FThumbnailGenerator) (E' : FEngine),
      G.FinishGenerateActorThumbnail H E Actor ThumbnailSettings ResourceObject
          bFinishSpawningActor = some (r, G', E') →
        G'.bIsCapturingThumbnail = false ∧ G'.ThumbnailSceneActors = [])
    ∧ (∀ (Actor : Option AActor) (ThumbnailSettings : FThumbnailSettings)
        (ResourceObject : Option UTexture2D) (bFinishSpawningActor : Bool),
      (ThumbnailSettings.Member EMember.SimulationMode = EThumbnailSceneSimulationMode.ENone
        ∨ 0 ≤ ThumbnailSettings.Member EMember.SimulateSceneFramerate
        ∨ ThumbnailSettings.Member EMember.SimulateSceneTime ≤ 0) →
      ∃ Result, G.FinishGenerateActorThumbnail H E Actor ThumbnailSettings ResourceObject
        bFinishSpawningActor = some Result)
    ∧ (G.InvalidateThumbnailWorld H E).1.bIsCapturingThumbnail = false
    ∧ (G.InvalidateThumbnailWorld H E).1.ThumbnailSceneActors = [] := by
  have hInv := RunSessionCalls_invariant H Calls (FThumbnailGenerator.ctor, E0) (G, E)
    ⟨fun _ => rfl, (fun hc => by cases hc), fun hc => absurd rfl hc⟩ hrun
  refine ⟨hInv.1, ?_, ?_, ?_, rfl, rfl⟩
  · intro ActorClass ThumbnailSettings Properties bFinishSpawningActor r G' E' hB
    exact BeginGenerateActorThumbnail_post H G E _ _ _ _ hInv.1 r G' E' hB
  · intro Actor ThumbnailSettings ResourceObject bFinishSpawningActor r G' E' hF
    exact FinishGenerateActorThumbnail_post H G E _ _ _ _ hInv.1 r G' E' hF
  · intro Actor ThumbnailSettings ResourceObject bFinishSpawningActor hsim
    exact FinishGenerateActorThumbnail_returns_of_invariant H G E Actor ThumbnailSettings
      ResourceObject bFinishSpawningActor hInv.2.1 hInv.2.2 hsim

/-- C28, instance: a first `Begin` on a fresh generator returns actor 100 and leaves the flag
set; a `Finish` for this actor with the simulation mode `EActor` and a framerate of 0 returns,
with the flag clear and the snapshot empty; a second `Begin` instead of the `Finish` is
rejected, and after it the flag is clear and the snapshot empty. -/
theorem C28_session_flag_invariant_witness :
    RunSessionCalls ExampleSpawningHost
        [ESessionCall.Begin (some "Actor") (FThumbnailSettings.ctor ExamplePostProcessDefault)
            [] true]
        (FThumbnailGenerator.ctor, ExampleEngine)
      = some (ExampleAfterBegin.1, ExampleAfterBegin.2)
    ∧ (ExampleAfterBegin.1.bIsCapturingThumbnail = true
        ↔ (some ⟨100, 0⟩ : Option AActor) ≠ none)
    ∧ (∃ Result, ExampleAfterBegin.1.FinishGenerateActorThumbnail ExampleSpawningHost
          ExampleAfterBegin.2 (some ⟨100, 0⟩) ExampleZeroFramerateSettings none false
        = some Result
      ∧ Result.2.1.bIsCapturingThumbnail = false ∧ Result.2.1.ThumbnailSceneActors = [])
    ∧ RunSessionCalls ExampleSpawningHost
        [ESessionCall.Begin (some "Actor") (FThumbnailSettings.ctor ExamplePostProcessDefault)
            [] true,
          ESessionCall.Begin (some "Actor") (FThumbnailSettings.ctor ExamplePostProcessDefault)
            [] true]
        (FThumbnailGenerator.ctor, ExampleEngine)
      = some ({ ExampleAfterBegin.1 with
            ThumbnailSceneActors := [], bIsCapturingThumbnail := false },
          { ExampleAfterBegin.2 with Actors := [⟨1, 0⟩, ⟨2, 0⟩, ⟨3, 7⟩] })
    ∧ (({ ExampleAfterBegin.1 with
          ThumbnailSceneActors := [],
          bIsCapturingThumbnail := false } : FThumbnailGenerator).bIsCapturingThumbnail = false →
        ({ ExampleAfterBegin.1 with
          ThumbnailSceneActors := [],
          bIsCapturingThumbnail := false } : FThumbnailGenerator).ThumbnailSceneActors
          = []) := by
  have h1 := C28_session_flag_invariant ExampleSpawningHost
    [ESessionCall.Begin (some "Actor") (FThumbnailSettings.ctor ExamplePostProcessDefault)
      [] true]
    ExampleEngine ExampleAfterBegin.1 ExampleAfterBegin.2 rfl
  have h0 := C28_session_flag_invariant ExampleSpawningHost [] ExampleEngine
    FThumbnailGenerator.ctor ExampleEngine rfl
  have h2 := C28_session_flag_invariant ExampleSpawningHost
    [ESessionCall.Begin (some "Actor") (FThumbnailSettings.ctor ExamplePostProcessDefault)
        [] true,
      ESessionCall.Begin (some "Actor") (FThumbnailSettings.ctor ExamplePostProcessDefault)
        [] true]
    ExampleEngine _ _ rfl
  have hF0 : ExampleZeroFramerateSettings.Member EMember.SimulateSceneFramerate = 0 := by
    unfold ExampleZeroFramerateSettings
    rw [SetMember_Member_same]
  obtain ⟨Result, hR⟩ := h1.2.2.2.1 (some ⟨100, 0⟩) ExampleZeroFramerateSettings none false
    (Or.inr (Or.inl (le_of_eq hF0.symm)))
  refine ⟨rfl, ?_, ⟨Result, hR, ?_⟩, rfl, h2.1⟩
  · exact (h0.2.1 (some "Actor") (FThumbnailSettings.ctor ExamplePostProcessDefault) [] true
      (some ⟨100, 0⟩) ExampleAfterBegin.1 ExampleAfterBegin.2 rfl).1
  · obtain ⟨r, G', E'⟩ := Result
    exact h1.2.2.1 (some ⟨100, 0⟩) ExampleZeroFramerateSettings none false r G' E' hR

/-! ## Theorems: simulation loop count -/

/-- The tick loop runs `ceil(time / StepSize)` iterations. -/
theorem SimulatedTickLoop_length (StepSize : ℚ) (hStep : 0 < StepSize) :
    ∀ (n : Nat) (time : ℚ), Nat.ceil (time / StepSize) ≤ n →
      (SimulatedTickLoop StepSize hStep time).length = Nat.ceil (time / StepSize) := by
  intro n
  induction n with
  | zero =>
    intro time hn
    have h1 : Nat.ceil (time / StepSize) = 0 := Nat.le_zero.mp hn
    have h2 : time / StepSize ≤ 0 := Nat.ceil_eq_zero.mp h1
    have h0 : time ≤ 0 := by
      by_contra hpos
      exact absurd (div_pos (not_le.mp hpos) hStep) (not_lt.mpr h2)
    rw [SimulatedTickLoop_nonpos StepSize hStep time h0, h1]
    rfl
  | succ n ih =>
    intro time hn
    by_cases hpos : 0 < time
    · have h1 : (time - StepSize) / StepSize = time / StepSize - 1 := by
        field_simp
      have hceil : Nat.ceil ((time - StepSize) / StepSize) ≤ n := by
        rw [h1, Nat.ceil_le]
        have h2 : time / StepSize ≤ ((n + 1 : Nat) : ℚ) := Nat.ceil_le.mp hn
        push_cast at h2
        linarith
      rw [SimulatedTickLoop_pos StepSize hStep time hpos, List.length_cons,
        ih (time - StepSize) hceil, h1]
      have hx : 0 < time / StepSize := div_pos hpos hStep
      by_cases hge : 0 ≤ time / StepSize - 1
      · have h3 := Nat.ceil_add_one hge
        rw [sub_add_cancel] at h3
        exact h3.symm
      · have h4 : Nat.ceil (time / StepSize - 1) = 0 :=
          Nat.ceil_eq_zero.mpr (not_le.mp hge).le
        have h5 : Nat.ceil (time / StepSize) = 1 := by
          rw [Nat.ceil_eq_iff (by norm_num)]
          constructor
          · simpa using hx
          · push_cast
            linarith [not_le.mp hge]
        rw [h4, h5]
    · have h0 : time ≤ 0 := not_lt.mp hpos
      have h2 : time / StepSize ≤ 0 := div_nonpos_of_nonpos_of_nonneg h0 hStep.le
      rw [SimulatedTickLoop_nonpos StepSize hStep time h0, Nat.ceil_eq_zero.mpr h2]
      rfl

/-- C29: for every `SimulateSceneTime = T` and every `SimulateSceneFramerate = F > 0` in exact
arithmetic, the simulated-tick loop terminates, and the tick callback is invoked exactly
`ceil(T * F)` times when `T > 0` and not at all when `T <= 0`. -/
theorem C29_simulation_loop_count (S : FThumbnailSettings)
    (hF : 0 < S.Member EMember.SimulateSceneFramerate) :
    ∃ Deltas : List ℚ, SimulatedTick S = some (Deltas.map FDeltaTime.Value)
      ∧ (0 < S.Member EMember.SimulateSceneTime →
          Deltas.length
            = Nat.ceil (S.Member EMember.SimulateSceneTime
                * S.Member EMember.SimulateSceneFramerate))
      ∧ (S.Member EMember.SimulateSceneTime ≤ 0 → Deltas = []) := by
  have hStep : 0 < 1 / S.Member EMember.SimulateSceneFramerate := one_div_pos.mpr hF
  have htick : SimulatedTick S
      = some ((SimulatedTickLoop _ hStep (S.Member EMember.SimulateSceneTime)).map
          FDeltaTime.Value) := by
    unfold SimulatedTick
    rw [if_neg (ne_of_gt hF)]
    simp only [hStep, dite_true]
  refine ⟨_, htick, ?_, ?_⟩
  · intro _
    rw [SimulatedTickLoop_length _ hStep _ _ le_rfl, div_div_eq_mul_div, div_one]
  · intro hT
    exact SimulatedTickLoop_nonpos _ hStep _ hT

/-- C29, instance: the default settings (`SimulateSceneTime = 0.01`,
`SimulateSceneFramerate = 15`): `ceil(0.15) = 1` tick. -/
theorem C29_simulation_loop_count_witness :
    ∃ Deltas : List ℚ,
      SimulatedTick (FThumbnailSettings.ctor ExamplePostProcessDefault)
        = some (Deltas.map FDeltaTime.Value)
      ∧ Deltas.length = 1 := by
  obtain ⟨Deltas, h1, h2, _⟩ := C29_simulation_loop_count
    (FThumbnailSettings.ctor ExamplePostProcessDefault) (by show (0 : ℚ) < 15; norm_num)
  refine ⟨Deltas, h1, ?_⟩
  rw [h2 (by show (0 : ℚ) < 1 / 100; norm_num)]
  show Nat.ceil ((1 / 100 : ℚ) * 15) = 1
  rw [Nat.ceil_eq_iff (by norm_num)]
  norm_num

/-! ## Theorems: re-merging -/

theorem DisableAutoExposure_idem (P : FPostProcessSettings) :
    DisableAutoExposure (DisableAutoExposure P) = DisableAutoExposure P := rfl

/-- Merging the result of a merge with the same defaults again changes nothing. -/
theorem MergeThumbnailSettings_idem (PP : FPostProcessSettings) (D X : FThumbnailSettings) :
    FThumbnailSettings.MergeThumbnailSettings PP D
        (FThumbnailSettings.MergeThumbnailSettings PP D X)
      = FThumbnailSettings.MergeThumbnailSettings PP D X := by
  rw [FThumbnailSettings.eq_iff]
  constructor
  · intro b
    rw [MergeThumbnailSettings_Override, MergeThumbnailSettings_Override]
    cases X.Override b <;> cases D.Override b <;> rfl
  · intro m
    obtain ⟨It, hIt, rfl⟩ := List.mem_map.mp (OverrideAndPropertyMemberValueAddr_all_Property m)
    by_cases hPP : It.Property = EMember.PostProcessingSettings
    · rw [hPP, MergeThumbnailSettings_PostProcessingSettings,
        MergeThumbnailSettings_PostProcessingSettings, MergeThumbnailSettings_Override]
      cases X.Override EOverride.bOverride_PostProcessingSettings <;>
        cases D.Override EOverride.bOverride_PostProcessingSettings <;>
        simp [DisableAutoExposure_idem]
    · rw [MergeThumbnailSettings_Member PP D _ It hIt hPP,
        MergeThumbnailSettings_Member PP D X It hIt hPP, MergeThumbnailSettings_Override]
      cases X.Override It.OverrideBoolProperty <;>
        cases D.Override It.OverrideBoolProperty <;> simp

/-- C30: for all settings `D` and `X`, `MergeThumbnailSettings(D, MergeThumbnailSettings(D, X))`
equals `MergeThumbnailSettings(D, X)` in every override flag and every field; hence
`GenerateThumbnail` on settings finalised by `K2_FinalizeThumbnailSettings` (a merge with the
same defaults) behaves exactly as on the original settings. -/
theorem C30_remerge_no_op (PP : FPostProcessSettings) (D X : FThumbnailSettings)
    (H : FHost) (G : FThumbnailGenerator) (E : FEngine) (ActorClass : TSubclassOf)
    (ResourceObject : Option UTexture2D) (Properties : List (String × String)) :
    (∀ b : EOverride,
        (FThumbnailSettings.MergeThumbnailSettings PP D
          (FThumbnailSettings.MergeThumbnailSettings PP D X)).Override b
        = (FThumbnailSettings.MergeThumbnailSettings PP D X).Override b)
    ∧ (∀ m : EMember,
        (FThumbnailSettings.MergeThumbnailSettings PP D
          (FThumbnailSettings.MergeThumbnailSettings PP D X)).Member m
        = (FThumbnailSettings.MergeThumbnailSettings PP D X).Member m)
    ∧ FThumbnailSettings.MergeThumbnailSettings PP D
        (FThumbnailSettings.MergeThumbnailSettings PP D X)
      = FThumbnailSettings.MergeThumbnailSettings PP D X
    ∧ GenerateThumbnail PP H G E ActorClass (K2_FinalizeThumbnailSettings PP E X)
        ResourceObject Properties
      = GenerateThumbnail PP H G E ActorClass X ResourceObject Properties := by
  have h := MergeThumbnailSettings_idem PP D X
  refine ⟨fun b => by rw [h], fun m => by rw [h], h, ?_⟩
  unfold GenerateThumbnail K2_FinalizeThumbnailSettings
  simp only [MergeThumbnailSettings_idem]

end ThumbGen
